import Mathlib

/-!
# F1 2020 telemetry session model

A shallow embedding of `F12020UdpClrMapper.cpp` and `F12020Parser.cpp`.

* `float` values (lap and sector times, deltas) are exact rationals (`Time`).
* Managed arrays (`Drivers`, `Laps`) are lists; an index outside the array raises
  `IndexOutOfRangeException` in the source, which is the result `none` here.
* `SessionEvent` objects are shared by reference between the event list, the lap
  incidents and the pit penalties; they live in the object store `objects` of the mapper
  and the three lists hold indices into it.
* `DateTime::Now` is the argument `now` (seconds).
-/

namespace F12020

/-- Seconds; `float` / `double` in the source. -/
abbrev Time := ℚ

/-- Event kinds of `EventType`. -/
inductive EventType
  | SessionStarted | SessionEnded | FastestLap | Retirement | DRSenabled | DRSdisabled
  | TeamMateInPits | ChequeredFlag | RaceWinner | PenaltyIssued | SpeedTrapTriggered
  deriving DecidableEq, Repr

/-- Values of `DriverStatus`. -/
inductive DriverStatus
  | Garage | OnTrack | Pitlane | Pitting | DSQ | DNF
  deriving DecidableEq, Repr

/-- Modelled from the spec: the enum `SessionType` of the header `F12020DataDefsClr.h`, which is
the session type byte of the wire format (`SessionType(m_parser->session.m_sessionType)`). -/
abbrev SessionType := Nat

namespace SessionType
def P1 : SessionType := 1
def P2 : SessionType := 2
def P3 : SessionType := 3
def ShortPractice : SessionType := 4
def Q1 : SessionType := 5
def Q2 : SessionType := 6
def Q3 : SessionType := 7
def ShortQ : SessionType := 8
def OSQ : SessionType := 9
def Race : SessionType := 10
def Race2 : SessionType := 11
def TimeTrial : SessionType := 12
end SessionType

/-- Modelled from the spec: the enum `PenaltyTypes` of the header `F12020DataDefsClr.h`, the
penalty type byte of the wire format. -/
abbrev PenaltyTypes := Nat

namespace PenaltyTypes
def DriveThrough : PenaltyTypes := 0
def StopGo : PenaltyTypes := 1
def GridPenalty : PenaltyTypes := 2
def Disqualified : PenaltyTypes := 6
def Retired : PenaltyTypes := 16
end PenaltyTypes

/-- Modelled from the spec: the enum `InfringementTypes` of the header `F12020DataDefsClr.h`,
the infringement type byte of the wire format. -/
abbrev InfringementTypes := Nat

namespace InfringementTypes
def PitLaneSpeeding : InfringementTypes := 17
end InfringementTypes

/-- Modelled from the spec: the enum `F1Team` of the header `F12020DataDefsClr.h`: the ten team
ids 0..9 of the wire format followed by `Classic`. -/
abbrev F1Team := Nat

namespace F1Team
def Classic : F1Team := 10
end F1Team

/-- A `SessionEvent` object. -/
structure SessionEvent where
  TimeCode : Time := 0
  Type_ : EventType := EventType.SessionStarted
  CarIndex : Nat := 0
  PenaltyType : PenaltyTypes := 0
  LapNum : Nat := 0
  OtherVehicleIdx : Nat := 0
  InfringementType : InfringementTypes := 0
  TimeGained : Nat := 0
  PlacesGained : Nat := 0
  PenaltyServed : Bool := false
  deriving DecidableEq, Repr

/-- A managed `LapData` object; `Incidents` holds references into the object store. -/
structure LapData where
  Sector1 : Time := 0
  Sector2 : Time := 0
  Lap : Time := 0
  LapsAccumulated : Time := 0
  Incidents : List Nat := []
  deriving DecidableEq, Repr

/-- The `WearDetail` record of a driver. -/
structure CarDetail where
  WearFrontLeft : Nat := 0
  WearFrontRight : Nat := 0
  WearRearLeft : Nat := 0
  WearRearRight : Nat := 0
  DamageFrontLeft : Nat := 0
  DamageFrontRight : Nat := 0
  TempFrontLeftInner : Nat := 0
  TempFrontRightInner : Nat := 0
  TempRearLeftInner : Nat := 0
  TempRearRightInner : Nat := 0
  TempFrontLeftOuter : Nat := 0
  TempFrontRightOuter : Nat := 0
  TempRearLeftOuter : Nat := 0
  TempRearRightOuter : Nat := 0
  TempBrakeFrontLeft : Nat := 0
  TempBrakeFrontRight : Nat := 0
  TempBrakeRearLeft : Nat := 0
  TempBrakeRearRight : Nat := 0
  TempEngine : Nat := 0
  deriving DecidableEq, Repr

/-- A `DriverData` object. `LapNr`, `TyreAge` and `m_lapTiresFitted` are `int`. -/
structure DriverData where
  Present : Bool := false
  IsPlayer : Bool := false
  Name : String := ""
  TelemetryName : String := ""
  MappedName : String := ""
  Team : F1Team := 0
  Pos : Int := 0
  LapNr : Int := 0
  TyreAge : Int := 0
  Tyre : Nat := 0
  VisualTyre : Nat := 0
  VisualTyres : List Nat := []
  Status : DriverStatus := DriverStatus.Garage
  PenaltySeconds : Int := 0
  TyreDamage : Time := 0
  CarDamage : Time := 0
  WearDetail : CarDetail := {}
  Laps : List LapData := []
  PitPenalties : List Nat := []
  FastestLap : LapData := {}
  TimedeltaToPlayer : Time := 0
  LastTimedeltaToPlayer : Time := 0
  TimedeltaToLeader : Time := 0
  m_hasPitted : Bool := false
  m_lapTiresFitted : Int := 0
  deriving DecidableEq, Repr

/-- The `SessionInfo` object. -/
structure SessionInfo where
  EventTrack : Nat := 0
  Session : SessionType := 0
  RemainingTime : Nat := 0
  TotalLaps : Int := 0
  CurrentLap : Int := 0
  SessionFinshed : Bool := false
  deriving DecidableEq, Repr

/-- A native `LapData` record of the lap data packet. -/
structure NativeLapData where
  m_lastLapTime : Time := 0
  m_bestLapTime : Time := 0
  m_sector1TimeInMS : Nat := 0
  m_sector2TimeInMS : Nat := 0
  m_carPosition : Nat := 0
  m_currentLapNum : Nat := 0
  m_pitStatus : Nat := 0
  m_sector : Nat := 0
  m_penalties : Nat := 0
  m_driverStatus : Nat := 0
  m_resultStatus : Nat := 0
  deriving DecidableEq, Repr

/-- A native `ParticipantData` record. -/
structure ParticipantData where
  m_driverId : Nat := 0
  m_teamId : Nat := 0
  m_raceNumber : Nat := 0
  m_name : String := ""
  deriving DecidableEq, Repr

/-- A native `CarStatusData` record; the four-element arrays are functions of the index. -/
structure CarStatusData where
  m_tyresWear : Nat → Nat := fun _ => 0
  m_actualTyreCompound : Nat := 0
  m_visualTyreCompound : Nat := 0
  m_tyresDamage : Nat → Nat := fun _ => 0
  m_frontLeftWingDamage : Nat := 0
  m_frontRightWingDamage : Nat := 0
  m_rearWingDamage : Nat := 0

/-- A native `CarTelemetryData` record. -/
structure CarTelemetryData where
  m_brakesTemperature : Nat → Nat := fun _ => 0
  m_tyresSurfaceTemperature : Nat → Nat := fun _ => 0
  m_tyresInnerTemperature : Nat → Nat := fun _ => 0
  m_engineTemperature : Nat := 0

/-- Event details that carry only a vehicle index. -/
structure VehicleDetails where
  vehicleIdx : Nat := 0
  deriving DecidableEq, Repr

/-- The `Penalty` member of the event details. -/
structure PenaltyDetails where
  penaltyType : Nat := 0
  infringementType : Nat := 0
  vehicleIdx : Nat := 0
  otherVehicleIdx : Nat := 0
  time : Nat := 0
  lapNum : Nat := 0
  placesGained : Nat := 0
  deriving DecidableEq, Repr

/-- The members of `m_eventDetails` that the mapper reads. -/
structure EventDataDetails where
  FastestLap : VehicleDetails := {}
  Retirement : VehicleDetails := {}
  TeamMateInPits : VehicleDetails := {}
  RaceWinner : VehicleDetails := {}
  Penalty : PenaltyDetails := {}
  SpeedTrap : VehicleDetails := {}
  deriving DecidableEq, Repr

/-- The event packet: the four code bytes and the details. -/
structure PacketEventData where
  m_eventStringCode : List Nat := [0, 0, 0, 0]
  m_eventDetails : EventDataDetails := {}
  deriving DecidableEq, Repr

/-- The participants packet. -/
structure PacketParticipantsData where
  m_numActiveCars : Nat := 0
  m_participants : Nat → ParticipantData := fun _ => {}

/-- The session packet. -/
structure PacketSessionData where
  m_trackId : Nat := 0
  m_sessionType : Nat := 0
  m_sessionTimeLeft : Nat := 0
  m_totalLaps : Nat := 0
  deriving DecidableEq, Repr

/-- The packet header field the mapper reads. -/
structure PacketHeader where
  m_playerCarIndex : Nat := 0
  deriving DecidableEq, Repr

/-- The lap data packet. -/
structure PacketLapData where
  m_header : PacketHeader := {}
  m_lapData : Nat → NativeLapData := fun _ => {}

/-- The car status packet. -/
structure PacketCarStatusData where
  m_carStatusData : Nat → CarStatusData := fun _ => {}

/-- The car telemetry packet. -/
structure PacketCarTelemetryData where
  m_carTelemetryData : Nat → CarTelemetryData := fun _ => {}

/-- A native `FinalClassificationData` record. -/
structure FinalClassificationData where
  m_position : Nat := 0
  m_numLaps : Nat := 0
  m_gridPosition : Nat := 0
  m_points : Nat := 0
  m_bestLapTime : Time := 0
  m_totalRaceTime : Time := 0
  m_penaltiesTime : Nat := 0
  m_numPenalties : Nat := 0
  deriving DecidableEq, Repr

/-- The final classification packet. -/
structure PacketFinalClassificationData where
  m_numCars : Nat := 0
  m_classificationData : Nat → FinalClassificationData := fun _ => {}

/-- The packets cached by `F12020ElementaryParser`, as the mapper reads them. -/
structure F12020ElementaryParser where
  event : PacketEventData := {}
  participants : PacketParticipantsData := {}
  session : PacketSessionData := {}
  lap : PacketLapData := {}
  status : PacketCarStatusData := {}
  telemetry : PacketCarTelemetryData := {}
  classification : PacketFinalClassificationData := {}

/-- A managed `ClassificationData` object; `Driver` is the index of the referenced driver. -/
structure ClassificationData where
  Driver : Nat := 0
  BestLapTime : Time := 0
  TotalRaceTime : Time := 0
  GridPosition : Nat := 0
  NumLaps : Nat := 0
  NumPenalties : Nat := 0
  PenaltiesTime : Nat := 0
  Points : Nat := 0
  Position : Nat := 0
  deriving DecidableEq, Repr

/-- One entry of `DriverNameMappings`; `Team` is a `Nullable<F1Team>`. -/
structure DriverNameMapping where
  Team : Option F1Team := none
  DriverNumber : Nat := 0
  Name : String := ""
  deriving DecidableEq, Repr

/-- State of a `F12020UdpClrMapper` object. `parser` is the member `m_parser`; `objects` is the
store of all `SessionEvent` objects created so far; `EventList`, `PitPenalties` and `Incidents`
refer to it by index. -/
structure F12020UdpClrMapper where
  parser : F12020ElementaryParser := {}
  Drivers : List DriverData := []
  SessionInfo : SessionInfo := {}
  EventList : List Nat := []
  CountDrivers : Int := 0
  Classification : Option (List ClassificationData) := none
  m_nameMapings : Option (List DriverNameMapping) := none
  objects : List SessionEvent := []

/-- State of a `F12020Parser` object (the older variant without classification and names). -/
structure F12020Parser where
  parser : F12020ElementaryParser := {}
  Drivers : List DriverData := []
  SessionInfo : SessionInfo := {}
  EventList : List Nat := []
  CountDrivers : Int := 0
  objects : List SessionEvent := []

/-! ## Array access -/

/-- Managed array read `laps[idx]` with an `int` index: `none` is `IndexOutOfRangeException`. -/
def getLap (laps : List LapData) (idx : Int) : Option LapData :=
  if idx < 0 then none else laps[idx.toNat]?

/-- In-place update of the object `laps[idx]`. -/
def modifyLap (laps : List LapData) (idx : Int) (f : LapData → LapData) : Option (List LapData) :=
  match getLap laps idx with
  | none => none
  | some l => some (laps.set idx.toNat (f l))

/-! ## Race delta: the search loop shared by `m_UpdateTimeDeltaRace` and `m_UpdateTimeDelta` -/

/-- The value tested by `switch (lapSector)` in the search loop. -/
def sectorValue (lapSector : Nat) (l : LapData) : Time :=
  match lapSector with
  | 0 => l.Sector1
  | 1 => l.Sector2
  | 2 => l.Lap
  | _ => 0

/-- The `switch (lapSector)` of the search loop: whether `found` becomes true. The `&&` is
short-circuit: the opponent lap is read only when the reference value is non-zero. -/
def bothCrossed (reference opponent : DriverData) (lapIdx : Int) (lapSector : Nat) :
    Option Bool :=
  if 2 < lapSector then some false else
  match getLap reference.Laps lapIdx with
  | none => none
  | some r =>
    if sectorValue lapSector r = 0 then some false else
    match getLap opponent.Laps lapIdx with
    | none => none
    | some o => some (decide (sectorValue lapSector o ≠ 0))

/-- How the search loop ends. -/
inductive SearchOutcome
  | found (lapIdx : Int) (lapSector : Nat)
  | notFound
  | outOfRange
  | outOfFuel
  deriving DecidableEq, Repr

/-- The loop `while (!found)` up to the point where `found` is set, with an iteration budget. -/
def raceSearch (reference opponent : DriverData) : Nat → Int → Nat → SearchOutcome
  | 0, _, _ => SearchOutcome.outOfFuel
  | fuel + 1, lapIdx, lapSector =>
    if opponent.LapNr - 1 < lapIdx then
      raceSearch reference opponent fuel (lapIdx - 1) 2
    else
      match bothCrossed reference opponent lapIdx lapSector with
      | none => SearchOutcome.outOfRange
      | some true => SearchOutcome.found lapIdx lapSector
      | some false =>
        if lapIdx = 0 ∧ lapSector = 0 then SearchOutcome.notFound
        else if lapSector ≠ 0 then raceSearch reference opponent fuel lapIdx (lapSector - 1)
        else raceSearch reference opponent fuel (lapIdx - 1) 2

/-- An iteration budget for the search: three boundaries per lap of the reference, from lap
index `LapNr - 1` down to `-1`, and one more. -/
def searchFuel (reference : DriverData) : Nat :=
  3 * (reference.LapNr.toNat + 1) + 1

/-- The second `switch (lapSector)`: the part of the lap driven up to the boundary. -/
def partialTime (lapSector : Nat) (l : LapData) : Time :=
  match lapSector with
  | 0 => l.Sector1
  | 1 => l.Sector1 + l.Sector2
  | 2 => l.Lap
  | _ => 0

/-- The value of `timePlayer` / `timeOpponent` for one car once the boundary is found. -/
def boundaryTime (d : DriverData) (lapIdx : Int) (lapSector : Nat) : Option Time :=
  match (if lapIdx > 0 then (getLap d.Laps (lapIdx - 1)).map (fun l => l.LapsAccumulated)
         else some 0) with
  | none => none
  | some acc =>
    if 2 < lapSector then some acc else
    match getLap d.Laps lapIdx with
    | none => none
    | some l => some (acc + partialTime lapSector l)

/-- The assignment of a new delta to player: the previous value is kept when it changes. -/
def storeDeltaToPlayer (opponent : DriverData) (newDelta : Time) : DriverData :=
  if newDelta ≠ opponent.TimedeltaToPlayer then
    { opponent with LastTimedeltaToPlayer := opponent.TimedeltaToPlayer,
                    TimedeltaToPlayer := newDelta }
  else opponent

/-- The assignment of a new delta to leader. -/
def storeDeltaToLeader (opponent : DriverData) (newDelta : Time) : DriverData :=
  if newDelta ≠ opponent.TimedeltaToLeader then
    { opponent with TimedeltaToLeader := newDelta }
  else opponent

namespace F12020UdpClrMapper

/-- The body of `m_UpdateTimeDeltaRace` after the presence check, on the two driver objects;
`penalties` is `m_parser->lap.m_lapData[i].m_penalties`. -/
def raceDelta (reference opponent : DriverData) (penalties : Nat) (toPlayer : Bool) :
    Option DriverData :=
  match raceSearch reference opponent (searchFuel reference) (reference.LapNr - 1) 2 with
  | SearchOutcome.found lapIdx lapSector =>
    match boundaryTime reference lapIdx lapSector, boundaryTime opponent lapIdx lapSector with
    | some timePlayer, some timeOpponent =>
      let newDelta := timePlayer - timeOpponent
      if toPlayer then
        -- take penalties into consideration
        let _timePlayer := timePlayer + reference.PenaltySeconds
        let newDelta := newDelta - penalties
        some (storeDeltaToPlayer opponent newDelta)
      else
        let newDelta := newDelta * (-1)
        some (storeDeltaToLeader opponent newDelta)
    | _, _ => none
  | SearchOutcome.notFound => some opponent
  | SearchOutcome.outOfRange => none
  | SearchOutcome.outOfFuel => none

/-- `F12020UdpClrMapper::m_UpdateTimeDeltaRace(reference, i, toPlayer)`; `reference` is the
index of the driver the handle refers to. -/
def m_UpdateTimeDeltaRace (m : F12020UdpClrMapper) (reference : Nat) (i : Nat)
    (toPlayer : Bool) : Option F12020UdpClrMapper :=
  match m.Drivers[i]?, m.Drivers[reference]? with
  | some opponent, some ref =>
    if !opponent.Present then some m else
    match raceDelta ref opponent (m.parser.lap.m_lapData i).m_penalties toPlayer with
    | none => none
    | some opponent' => some { m with Drivers := m.Drivers.set i opponent' }
  | _, _ => none

/-- The body of `m_UpdateTimeDeltaQualy` after the presence check. -/
def qualyDelta (reference opponent : DriverData) (toPlayer : Bool) : DriverData :=
  let newDelta := opponent.FastestLap.Lap - reference.FastestLap.Lap
  if toPlayer then storeDeltaToPlayer opponent newDelta
  else storeDeltaToLeader opponent newDelta

/-- `F12020UdpClrMapper::m_UpdateTimeDeltaQualy(reference, i, toPlayer)`. -/
def m_UpdateTimeDeltaQualy (m : F12020UdpClrMapper) (reference : Nat) (i : Nat)
    (toPlayer : Bool) : Option F12020UdpClrMapper :=
  match m.Drivers[i]?, m.Drivers[reference]? with
  | some opponent, some ref =>
    if !opponent.Present then some m else
    some { m with Drivers := m.Drivers.set i (qualyDelta ref opponent toPlayer) }
  | _, _ => none

end F12020UdpClrMapper

namespace F12020UdpClrMapper

/-! ## Driver names -/

/-- The `switch (m_teamId)` of `m_UpdateDriverName`. -/
def teamName (teamId : Nat) : String :=
  match teamId with
  | 0 => "Mercedes"
  | 1 => "Ferrari"
  | 2 => "Red Bull"
  | 3 => "Williams"
  | 4 => "Racing Point"
  | 5 => "Renault"
  | 6 => "Alpha Tauri"
  | 7 => "Haas"
  | 8 => "McLaren"
  | 9 => "Alfa Romeo"
  | _ => "Car"

/-- Modelled from the spec: `DriverData::SetNameFromTelemetry` of the header
`F12020DataDefsClr.h`, which stores the name of the participants packet as `TelemetryName`. -/
def SetNameFromTelemetry (d : DriverData) (name : String) : DriverData :=
  { d with TelemetryName := name }

/-- Steps 2 and 3 of `m_UpdateDriverName`: telemetry name, or team and car number. -/
def nameWithoutMapping (part : ParticipantData) (d : DriverData) : DriverData :=
  if part.m_driverId < 100 then { d with Name := d.TelemetryName }
  else { d with Name := teamName part.m_teamId ++ " (" ++ toString part.m_raceNumber ++ ")" }

/-- The effect of `m_UpdateDriverName(i)` on the driver object `Drivers[i]`. -/
def updateDriverName (mappings : Option (List DriverNameMapping)) (part : ParticipantData)
    (d0 : DriverData) : DriverData :=
  if part.m_raceNumber = 0 then d0 else
  let d := SetNameFromTelemetry d0 part.m_name
  match mappings with
  | none => nameWithoutMapping part d
  | some maps =>
    match maps.find? (fun mp => decide (mp.Team = some d.Team) &&
        decide (mp.DriverNumber = part.m_raceNumber)) with
    | some mp => { d with MappedName := mp.Name, Name := mp.Name }
    | none =>
      match maps.find? (fun mp => mp.Team.isNone &&
          decide (mp.DriverNumber = part.m_raceNumber)) with
      | some mp => { d with MappedName := mp.Name, Name := mp.Name }
      | none => nameWithoutMapping part { d with MappedName := "" }

/-- `F12020UdpClrMapper::m_UpdateDriverName(i)`. -/
def m_UpdateDriverName (m : F12020UdpClrMapper) (i : Nat) : Option F12020UdpClrMapper :=
  if (m.parser.participants.m_participants i).m_raceNumber = 0 then some m else
  match m.Drivers[i]? with
  | none => none
  | some d =>
    let d' := updateDriverName m.m_nameMapings (m.parser.participants.m_participants i) d
    some { m with Drivers := m.Drivers.set i d' }

/-! ## Telemetry, tyres, damage -/

/-- The effect of `m_UpdateTelemetry(i)` on a present driver. -/
def updateTelemetry (t : CarTelemetryData) (d : DriverData) : DriverData :=
  if !d.Present then d else
  { d with WearDetail := { d.WearDetail with
      TempFrontLeftInner := t.m_tyresInnerTemperature 2,
      TempFrontRightInner := t.m_tyresInnerTemperature 3,
      TempRearLeftInner := t.m_tyresInnerTemperature 0,
      TempRearRightInner := t.m_tyresInnerTemperature 1,
      TempFrontLeftOuter := t.m_tyresSurfaceTemperature 2,
      TempFrontRightOuter := t.m_tyresSurfaceTemperature 3,
      TempRearLeftOuter := t.m_tyresSurfaceTemperature 0,
      TempRearRightOuter := t.m_tyresSurfaceTemperature 1,
      TempBrakeFrontLeft := t.m_brakesTemperature 2,
      TempBrakeFrontRight := t.m_brakesTemperature 3,
      TempBrakeRearLeft := t.m_brakesTemperature 0,
      TempBrakeRearRight := t.m_brakesTemperature 1,
      TempEngine := t.m_engineTemperature } }

/-- The value `tyreStatus` of `m_UpdateTyre`: 75% maps to 1. -/
def tyreStatus (tyres : Nat → Nat) : Time :=
  let tyreStatus : Time := ((tyres 0 + tyres 1 + tyres 2 + tyres 3 : Nat) : Time) / 400
  if tyreStatus ≥ 3 / 4 then 1 else tyreStatus * (1 / (3 / 4))

/-- The effect of `m_UpdateTyre(i)` on the driver. -/
def updateTyre (c : CarStatusData) (d : DriverData) : DriverData :=
  if !d.Present then d else
  { d with TyreDamage := tyreStatus c.m_tyresDamage,
           WearDetail := { d.WearDetail with
             WearFrontLeft := c.m_tyresWear 2,
             WearFrontRight := c.m_tyresWear 3,
             WearRearLeft := c.m_tyresWear 0,
             WearRearRight := c.m_tyresWear 1 } }

/-- The value `damage` of `m_UpdateDamage`: 50% maps to 1. -/
def wingDamage (c : CarStatusData) : Time :=
  let damage : Time :=
    ((c.m_frontLeftWingDamage : Time) + c.m_frontRightWingDamage + c.m_rearWingDamage) / 300
  if damage ≥ 1 / 2 then 1 else damage * (1 / (1 / 2))

/-- The effect of `m_UpdateDamage(i)` on the driver. -/
def updateDamage (c : CarStatusData) (d : DriverData) : DriverData :=
  if !d.Present then d else
  { d with WearDetail := { d.WearDetail with
             DamageFrontLeft := c.m_frontLeftWingDamage,
             DamageFrontRight := c.m_frontRightWingDamage },
           CarDamage := wingDamage c }

/-! ## Status classification -/

/-- The nested `switch` on result status, pit status and driver status: the new `Status`
and the new `m_hasPitted`. -/
def classifyStatus (l : NativeLapData) (hasPitted : Bool) : DriverStatus × Bool :=
  match l.m_resultStatus with
  | 4 => (DriverStatus.DSQ, hasPitted)
  | 5 => (DriverStatus.DNF, hasPitted)
  | 6 => (DriverStatus.DNF, hasPitted)
  | 7 => (DriverStatus.DNF, hasPitted)
  | _ =>
    match l.m_pitStatus with
    | 1 => (DriverStatus.Pitlane, hasPitted)
    | 2 => (DriverStatus.Pitting, true)
    | _ =>
      match l.m_driverStatus with
      | 0 => (DriverStatus.Garage, hasPitted)
      | 1 => (DriverStatus.OnTrack, hasPitted)
      | 2 => (DriverStatus.OnTrack, hasPitted)
      | 3 => (DriverStatus.OnTrack, hasPitted)
      | 4 => (DriverStatus.OnTrack, hasPitted)
      | _ => (DriverStatus.Garage, hasPitted)

/-! ## Pit stops and served penalties -/

/-- Whether the object behind reference `r` satisfies `p`. -/
def refSatisfies (objects : List SessionEvent) (p : SessionEvent → Bool) (r : Nat) : Bool :=
  match objects[r]? with
  | some e => p e
  | none => false

/-- The statement `penalty->PenaltyServed = true` on the object behind reference `r`. -/
def markServed (objects : List SessionEvent) (r : Nat) : List SessionEvent :=
  match objects[r]? with
  | some e => objects.set r { e with PenaltyServed := true }
  | none => objects

/-- A `for each (penalty in PitPenalties)` loop that marks the first penalty satisfying `p`
as served and then breaks. -/
def serveFirst (objects : List SessionEvent) (p : SessionEvent → Bool) (penalties : List Nat) :
    List SessionEvent :=
  match penalties.find? (refSatisfies objects p) with
  | some r => markServed objects r
  | none => objects

/-- The condition under which the loop of the drive-through branch marks a penalty. -/
def driveThroughPending (e : SessionEvent) : Bool :=
  decide (e.PenaltyType = PenaltyTypes.DriveThrough) && !e.PenaltyServed

/-- The condition under which the loop of the pit stop branch marks a penalty: pit lane
speeding only when the event is older than 60 seconds. -/
def stopPenaltyPending (now : Time) (e : SessionEvent) : Bool :=
  decide (e.PenaltyType ≠ PenaltyTypes.DriveThrough) && !e.PenaltyServed &&
    (if e.InfringementType = InfringementTypes.PitLaneSpeeding
     then decide (now - e.TimeCode > 60) else true)

/-- The block `if (oldDriverStatus == Pitlane && car->Status == OnTrack)`. -/
def pitTransition (now : Time) (objects : List SessionEvent) (oldDriverStatus : DriverStatus)
    (car : DriverData) : DriverData × List SessionEvent :=
  if oldDriverStatus = DriverStatus.Pitlane ∧ car.Status = DriverStatus.OnTrack then
    if !car.m_hasPitted then
      -- in pits without pitstop -> probably served drive through penalty
      ({ car with m_hasPitted := false },
        serveFirst objects driveThroughPending car.PitPenalties)
    else
      -- car has pitted
      ({ car with m_lapTiresFitted := car.LapNr, TyreAge := 0, m_hasPitted := false },
        serveFirst objects (stopPenaltyPending now) car.PitPenalties)
  else (car, objects)

/-- The statement `if (car->FastestLap->Lap != m_bestLapTime) car->FastestLap->Lap = ...`. -/
def updateFastestLap (lapNative : NativeLapData) (car : DriverData) : DriverData :=
  if car.FastestLap.Lap ≠ lapNative.m_bestLapTime
  then { car with FastestLap := { car.FastestLap with Lap := lapNative.m_bestLapTime } }
  else car

/-- The assignments of `PenaltySeconds`, `Tyre` and `VisualTyre`. -/
def copyCarStatus (lapNative : NativeLapData) (status : CarStatusData) (car : DriverData) :
    DriverData :=
  { car with PenaltySeconds := lapNative.m_penalties,
             Tyre := status.m_actualTyreCompound,
             VisualTyre := status.m_visualTyreCompound }

/-- The block "add the first tyre at the start of race". -/
def addFirstTyre (car : DriverData) : DriverData :=
  if car.VisualTyres.length = 0 ∧ car.VisualTyre ≠ 0
  then { car with VisualTyres := car.VisualTyres ++ [car.VisualTyre] }
  else car

/-- The assignment of the new `Status` (and of `m_hasPitted` in the pitting case). -/
def setStatus (lapNative : NativeLapData) (car : DriverData) : DriverData :=
  { car with Status := (classifyStatus lapNative car.m_hasPitted).1,
             m_hasPitted := (classifyStatus lapNative car.m_hasPitted).2 }

/-- The block `if (oldDriverStatus == Pitting && car->Status != oldDriverStatus)`: the tyres
were probably changed. -/
def addChangedTyre (oldDriverStatus : DriverStatus) (car : DriverData) : DriverData :=
  if oldDriverStatus = DriverStatus.Pitting ∧ car.Status ≠ oldDriverStatus
  then { car with VisualTyres := car.VisualTyres ++ [car.VisualTyre] }
  else car

/-- The assignment of `Team`. -/
def setTeam (part : ParticipantData) (car : DriverData) : DriverData :=
  { car with Team := if part.m_teamId < 10 then part.m_teamId else F1Team.Classic }

/-- The per-car part of the driver loop after the two delta updates: telemetry, tyres,
damage, fastest lap, penalties, compounds, status, pit transition and team. -/
def carUpdate (p : F12020ElementaryParser) (i : Nat) (now : Time)
    (objects : List SessionEvent) (car : DriverData) : DriverData × List SessionEvent :=
  let lapNative := p.lap.m_lapData i
  let status := p.status.m_carStatusData i
  let car := updateTelemetry (p.telemetry.m_carTelemetryData i) car
  let car := updateTyre status car
  let car := updateDamage status car
  let car := updateFastestLap lapNative car
  let car := copyCarStatus lapNative status car
  let car := addFirstTyre car
  let oldDriverStatus := car.Status
  let car := setStatus lapNative car
  let car := addChangedTyre oldDriverStatus car
  let res := pitTransition now objects oldDriverStatus car
  (setTeam (p.participants.m_participants i) res.1, res.2)

/-! ## Lap timing -/

/-- The branch `if (Drivers[i]->LapNr != lapNative.m_currentLapNum)`: a lap rolled over. -/
def lapRollover (lapNative : NativeLapData) (d : DriverData) : Option DriverData :=
  let d : DriverData :=
    { d with LapNr := lapNative.m_currentLapNum,
             TyreAge := (lapNative.m_currentLapNum : Int) - d.m_lapTiresFitted }
  match (if d.LapNr > 0
         then modifyLap d.Laps (d.LapNr - 1)
                (fun l => { l with Sector1 := 0, Sector2 := 0, Lap := 0 })
         else some d.Laps) with
  | none => none
  | some laps =>
    if d.LapNr > 1 then
      match modifyLap laps (d.LapNr - 2) (fun l => { l with Lap := lapNative.m_lastLapTime }) with
      | none => none
      | some laps =>
        if d.LapNr = 2 then
          match modifyLap laps 0 (fun l => { l with LapsAccumulated := l.Lap }) with
          | none => none
          | some laps => some { d with Laps := laps }
        else
          match getLap laps (d.LapNr - 3) with
          | none => none
          | some before =>
            match modifyLap laps (d.LapNr - 2)
                (fun l => { l with LapsAccumulated := l.Lap + before.LapsAccumulated }) with
            | none => none
            | some laps => some { d with Laps := laps }
    else some { d with Laps := laps }

/-- The branch `else if (Drivers[i]->LapNr > 0)`: fill the sector times of the current lap. -/
def sectorUpdate (lapNative : NativeLapData) (d : DriverData) : Option DriverData :=
  match modifyLap d.Laps (d.LapNr - 1) (fun currentLap =>
      let currentLap := if currentLap.Sector1 = 0 ∧ lapNative.m_sector > 0
        then { currentLap with Sector1 := (lapNative.m_sector1TimeInMS : Time) / 1000 }
        else currentLap
      if currentLap.Sector2 = 0 ∧ lapNative.m_sector > 1
        then { currentLap with Sector2 := (lapNative.m_sector2TimeInMS : Time) / 1000 }
        else currentLap) with
  | none => none
  | some laps => some { d with Laps := laps }

/-- The lap data part of one iteration of the loop "Lapdata + Name" on the driver object. -/
def lapUpdate (lapNative : NativeLapData) (d : DriverData) : Option DriverData :=
  let d : DriverData := { d with Pos := lapNative.m_carPosition }
  if d.LapNr ≠ lapNative.m_currentLapNum then lapRollover lapNative d
  else if d.LapNr > 0 then sectorUpdate lapNative d
  else some d

/-- The local `lap_num` of one iteration: the new lap number on a rollover, else 0. -/
def lapNum (lapNative : NativeLapData) (d : DriverData) : Nat :=
  if d.LapNr ≠ lapNative.m_currentLapNum then
    (if lapNative.m_currentLapNum > 0 then lapNative.m_currentLapNum else 0)
  else 0

/-- The statement `if (lap_num > CurrentLap) CurrentLap = std::min<int>(lap_num, TotalLaps)`;
the comparison is made in `unsigned`. -/
def updateCurrentLap (lap_num : Nat) (si : F12020.SessionInfo) : F12020.SessionInfo :=
  if (lap_num : Int) > si.CurrentLap % 2 ^ 32 then
    { si with CurrentLap := min (lap_num : Int) si.TotalLaps }
  else si

/-! ## The update cycle -/

/-- A counting loop `for (i = start; i < start + count; ++i)`, whose body may throw. -/
def forLoopFrom {σ : Type} (body : Nat → σ → Option σ) : Nat → Nat → σ → Option σ
  | 0, _, s => some s
  | count + 1, i, s =>
    match body i s with
    | none => none
    | some s' => forLoopFrom body count (i + 1) s'

/-- The loop `for (int i = 0; i < n; ++i)`. -/
def forLoop {σ : Type} (body : Nat → σ → Option σ) (n : Nat) (s : σ) : Option σ :=
  forLoopFrom body n 0 s

/-- A sequence of field assignments on the object `Drivers[i]`. -/
def modifyDriver (m : F12020UdpClrMapper) (i : Nat) (f : DriverData → DriverData) :
    Option F12020UdpClrMapper :=
  match m.Drivers[i]? with
  | none => none
  | some d => some { m with Drivers := m.Drivers.set i (f d) }

/-- One iteration of the loop "Lapdata + Name" of `m_UpdateDrivers`. -/
def lapStep (i : Nat) (m : F12020UdpClrMapper) : Option F12020UdpClrMapper :=
  match m.Drivers[i]? with
  | none => none
  | some d =>
    let part := m.parser.participants.m_participants i
    let lapNative := m.parser.lap.m_lapData i
    let d := if d.TelemetryName.isEmpty ∧ part.m_raceNumber ≠ 0
      then updateDriverName m.m_nameMapings part d else d
    match lapUpdate lapNative d with
    | none => none
    | some d' =>
      some { m with Drivers := m.Drivers.set i d',
                    SessionInfo := updateCurrentLap (lapNum lapNative d) m.SessionInfo }

/-- One iteration of the presence loop `for (int i = 0; i < CountDrivers; ++i)`. -/
def presenceStep (i : Nat) (m : F12020UdpClrMapper) : Option F12020UdpClrMapper :=
  modifyDriver m i (fun d =>
    match (m.parser.lap.m_lapData i).m_resultStatus with
    | 2 => { d with Present := true }
    | 3 => { d with Present := true }
    | _ => { d with Present := false, TimedeltaToPlayer := 0 })

/-- The `switch (SessionInfo->Session)` that sets `qualyfiyingDelta`. -/
def qualyfiyingDelta (session : SessionType) : Bool :=
  if session = SessionType.P1 then true
  else if session = SessionType.P2 then true
  else if session = SessionType.P3 then true
  else if session = SessionType.ShortPractice then true
  else if session = SessionType.Q1 then true
  else if session = SessionType.Q2 then true
  else if session = SessionType.Q3 then true
  else if session = SessionType.ShortQ then true
  else false

/-- The loop "find leader": the index of the first car with `Pos == 1`, from index `i`. -/
def findLeaderFrom : List DriverData → Nat → Option Nat
  | [], _ => none
  | car :: rest, i => if car.Pos = 1 then some i else findLeaderFrom rest (i + 1)

/-- The expression `qualyfiyingDelta ? m_UpdateTimeDeltaQualy(..) : m_UpdateTimeDeltaRace(..)`. -/
def updateTimeDelta (qualyfiyingDelta : Bool) (m : F12020UdpClrMapper) (reference i : Nat)
    (toPlayer : Bool) : Option F12020UdpClrMapper :=
  if qualyfiyingDelta then m_UpdateTimeDeltaQualy m reference i toPlayer
  else m_UpdateTimeDeltaRace m reference i toPlayer

/-- The "delta to player" part of one iteration of the driver loop. -/
def deltaToPlayer (player : Option Nat) (qualyfiyingDelta : Bool) (i : Nat)
    (m : F12020UdpClrMapper) : Option F12020UdpClrMapper :=
  match player with
  | some pl =>
    match m.Drivers[i]? with
    | none => none
    | some car =>
      if !car.IsPlayer then updateTimeDelta qualyfiyingDelta m pl i true else some m
  | none => modifyDriver m i (fun car =>
      { car with LastTimedeltaToPlayer := 0, TimedeltaToPlayer := 0 })

/-- The "delta to leader" part of one iteration of the driver loop. -/
def deltaToLeader (leader : Option Nat) (qualyfiyingDelta : Bool) (i : Nat)
    (m : F12020UdpClrMapper) : Option F12020UdpClrMapper :=
  match leader with
  | some ld => if i ≠ ld then updateTimeDelta qualyfiyingDelta m ld i false else some m
  | none => some m

/-- One iteration of the loop "update the delta Time, tyre and car damage". -/
def driverStep (player leader : Option Nat) (qualyfiyingDelta : Bool) (now : Time) (i : Nat)
    (m : F12020UdpClrMapper) : Option F12020UdpClrMapper :=
  match m.Drivers[i]? with
  | none => none
  | some car =>
    if !car.Present then some m else
    match deltaToPlayer player qualyfiyingDelta i m with
    | none => none
    | some m =>
      match deltaToLeader leader qualyfiyingDelta i m with
      | none => none
      | some m =>
        match m.Drivers[i]? with
        | none => none
        | some car =>
          let res := carUpdate m.parser i now m.objects car
          some { m with Drivers := m.Drivers.set i res.1, objects := res.2 }

/-- The first statements of `m_UpdateDrivers`: driver count and session fields. -/
def updateSession (m : F12020UdpClrMapper) : F12020UdpClrMapper :=
  let count := if (m.parser.participants.m_numActiveCars : Int) > m.CountDrivers
    then (m.parser.participants.m_numActiveCars : Int) else m.CountDrivers
  { m with CountDrivers := count,
           SessionInfo := { m.SessionInfo with
             EventTrack := m.parser.session.m_trackId,
             Session := m.parser.session.m_sessionType,
             RemainingTime := m.parser.session.m_sessionTimeLeft,
             TotalLaps := m.parser.session.m_totalLaps } }

/-- The statements between the presence loop and the driver loop: leader, revert of car 0,
player. The result also carries the handles `player` and `leader`. -/
def identify (m : F12020UdpClrMapper) :
    Option (F12020UdpClrMapper × Option Nat × Option Nat) :=
  let idx := m.parser.lap.m_header.m_playerCarIndex
  let player := if idx < m.Drivers.length then some idx else none
  let leader := findLeaderFrom m.Drivers 0
  match (match leader with
         | some ld => modifyDriver m ld (fun car => { car with TimedeltaToLeader := 0 })
         | none => some m) with
  | none => none
  | some m =>
    match (if idx ≠ 0 then modifyDriver m 0 (fun car => { car with IsPlayer := false })
           else some m) with
    | none => none
    | some m =>
      match player with
      | some pl =>
        match modifyDriver m pl (fun car => { car with IsPlayer := true, TimedeltaToPlayer := 0 }) with
        | none => none
        | some m => some (m, player, leader)
      | none => some (m, player, leader)

/-- The test `if (player) { ... if (!player->LapNr) return; }`. -/
def playerNotStarted (m : F12020UdpClrMapper) (player : Option Nat) : Bool :=
  match player with
  | some pl =>
    match m.Drivers[pl]? with
    | some d => decide (d.LapNr = 0)
    | none => false
  | none => false

/-- `F12020UdpClrMapper::m_UpdateDrivers()`. -/
def m_UpdateDrivers (m : F12020UdpClrMapper) (now : Time) : Option F12020UdpClrMapper :=
  let m := updateSession m
  match forLoop lapStep m.Drivers.length m with
  | none => none
  | some m =>
    match forLoop presenceStep m.CountDrivers.toNat m with
    | none => none
    | some m =>
      match identify m with
      | none => none
      | some (m, player, leader) =>
        if playerNotStarted m player then some m
        else
          forLoop (driverStep player leader (qualyfiyingDelta m.SessionInfo.Session) now)
            m.Drivers.length m

/-! ## Events, reset and classification -/

/-- Modelled from the spec: `DriverData::Reset` of the header `F12020DataDefsClr.h` ("per-driver
state reset"): every field returns to its initial value and the preallocated lap slots are
zeroed. -/
def Reset (d : DriverData) : DriverData :=
  { Laps := List.replicate d.Laps.length {} }

/-- `F12020UdpClrMapper::m_Clear()`. -/
def m_Clear (m : F12020UdpClrMapper) : F12020UdpClrMapper :=
  { m with SessionInfo := { m.SessionInfo with SessionFinshed := false, CurrentLap := 1 },
           EventList := [],
           CountDrivers := 0,
           Classification := none,
           parser := { m.parser with
             classification := { m.parser.classification with m_numCars := 0 } },
           Drivers := m.Drivers.map Reset }

/-- The bytes of a four character event code. -/
def eventCode (s : String) : List Nat :=
  s.toList.map Char.toNat

/-- The test `!strncmp(m_eventStringCode, code, 4)`. -/
def codeIs (m : F12020UdpClrMapper) (code : String) : Bool :=
  m.parser.event.m_eventStringCode.take 4 == eventCode code

/-- The statements `gcnew SessionEvent()` ... `EventList->Events->Add(e)`: the object is
stored and its reference appended to the event list. -/
def addEvent (m : F12020UdpClrMapper) (e : SessionEvent) : F12020UdpClrMapper :=
  { m with objects := m.objects ++ [e], EventList := m.EventList ++ [m.objects.length] }

/-- The lap slot under which a penalty is filed, if any: `Laps[max(LapNum - 1, 0)]` when
`LapNum < Laps->Length`. -/
def fileIncident (r : Nat) (lapNum : Nat) (d : DriverData) : Option DriverData :=
  if (lapNum : Int) < d.Laps.length then
    let lapIdx : Int := if (lapNum : Int) - 1 < 0 then 0 else (lapNum : Int) - 1
    match modifyLap d.Laps lapIdx (fun l => { l with Incidents := l.Incidents ++ [r] }) with
    | none => none
    | some laps => some { d with Laps := laps }
  else some d

/-- The `switch (e->PenaltyType)` that queues a penalty to be served in the pits. -/
def queuePenalty (r : Nat) (penaltyType : PenaltyTypes) (d : DriverData) : DriverData :=
  if penaltyType = PenaltyTypes.DriveThrough ∨ penaltyType = PenaltyTypes.StopGo ∨
      penaltyType = PenaltyTypes.Disqualified ∨ penaltyType = PenaltyTypes.Retired
  then { d with PitPenalties := d.PitPenalties ++ [r] }
  else d

/-- The branch for the event code `PENA`. -/
def penaltyEvent (m : F12020UdpClrMapper) (now : Time) : Option F12020UdpClrMapper :=
  let pen := m.parser.event.m_eventDetails.Penalty
  let e : SessionEvent :=
    { TimeCode := now, Type_ := EventType.PenaltyIssued, PenaltyType := pen.penaltyType,
      LapNum := pen.lapNum, CarIndex := pen.vehicleIdx, OtherVehicleIdx := pen.otherVehicleIdx,
      InfringementType := pen.infringementType, TimeGained := pen.time,
      PlacesGained := pen.placesGained, PenaltyServed := false }
  let r := m.objects.length
  let m := addEvent m e
  match m.Drivers[e.CarIndex]? with
  | none => none
  | some d =>
    match fileIncident r e.LapNum d with
    | none => none
    | some d => some { m with Drivers := m.Drivers.set e.CarIndex (queuePenalty r e.PenaltyType d) }

/-- The dispatch on the event code inside `if (m_eventStringCode[0] != 0)`. -/
def dispatchEvent (m : F12020UdpClrMapper) (now : Time) : Option F12020UdpClrMapper :=
  let details := m.parser.event.m_eventDetails
  if codeIs m "SSTA" then
    some (addEvent (m_Clear m) { TimeCode := now, Type_ := EventType.SessionStarted, CarIndex := 0 })
  else if codeIs m "SEND" then
    let m := addEvent m { TimeCode := now, Type_ := EventType.SessionEnded, CarIndex := 0 }
    some { m with SessionInfo := { m.SessionInfo with SessionFinshed := true } }
  else if codeIs m "FTLP" then
    some (addEvent m { TimeCode := now, Type_ := EventType.FastestLap,
                       CarIndex := details.FastestLap.vehicleIdx })
  else if codeIs m "RTMT" then
    some (addEvent m { TimeCode := now, Type_ := EventType.Retirement,
                       CarIndex := details.Retirement.vehicleIdx })
  else if codeIs m "DRSE" then
    some (addEvent m { TimeCode := now, Type_ := EventType.DRSenabled, CarIndex := 0 })
  else if codeIs m "DRSD" then
    some (addEvent m { TimeCode := now, Type_ := EventType.DRSdisabled, CarIndex := 0 })
  else if codeIs m "TMPT" then
    some (addEvent m { TimeCode := now, Type_ := EventType.TeamMateInPits,
                       CarIndex := details.TeamMateInPits.vehicleIdx })
  else if codeIs m "CHQF" then
    some (addEvent m { TimeCode := now, Type_ := EventType.ChequeredFlag, CarIndex := 0 })
  else if codeIs m "RCWN" then
    some (addEvent m { TimeCode := now, Type_ := EventType.RaceWinner,
                       CarIndex := details.RaceWinner.vehicleIdx })
  else if codeIs m "PENA" then penaltyEvent m now
  else if codeIs m "SPTP" then
    some (addEvent m { TimeCode := now, Type_ := EventType.SpeedTrapTriggered,
                       CarIndex := details.SpeedTrap.vehicleIdx })
  else some m

/-- The statement `m_parser->event.m_eventStringCode[0] = 0`. -/
def inhibitEvent (m : F12020UdpClrMapper) : F12020UdpClrMapper :=
  { m with parser := { m.parser with
      event := { m.parser.event with
        m_eventStringCode := m.parser.event.m_eventStringCode.set 0 0 } } }

/-- `F12020UdpClrMapper::m_UpdateEvent()`. -/
def m_UpdateEvent (m : F12020UdpClrMapper) (now : Time) : Option F12020UdpClrMapper :=
  match (if m.parser.event.m_eventStringCode.headD 0 ≠ 0 then dispatchEvent m now
         else some m) with
  | none => none
  | some m => some (inhibitEvent m)

/-- The loop of `m_UpdateClassification` that fills the new array: entry `i` refers to
`Drivers[i]`. -/
def classificationEntries (m : F12020UdpClrMapper) : Nat → Option (List ClassificationData)
  | 0 => some []
  | n + 1 =>
    match classificationEntries m n with
    | none => none
    | some entries =>
      match m.Drivers[n]? with
      | none => none
      | some _ =>
        let pNative := m.parser.classification.m_classificationData n
        some (entries ++ [{ Driver := n, BestLapTime := pNative.m_bestLapTime,
                            TotalRaceTime := pNative.m_totalRaceTime,
                            GridPosition := pNative.m_gridPosition,
                            NumLaps := pNative.m_numLaps,
                            NumPenalties := pNative.m_numPenalties,
                            PenaltiesTime := pNative.m_penaltiesTime,
                            Points := pNative.m_points,
                            Position := pNative.m_position }])

/-- `F12020UdpClrMapper::m_UpdateClassification()`. -/
def m_UpdateClassification (m : F12020UdpClrMapper) : Option F12020UdpClrMapper :=
  if m.Classification.isSome then some m
  else if m.parser.classification.m_numCars = 0 then some m
  else
    match classificationEntries m m.parser.classification.m_numCars with
    | none => none
    | some entries =>
      some { m with Classification := some entries,
                    parser := { m.parser with
                      classification := { m.parser.classification with m_numCars := 0 } } }

/-- `F12020UdpClrMapper::m_Update()`. -/
def m_Update (m : F12020UdpClrMapper) (now : Time) : Option F12020UdpClrMapper :=
  match m_UpdateEvent m now with
  | none => none
  | some m =>
    match m_UpdateDrivers m now with
    | none => none
    | some m => m_UpdateClassification m

end F12020UdpClrMapper

namespace F12020Parser

/-- The body of `F12020Parser::m_UpdateTimeDelta` after the player / presence check. -/
def raceDelta (player opponent : DriverData) (penalties : Nat) : Option DriverData :=
  match raceSearch player opponent (searchFuel player) (player.LapNr - 1) 2 with
  | SearchOutcome.found lapIdx lapSector =>
    match boundaryTime player lapIdx lapSector, boundaryTime opponent lapIdx lapSector with
    | some timePlayer, some timeOpponent =>
      let timePlayer := timePlayer + player.PenaltySeconds
      let newDelta := timePlayer - timeOpponent
      let newDelta := newDelta - penalties
      some (storeDeltaToPlayer opponent newDelta)
    | _, _ => none
  | SearchOutcome.notFound => some opponent
  | SearchOutcome.outOfRange => none
  | SearchOutcome.outOfFuel => none

/-- `F12020Parser::m_UpdateTimeDelta(player, i)`. -/
def m_UpdateTimeDelta (m : F12020Parser) (player : Nat) (i : Nat) : Option F12020Parser :=
  match m.Drivers[i]?, m.Drivers[player]? with
  | some opponent, some ref =>
    if opponent.IsPlayer || !opponent.Present then some m else
    match raceDelta ref opponent (m.parser.lap.m_lapData i).m_penalties with
    | none => none
    | some opponent' => some { m with Drivers := m.Drivers.set i opponent' }
  | _, _ => none

end F12020Parser

/-! ## Specification vocabulary and scenario data -/

/-- The lap slot `x.Laps[k]` read as a total function (a slot that does not exist reads as a
zeroed lap); used to state properties only. -/
def lapAt (x : DriverData) (k : Int) : LapData :=
  (getLap x.Laps k).getD {}

/-- The formula `time(x)` of the race delta claims:
`(lapIdx > 0 ? x.Laps[lapIdx-1].LapsAccumulated : 0) + partial(lapSector, x)` with
`partial(0,x) = Sector1`, `partial(1,x) = Sector1 + Sector2`, `partial(2,x) = Lap`. -/
def timeAt (x : DriverData) (lapIdx : Int) (lapSector : Nat) : Time :=
  (if lapIdx > 0 then (lapAt x (lapIdx - 1)).LapsAccumulated else 0) +
  (if lapSector = 0 then (lapAt x lapIdx).Sector1
   else if lapSector = 1 then (lapAt x lapIdx).Sector1 + (lapAt x lapIdx).Sector2
   else (lapAt x lapIdx).Lap)

/-- Both cars have a non-zero value at the boundary `(lapIdx, lapSector)`: `Sector1` for
sector 0, `Sector2` for sector 1, `Lap` for sector 2. -/
def Crossed (reference opponent : DriverData) (lapIdx : Int) (lapSector : Nat) : Prop :=
  (if lapSector = 0 then (lapAt reference lapIdx).Sector1 ≠ 0 ∧ (lapAt opponent lapIdx).Sector1 ≠ 0
   else if lapSector = 1
     then (lapAt reference lapIdx).Sector2 ≠ 0 ∧ (lapAt opponent lapIdx).Sector2 ≠ 0
   else (lapAt reference lapIdx).Lap ≠ 0 ∧ (lapAt opponent lapIdx).Lap ≠ 0)

/-- A common boundary in the range of the race delta search. -/
def IsBoundary (reference opponent : DriverData) (lapIdx : Int) (lapSector : Nat) : Prop :=
  0 ≤ lapIdx ∧ lapIdx ≤ min reference.LapNr opponent.LapNr - 1 ∧ lapSector ≤ 2 ∧
    Crossed reference opponent lapIdx lapSector

/-- Lexicographic order on boundaries `(lapIdx, lapSector)`. -/
def LexLe (a : Int) (s : Nat) (b : Int) (t : Nat) : Prop :=
  a < b ∨ (a = b ∧ s ≤ t)

/-- Scenario S4, the reference car: three laps finished, 300.0 s accumulated, 5 s penalty. -/
def s4Reference : DriverData :=
  { Present := true, IsPlayer := true, LapNr := 4, PenaltySeconds := 5,
    Laps := [{ Lap := 100, LapsAccumulated := 100 }, { Lap := 100, LapsAccumulated := 200 },
             { Lap := 100, LapsAccumulated := 300 }, {}, {}] }

/-- Scenario S4, the opponent: three laps finished, 302.5 s accumulated, no penalty. -/
def s4Opponent : DriverData :=
  { Present := true, LapNr := 4, PenaltySeconds := 0,
    Laps := [{ Lap := 100, LapsAccumulated := 100 }, { Lap := 101, LapsAccumulated := 201 },
             { Lap := 203 / 2, LapsAccumulated := 605 / 2 }, {}, {}] }

/-- Scenario S4 as a mapper state: car 0 is the reference, car 1 the opponent, the other
twenty slots are empty. -/
def s4Mapper : F12020UdpClrMapper :=
  { Drivers := s4Reference :: s4Opponent :: List.replicate 20 { Laps := List.replicate 5 {} } }

/-- Scenario S4 as a state of the older parser variant. -/
def s4Parser : F12020Parser :=
  { Drivers := s4Reference :: s4Opponent :: List.replicate 20 { Laps := List.replicate 5 {} } }

/-- The delta to player of car `i`, if the call returned. -/
def deltaToPlayerOf (drivers : Option (List DriverData)) (i : Nat) : Option Time :=
  match drivers with
  | none => none
  | some ds => ds[i]?.map (fun d => d.TimedeltaToPlayer)

/-- Scenario S3 (a Q1 session): car 0 is the player with fastest lap 85.100, car 1 is present
with fastest lap 85.950, the other twenty slots are empty. -/
def s3Mapper : F12020UdpClrMapper :=
  { SessionInfo := { Session := SessionType.Q1 },
    Drivers :=
      { Present := true, IsPlayer := true, FastestLap := { Lap := 851 / 10 } } ::
      { Present := true, FastestLap := { Lap := 1719 / 20 } } ::
      List.replicate 20 { Laps := List.replicate 5 {} } }

/-- The session types for which the claims select the qualifying delta. -/
def qualifyingSessions : List SessionType :=
  [SessionType.P1, SessionType.P2, SessionType.P3, SessionType.ShortPractice,
   SessionType.Q1, SessionType.Q2, SessionType.Q3, SessionType.ShortQ]

/-- The driver arrays `l` and `l'` have the same length and corresponding drivers are related
by `R`. -/
def Pointwise (R : DriverData → DriverData → Prop) (l l' : List DriverData) : Prop :=
  l'.length = l.length ∧
    ∀ (j : Nat) (d d' : DriverData), l[j]? = some d → l'[j]? = some d' → R d d'

/-- A relation between the old and the new value of a driver object that every statement of
`m_UpdateDrivers` after the lap loop respects. -/
structure DriverFrame (R : DriverData → DriverData → Prop) : Prop where
  refl : ∀ d, R d d
  trans : ∀ a b c, R a b → R b c → R a c
  present : ∀ d b t, R d { d with Present := b, TimedeltaToPlayer := t }
  delta : ∀ d a b c,
    R d { d with TimedeltaToPlayer := a, LastTimedeltaToPlayer := b, TimedeltaToLeader := c }
  player : ∀ d b, R d { d with IsPlayer := b }
  car : ∀ p i now objects d, R d (F12020UdpClrMapper.carUpdate p i now objects d).1

/-- The driver `d'` is `d` with other delta fields. -/
def DeltaOnly (d d' : DriverData) : Prop :=
  ∃ a b c, d' = { d with TimedeltaToPlayer := a, LastTimedeltaToPlayer := b,
                         TimedeltaToLeader := c }

/-- The driver `d'` is `d` with other name fields. -/
def NameOnly (d d' : DriverData) : Prop :=
  ∃ a b c, d' = { d with Name := a, TelemetryName := b, MappedName := c }

/-- The tyre age invariant of a driver. -/
def TyreAgeInv (d : DriverData) : Prop :=
  d.TyreAge = d.LapNr - d.m_lapTiresFitted

/-- The accumulated time invariant of a driver: the slot of the last finished lap exists and
its accumulated time is its lap time plus the accumulated time of the lap before. -/
def AccumulatedInv (d : DriverData) : Prop :=
  2 ≤ d.LapNr →
    ∃ last, getLap d.Laps (d.LapNr - 2) = some last ∧
      last.LapsAccumulated =
        last.Lap + (if d.LapNr = 2 then 0 else (lapAt d (d.LapNr - 3)).LapsAccumulated)

/-- The relation "same laps, same lap number, tyre age invariant kept". -/
def LapFrame (d d' : DriverData) : Prop :=
  d'.Laps = d.Laps ∧ d'.LapNr = d.LapNr ∧ (TyreAgeInv d → TyreAgeInv d')

/-- The effect of a statement of `m_UpdateDrivers` after the lap loop on the whole state:
drivers change within `R`, the object store may change, everything else is kept. -/
def MapperFrame (R : DriverData → DriverData → Prop) (m m' : F12020UdpClrMapper) : Prop :=
  Pointwise R m.Drivers m'.Drivers ∧ m'.parser = m.parser ∧ m'.SessionInfo = m.SessionInfo ∧
    m'.CountDrivers = m.CountDrivers ∧ m'.m_nameMapings = m.m_nameMapings ∧
    m'.Classification = m.Classification ∧ m'.EventList = m.EventList

/-- Scenario S2: car 0 is the present player on lap 1, five lap slots per car; the lap data
packet reports car 0 on lap 2 with a last lap time of 95.432. -/
def s2Mapper : F12020UdpClrMapper :=
  { Drivers :=
      { Present := true, IsPlayer := true, LapNr := 1, TyreAge := 1, Laps := List.replicate 5 {} } ::
      List.replicate 21 { Laps := List.replicate 5 {} },
    parser :=
      { lap := { m_lapData := fun i =>
                   if i = 0 then { m_currentLapNum := 2, m_lastLapTime := 11929 / 125,
                                   m_resultStatus := 2, m_carPosition := 1 }
                   else {} },
        participants := { m_numActiveCars := 1 } } }

/-- A run of the mapper: before each update cycle `m_Update` the packet decoder leaves some
parser state `p` (arbitrary here), and the cycle reads the clock value `now`. -/
def runCycles (m : F12020UdpClrMapper) :
    List (F12020ElementaryParser × Time) → Option F12020UdpClrMapper
  | [] => some m
  | (p, now) :: rest =>
    match F12020UdpClrMapper.m_Update { m with parser := p } now with
    | none => none
    | some m' => runCycles m' rest

/-- A reset model: 22 drivers with five zeroed lap slots each, nothing else set. -/
def resetMapper : F12020UdpClrMapper :=
  { Drivers := List.replicate 22 { Laps := List.replicate 5 {} } }

/-- A parser state in which car 0 is the player, active, in position 1, on lap `lap` with the
last lap time `last`. -/
def lapPacket (lap : Nat) (last : Time) : F12020ElementaryParser :=
  { lap := { m_lapData := fun i =>
               if i = 0 then { m_currentLapNum := lap, m_lastLapTime := last,
                               m_resultStatus := 2, m_carPosition := 1, m_driverStatus := 1 }
               else {} },
    participants := { m_numActiveCars := 1 } }

/-- The driver `d'` has the lap number of `d` and the same lap and accumulated times in every
lap slot: at most one slot was replaced by one with the same `Lap` and `LapsAccumulated`. -/
def SameTimes (d d' : DriverData) : Prop :=
  d'.LapNr = d.LapNr ∧
    (d'.Laps = d.Laps ∨
      ∃ k l x, getLap d.Laps k = some l ∧ d'.Laps = d.Laps.set k.toNat x ∧
        x.Lap = l.Lap ∧ x.LapsAccumulated = l.LapsAccumulated)

/-- The mapper after a packet with player car index `idx` in its header was decoded. -/
def withPlayerCarIndex (m : F12020UdpClrMapper) (idx : Nat) : F12020UdpClrMapper :=
  { m with parser := { m.parser with
      lap := { m.parser.lap with m_header := { m_playerCarIndex := idx } } } }

/-- The slots whose driver has `IsPlayer = true`, if the calls returned. -/
def playerSlots (m : Option F12020UdpClrMapper) : Option (List Nat) :=
  m.map (fun m => (List.range m.Drivers.length).filter
    (fun i => (m.Drivers[i]?.map (fun d => d.IsPlayer)).getD false))

/-- A parser state in which car 0 is the player, active, in position 1, on lap `lap`, on
track as far as the driver status goes, with pit status `pit` and visual tyre compound
`compound`. -/
def pitPacket (lap pit compound : Nat) : F12020ElementaryParser :=
  { lap := { m_lapData := fun i =>
               if i = 0 then { m_currentLapNum := lap, m_resultStatus := 2, m_carPosition := 1,
                               m_driverStatus := 1, m_pitStatus := pit }
               else {} },
    status := { m_carStatusData := fun i =>
                  if i = 0 then { m_visualTyreCompound := compound } else {} },
    participants := { m_numActiveCars := 1 } }

/-- A parser state with two cars on lap 1: car 0 is the active player in position 1, car 1 is
on track in position 2 and has result status `resultStatus`. -/
def resultPacket (resultStatus : Nat) : F12020ElementaryParser :=
  { lap := { m_lapData := fun i =>
               if i = 0 then { m_currentLapNum := 1, m_resultStatus := 2, m_carPosition := 1,
                               m_driverStatus := 1 }
               else if i = 1 then { m_currentLapNum := 1, m_resultStatus := resultStatus,
                                    m_carPosition := 2, m_driverStatus := 1 }
               else {} },
    participants := { m_numActiveCars := 2 } }

/-- The fields of driver `i` that a pit stop touches, if the run returned. -/
def pitStateOf (m : Option F12020UdpClrMapper) (i : Nat) :
    Option (DriverStatus × List Nat × Int × Int × Int × Bool) :=
  (m.bind (fun m => m.Drivers[i]?)).map
    (fun d => (d.Status, d.VisualTyres, d.LapNr, d.m_lapTiresFitted, d.TyreAge, d.m_hasPitted))

/-- The current lap and the total laps of the session info, if the run returned. -/
def currentLapOf (m : Option F12020UdpClrMapper) : Option (Int × Int) :=
  m.map (fun m => (m.SessionInfo.CurrentLap, m.SessionInfo.TotalLaps))

/-- Two unserved stop-go penalties: the first one is for pit lane speeding and was given at
time 0, the second one is for another infringement. -/
def s7Objects : List SessionEvent :=
  [{ Type_ := EventType.PenaltyIssued, PenaltyType := PenaltyTypes.StopGo,
     InfringementType := InfringementTypes.PitLaneSpeeding, TimeCode := 0 },
   { Type_ := EventType.PenaltyIssued, PenaltyType := PenaltyTypes.StopGo,
     InfringementType := 0, TimeCode := 0 }]

/-- A present player in the pit lane on lap 1 after a stop on soft tyres, with the two
penalties of `s7Objects` queued. -/
def s7Car : DriverData :=
  { Present := true, IsPlayer := true, LapNr := 1, TyreAge := 1, VisualTyres := [16],
    Status := DriverStatus.Pitlane, m_hasPitted := true, PitPenalties := [0, 1],
    Laps := List.replicate 5 {} }

/-- A model with car 0 as `s7Car`; the packets report it back on track. -/
def s7Mapper : F12020UdpClrMapper :=
  { Drivers := s7Car :: List.replicate 21 { Laps := List.replicate 5 {} },
    objects := s7Objects,
    parser := pitPacket 1 0 16 }

/-- Scenario S6: an unserved drive-through penalty. -/
def s6Objects : List SessionEvent :=
  [{ Type_ := EventType.PenaltyIssued, PenaltyType := PenaltyTypes.DriveThrough }]

/-- Scenario S6: a present car in the pit lane on lap 1 on soft tyres that has not stopped,
with the penalty of `s6Objects` queued. -/
def s6Car : DriverData :=
  { Present := true, LapNr := 1, TyreAge := 1, VisualTyres := [16],
    Status := DriverStatus.Pitlane, PitPenalties := [0], Laps := List.replicate 5 {} }

/-- The `switch` of the presence loop on one driver object. -/
def presenceOf (lapNative : NativeLapData) (d : DriverData) : DriverData :=
  match lapNative.m_resultStatus with
  | 2 => { d with Present := true }
  | 3 => { d with Present := true }
  | _ => { d with Present := false, TimedeltaToPlayer := 0 }

/-- A relation between the old and the new value of a driver object that the statements
between the presence loop and the driver loop respect: leader, revert of car 0, player. -/
structure FlagFrame (R : DriverData → DriverData → Prop) : Prop where
  refl : ∀ d, R d d
  trans : ∀ a b c, R a b → R b c → R a c
  leader : ∀ d, R d { d with TimedeltaToLeader := 0 }
  unflag : ∀ d, R d { d with IsPlayer := false }
  flag : ∀ d, R d { d with IsPlayer := true, TimedeltaToPlayer := 0 }

/-- The driver `c` has the pit stop state of `d`: stint list, status, pit flag, lap of the
last tyre change and penalty list. -/
def SamePit (d c : DriverData) : Prop :=
  c.VisualTyres = d.VisualTyres ∧ c.Status = d.Status ∧ c.m_hasPitted = d.m_hasPitted ∧
    c.m_lapTiresFitted = d.m_lapTiresFitted ∧ c.PitPenalties = d.PitPenalties

/-- The driver `d'` has the presence flag of `d`, and its delta to the player is the one of
`d` or was set to 0. -/
def SamePresence (d d' : DriverData) : Prop :=
  d'.Present = d.Present ∧
    (d'.TimedeltaToPlayer = d.TimedeltaToPlayer ∨ d'.TimedeltaToPlayer = 0)

/-- The driver `c` has the pit stop state of `d` and also its presence flag, lap number, tyre
age and delta to the player. -/
def SameCar (d c : DriverData) : Prop :=
  SamePit d c ∧ c.Present = d.Present ∧ c.LapNr = d.LapNr ∧ c.TyreAge = d.TyreAge ∧
    c.TimedeltaToPlayer = d.TimedeltaToPlayer

/-- The driver `e` has the given presence flag, lap number, delta to the player, penalty list,
status, stint list, pit flag, lap of the last tyre change, tyre age and visual compound. -/
def HasFields (e : DriverData) (present : Bool) (lapNr : Int) (delta : Time)
    (penalties : List Nat) (status : DriverStatus) (tyres : List Nat) (hasPitted : Bool)
    (fitted age : Int) (compound : Nat) : Prop :=
  e.Present = present ∧ e.LapNr = lapNr ∧ e.TimedeltaToPlayer = delta ∧
    e.PitPenalties = penalties ∧ e.Status = status ∧ e.VisualTyres = tyres ∧
    e.m_hasPitted = hasPitted ∧ e.m_lapTiresFitted = fitted ∧ e.TyreAge = age ∧
    e.VisualTyre = compound

/-- A model in which car 0 is the present player on lap 1 with `Sector1 = 31` already set;
the lap data packet reports it on lap 1 in sector 2 with sector times 30500 ms and 28250 ms. -/
def s8Mapper : F12020UdpClrMapper :=
  { Drivers :=
      { Present := true, IsPlayer := true, LapNr := 1, TyreAge := 1,
        Laps := { Sector1 := 31 } :: List.replicate 4 {} } ::
      List.replicate 21 { Laps := List.replicate 5 {} },
    parser :=
      { lap := { m_lapData := fun i =>
                   if i = 0 then { m_currentLapNum := 1, m_sector := 2,
                                   m_sector1TimeInMS := 30500, m_sector2TimeInMS := 28250,
                                   m_resultStatus := 2, m_carPosition := 1 }
                   else {} },
        participants := { m_numActiveCars := 1 } } }

/-- Scenario S2 in a session of 50 laps whose current lap is 1. -/
def s9Mapper : F12020UdpClrMapper :=
  { s2Mapper with
    SessionInfo := { CurrentLap := 1 },
    parser := { s2Mapper.parser with session := { m_totalLaps := 50 } } }

/-- The driver `c` has the pit stop state, the lap number and the tyre age of `d`. -/
def SameTyres (d c : DriverData) : Prop :=
  SamePit d c ∧ c.LapNr = d.LapNr ∧ c.TyreAge = d.TyreAge

/-- A model in which car 0 is the present player in the pit lane on lap 2, on its first set
of tyres (soft, compound 16, fitted before lap 1); the packets report it in its pit box
(pit status 2) with the visual compound 17 (medium). -/
def s10Mapper : F12020UdpClrMapper :=
  { Drivers :=
      { Present := true, IsPlayer := true, LapNr := 2, TyreAge := 2, VisualTyres := [16],
        Status := DriverStatus.Pitlane, Laps := List.replicate 5 {} } ::
      List.replicate 21 { Laps := List.replicate 5 {} },
    parser := pitPacket 2 2 17 }

/-- The event codes of the specification with the event type each one stands for. -/
def eventTable : List (String × EventType) :=
  [("SSTA", EventType.SessionStarted), ("SEND", EventType.SessionEnded),
   ("FTLP", EventType.FastestLap), ("RTMT", EventType.Retirement),
   ("DRSE", EventType.DRSenabled), ("DRSD", EventType.DRSdisabled),
   ("TMPT", EventType.TeamMateInPits), ("CHQF", EventType.ChequeredFlag),
   ("RCWN", EventType.RaceWinner), ("PENA", EventType.PenaltyIssued),
   ("SPTP", EventType.SpeedTrapTriggered)]

/-- A parser state whose event packet carries the code `code` and the penalty details `pen`. -/
def eventPacket (code : String) (pen : PenaltyDetails) : F12020ElementaryParser :=
  { event := { m_eventStringCode := F12020UdpClrMapper.eventCode code,
               m_eventDetails := { Penalty := pen } } }

/-- The managed copy that `m_UpdateClassification` makes of the raw classification entry `i`;
its `Driver` refers to `Drivers[i]`. -/
def classificationOf (p : F12020ElementaryParser) (i : Nat) : ClassificationData :=
  { Driver := i,
    BestLapTime := (p.classification.m_classificationData i).m_bestLapTime,
    TotalRaceTime := (p.classification.m_classificationData i).m_totalRaceTime,
    GridPosition := (p.classification.m_classificationData i).m_gridPosition,
    NumLaps := (p.classification.m_classificationData i).m_numLaps,
    NumPenalties := (p.classification.m_classificationData i).m_numPenalties,
    PenaltiesTime := (p.classification.m_classificationData i).m_penaltiesTime,
    Points := (p.classification.m_classificationData i).m_points,
    Position := (p.classification.m_classificationData i).m_position }

/-- A parser state whose final classification packet has `n` cars, car `i` in position
`i + 1` with `25 - i` points. -/
def classificationPacket (n : Nat) : F12020ElementaryParser :=
  { classification :=
      { m_numCars := n,
        m_classificationData := fun i => { m_position := i + 1, m_points := 25 - i } } }

/-- The event store `o'` is `o` up to the `PenaltyServed` flags. -/
def SameEvents (o o' : List SessionEvent) : Prop :=
  o'.length = o.length ∧
    ∀ (r : Nat) (e : SessionEvent), o[r]? = some e →
      ∃ b, o'[r]? = some { e with PenaltyServed := b }

/-- The types of the events of the event list, in list order, if the run returned. -/
def eventTypesOf (m : Option F12020UdpClrMapper) : Option (List EventType) :=
  m.map (fun m => m.EventList.filterMap (fun r => m.objects[r]?.map (fun e => e.Type_)))

/-- The session info, the driver count and whether a classification is set, if the run
returned. -/
def sessionOf (m : Option F12020UdpClrMapper) : Option (SessionInfo × Int × Bool) :=
  m.map (fun m => (m.SessionInfo, m.CountDrivers, m.Classification.isSome))

/-- A parser state with a session packet: track, session type and total laps. -/
def sessionPacket (track session laps : Nat) : F12020ElementaryParser :=
  { session := { m_trackId := track, m_sessionType := session, m_totalLaps := laps } }

/-- A parser state with an `SSTA` event while the packets of a session of 10 laps are still
cached: 20 active cars, every car active on lap 3. -/
def restartPacket : F12020ElementaryParser :=
  { eventPacket "SSTA" {} with
    session := { m_trackId := 17, m_sessionType := SessionType.Race, m_totalLaps := 10 },
    participants := { m_numActiveCars := 20 },
    lap := { m_lapData := fun _ => { m_currentLapNum := 3, m_resultStatus := 2 } } }

/-- The test of the first pass of the mapping lookup for a driver of team `team` with race
number `number`: the entry has that team and that number. -/
abbrev TeamMatch (team : F1Team) (number : Nat) (mp : DriverNameMapping) : Prop :=
  mp.Team = some team ∧ mp.DriverNumber = number

/-- The test of the second pass: the entry has no team and has the race number. -/
abbrev NumberOnly (number : Nat) (mp : DriverNameMapping) : Prop :=
  mp.Team = none ∧ mp.DriverNumber = number

/-- A mapping table in which an entry for number 44 without team comes before the entry for
number 44 of team 0 (Mercedes). -/
def s11Mappings : List DriverNameMapping :=
  [{ Team := none, DriverNumber := 44, Name := "Number 44" },
   { Team := some 1, DriverNumber := 5, Name := "Seb" },
   { Team := some 0, DriverNumber := 44, Name := "Lewis" }]

/-- A model with the table `s11Mappings` whose driver objects have the team `team` and whose
participants packet has an online driver (driver id 100) in every car: race number 44, team
`team`, telemetry name "Player". -/
def s11Mapper (team : Nat) : F12020UdpClrMapper :=
  { resetMapper with
    Drivers := resetMapper.Drivers.map (fun d => { d with Team := team }),
    m_nameMapings := some s11Mappings,
    parser := { participants := { m_participants := fun _ =>
      { m_driverId := 100, m_teamId := team, m_raceNumber := 44, m_name := "Player" } } } }

/-- The name of driver `i`, if the call returned. -/
def nameOf (m : Option F12020UdpClrMapper) (i : Nat) : Option String :=
  (m.bind (fun m => m.Drivers[i]?)).map (fun d => d.Name)

/-! ## Datagram input -/

/-- Conversion of a value to `int`, as in `len -= processed` where `len` is an `int` and
`processed` an `unsigned`. -/
def toInt32 (x : Int) : Int :=
  (x + 2 ^ 31) % 2 ^ 32 - 2 ^ 31

/-- The type of `F12020ElementaryParser::ProceedPacket(p, len)`, whose code is not part of the
two source files: from the decoder state, the buffer, the offset of `p` in the buffer and `len`
it gives the new decoder state and the number of bytes processed. -/
abbrev PacketDecoder : Type :=
  F12020ElementaryParser → List Nat → Nat → Int → F12020ElementaryParser × Nat

namespace F12020UdpClrMapper

/-- The loop `while (len) { processed = m_parser->ProceedPacket(p, len); len -= processed;
p += processed; m_Update(); }` of `Proceed`, for at most `fuel` packets. `clock k` is
`DateTime::Now` in the update of packet `k`; `none` is an exception in `m_Update`, or a loop
that has not ended after `fuel` packets. -/
def proceedLoop (decode : PacketDecoder) (clock : Nat → Time) (buf : List Nat) :
    Nat → Nat → Nat → Int → F12020UdpClrMapper → Option F12020UdpClrMapper
  | 0, _, _, len, m => if len = 0 then some m else none
  | fuel + 1, k, off, len, m =>
    if len = 0 then some m else
    let r := decode m.parser buf off len
    let processed := r.2 % 2 ^ 32
    match m_Update { m with parser := r.1 } (clock k) with
    | none => none
    | some m' => proceedLoop decode clock buf fuel (k + 1) (off + processed)
        (toInt32 (len - processed)) m'

/-- `F12020UdpClrMapper::Proceed(input)`: the returned `bool` and the model after the call.
The members `arr`, `len` and the unmanaged buffer are scratch data of the call and not part of
the state. -/
def Proceed (decode : PacketDecoder) (clock : Nat → Time) (fuel : Nat)
    (m : F12020UdpClrMapper) (input : List Nat) : Option (Bool × F12020UdpClrMapper) :=
  let len : Int := input.length
  if len > 512 * 1024 then some (false, m)
  else (proceedLoop decode clock input fuel 0 0 len m).map (fun m' => (true, m'))

end F12020UdpClrMapper

namespace F12020Parser

/-- The loop of `F12020Parser::Work`, for at most `fuel` packets. `update` stands for
`F12020Parser::m_Update` with the time of the call; `none` is an exception in it, or a loop
that has not ended after `fuel` packets. -/
def workLoop (decode : PacketDecoder) (update : F12020Parser → Time → Option F12020Parser)
    (clock : Nat → Time) (buf : List Nat) :
    Nat → Nat → Nat → Int → F12020Parser → Option F12020Parser
  | 0, _, _, len, s => if len = 0 then some s else none
  | fuel + 1, k, off, len, s =>
    if len = 0 then some s else
    let r := decode s.parser buf off len
    let processed := r.2 % 2 ^ 32
    match update { s with parser := r.1 } (clock k) with
    | none => none
    | some s' => workLoop decode update clock buf fuel (k + 1) (off + processed)
        (toInt32 (len - processed)) s'

/-- `F12020Parser::Work()`: the returned `bool` and the state after the call. `received` is
the datagram given by the socket; `none` stands for no data available or an exception in
`Receive`. -/
def Work (decode : PacketDecoder) (update : F12020Parser → Time → Option F12020Parser)
    (clock : Nat → Time) (fuel : Nat) (s : F12020Parser) (received : Option (List Nat)) :
    Option (Bool × F12020Parser) :=
  match received with
  | none => some (false, s)
  | some arr =>
    let len : Int := arr.length
    if len > 64 * 1024 then some (false, s)
    else (workLoop decode update clock arr fuel 0 0 len s).map (fun s' => (true, s'))

end F12020Parser

/-- A decoder that takes the whole rest of the datagram as one packet and leaves the decoder
state as it is. -/
def wholeDatagram : PacketDecoder :=
  fun p _ _ len => (p, len.toNat)

/-- A decoder that takes one byte per packet and stores it as first byte of the event code. -/
def byteDecoder : PacketDecoder :=
  fun p buf off _ =>
    ({ p with event := { p.event with m_eventStringCode := [buf.getD off 0, 0, 0, 0] } }, 1)

/-! ## One iteration of the race delta search -/

/-- How one iteration of the loop `while (!found)` ends. -/
inductive SearchStep
  | next (lapIdx : Int) (lapSector : Nat)
  | found
  | stop
  | outOfRange
  deriving DecidableEq, Repr

/-- One iteration of the search loop of `m_UpdateTimeDeltaRace` from `(lapIdx, lapSector)`:
`next` is a `continue` with the new pair, `stop` the `break` at `(0, 0)`, `outOfRange` an
`IndexOutOfRangeException`. -/
def searchStep (reference opponent : DriverData) (lapIdx : Int) (lapSector : Nat) :
    SearchStep :=
  if opponent.LapNr - 1 < lapIdx then SearchStep.next (lapIdx - 1) 2
  else
    match bothCrossed reference opponent lapIdx lapSector with
    | none => SearchStep.outOfRange
    | some true => SearchStep.found
    | some false =>
      if lapIdx = 0 ∧ lapSector = 0 then SearchStep.stop
      else if lapSector ≠ 0 then SearchStep.next lapIdx (lapSector - 1)
      else SearchStep.next (lapIdx - 1) 2

/-- The lap index used in `reference->Laps[lapIdx]` (and, when that value is non-zero, in
`opponent->Laps[lapIdx]`) by one iteration of the search loop. -/
def stepReads (opponent : DriverData) (lapIdx : Int) (lapSector : Nat) : List Int :=
  if opponent.LapNr - 1 < lapIdx then []
  else if 2 < lapSector then []
  else [lapIdx]

/-- The lap indices used by the search loop, in the order of use. -/
def searchReads (reference opponent : DriverData) : Nat → Int → Nat → List Int
  | 0, _, _ => []
  | fuel + 1, lapIdx, lapSector =>
    stepReads opponent lapIdx lapSector ++
      match searchStep reference opponent lapIdx lapSector with
      | SearchStep.next a s => searchReads reference opponent fuel a s
      | _ => []

/-- The lap indices used after the boundary was found: `lapIdx - 1` for the accumulated
times when `lapIdx > 0`, and `lapIdx` for the part of the lap. -/
def boundaryReads (lapIdx : Int) (lapSector : Nat) : List Int :=
  (if lapIdx > 0 then [lapIdx - 1] else []) ++ (if 2 < lapSector then [] else [lapIdx])

/-- Every lap index used by `m_UpdateTimeDeltaRace(reference, i, toPlayer)` on a present
opponent, in the order of use. -/
def raceReads (reference opponent : DriverData) : List Int :=
  searchReads reference opponent (searchFuel reference) (reference.LapNr - 1) 2 ++
    match raceSearch reference opponent (searchFuel reference) (reference.LapNr - 1) 2 with
    | SearchOutcome.found lapIdx lapSector => boundaryReads lapIdx lapSector
    | _ => []

/-! ## The older variant `F12020Parser` -/

namespace F12020Parser

/-- Modelled from the spec: `DriverData::SetName` of the header `F12020DataDefsClr.h`, which
stores the display name. -/
def SetName (d : DriverData) (name : String) : DriverData :=
  { d with Name := name }

/-- The name block of the loop "Lapdata + Name" of `F12020Parser::m_UpdateDrivers`. The team
names are those of `teamName`; `snprintf` into 48 bytes cuts nothing, the longest result being
"Racing Point (255)". -/
def updateName (part : ParticipantData) (d : DriverData) : DriverData :=
  if d.Name.isEmpty then
    if part.m_raceNumber ≠ 0 then
      -- implies participant data is present
      if part.m_driverId ≥ 100 then
        SetName d (F12020UdpClrMapper.teamName part.m_teamId ++ " (" ++
          toString part.m_raceNumber ++ ")")
      else SetName d part.m_name
    else d
  else d

/-- A sequence of field assignments on the object `Drivers[i]`. -/
def modifyDriver (s : F12020Parser) (i : Nat) (f : DriverData → DriverData) :
    Option F12020Parser :=
  match s.Drivers[i]? with
  | none => none
  | some d => some { s with Drivers := s.Drivers.set i (f d) }

/-- The first statements of `F12020Parser::m_UpdateDrivers`: driver count and session
fields. -/
def updateSession (s : F12020Parser) : F12020Parser :=
  let count := if (s.parser.participants.m_numActiveCars : Int) > s.CountDrivers
    then (s.parser.participants.m_numActiveCars : Int) else s.CountDrivers
  { s with CountDrivers := count,
           SessionInfo := { s.SessionInfo with
             EventTrack := s.parser.session.m_trackId,
             Session := s.parser.session.m_sessionType,
             RemainingTime := s.parser.session.m_sessionTimeLeft,
             TotalLaps := s.parser.session.m_totalLaps } }

/-- One iteration of the loop "Lapdata + Name" of `F12020Parser::m_UpdateDrivers`; the lap
data part has the text of the mapper's. -/
def lapStep (i : Nat) (s : F12020Parser) : Option F12020Parser :=
  match s.Drivers[i]? with
  | none => none
  | some d =>
    let lapNative := s.parser.lap.m_lapData i
    let d := updateName (s.parser.participants.m_participants i) d
    match F12020UdpClrMapper.lapUpdate lapNative d with
    | none => none
    | some d' =>
      some { s with
             Drivers := s.Drivers.set i d',
             SessionInfo :=
               F12020UdpClrMapper.updateCurrentLap (F12020UdpClrMapper.lapNum lapNative d)
                 s.SessionInfo }

/-- One iteration of the presence loop `for (int i = 0; i < CountDrivers; ++i)`. -/
def presenceStep (i : Nat) (s : F12020Parser) : Option F12020Parser :=
  modifyDriver s i (fun d =>
    match (s.parser.lap.m_lapData i).m_resultStatus with
    | 2 => { d with Present := true }
    | 3 => { d with Present := true }
    | _ => { d with Present := false, TimedeltaToPlayer := 0 })

/-- The per-car part of the driver loop of `F12020Parser::m_UpdateDrivers` after the delta
update. `F12020Parser::m_UpdateTelemetry`, `m_UpdateTyre` and `m_UpdateDamage` have the text
of the mapper's functions; this variant does not update `FastestLap`. -/
def carUpdate (p : F12020ElementaryParser) (i : Nat) (now : Time)
    (objects : List SessionEvent) (car : DriverData) : DriverData × List SessionEvent :=
  let lapNative := p.lap.m_lapData i
  let status := p.status.m_carStatusData i
  let car := F12020UdpClrMapper.updateTelemetry (p.telemetry.m_carTelemetryData i) car
  let car := F12020UdpClrMapper.updateTyre status car
  let car := F12020UdpClrMapper.updateDamage status car
  let car := F12020UdpClrMapper.copyCarStatus lapNative status car
  let car := F12020UdpClrMapper.addFirstTyre car
  let oldDriverStatus := car.Status
  let car := F12020UdpClrMapper.setStatus lapNative car
  let car := F12020UdpClrMapper.addChangedTyre oldDriverStatus car
  let res := F12020UdpClrMapper.pitTransition now objects oldDriverStatus car
  (F12020UdpClrMapper.setTeam (p.participants.m_participants i) res.1, res.2)

/-- One iteration of the loop "update the delta Time, tyre and car damage". -/
def driverStep (player : Nat) (now : Time) (i : Nat) (s : F12020Parser) :
    Option F12020Parser :=
  match s.Drivers[i]? with
  | none => none
  | some car =>
    if !car.Present then some s else
    match (if !car.IsPlayer then m_UpdateTimeDelta s player i else some s) with
    | none => none
    | some s =>
      match s.Drivers[i]? with
      | none => none
      | some car =>
        let res := carUpdate s.parser i now s.objects car
        some { s with Drivers := s.Drivers.set i res.1, objects := res.2 }

/-- `F12020Parser::m_UpdateDrivers()`. The test for visitor modes is
`m_playerCarIndex > Drivers->Length`; `Drivers[m_playerCarIndex]` is a managed array access
(`none` is its `IndexOutOfRangeException`). -/
def m_UpdateDrivers (s : F12020Parser) (now : Time) : Option F12020Parser :=
  let s := updateSession s
  match F12020UdpClrMapper.forLoop lapStep s.Drivers.length s with
  | none => none
  | some s =>
    match F12020UdpClrMapper.forLoop presenceStep s.CountDrivers.toNat s with
    | none => none
    | some s =>
      let idx := s.parser.lap.m_header.m_playerCarIndex
      if idx > s.Drivers.length then some s -- comes in visitor modes
      else
        match s.Drivers[idx]? with
        | none => none
        | some _ =>
          match (if idx ≠ 0 then modifyDriver s 0 (fun car => { car with IsPlayer := false })
                 else some s) with
          | none => none
          | some s =>
            match modifyDriver s idx
                (fun car => { car with IsPlayer := true, TimedeltaToPlayer := 0 }) with
            | none => none
            | some s =>
              match s.Drivers[idx]? with
              | none => none
              | some player =>
                if player.LapNr = 0 then some s
                else F12020UdpClrMapper.forLoop (driverStep idx now) s.Drivers.length s

end F12020Parser

/-! ## Scenario data for the older variant, events and datagrams -/

/-- A reset state of the older variant: 22 drivers with five zeroed lap slots each. -/
def resetParser : F12020Parser :=
  { Drivers := List.replicate 22 { Laps := List.replicate 5 {} } }

/-- A parser state whose lap data header names car `idx` as the player; everything else is
zero. -/
def playerIndexPacket (idx : Nat) : F12020ElementaryParser :=
  { lap := { m_header := { m_playerCarIndex := idx } } }

/-- The indices of the drivers flagged as player in a state of the older variant, if the call
returned. -/
def parserPlayerSlots (s : Option F12020Parser) : Option (List Nat) :=
  s.map (fun s => (List.range s.Drivers.length).filter
    (fun i => match s.Drivers[i]? with
              | some d => d.IsPlayer
              | none => false))

/-- A race in which car 0 is the active player on lap 1 and car 1 is active with lap number
`lap` in position `pos`; no car is in position 1 unless `pos` is 1. -/
def lapZeroPacket (lap pos : Nat) : F12020ElementaryParser :=
  { lap := { m_lapData := fun i =>
               if i = 0 then { m_currentLapNum := 1, m_resultStatus := 2, m_carPosition := 2,
                               m_driverStatus := 1 }
               else if i = 1 then { m_currentLapNum := lap, m_resultStatus := 2,
                                    m_carPosition := pos, m_driverStatus := 1 }
               else {} },
    session := { m_sessionType := SessionType.Race, m_totalLaps := 10 },
    participants := { m_numActiveCars := 2 } }

/-- The driver `d'` has the status, pit flag, stint list, compound, penalty seconds, team,
fastest lap, wear details and damage values of `d`. -/
def SameCarState (d d' : DriverData) : Prop :=
  d'.Status = d.Status ∧ d'.m_hasPitted = d.m_hasPitted ∧ d'.VisualTyres = d.VisualTyres ∧
    d'.Tyre = d.Tyre ∧ d'.PenaltySeconds = d.PenaltySeconds ∧ d'.Team = d.Team ∧
    d'.FastestLap = d.FastestLap ∧ d'.WearDetail = d.WearDetail ∧
    d'.TyreDamage = d.TyreDamage ∧ d'.CarDamage = d.CarDamage

/-- Modelled from the spec: `F12020ElementaryParser::ProceedPacket` (the packet decoder) on a
datagram of event packets, a packet reduced to its four code bytes: the bytes at `p` are
parsed into the event struct and four bytes are consumed. -/
def eventDecoder : PacketDecoder :=
  fun p buf off _ =>
    ({ p with event := { p.event with m_eventStringCode := (buf.drop off).take 4 } }, 4)

/-- The effect of a statement of `F12020Parser::m_UpdateDrivers` before the driver loop on
the state: drivers change within `R`; decoder state, object store and driver count are
kept. -/
def ParserFrame (R : DriverData → DriverData → Prop) (s s' : F12020Parser) : Prop :=
  Pointwise R s.Drivers s'.Drivers ∧ s'.parser = s.parser ∧ s'.objects = s.objects ∧
    s'.CountDrivers = s.CountDrivers

namespace F12020UdpClrMapper

/-- `F12020UdpClrMapper::SetDriverNameMappings(newMappings)`: the table is stored and the names
of all drivers are refreshed. -/
def SetDriverNameMappings (m : F12020UdpClrMapper)
    (newMappings : Option (List DriverNameMapping)) : Option F12020UdpClrMapper :=
  forLoop (fun i m => m_UpdateDriverName m i) m.Drivers.length
    { m with m_nameMapings := newMappings }

end F12020UdpClrMapper

/-- A parser state at the start of a session: car 0 is the player, active, in position 1 on
lap 1, and its participant entry has driver id `driverId`, team `team`, race number 5 and the
telemetry name "VETTEL"; the other cars have no data. -/
def namePacket (driverId team : Nat) : F12020ElementaryParser :=
  { lap := { m_lapData := fun i =>
               if i = 0 then { m_currentLapNum := 1, m_resultStatus := 2, m_carPosition := 1,
                               m_driverStatus := 1 }
               else {} },
    participants :=
      { m_numActiveCars := 1,
        m_participants := fun i =>
          if i = 0 then { m_driverId := driverId, m_teamId := team, m_raceNumber := 5,
                          m_name := "VETTEL" }
          else {} } }

/-- The mapping entry of race number 5 of team 1 (Ferrari). -/
def sebMapping : DriverNameMapping :=
  { Team := some 1, DriverNumber := 5, Name := "Seb" }

/-- The mapping entry of race number 5 of any team. -/
def fiveMapping : DriverNameMapping :=
  { Team := none, DriverNumber := 5, Name := "Number 5" }

/-- The first update of the drivers in a session: the table `maps` is set on the reset model
with `SetDriverNameMappings`, the packets of `namePacket driverId team` are decoded and
`m_UpdateDrivers` runs. -/
def firstNameCycle (maps : List DriverNameMapping) (driverId team : Nat) :
    Option F12020UdpClrMapper :=
  (F12020UdpClrMapper.SetDriverNameMappings resetMapper (some maps)).bind (fun m =>
    F12020UdpClrMapper.m_UpdateDrivers { m with parser := namePacket driverId team } 0)

/-- The team of driver `i`, if the calls returned. -/
def teamOf (m : Option F12020UdpClrMapper) (i : Nat) : Option F1Team :=
  (m.bind (fun m => m.Drivers[i]?)).map (fun d => d.Team)

/-- Scenario S4 in the middle of a session, as decoded packets: cars 0 and 1 are active on
lap 4 in positions 1 and 2 with best lap times 100 and 101, car 0 is the player, and the
session packet has the session type `session`. -/
def s5Packet (session : SessionType) : F12020ElementaryParser :=
  { session := { m_sessionType := session },
    lap := { m_lapData := fun i =>
               if i = 0 then { m_currentLapNum := 4, m_resultStatus := 2, m_carPosition := 1,
                               m_driverStatus := 1, m_bestLapTime := 100 }
               else if i = 1 then { m_currentLapNum := 4, m_resultStatus := 2,
                                    m_carPosition := 2, m_driverStatus := 1,
                                    m_bestLapTime := 101 }
               else {} },
    participants := { m_numActiveCars := 2 } }

/-- The model before a cycle in the middle of a session of type `session`: the two cars of
scenario S4 with fastest laps 100 (car 0, the player) and 101 (car 1), and the packets
`s5Packet session` decoded. -/
def s5Mapper (session : SessionType) : F12020UdpClrMapper :=
  { parser := s5Packet session,
    CountDrivers := 2,
    Drivers :=
      { s4Reference with FastestLap := { Lap := 100 } } ::
      { s4Opponent with FastestLap := { Lap := 101 } } ::
      List.replicate 20 { Laps := List.replicate 5 {} } }

/-- The delta to the player and the delta to the leader of driver `i`, if the call
returned. -/
def deltasOf (m : Option F12020UdpClrMapper) (i : Nat) : Option (Time × Time) :=
  (m.bind (fun m => m.Drivers[i]?)).map (fun d => (d.TimedeltaToPlayer, d.TimedeltaToLeader))

/-! ## Race delta to player -/

/-- C1: in scenario S4 the search finds the boundary (2, 2) and the claimed delta to player is
(300 + 5) - 302.5 - 0 = 2.5; `F12020Parser::m_UpdateTimeDelta` writes 2.5, but
`F12020UdpClrMapper::m_UpdateTimeDeltaRace` with `toPlayer = true` writes -2.5: it adds the
reference penalty to `timePlayer` after `newDelta` was computed. -/
theorem C1_race_delta_to_player_S4 :
    raceSearch s4Reference s4Opponent (searchFuel s4Reference) (s4Reference.LapNr - 1) 2
      = SearchOutcome.found 2 2 ∧
    (timeAt s4Reference 2 2 + s4Reference.PenaltySeconds) - timeAt s4Opponent 2 2 - 0 = 5 / 2 ∧
    deltaToPlayerOf ((F12020Parser.m_UpdateTimeDelta s4Parser 0 1).map (fun m => m.Drivers)) 1
      = some (5 / 2) ∧
    deltaToPlayerOf
      ((F12020UdpClrMapper.m_UpdateTimeDeltaRace s4Mapper 0 1 true).map (fun m => m.Drivers)) 1
      = some (-5 / 2) := by
  refine ⟨by decide!, by decide!, by decide!, by decide!⟩

/-! ## Lemmas on lap slots and the search loop -/

theorem getLap_some_range {laps : List LapData} {k : Int} {l : LapData}
    (h : getLap laps k = some l) : 0 ≤ k ∧ k.toNat < laps.length := by
  unfold getLap at h
  split at h
  · cases h
  · rename_i hk
    refine ⟨by omega, ?_⟩
    by_contra hlen
    rw [List.getElem?_eq_none (by omega)] at h
    cases h

theorem getLap_of_range {laps : List LapData} {k : Int}
    (h0 : 0 ≤ k) (h1 : k.toNat < laps.length) : ∃ l, getLap laps k = some l := by
  unfold getLap
  rw [if_neg (by omega)]
  exact ⟨laps[k.toNat], List.getElem?_eq_getElem h1⟩

theorem lapAt_of_getLap {x : DriverData} {k : Int} {l : LapData}
    (h : getLap x.Laps k = some l) : lapAt x k = l := by
  simp [lapAt, h]

theorem boundaryTime_eq {d : DriverData} {a : Int} {s : Nat} {l : LapData}
    (h : getLap d.Laps a = some l) (hs : s ≤ 2) :
    boundaryTime d a s = some (timeAt d a s) := by
  obtain ⟨h0, h1⟩ := getLap_some_range h
  have hl := lapAt_of_getLap h
  have hpart : partialTime s l =
      (if s = 0 then l.Sector1 else if s = 1 then l.Sector1 + l.Sector2 else l.Lap) := by
    interval_cases s <;> simp [partialTime]
  unfold boundaryTime timeAt
  by_cases ha : a > 0
  · obtain ⟨l', hl'⟩ := @getLap_of_range d.Laps (a - 1) (by omega) (by omega)
    have hl2 := lapAt_of_getLap hl'
    simp only [ha, if_true, hl', Option.map_some', h, hl, hl2, hpart, if_neg (by omega : ¬ 2 < s)]
  · simp only [ha, if_false, h, hl, hpart, if_neg (by omega : ¬ 2 < s)]

theorem bothCrossed_true {reference opponent : DriverData} {a : Int} {s : Nat}
    (h : bothCrossed reference opponent a s = some true) :
    s ≤ 2 ∧ (∃ r, getLap reference.Laps a = some r) ∧ (∃ o, getLap opponent.Laps a = some o) ∧
      Crossed reference opponent a s := by
  unfold bothCrossed at h
  split at h
  · cases h
  rename_i hs
  have hs2 : s ≤ 2 := by omega
  split at h
  · cases h
  rename_i r hr
  split at h
  · cases h
  rename_i hr0
  split at h
  · cases h
  rename_i o ho
  have ho0 : sectorValue s o ≠ 0 := by simpa using h
  refine ⟨hs2, ⟨r, hr⟩, ⟨o, ho⟩, ?_⟩
  unfold Crossed
  rw [lapAt_of_getLap hr, lapAt_of_getLap ho]
  interval_cases s <;> simp_all [sectorValue]

theorem bothCrossed_false {reference opponent : DriverData} {a : Int} {s : Nat}
    (hs : s ≤ 2) (h : bothCrossed reference opponent a s = some false) :
    ¬ Crossed reference opponent a s := by
  unfold bothCrossed at h
  rw [if_neg (by omega)] at h
  split at h
  · cases h
  rename_i r hr
  unfold Crossed
  rw [lapAt_of_getLap hr]
  split at h
  · rename_i hr0
    interval_cases s <;> simp_all [sectorValue]
  split at h
  · cases h
  rename_i o ho
  rw [lapAt_of_getLap ho]
  have ho0 : sectorValue s o = 0 := by simpa using h
  interval_cases s <;> simp_all [sectorValue]

theorem bothCrossed_of_range {reference opponent : DriverData} {a : Int} {s : Nat}
    (h0 : 0 ≤ a) (hr : a.toNat < reference.Laps.length) (ho : a.toNat < opponent.Laps.length) :
    ∃ b, bothCrossed reference opponent a s = some b := by
  obtain ⟨r, hr'⟩ := getLap_of_range h0 hr
  obtain ⟨o, ho'⟩ := getLap_of_range h0 ho
  unfold bothCrossed
  split
  · exact ⟨_, rfl⟩
  simp only [hr', ho']
  split
  · exact ⟨_, rfl⟩
  · exact ⟨_, rfl⟩

theorem raceSearch_found {reference opponent : DriverData} :
    ∀ (fuel : Nat) (idx : Int) (s : Nat) (a : Int) (s0 : Nat),
      raceSearch reference opponent fuel idx s = SearchOutcome.found a s0 →
      bothCrossed reference opponent a s0 = some true := by
  intro fuel
  induction fuel with
  | zero => intro idx s a s0 h; simp [raceSearch] at h
  | succ n ih =>
    intro idx s a s0 h
    unfold raceSearch at h
    split at h
    · exact ih _ _ _ _ h
    · split at h
      · cases h
      · rename_i hb
        cases h
        exact hb
      · split at h
        · cases h
        · split at h
          · exact ih _ _ _ _ h
          · exact ih _ _ _ _ h

theorem raceSearch_scan {reference opponent : DriverData} (hopp : 1 ≤ opponent.LapNr)
    (hrange : ∀ k : Int, 0 ≤ k → k ≤ min reference.LapNr opponent.LapNr - 1 →
      k.toNat < reference.Laps.length ∧ k.toNat < opponent.Laps.length) :
    ∀ (fuel : Nat) (idx : Int) (s : Nat), 0 ≤ idx → idx ≤ reference.LapNr - 1 → s ≤ 2 →
      (opponent.LapNr - 1 < idx → s = 2) → 3 * idx.toNat + s < fuel →
      (∃ a s0, raceSearch reference opponent fuel idx s = SearchOutcome.found a s0 ∧
          IsBoundary reference opponent a s0 ∧
          ∀ a' s', IsBoundary reference opponent a' s' → LexLe a' s' idx s → LexLe a' s' a s0) ∨
      (raceSearch reference opponent fuel idx s = SearchOutcome.notFound ∧
          ∀ a' s', IsBoundary reference opponent a' s' → ¬ LexLe a' s' idx s) := by
  intro fuel
  induction fuel with
  | zero => intro idx s _ _ _ _ hf; omega
  | succ n ih =>
    intro idx s h0 hidx hs hdesc hf
    unfold raceSearch
    by_cases hlt : opponent.LapNr - 1 < idx
    · rw [if_pos hlt]
      have hs2 := hdesc hlt
      have hall : ∀ a' s', IsBoundary reference opponent a' s' → LexLe a' s' (idx - 1) 2 := by
        intro a' s' hb
        obtain ⟨_, hb2, hb3, _⟩ := hb
        unfold LexLe
        have := min_le_right reference.LapNr opponent.LapNr
        omega
      rcases ih (idx - 1) 2 (by omega) (by omega) (by omega) (fun _ => rfl) (by omega) with
        ⟨a, s0, hfound, hb, hmax⟩ | ⟨hnf, hnone⟩
      · exact Or.inl ⟨a, s0, hfound, hb, fun a' s' hb' _ => hmax a' s' hb' (hall a' s' hb')⟩
      · exact Or.inr ⟨hnf, fun a' s' hb' _ => hnone a' s' hb' (hall a' s' hb')⟩
    · rw [if_neg hlt]
      have hmin : idx ≤ min reference.LapNr opponent.LapNr - 1 := by
        have : idx ≤ opponent.LapNr - 1 := by omega
        rw [le_sub_iff_add_le, le_min_iff]
        constructor <;> omega
      obtain ⟨hr, ho⟩ := hrange idx h0 hmin
      obtain ⟨b, hb⟩ := bothCrossed_of_range (s := s) h0 hr ho
      cases b with
      | true =>
        rw [hb]
        refine Or.inl ⟨idx, s, rfl, ⟨h0, hmin, hs, (bothCrossed_true hb).2.2.2⟩, ?_⟩
        intro a' s' _ hle
        exact hle
      | false =>
        rw [hb]
        have hnc := bothCrossed_false hs hb
        have hexcl : ∀ a' s', IsBoundary reference opponent a' s' → ¬ (a' = idx ∧ s' = s) := by
          rintro a' s' ⟨_, _, _, hc⟩ ⟨rfl, rfl⟩
          exact hnc hc
        by_cases h00 : idx = 0 ∧ s = 0
        · simp only [h00, and_self, if_true]
          refine Or.inr ⟨trivial, ?_⟩
          intro a' s' hb' hle
          have h1 := hexcl a' s' hb'
          obtain ⟨hb0, _, _, _⟩ := hb'
          unfold LexLe at hle
          omega
        · simp only [h00, if_false]
          by_cases hs0 : s ≠ 0
          · rw [if_pos hs0]
            rcases ih idx (s - 1) h0 hidx (by omega) (fun h => absurd h hlt) (by omega) with
              ⟨a, s0, hfound, hb', hmax⟩ | ⟨hnf, hnone⟩
            · refine Or.inl ⟨a, s0, hfound, hb', ?_⟩
              intro a' s' hb'' hle
              apply hmax a' s' hb''
              have h1 := hexcl a' s' hb''
              unfold LexLe at hle ⊢
              omega
            · refine Or.inr ⟨hnf, ?_⟩
              intro a' s' hb'' hle
              apply hnone a' s' hb''
              have h1 := hexcl a' s' hb''
              unfold LexLe at hle ⊢
              omega
          · rw [if_neg hs0]
            have hs0' : s = 0 := by omega
            have hidx0 : idx ≠ 0 := fun h => h00 ⟨h, hs0'⟩
            rcases ih (idx - 1) 2 (by omega) (by omega) (by omega) (fun h => by omega)
                (by omega) with ⟨a, s0, hfound, hb', hmax⟩ | ⟨hnf, hnone⟩
            · refine Or.inl ⟨a, s0, hfound, hb', ?_⟩
              intro a' s' hb'' hle
              apply hmax a' s' hb''
              have h1 := hexcl a' s' hb''
              obtain ⟨_, _, hb3, _⟩ := hb''
              unfold LexLe at hle ⊢
              omega
            · refine Or.inr ⟨hnf, ?_⟩
              intro a' s' hb'' hle
              apply hnone a' s' hb''
              have h1 := hexcl a' s' hb''
              obtain ⟨_, _, hb3, _⟩ := hb''
              unfold LexLe at hle ⊢
              omega

theorem set_eq_self_of_get {α : Type} {l : List α} {i : Nat} {a : α}
    (h : l[i]? = some a) : l.set i a = l := by
  induction l generalizing i with
  | nil => rfl
  | cons x xs ih =>
    cases i with
    | zero =>
      simp only [List.getElem?_cons_zero, Option.some.injEq] at h
      simp [h]
    | succ n =>
      simp only [List.getElem?_cons_succ] at h
      simp [ih h]

theorem raceSearch_found_times {reference opponent : DriverData} {fuel : Nat} {idx a : Int}
    {s s0 : Nat} (h : raceSearch reference opponent fuel idx s = SearchOutcome.found a s0) :
    boundaryTime reference a s0 = some (timeAt reference a s0) ∧
    boundaryTime opponent a s0 = some (timeAt opponent a s0) := by
  obtain ⟨hs, ⟨r, hr⟩, ⟨o, ho⟩, _⟩ := bothCrossed_true (raceSearch_found _ _ _ _ _ h)
  exact ⟨boundaryTime_eq hr hs, boundaryTime_eq ho hs⟩

theorem storeDeltaToLeader_eq (opponent : DriverData) (newDelta : Time) :
    storeDeltaToLeader opponent newDelta = { opponent with TimedeltaToLeader := newDelta } := by
  unfold storeDeltaToLeader
  split
  · rfl
  · rename_i h
    have h' : newDelta = opponent.TimedeltaToLeader := by simpa using h
    rw [h']

/-! ## Race delta search -/

/-- C2: for a reference and a present opponent that both have `LapNr >= 1` (lap numbers within
the lap arrays), the search of `m_UpdateTimeDeltaRace` ends at the lexicographically greatest
boundary `(lapIdx, lapSector)` with `0 <= lapIdx <= min(LapNr) - 1`, `lapSector <= 2` at which
both cars have a non-zero value; when there is no such boundary the call changes nothing. -/
theorem C2_race_delta_search (m : F12020UdpClrMapper) (reference i : Nat)
    (ref opp : DriverData) (toPlayer : Bool)
    (hopp : m.Drivers[i]? = some opp) (href : m.Drivers[reference]? = some ref)
    (hpres : opp.Present = true) (hr : 1 ≤ ref.LapNr) (ho : 1 ≤ opp.LapNr)
    (hrange : min ref.LapNr opp.LapNr ≤ ref.Laps.length ∧
      min ref.LapNr opp.LapNr ≤ opp.Laps.length) :
    (∀ a s, IsBoundary ref opp a s →
        (∀ a' s', IsBoundary ref opp a' s' → LexLe a' s' a s) →
        raceSearch ref opp (searchFuel ref) (ref.LapNr - 1) 2 = SearchOutcome.found a s) ∧
    ((∀ a s, ¬ IsBoundary ref opp a s) →
        raceSearch ref opp (searchFuel ref) (ref.LapNr - 1) 2 = SearchOutcome.notFound ∧
        F12020UdpClrMapper.m_UpdateTimeDeltaRace m reference i toPlayer = some m) := by
  have hrange' : ∀ k : Int, 0 ≤ k → k ≤ min ref.LapNr opp.LapNr - 1 →
      k.toNat < ref.Laps.length ∧ k.toNat < opp.Laps.length := by
    intro k hk0 hk
    obtain ⟨h1, h2⟩ := hrange
    constructor <;> omega
  have hall : ∀ a' s', IsBoundary ref opp a' s' → LexLe a' s' (ref.LapNr - 1) 2 := by
    rintro a' s' ⟨_, hb2, hb3, _⟩
    have := min_le_left ref.LapNr opp.LapNr
    unfold LexLe
    omega
  have hscan := raceSearch_scan ho hrange' (searchFuel ref) (ref.LapNr - 1) 2 (by omega)
    (le_refl _) (le_refl _) (fun _ => rfl) (by unfold searchFuel; omega)
  constructor
  · intro a s hb hmax
    rcases hscan with ⟨a0, s0, hfound, hb0, hmax0⟩ | ⟨_, hnone⟩
    · have h1 := hmax a0 s0 hb0
      have h2 := hmax0 a s hb (hall a s hb)
      have : a0 = a ∧ s0 = s := by
        unfold LexLe at h1 h2
        omega
      rw [hfound, this.1, this.2]
    · exact absurd (hall a s hb) (hnone a s hb)
  · intro hno
    rcases hscan with ⟨a0, s0, _, hb0, _⟩ | ⟨hnf, _⟩
    · exact absurd hb0 (hno a0 s0)
    · refine ⟨hnf, ?_⟩
      unfold F12020UdpClrMapper.m_UpdateTimeDeltaRace
      simp only [hopp, href, hpres, Bool.not_true, Bool.false_eq_true, if_false]
      unfold F12020UdpClrMapper.raceDelta
      simp only [hnf, set_eq_self_of_get hopp]

/-- C2 at scenario S4: the hypotheses hold for car 1 against car 0. -/
theorem C2_race_delta_search_witness :
    (s4Mapper.Drivers[1]? = some s4Opponent ∧ s4Mapper.Drivers[0]? = some s4Reference ∧
      s4Opponent.Present = true ∧ 1 ≤ s4Reference.LapNr ∧ 1 ≤ s4Opponent.LapNr ∧
      min s4Reference.LapNr s4Opponent.LapNr ≤ s4Reference.Laps.length ∧
      min s4Reference.LapNr s4Opponent.LapNr ≤ s4Opponent.Laps.length) ∧
    ((∀ a s, IsBoundary s4Reference s4Opponent a s →
        (∀ a' s', IsBoundary s4Reference s4Opponent a' s' → LexLe a' s' a s) →
        raceSearch s4Reference s4Opponent (searchFuel s4Reference) (s4Reference.LapNr - 1) 2
          = SearchOutcome.found a s) ∧
    ((∀ a s, ¬ IsBoundary s4Reference s4Opponent a s) →
        raceSearch s4Reference s4Opponent (searchFuel s4Reference) (s4Reference.LapNr - 1) 2
          = SearchOutcome.notFound ∧
        F12020UdpClrMapper.m_UpdateTimeDeltaRace s4Mapper 0 1 true = some s4Mapper)) :=
  ⟨⟨by decide!, by decide!, by decide!, by decide!, by decide!, by decide!, by decide!⟩,
   C2_race_delta_search s4Mapper 0 1 s4Reference s4Opponent true (by decide!) (by decide!)
     (by decide!) (by decide!) (by decide!) ⟨by decide!, by decide!⟩⟩

/-! ## Race delta to leader -/

/-- C3: when `m_UpdateTimeDeltaRace` with `toPlayer = false` finds a common boundary
`(lapIdx, lapSector)`, the opponent's `TimedeltaToLeader` becomes `time(opponent) -
time(leader)`; no penalty enters and no other field of the opponent changes, in particular
not `TimedeltaToPlayer` and `LastTimedeltaToPlayer`. -/
theorem C3_race_delta_to_leader (m : F12020UdpClrMapper) (reference i : Nat)
    (ref opp : DriverData) (a : Int) (s : Nat)
    (hopp : m.Drivers[i]? = some opp) (href : m.Drivers[reference]? = some ref)
    (hpres : opp.Present = true)
    (hfound : raceSearch ref opp (searchFuel ref) (ref.LapNr - 1) 2 = SearchOutcome.found a s) :
    F12020UdpClrMapper.m_UpdateTimeDeltaRace m reference i false =
      some { m with
        Drivers :=
          m.Drivers.set i { opp with TimedeltaToLeader := timeAt opp a s - timeAt ref a s } } := by
  obtain ⟨hR, hO⟩ := raceSearch_found_times hfound
  have hp : (!opp.Present) = false := by simp [hpres]
  have hneg : (timeAt ref a s - timeAt opp a s) * (-1) = timeAt opp a s - timeAt ref a s := by
    ring
  unfold F12020UdpClrMapper.m_UpdateTimeDeltaRace
  simp only [hopp, href, hp, Bool.false_eq_true, if_false]
  unfold F12020UdpClrMapper.raceDelta
  simp only [hfound, hR, hO, storeDeltaToLeader_eq, hneg, Bool.false_eq_true, if_false]

/-- C3 at scenario S4 with car 0 as leader: car 1 is 2.5 s behind. -/
theorem C3_race_delta_to_leader_witness :
    (s4Mapper.Drivers[1]? = some s4Opponent ∧ s4Mapper.Drivers[0]? = some s4Reference ∧
      s4Opponent.Present = true ∧
      raceSearch s4Reference s4Opponent (searchFuel s4Reference) (s4Reference.LapNr - 1) 2
        = SearchOutcome.found 2 2) ∧
    F12020UdpClrMapper.m_UpdateTimeDeltaRace s4Mapper 0 1 false =
      some { s4Mapper with
        Drivers :=
          s4Mapper.Drivers.set 1
            { s4Opponent with
              TimedeltaToLeader := timeAt s4Opponent 2 2 - timeAt s4Reference 2 2 } } ∧
    timeAt s4Opponent 2 2 - timeAt s4Reference 2 2 = 5 / 2 :=
  ⟨⟨by decide!, by decide!, by decide!, by decide!⟩,
   C3_race_delta_to_leader s4Mapper 0 1 s4Reference s4Opponent 2 2 (by decide!) (by decide!)
     (by decide!) (by decide!), by decide!⟩

theorem storeDeltaToPlayer_delta (opponent : DriverData) (newDelta : Time) :
    (storeDeltaToPlayer opponent newDelta).TimedeltaToPlayer = newDelta := by
  unfold storeDeltaToPlayer
  split
  · rfl
  · rename_i h
    have h' : newDelta = opponent.TimedeltaToPlayer := by simpa using h
    rw [h']

theorem storeDeltaToPlayer_changed (opponent : DriverData) (newDelta : Time)
    (h : newDelta ≠ opponent.TimedeltaToPlayer) :
    storeDeltaToPlayer opponent newDelta =
      { opponent with LastTimedeltaToPlayer := opponent.TimedeltaToPlayer,
                      TimedeltaToPlayer := newDelta } := by
  unfold storeDeltaToPlayer
  rw [if_pos h]

theorem storeDeltaToPlayer_same (opponent : DriverData) (newDelta : Time)
    (h : newDelta = opponent.TimedeltaToPlayer) :
    storeDeltaToPlayer opponent newDelta = opponent := by
  unfold storeDeltaToPlayer
  rw [if_neg (by simpa using h)]

theorem get_set_same {α : Type} {l : List α} {i : Nat} {a b : α}
    (h : l[i]? = some a) : (l.set i b)[i]? = some b := by
  induction l generalizing i with
  | nil => simp at h
  | cons x xs ih =>
    cases i with
    | zero => simp
    | succ n =>
      simp only [List.getElem?_cons_succ] at h
      simp [ih h]

/-! ## Qualifying delta -/

/-- C4: `m_UpdateTimeDeltaQualy` leaves a non-present opponent unchanged; for a present
opponent the delta stored afterwards (in `TimedeltaToPlayer` when `toPlayer`, else in
`TimedeltaToLeader`) is `opponent.FastestLap.Lap - reference.FastestLap.Lap`. -/
theorem C4_qualifying_delta (m : F12020UdpClrMapper) (reference i : Nat)
    (ref opp : DriverData) (toPlayer : Bool)
    (hopp : m.Drivers[i]? = some opp) (href : m.Drivers[reference]? = some ref) :
    (opp.Present = false →
      F12020UdpClrMapper.m_UpdateTimeDeltaQualy m reference i toPlayer = some m) ∧
    (opp.Present = true →
      ∃ d', F12020UdpClrMapper.m_UpdateTimeDeltaQualy m reference i toPlayer
              = some { m with Drivers := m.Drivers.set i d' } ∧
        (if toPlayer then d'.TimedeltaToPlayer else d'.TimedeltaToLeader)
          = opp.FastestLap.Lap - ref.FastestLap.Lap) := by
  constructor
  · intro hp
    unfold F12020UdpClrMapper.m_UpdateTimeDeltaQualy
    simp only [hopp, href, hp, Bool.not_false, if_true]
  · intro hp
    have hp' : (!opp.Present) = false := by simp [hp]
    refine ⟨F12020UdpClrMapper.qualyDelta ref opp toPlayer, ?_, ?_⟩
    · unfold F12020UdpClrMapper.m_UpdateTimeDeltaQualy
      simp only [hopp, href, hp', Bool.false_eq_true, if_false]
    · unfold F12020UdpClrMapper.qualyDelta
      cases toPlayer with
      | true => simp only [if_true, storeDeltaToPlayer_delta]
      | false => simp only [Bool.false_eq_true, if_false, storeDeltaToLeader_eq]

/-- C4 at scenario S3: driver 1 against player driver 0 gets 85.950 - 85.100 = +0.850. -/
theorem C4_qualifying_delta_witness :
    (s3Mapper.Drivers[1]? =
        some { Present := true, FastestLap := { Lap := 1719 / 20 } } ∧
      s3Mapper.Drivers[0]? =
        some { Present := true, IsPlayer := true, FastestLap := { Lap := 851 / 10 } }) ∧
    (∃ d', F12020UdpClrMapper.m_UpdateTimeDeltaQualy s3Mapper 0 1 true
              = some { s3Mapper with Drivers := s3Mapper.Drivers.set 1 d' } ∧
        d'.TimedeltaToPlayer = (1719 / 20 : Time) - 851 / 10) ∧
    (1719 / 20 : Time) - 851 / 10 = 17 / 20 :=
  ⟨⟨by decide!, by decide!⟩,
   (C4_qualifying_delta s3Mapper 0 1
      { Present := true, IsPlayer := true, FastestLap := { Lap := 851 / 10 } }
      { Present := true, FastestLap := { Lap := 1719 / 20 } } true
      (by decide!) (by decide!)).2 rfl,
   by decide!⟩

/-! ## Delta variant selection -/

/-- The `switch` of `m_UpdateDrivers` sets `qualyfiyingDelta` exactly for the session types P1,
P2, P3, ShortPractice, Q1, Q2, Q3 and ShortQ. -/
theorem qualyfiyingDelta_iff (session : SessionType) :
    F12020UdpClrMapper.qualyfiyingDelta session = true ↔ session ∈ qualifyingSessions := by
  unfold F12020UdpClrMapper.qualyfiyingDelta qualifyingSessions
  simp only [List.mem_cons, List.mem_singleton, List.not_mem_nil, or_false]
  constructor
  · intro h
    by_contra hne
    simp only [not_or] at hne
    obtain ⟨h1, h2, h3, h4, h5, h6, h7, h8⟩ := hne
    simp [h1, h2, h3, h4, h5, h6, h7, h8] at h
  · intro h
    repeat' split
    all_goals first
      | rfl
      | (exfalso; rcases h with h | h | h | h | h | h | h | h <;> contradiction)

theorem storeDeltaToLeader_frame (opponent : DriverData) (newDelta : Time) :
    (storeDeltaToLeader opponent newDelta).LastTimedeltaToPlayer = opponent.LastTimedeltaToPlayer ∧
    (storeDeltaToLeader opponent newDelta).TimedeltaToPlayer = opponent.TimedeltaToPlayer := by
  rw [storeDeltaToLeader_eq]
  exact ⟨rfl, rfl⟩

theorem raceDelta_toLeader_frame {reference opponent d' : DriverData} {penalties : Nat}
    (h : F12020UdpClrMapper.raceDelta reference opponent penalties false = some d') :
    d'.LastTimedeltaToPlayer = opponent.LastTimedeltaToPlayer ∧
    d'.TimedeltaToPlayer = opponent.TimedeltaToPlayer := by
  unfold F12020UdpClrMapper.raceDelta at h
  split at h
  · split at h
    · simp only [Bool.false_eq_true, if_false, Option.some.injEq] at h
      rw [← h]
      exact storeDeltaToLeader_frame _ _
    · cases h
  · simp only [Option.some.injEq] at h
    rw [← h]
    exact ⟨rfl, rfl⟩
  · cases h
  · cases h

/-! ## Previous delta -/

/-- C6: for a present opponent, both delta routines with `toPlayer = true` store a new delta
that differs from `TimedeltaToPlayer` by first moving the old value to
`LastTimedeltaToPlayer`, and change nothing when the new delta equals the stored one; with
`toPlayer = false` neither routine writes `LastTimedeltaToPlayer` or `TimedeltaToPlayer`. -/
theorem C6_previous_delta (m : F12020UdpClrMapper) (reference i : Nat) (ref opp : DriverData)
    (hopp : m.Drivers[i]? = some opp) (href : m.Drivers[reference]? = some ref)
    (hpres : opp.Present = true) :
    (∃ d', F12020UdpClrMapper.m_UpdateTimeDeltaQualy m reference i true
              = some { m with Drivers := m.Drivers.set i d' } ∧
        (opp.FastestLap.Lap - ref.FastestLap.Lap ≠ opp.TimedeltaToPlayer →
          d' = { opp with LastTimedeltaToPlayer := opp.TimedeltaToPlayer,
                          TimedeltaToPlayer := opp.FastestLap.Lap - ref.FastestLap.Lap }) ∧
        (opp.FastestLap.Lap - ref.FastestLap.Lap = opp.TimedeltaToPlayer → d' = opp)) ∧
    (∀ a s, raceSearch ref opp (searchFuel ref) (ref.LapNr - 1) 2 = SearchOutcome.found a s →
      ∃ d', F12020UdpClrMapper.m_UpdateTimeDeltaRace m reference i true
              = some { m with Drivers := m.Drivers.set i d' } ∧
        (timeAt ref a s - timeAt opp a s - (m.parser.lap.m_lapData i).m_penalties
            ≠ opp.TimedeltaToPlayer →
          d' = { opp with
                 LastTimedeltaToPlayer := opp.TimedeltaToPlayer,
                 TimedeltaToPlayer :=
                   timeAt ref a s - timeAt opp a s - (m.parser.lap.m_lapData i).m_penalties }) ∧
        (timeAt ref a s - timeAt opp a s - (m.parser.lap.m_lapData i).m_penalties
            = opp.TimedeltaToPlayer → d' = opp)) ∧
    (∀ m' d', (F12020UdpClrMapper.m_UpdateTimeDeltaQualy m reference i false = some m' ∨
               F12020UdpClrMapper.m_UpdateTimeDeltaRace m reference i false = some m') →
      m'.Drivers[i]? = some d' →
      d'.LastTimedeltaToPlayer = opp.LastTimedeltaToPlayer ∧
      d'.TimedeltaToPlayer = opp.TimedeltaToPlayer) := by
  have hp : (!opp.Present) = false := by simp [hpres]
  refine ⟨?_, ?_, ?_⟩
  · refine ⟨storeDeltaToPlayer opp (opp.FastestLap.Lap - ref.FastestLap.Lap), ?_,
      storeDeltaToPlayer_changed opp _, storeDeltaToPlayer_same opp _⟩
    unfold F12020UdpClrMapper.m_UpdateTimeDeltaQualy
    simp only [hopp, href, hp, Bool.false_eq_true, if_false]
    unfold F12020UdpClrMapper.qualyDelta
    simp only [if_true]
  · intro a s hfound
    obtain ⟨hR, hO⟩ := raceSearch_found_times hfound
    refine ⟨storeDeltaToPlayer opp
        (timeAt ref a s - timeAt opp a s - (m.parser.lap.m_lapData i).m_penalties), ?_,
      storeDeltaToPlayer_changed opp _, storeDeltaToPlayer_same opp _⟩
    unfold F12020UdpClrMapper.m_UpdateTimeDeltaRace
    simp only [hopp, href, hp, Bool.false_eq_true, if_false]
    unfold F12020UdpClrMapper.raceDelta
    simp only [hfound, hR, hO, if_true]
  · intro m' d' hcall hd'
    rcases hcall with hq | hrace
    · unfold F12020UdpClrMapper.m_UpdateTimeDeltaQualy at hq
      simp only [hopp, href, hp, Bool.false_eq_true, if_false, Option.some.injEq] at hq
      rw [← hq] at hd'
      simp only [get_set_same hopp, Option.some.injEq] at hd'
      rw [← hd']
      unfold F12020UdpClrMapper.qualyDelta
      simp only [Bool.false_eq_true, if_false]
      exact storeDeltaToLeader_frame _ _
    · unfold F12020UdpClrMapper.m_UpdateTimeDeltaRace at hrace
      simp only [hopp, href, hp, Bool.false_eq_true, if_false] at hrace
      split at hrace
      · cases hrace
      · rename_i d'' hd''
        simp only [Option.some.injEq] at hrace
        rw [← hrace] at hd'
        simp only [get_set_same hopp, Option.some.injEq] at hd'
        rw [← hd']
        exact raceDelta_toLeader_frame hd''

/-- C6 at scenario S4: the hypotheses hold for car 1 against car 0. -/
theorem C6_previous_delta_witness :
    (s4Mapper.Drivers[1]? = some s4Opponent ∧ s4Mapper.Drivers[0]? = some s4Reference ∧
      s4Opponent.Present = true) ∧
    (∃ d', F12020UdpClrMapper.m_UpdateTimeDeltaRace s4Mapper 0 1 true
              = some { s4Mapper with Drivers := s4Mapper.Drivers.set 1 d' } ∧
        (timeAt s4Reference 2 2 - timeAt s4Opponent 2 2 -
            (s4Mapper.parser.lap.m_lapData 1).m_penalties ≠ s4Opponent.TimedeltaToPlayer →
          d' = { s4Opponent with
                 LastTimedeltaToPlayer := s4Opponent.TimedeltaToPlayer,
                 TimedeltaToPlayer :=
                   timeAt s4Reference 2 2 - timeAt s4Opponent 2 2 -
                     (s4Mapper.parser.lap.m_lapData 1).m_penalties }) ∧
        (timeAt s4Reference 2 2 - timeAt s4Opponent 2 2 -
            (s4Mapper.parser.lap.m_lapData 1).m_penalties = s4Opponent.TimedeltaToPlayer →
          d' = s4Opponent)) :=
  ⟨⟨by decide!, by decide!, by decide!⟩,
   (C6_previous_delta s4Mapper 0 1 s4Reference s4Opponent (by decide!) (by decide!)
      (by decide!)).2.1 2 2 (by decide!)⟩

/-! ## The loops of `m_UpdateDrivers` -/

theorem pointwise_refl {R : DriverData → DriverData → Prop} (hR : ∀ d, R d d)
    (l : List DriverData) : Pointwise R l l := by
  refine ⟨rfl, ?_⟩
  intro j d d' h h'
  rw [h] at h'
  cases h'
  exact hR d

theorem pointwise_trans {R : DriverData → DriverData → Prop}
    (hR : ∀ a b c, R a b → R b c → R a c) {l l' l'' : List DriverData}
    (h1 : Pointwise R l l') (h2 : Pointwise R l' l'') : Pointwise R l l'' := by
  refine ⟨h2.1.trans h1.1, ?_⟩
  intro j d d'' h h''
  have hj : j < l.length := by
    by_contra hlt
    rw [List.getElem?_eq_none (by omega)] at h
    cases h
  have hj' : j < l'.length := by rw [h1.1]; exact hj
  have hmid : l'[j]? = some l'[j] := List.getElem?_eq_getElem hj'
  exact hR _ _ _ (h1.2 j d _ h hmid) (h2.2 j _ d'' hmid h'')

theorem get_set_other {α : Type} {l : List α} {i j : Nat} {b : α} (h : i ≠ j) :
    (l.set i b)[j]? = l[j]? := by
  induction l generalizing i j with
  | nil => simp
  | cons x xs ih =>
    cases i with
    | zero =>
      cases j with
      | zero => exact absurd rfl h
      | succ m => simp
    | succ n =>
      cases j with
      | zero => simp
      | succ m =>
        simp only [List.set_cons_succ, List.getElem?_cons_succ]
        exact ih (fun hnm => h (by rw [hnm]))

theorem pointwise_set {R : DriverData → DriverData → Prop} (hR : ∀ d, R d d)
    {l : List DriverData} {i : Nat} {d d1 : DriverData} (hd : l[i]? = some d) (h : R d d1) :
    Pointwise R l (l.set i d1) := by
  refine ⟨List.length_set _ _ _, ?_⟩
  intro j e e' he he'
  by_cases hij : i = j
  · subst hij
    rw [get_set_same hd] at he'
    rw [hd] at he
    cases he
    cases he'
    exact h
  · rw [get_set_other hij, he] at he'
    cases he'
    exact hR e

theorem forLoopFrom_rel {σ : Type} {Rel : σ → σ → Prop} {body : Nat → σ → Option σ}
    (hrefl : ∀ s, Rel s s) (htrans : ∀ a b c, Rel a b → Rel b c → Rel a c)
    (hbody : ∀ i s s', body i s = some s' → Rel s s') :
    ∀ (n k : Nat) (s s' : σ),
      F12020UdpClrMapper.forLoopFrom body n k s = some s' → Rel s s' := by
  intro n
  induction n with
  | zero =>
    intro k s s' h
    simp only [F12020UdpClrMapper.forLoopFrom, Option.some.injEq] at h
    rw [← h]
    exact hrefl s
  | succ n ih =>
    intro k s s' h
    unfold F12020UdpClrMapper.forLoopFrom at h
    split at h
    · cases h
    · rename_i s1 hs1
      exact htrans _ _ _ (hbody k s s1 hs1) (ih (k + 1) s1 s' h)

theorem mapperFrame_refl {R : DriverData → DriverData → Prop} (hR : DriverFrame R)
    (m : F12020UdpClrMapper) : MapperFrame R m m :=
  ⟨pointwise_refl hR.refl _, rfl, rfl, rfl, rfl, rfl, rfl⟩

theorem mapperFrame_trans {R : DriverData → DriverData → Prop} (hR : DriverFrame R)
    {a b c : F12020UdpClrMapper} (h1 : MapperFrame R a b) (h2 : MapperFrame R b c) :
    MapperFrame R a c := by
  obtain ⟨p1, q1, r1, s1, t1, u1, v1⟩ := h1
  obtain ⟨p2, q2, r2, s2, t2, u2, v2⟩ := h2
  exact ⟨pointwise_trans hR.trans p1 p2, q2.trans q1, r2.trans r1, s2.trans s1, t2.trans t1,
    u2.trans u1, v2.trans v1⟩

theorem modifyDriver_frame {R : DriverData → DriverData → Prop} (hR : DriverFrame R)
    {m m' : F12020UdpClrMapper} {i : Nat} {f : DriverData → DriverData}
    (hf : ∀ d, R d (f d)) (h : F12020UdpClrMapper.modifyDriver m i f = some m') :
    MapperFrame R m m' := by
  unfold F12020UdpClrMapper.modifyDriver at h
  split at h
  · cases h
  · rename_i d hd
    simp only [Option.some.injEq] at h
    rw [← h]
    exact ⟨pointwise_set hR.refl hd (hf d), rfl, rfl, rfl, rfl, rfl, rfl⟩

theorem deltaOnly_refl (d : DriverData) : DeltaOnly d d :=
  ⟨d.TimedeltaToPlayer, d.LastTimedeltaToPlayer, d.TimedeltaToLeader, rfl⟩

theorem storeDeltaToPlayer_deltaOnly (d : DriverData) (x : Time) :
    DeltaOnly d (storeDeltaToPlayer d x) := by
  unfold storeDeltaToPlayer
  split
  · exact ⟨x, d.TimedeltaToPlayer, d.TimedeltaToLeader, rfl⟩
  · exact deltaOnly_refl d

theorem storeDeltaToLeader_deltaOnly (d : DriverData) (x : Time) :
    DeltaOnly d (storeDeltaToLeader d x) := by
  rw [storeDeltaToLeader_eq]
  exact ⟨d.TimedeltaToPlayer, d.LastTimedeltaToPlayer, x, rfl⟩

theorem raceDelta_deltaOnly {reference opponent d' : DriverData} {penalties : Nat}
    {toPlayer : Bool}
    (h : F12020UdpClrMapper.raceDelta reference opponent penalties toPlayer = some d') :
    DeltaOnly opponent d' := by
  unfold F12020UdpClrMapper.raceDelta at h
  split at h
  · split at h
    · split at h
      · simp only [Option.some.injEq] at h
        rw [← h]
        exact storeDeltaToPlayer_deltaOnly _ _
      · simp only [Option.some.injEq] at h
        rw [← h]
        exact storeDeltaToLeader_deltaOnly _ _
    · cases h
  · simp only [Option.some.injEq] at h
    rw [← h]
    exact deltaOnly_refl _
  · cases h
  · cases h

theorem updateTimeDelta_shape {q : Bool} {m m' : F12020UdpClrMapper} {reference i : Nat}
    {toPlayer : Bool}
    (h : F12020UdpClrMapper.updateTimeDelta q m reference i toPlayer = some m') :
    ∃ d d1, m.Drivers[i]? = some d ∧ DeltaOnly d d1 ∧
      m' = { m with Drivers := m.Drivers.set i d1 } := by
  unfold F12020UdpClrMapper.updateTimeDelta at h
  split at h
  · unfold F12020UdpClrMapper.m_UpdateTimeDeltaQualy at h
    split at h
    · rename_i opponent ref hopp href
      split at h
      · simp only [Option.some.injEq] at h
        refine ⟨opponent, opponent, hopp, deltaOnly_refl _, ?_⟩
        rw [set_eq_self_of_get hopp, ← h]
      · simp only [Option.some.injEq] at h
        refine ⟨opponent, _, hopp, ?_, h.symm⟩
        unfold F12020UdpClrMapper.qualyDelta
        split
        · exact storeDeltaToPlayer_deltaOnly _ _
        · exact storeDeltaToLeader_deltaOnly _ _
    · cases h
  · unfold F12020UdpClrMapper.m_UpdateTimeDeltaRace at h
    split at h
    · rename_i opponent ref hopp href
      split at h
      · simp only [Option.some.injEq] at h
        refine ⟨opponent, opponent, hopp, deltaOnly_refl _, ?_⟩
        rw [set_eq_self_of_get hopp, ← h]
      · split at h
        · cases h
        · rename_i d' hd'
          simp only [Option.some.injEq] at h
          exact ⟨opponent, d', hopp, raceDelta_deltaOnly hd', h.symm⟩
    · cases h

theorem driverStep_shape {player leader : Option Nat} {q : Bool} {now : Time} {i : Nat}
    {m m' : F12020UdpClrMapper}
    (h : F12020UdpClrMapper.driverStep player leader q now i m = some m') :
    ∃ d, m.Drivers[i]? = some d ∧
      (m' = m ∨ ∃ d1, DeltaOnly d d1 ∧
        m' = { m with
               Drivers :=
                 m.Drivers.set i (F12020UdpClrMapper.carUpdate m.parser i now m.objects d1).1,
               objects := (F12020UdpClrMapper.carUpdate m.parser i now m.objects d1).2 }) := by
  unfold F12020UdpClrMapper.driverStep at h
  split at h
  · cases h
  rename_i car hcar
  refine ⟨car, hcar, ?_⟩
  split at h
  · simp only [Option.some.injEq] at h
    exact Or.inl h.symm
  right
  split at h
  · cases h
  rename_i m1 hm1
  -- delta to player
  have h1 : ∃ d1, DeltaOnly car d1 ∧ m1 = { m with Drivers := m.Drivers.set i d1 } := by
    unfold F12020UdpClrMapper.deltaToPlayer at hm1
    split at hm1
    · split at hm1
      · cases hm1
      · rename_i car' hcar'
        rw [hcar] at hcar'
        cases hcar'
        split at hm1
        · obtain ⟨d, d1, hd, hdd, hm⟩ := updateTimeDelta_shape hm1
          rw [hcar] at hd
          cases hd
          exact ⟨d1, hdd, hm⟩
        · simp only [Option.some.injEq] at hm1
          refine ⟨car, deltaOnly_refl _, ?_⟩
          rw [set_eq_self_of_get hcar, ← hm1]
    · unfold F12020UdpClrMapper.modifyDriver at hm1
      rw [hcar] at hm1
      simp only [Option.some.injEq] at hm1
      exact ⟨_, ⟨0, 0, car.TimedeltaToLeader, rfl⟩, hm1.symm⟩
  obtain ⟨d1, hd1, rfl⟩ := h1
  split at h
  · cases h
  rename_i m2 hm2
  have hset : (m.Drivers.set i d1)[i]? = some d1 := get_set_same hcar
  have h2 : ∃ d2, DeltaOnly car d2 ∧ m2 = { m with Drivers := m.Drivers.set i d2 } := by
    unfold F12020UdpClrMapper.deltaToLeader at hm2
    split at hm2
    · split at hm2
      · obtain ⟨d, d2, hd, hdd, hm⟩ := updateTimeDelta_shape hm2
        simp only [hset, Option.some.injEq] at hd
        subst hd
        refine ⟨d2, ?_, ?_⟩
        · obtain ⟨a, b, c, rfl⟩ := hd1
          obtain ⟨a', b', c', rfl⟩ := hdd
          exact ⟨a', b', c', rfl⟩
        · rw [hm]
          simp only [List.set_set]
      · simp only [Option.some.injEq] at hm2
        exact ⟨d1, hd1, hm2.symm⟩
    · simp only [Option.some.injEq] at hm2
      exact ⟨d1, hd1, hm2.symm⟩
  obtain ⟨d2, hd2, rfl⟩ := h2
  have hset2 : (m.Drivers.set i d2)[i]? = some d2 := get_set_same hcar
  simp only [hset2, Option.some.injEq] at h
  refine ⟨d2, hd2, ?_⟩
  rw [← h]
  simp only [List.set_set]

theorem driverStep_frame {R : DriverData → DriverData → Prop} (hR : DriverFrame R)
    {player leader : Option Nat} {q : Bool} {now : Time} {i : Nat} {m m' : F12020UdpClrMapper}
    (h : F12020UdpClrMapper.driverStep player leader q now i m = some m') :
    MapperFrame R m m' := by
  obtain ⟨d, hd, hm | ⟨d1, ⟨a, b, c, rfl⟩, hm⟩⟩ := driverStep_shape h
  · rw [hm]
    exact mapperFrame_refl hR m
  · rw [hm]
    refine ⟨pointwise_set hR.refl hd ?_, rfl, rfl, rfl, rfl, rfl, rfl⟩
    exact hR.trans _ _ _ (hR.delta d a b c) (hR.car _ _ _ _ _)

theorem presenceStep_frame {R : DriverData → DriverData → Prop} (hR : DriverFrame R)
    {i : Nat} {m m' : F12020UdpClrMapper}
    (h : F12020UdpClrMapper.presenceStep i m = some m') : MapperFrame R m m' := by
  unfold F12020UdpClrMapper.presenceStep at h
  refine modifyDriver_frame hR ?_ h
  intro d
  split
  · exact hR.present d true d.TimedeltaToPlayer
  · exact hR.present d true d.TimedeltaToPlayer
  · exact hR.present d false 0

theorem identify_frame {R : DriverData → DriverData → Prop} (hR : DriverFrame R)
    {m m' : F12020UdpClrMapper} {player leader : Option Nat}
    (h : F12020UdpClrMapper.identify m = some (m', player, leader)) : MapperFrame R m m' := by
  unfold F12020UdpClrMapper.identify at h
  simp only at h
  split at h
  · cases h
  rename_i m1 hm1
  have f1 : MapperFrame R m m1 := by
    split at hm1
    · exact modifyDriver_frame hR
        (fun d => hR.delta d d.TimedeltaToPlayer d.LastTimedeltaToPlayer 0) hm1
    · simp only [Option.some.injEq] at hm1
      rw [← hm1]
      exact mapperFrame_refl hR m
  split at h
  · cases h
  rename_i m2 hm2
  have f2 : MapperFrame R m1 m2 := by
    split at hm2
    · exact modifyDriver_frame hR (fun d => hR.player d false) hm2
    · simp only [Option.some.injEq] at hm2
      rw [← hm2]
      exact mapperFrame_refl hR m1
  split at h
  · split at h
    · cases h
    · rename_i m3 hm3
      simp only [Option.some.injEq, Prod.mk.injEq] at h
      rw [← h.1]
      have f3 : MapperFrame R m2 m3 := by
        refine modifyDriver_frame hR (fun d => ?_) hm3
        exact hR.trans _ _ _ (hR.player d true)
          (hR.delta { d with IsPlayer := true } 0 d.LastTimedeltaToPlayer d.TimedeltaToLeader)
      exact mapperFrame_trans hR (mapperFrame_trans hR f1 f2) f3
  · simp only [Option.some.injEq, Prod.mk.injEq] at h
    rw [← h.1]
    exact mapperFrame_trans hR f1 f2

theorem forLoop_frame {R : DriverData → DriverData → Prop} (hR : DriverFrame R)
    {body : Nat → F12020UdpClrMapper → Option F12020UdpClrMapper}
    (hbody : ∀ i m m', body i m = some m' → MapperFrame R m m')
    {n : Nat} {m m' : F12020UdpClrMapper}
    (h : F12020UdpClrMapper.forLoop body n m = some m') : MapperFrame R m m' :=
  forLoopFrom_rel (mapperFrame_refl hR) (fun _ _ _ h1 h2 => mapperFrame_trans hR h1 h2)
    hbody n 0 m m' h

theorem updateDriverName_nameOnly (maps : Option (List DriverNameMapping))
    (part : ParticipantData) (d : DriverData) :
    NameOnly d (F12020UdpClrMapper.updateDriverName maps part d) := by
  have hrefl : ∀ e : DriverData, NameOnly e e :=
    fun e => ⟨e.Name, e.TelemetryName, e.MappedName, rfl⟩
  have hnw : ∀ e : DriverData, NameOnly d e →
      NameOnly d (F12020UdpClrMapper.nameWithoutMapping part e) := by
    rintro e ⟨a, b, c, rfl⟩
    unfold F12020UdpClrMapper.nameWithoutMapping
    split
    · exact ⟨_, _, _, rfl⟩
    · exact ⟨_, _, _, rfl⟩
  unfold F12020UdpClrMapper.updateDriverName
  split
  · exact hrefl d
  · simp only
    split
    · exact hnw _ ⟨_, _, _, rfl⟩
    · split
      · exact ⟨_, _, _, rfl⟩
      · split
        · exact ⟨_, _, _, rfl⟩
        · exact hnw _ ⟨_, _, _, rfl⟩

theorem lapStep_shape {i : Nat} {m m' : F12020UdpClrMapper}
    (h : F12020UdpClrMapper.lapStep i m = some m') :
    ∃ d d0 d1, m.Drivers[i]? = some d ∧ NameOnly d d0 ∧
      F12020UdpClrMapper.lapUpdate (m.parser.lap.m_lapData i) d0 = some d1 ∧
      m' = { m with
             Drivers := m.Drivers.set i d1,
             SessionInfo :=
               F12020UdpClrMapper.updateCurrentLap
                 (F12020UdpClrMapper.lapNum (m.parser.lap.m_lapData i) d0) m.SessionInfo } := by
  unfold F12020UdpClrMapper.lapStep at h
  split at h
  · cases h
  rename_i d hd
  simp only at h
  split at h
  · cases h
  rename_i d1 hd1
  simp only [Option.some.injEq] at h
  refine ⟨d, _, d1, hd, ?_, hd1, h.symm⟩
  split
  · exact updateDriverName_nameOnly _ _ _
  · exact ⟨d.Name, d.TelemetryName, d.MappedName, rfl⟩

theorem lapLoop_shape :
    ∀ (n k : Nat) (m m' : F12020UdpClrMapper),
      F12020UdpClrMapper.forLoopFrom F12020UdpClrMapper.lapStep n k m = some m' →
      m'.parser = m.parser ∧ m'.Drivers.length = m.Drivers.length ∧
      m'.CountDrivers = m.CountDrivers ∧ m'.m_nameMapings = m.m_nameMapings ∧
      m'.Classification = m.Classification ∧ m'.EventList = m.EventList ∧
      m'.objects = m.objects ∧
      (∃ c, m'.SessionInfo = { m.SessionInfo with CurrentLap := c }) ∧
      ∀ j d, m.Drivers[j]? = some d →
        ((k ≤ j ∧ j < k + n) →
          ∃ d0 d1, NameOnly d d0 ∧
            F12020UdpClrMapper.lapUpdate (m.parser.lap.m_lapData j) d0 = some d1 ∧
            m'.Drivers[j]? = some d1) ∧
        (¬ (k ≤ j ∧ j < k + n) → m'.Drivers[j]? = some d) := by
  intro n
  induction n with
  | zero =>
    intro k m m' h
    simp only [F12020UdpClrMapper.forLoopFrom, Option.some.injEq] at h
    subst h
    refine ⟨rfl, rfl, rfl, rfl, rfl, rfl, rfl, ⟨m.SessionInfo.CurrentLap, rfl⟩, ?_⟩
    intro j d hd
    exact ⟨fun hj => by omega, fun _ => hd⟩
  | succ n ih =>
    intro k m m' h
    unfold F12020UdpClrMapper.forLoopFrom at h
    split at h
    · cases h
    rename_i m1 hm1
    obtain ⟨dk, d0, d1, hdk, hname, hlap, rfl⟩ := lapStep_shape hm1
    obtain ⟨hp, hlen, hc, hn, hcl, he, ho, ⟨c, hsi⟩, hdrv⟩ := ih (k + 1) _ m' h
    simp only at hp hlen hc hn hcl he ho hsi hdrv
    refine ⟨hp, by rw [hlen, List.length_set], hc, hn, hcl, he, ho, ?_, ?_⟩
    · refine ⟨c, ?_⟩
      rw [hsi]
      unfold F12020UdpClrMapper.updateCurrentLap
      split <;> rfl
    · intro j d hd
      by_cases hjk : k = j
      · subst hjk
        have hnot : ¬ (k + 1 ≤ k ∧ k < k + 1 + n) := by omega
        have := (hdrv k d1 (get_set_same hdk)).2 hnot
        rw [hdk] at hd
        cases hd
        exact ⟨fun _ => ⟨d0, d1, hname, hlap, this⟩, fun hc => absurd ⟨le_refl _, by omega⟩ hc⟩
      · have hd' : (m.Drivers.set k d1)[j]? = some d := by
          rw [get_set_other hjk]
          exact hd
        obtain ⟨hin, hout⟩ := hdrv j d hd'
        constructor
        · intro hj
          exact hin ⟨by omega, by omega⟩
        · intro hj
          exact hout (fun hc => hj ⟨by omega, by omega⟩)

/-! ## What the driver loop keeps -/

theorem lapFrame_of_fields {d d' : DriverData} (h1 : d'.Laps = d.Laps)
    (h2 : d'.LapNr = d.LapNr) (h3 : d'.TyreAge = d.TyreAge)
    (h4 : d'.m_lapTiresFitted = d.m_lapTiresFitted) : LapFrame d d' := by
  refine ⟨h1, h2, ?_⟩
  unfold TyreAgeInv
  rw [h2, h3, h4]
  exact fun h => h

theorem lapFrame_trans (a b c : DriverData) (h1 : LapFrame a b) (h2 : LapFrame b c) :
    LapFrame a c :=
  ⟨h2.1.trans h1.1, h2.2.1.trans h1.2.1, fun h => h2.2.2 (h1.2.2 h)⟩

theorem updateTelemetry_lapFrame (t : CarTelemetryData) (d : DriverData) :
    LapFrame d (F12020UdpClrMapper.updateTelemetry t d) := by
  unfold F12020UdpClrMapper.updateTelemetry
  split <;> exact lapFrame_of_fields rfl rfl rfl rfl

theorem updateTyre_lapFrame (c : CarStatusData) (d : DriverData) :
    LapFrame d (F12020UdpClrMapper.updateTyre c d) := by
  unfold F12020UdpClrMapper.updateTyre
  split <;> exact lapFrame_of_fields rfl rfl rfl rfl

theorem updateDamage_lapFrame (c : CarStatusData) (d : DriverData) :
    LapFrame d (F12020UdpClrMapper.updateDamage c d) := by
  unfold F12020UdpClrMapper.updateDamage
  split <;> exact lapFrame_of_fields rfl rfl rfl rfl

theorem updateFastestLap_lapFrame (l : NativeLapData) (d : DriverData) :
    LapFrame d (F12020UdpClrMapper.updateFastestLap l d) := by
  unfold F12020UdpClrMapper.updateFastestLap
  split <;> exact lapFrame_of_fields rfl rfl rfl rfl

theorem addFirstTyre_lapFrame (d : DriverData) :
    LapFrame d (F12020UdpClrMapper.addFirstTyre d) := by
  unfold F12020UdpClrMapper.addFirstTyre
  split <;> exact lapFrame_of_fields rfl rfl rfl rfl

theorem addChangedTyre_lapFrame (old : DriverStatus) (d : DriverData) :
    LapFrame d (F12020UdpClrMapper.addChangedTyre old d) := by
  unfold F12020UdpClrMapper.addChangedTyre
  split <;> exact lapFrame_of_fields rfl rfl rfl rfl

theorem pitTransition_lapFrame (now : Time) (objects : List SessionEvent) (old : DriverStatus)
    (car : DriverData) :
    LapFrame car (F12020UdpClrMapper.pitTransition now objects old car).1 := by
  unfold F12020UdpClrMapper.pitTransition
  split
  · split
    · exact lapFrame_of_fields rfl rfl rfl rfl
    · refine ⟨rfl, rfl, fun _ => ?_⟩
      unfold TyreAgeInv
      simp
  · exact lapFrame_of_fields rfl rfl rfl rfl

theorem carUpdate_lapFrame (p : F12020ElementaryParser) (i : Nat) (now : Time)
    (objects : List SessionEvent) (d : DriverData) :
    LapFrame d (F12020UdpClrMapper.carUpdate p i now objects d).1 := by
  unfold F12020UdpClrMapper.carUpdate
  simp only
  have h1 := updateTelemetry_lapFrame (p.telemetry.m_carTelemetryData i) d
  generalize F12020UdpClrMapper.updateTelemetry (p.telemetry.m_carTelemetryData i) d = e1
    at h1 ⊢
  have h2 := lapFrame_trans _ _ _ h1 (updateTyre_lapFrame (p.status.m_carStatusData i) e1)
  generalize F12020UdpClrMapper.updateTyre (p.status.m_carStatusData i) e1 = e2 at h2 ⊢
  have h3 := lapFrame_trans _ _ _ h2 (updateDamage_lapFrame (p.status.m_carStatusData i) e2)
  generalize F12020UdpClrMapper.updateDamage (p.status.m_carStatusData i) e2 = e3 at h3 ⊢
  have h4 := lapFrame_trans _ _ _ h3 (updateFastestLap_lapFrame (p.lap.m_lapData i) e3)
  generalize F12020UdpClrMapper.updateFastestLap (p.lap.m_lapData i) e3 = e4 at h4 ⊢
  have h5 : LapFrame d (F12020UdpClrMapper.copyCarStatus (p.lap.m_lapData i)
      (p.status.m_carStatusData i) e4) :=
    lapFrame_trans _ _ _ h4 (lapFrame_of_fields rfl rfl rfl rfl)
  generalize F12020UdpClrMapper.copyCarStatus (p.lap.m_lapData i)
    (p.status.m_carStatusData i) e4 = e5 at h5 ⊢
  have h6 := lapFrame_trans _ _ _ h5 (addFirstTyre_lapFrame e5)
  generalize F12020UdpClrMapper.addFirstTyre e5 = e6 at h6 ⊢
  have h7 : LapFrame d (F12020UdpClrMapper.setStatus (p.lap.m_lapData i) e6) :=
    lapFrame_trans _ _ _ h6 (lapFrame_of_fields rfl rfl rfl rfl)
  generalize F12020UdpClrMapper.setStatus (p.lap.m_lapData i) e6 = e7 at h7 ⊢
  have h8 := lapFrame_trans _ _ _ h7 (addChangedTyre_lapFrame e6.Status e7)
  generalize F12020UdpClrMapper.addChangedTyre e6.Status e7 = e8 at h8 ⊢
  have h9 := lapFrame_trans _ _ _ h8 (pitTransition_lapFrame now objects e6.Status e8)
  generalize (F12020UdpClrMapper.pitTransition now objects e6.Status e8).1 = e9 at h9 ⊢
  exact lapFrame_trans _ _ _ h9 (lapFrame_of_fields rfl rfl rfl rfl)

theorem lapFrame_driverFrame : DriverFrame LapFrame where
  refl := fun _ => lapFrame_of_fields rfl rfl rfl rfl
  trans := lapFrame_trans
  present := fun _ _ _ => lapFrame_of_fields rfl rfl rfl rfl
  delta := fun _ _ _ _ => lapFrame_of_fields rfl rfl rfl rfl
  player := fun _ _ => lapFrame_of_fields rfl rfl rfl rfl
  car := carUpdate_lapFrame

/-- Every driver after `m_UpdateDrivers` is the lap update of the old driver (with possibly
new names), changed by the later statements only within a relation `R` that these respect. -/
theorem m_UpdateDrivers_drivers {R : DriverData → DriverData → Prop} (hR : DriverFrame R)
    {m m' : F12020UdpClrMapper} {now : Time}
    (h : F12020UdpClrMapper.m_UpdateDrivers m now = some m') :
    m'.Drivers.length = m.Drivers.length ∧ m'.parser = m.parser ∧
    ∀ j d, m.Drivers[j]? = some d →
      ∃ d0 d1 d', NameOnly d d0 ∧
        F12020UdpClrMapper.lapUpdate (m.parser.lap.m_lapData j) d0 = some d1 ∧
        m'.Drivers[j]? = some d' ∧ R d1 d' := by
  unfold F12020UdpClrMapper.m_UpdateDrivers at h
  simp only at h
  split at h
  · cases h
  rename_i m1 hm1
  obtain ⟨hp1, hlen1, -, -, -, -, -, -, hdrv⟩ :=
    lapLoop_shape _ 0 _ m1 hm1
  have hp1' : m1.parser = m.parser := hp1
  have hlen1' : m1.Drivers.length = m.Drivers.length := hlen1
  split at h
  · cases h
  rename_i m2 hm2
  have f2 : MapperFrame R m1 m2 := forLoop_frame hR (fun _ _ _ => presenceStep_frame hR) hm2
  split at h
  · cases h
  rename_i m3 player leader hm3
  have f3 : MapperFrame R m2 m3 := identify_frame hR hm3
  have f4 : MapperFrame R m3 m' := by
    split at h
    · simp only [Option.some.injEq] at h
      rw [← h]
      exact mapperFrame_refl hR m3
    · exact forLoop_frame hR (fun _ _ _ => driverStep_frame hR) h
  obtain ⟨⟨hlen, hrel⟩, hpar, -⟩ := mapperFrame_trans hR (mapperFrame_trans hR f2 f3) f4
  refine ⟨hlen.trans hlen1', hpar.trans hp1', ?_⟩
  intro j d hd
  have hj : j < m.Drivers.length := by
    by_contra hlt
    have hnone : m.Drivers[j]? = none := List.getElem?_eq_none (by omega)
    rw [hnone] at hd
    cases hd
  have hd' : (F12020UdpClrMapper.updateSession m).Drivers[j]? = some d := hd
  obtain ⟨d0, d1, hname, hlap, hd1⟩ :=
    (hdrv j d hd').1 ⟨Nat.zero_le _, by simpa using hj⟩
  have hj' : j < m'.Drivers.length := by rw [hlen, hlen1']; exact hj
  exact ⟨d0, d1, m'.Drivers[j], hname, hlap, List.getElem?_eq_getElem hj',
    hrel j d1 _ hd1 (List.getElem?_eq_getElem hj')⟩

/-! ## Lap slots -/

theorem modifyLap_some {laps laps' : List LapData} {k : Int} {f : LapData → LapData}
    (h : modifyLap laps k f = some laps') :
    ∃ l, getLap laps k = some l ∧ laps' = laps.set k.toNat (f l) := by
  unfold modifyLap at h
  split at h
  · cases h
  · rename_i l hl
    simp only [Option.some.injEq] at h
    exact ⟨l, hl, h.symm⟩

theorem getLap_set_same {laps : List LapData} {k : Int} {l x : LapData}
    (h : getLap laps k = some l) : getLap (laps.set k.toNat x) k = some x := by
  obtain ⟨h0, _⟩ := getLap_some_range h
  unfold getLap at h ⊢
  rw [if_neg (by omega)] at h ⊢
  exact get_set_same h

theorem getLap_set_other {laps : List LapData} {k k' : Int} {x : LapData}
    (h0 : 0 ≤ k) (hne : k ≠ k') : getLap (laps.set k.toNat x) k' = getLap laps k' := by
  unfold getLap
  split
  · rfl
  · rename_i hk'
    exact get_set_other (by omega)

theorem lapAt_set_other {d : DriverData} {laps : List LapData} {k k' : Int} {x : LapData}
    (hl : d.Laps = laps.set k.toNat x) (h0 : 0 ≤ k) (hne : k ≠ k') :
    lapAt d k' = (getLap laps k').getD {} := by
  unfold lapAt
  rw [hl, getLap_set_other h0 hne]

/-! ## Lap rollover -/

theorem lapRollover_spec {raw : NativeLapData} {d d1 : DriverData}
    (h : F12020UdpClrMapper.lapRollover raw d = some d1) :
    d1.LapNr = raw.m_currentLapNum ∧
    d1.TyreAge = (raw.m_currentLapNum : Int) - d.m_lapTiresFitted ∧
    d1.m_lapTiresFitted = d.m_lapTiresFitted ∧
    ((0 : Int) < raw.m_currentLapNum →
      ∃ cur, getLap d1.Laps ((raw.m_currentLapNum : Int) - 1) = some cur ∧
        cur.Sector1 = 0 ∧ cur.Sector2 = 0 ∧ cur.Lap = 0) ∧
    ((1 : Int) < raw.m_currentLapNum →
      ∃ last, getLap d1.Laps ((raw.m_currentLapNum : Int) - 2) = some last ∧
        last.Lap = raw.m_lastLapTime ∧
        last.LapsAccumulated = last.Lap +
          (if (raw.m_currentLapNum : Int) = 2 then 0
           else (lapAt d1 ((raw.m_currentLapNum : Int) - 3)).LapsAccumulated)) := by
  unfold F12020UdpClrMapper.lapRollover at h
  simp only at h
  generalize hn : (raw.m_currentLapNum : Int) = n at h ⊢
  split at h
  · cases h
  rename_i laps1 hlaps1
  by_cases hn0 : n > 0
  · rw [if_pos hn0] at hlaps1
    obtain ⟨l1, hl1, rfl⟩ := modifyLap_some hlaps1
    have hcur := getLap_set_same (x := { l1 with Sector1 := 0, Sector2 := 0, Lap := 0 }) hl1
    by_cases hn1 : n > 1
    · rw [if_pos hn1] at h
      split at h
      · cases h
      rename_i laps2 hlaps2
      obtain ⟨l2, hl2, rfl⟩ := modifyLap_some hlaps2
      have hlast := getLap_set_same (x := { l2 with Lap := raw.m_lastLapTime }) hl2
      have hcur2 : getLap (((d.Laps.set (n - 1).toNat
            { l1 with Sector1 := 0, Sector2 := 0, Lap := 0 }).set (n - 2).toNat
            { l2 with Lap := raw.m_lastLapTime })) (n - 1)
          = some { l1 with Sector1 := 0, Sector2 := 0, Lap := 0 } := by
        rw [getLap_set_other (by omega) (by omega)]
        exact hcur
      by_cases hn2 : n = 2
      · rw [if_pos hn2, show (0 : Int) = n - 2 by omega] at h
        split at h
        · cases h
        rename_i laps3 hlaps3
        obtain ⟨l3, hl3, rfl⟩ := modifyLap_some hlaps3
        simp only [Option.some.injEq] at h
        subst h
        rw [hlast] at hl3
        cases hl3
        refine ⟨rfl, rfl, rfl, fun _ => ?_, fun _ => ?_⟩
        · exact ⟨_, (getLap_set_other (by omega) (by omega)).trans hcur2, rfl, rfl, rfl⟩
        · refine ⟨_, getLap_set_same hlast, rfl, ?_⟩
          rw [if_pos hn2]
          simp
      · rw [if_neg hn2] at h
        split at h
        · cases h
        rename_i before hbefore
        split at h
        · cases h
        rename_i laps3 hlaps3
        obtain ⟨l3, hl3, rfl⟩ := modifyLap_some hlaps3
        simp only [Option.some.injEq] at h
        subst h
        rw [hlast] at hl3
        cases hl3
        refine ⟨rfl, rfl, rfl, fun _ => ?_, fun _ => ?_⟩
        · exact ⟨_, (getLap_set_other (by omega) (by omega)).trans hcur2, rfl, rfl, rfl⟩
        · refine ⟨_, getLap_set_same hlast, rfl, ?_⟩
          rw [if_neg hn2]
          unfold lapAt
          simp only
          rw [getLap_set_other (by omega) (by omega), hbefore]
          rfl
    · rw [if_neg hn1] at h
      simp only [Option.some.injEq] at h
      subst h
      exact ⟨rfl, rfl, rfl, fun _ => ⟨_, hcur, rfl, rfl, rfl⟩, fun h1 => absurd h1 hn1⟩
  · rw [if_neg hn0] at hlaps1
    have hn1 : ¬ n > 1 := by omega
    rw [if_neg hn1] at h
    simp only [Option.some.injEq] at h
    subst h
    exact ⟨rfl, rfl, rfl, fun h0 => absurd h0 hn0, fun h1 => absurd h1 hn1⟩

theorem lapAt_congr {d d' : DriverData} (h : d'.Laps = d.Laps) (k : Int) :
    lapAt d' k = lapAt d k := by
  unfold lapAt
  rw [h]

theorem lapUpdate_rollover {raw : NativeLapData} {d : DriverData}
    (hne : d.LapNr ≠ raw.m_currentLapNum) :
    F12020UdpClrMapper.lapUpdate raw d =
      F12020UdpClrMapper.lapRollover raw { d with Pos := raw.m_carPosition } := by
  unfold F12020UdpClrMapper.lapUpdate
  simp only
  rw [if_pos hne]

theorem lapRollover_total {raw : NativeLapData} {d : DriverData}
    (h : raw.m_currentLapNum ≤ d.Laps.length) :
    ∃ d1, F12020UdpClrMapper.lapRollover raw d = some d1 := by
  have hm : ∀ (laps : List LapData) (k : Int) (f : LapData → LapData), 0 ≤ k →
      k.toNat < laps.length → ∃ laps', modifyLap laps k f = some laps' ∧
        laps'.length = laps.length := by
    intro laps k f h0 h1
    obtain ⟨l, hl⟩ := getLap_of_range h0 h1
    refine ⟨laps.set k.toNat (f l), ?_, List.length_set _ _ _⟩
    unfold modifyLap
    rw [hl]
  unfold F12020UdpClrMapper.lapRollover
  simp only
  generalize hn : (raw.m_currentLapNum : Int) = n
  have hlen : n ≤ d.Laps.length := by omega
  by_cases hn0 : n > 0
  · obtain ⟨laps1, hl1, hlen1⟩ := hm d.Laps (n - 1)
      (fun l => { l with Sector1 := 0, Sector2 := 0, Lap := 0 }) (by omega) (by omega)
    rw [if_pos hn0, hl1]
    simp only
    by_cases hn1 : n > 1
    · obtain ⟨laps2, hl2, hlen2⟩ := hm laps1 (n - 2)
        (fun l => { l with Lap := raw.m_lastLapTime }) (by omega) (by omega)
      rw [if_pos hn1, hl2]
      simp only
      by_cases hn2 : n = 2
      · obtain ⟨laps3, hl3, _⟩ := hm laps2 0
          (fun l => { l with LapsAccumulated := l.Lap }) (le_refl _) (by simp; omega)
        rw [if_pos hn2, hl3]
        exact ⟨_, rfl⟩
      · obtain ⟨before, hb⟩ := @getLap_of_range laps2 (n - 3) (by omega) (by omega)
        rw [if_neg hn2, hb]
        simp only
        obtain ⟨laps3, hl3, _⟩ := hm laps2 (n - 2)
          (fun l => { l with LapsAccumulated := l.Lap + before.LapsAccumulated })
          (by omega) (by omega)
        rw [hl3]
        exact ⟨_, rfl⟩
    · rw [if_neg hn1]
      exact ⟨_, rfl⟩
  · rw [if_neg hn0]
    simp only
    rw [if_neg (by omega)]
    exact ⟨_, rfl⟩

/-- C7: a lap rollover to lap `n` (the cached `LapNr` differs from `currentLapNum = n`) does
not throw when `n` lies within the lap array, and after `m_UpdateDrivers` the driver has
`LapNr = n`, `TyreAge = n - lapTiresFitted`, the slot `Laps[n-1]` zeroed (if `n > 0`) and, if
`n > 1`, `Laps[n-2].Lap = lastLapTime` and `Laps[n-2].LapsAccumulated = Laps[n-2].Lap +
(n == 2 ? 0 : Laps[n-3].LapsAccumulated)`. -/
theorem C7_lap_rollover (m m' : F12020UdpClrMapper) (now : Time) (i : Nat) (d : DriverData)
    (h : F12020UdpClrMapper.m_UpdateDrivers m now = some m')
    (hd : m.Drivers[i]? = some d)
    (hne : d.LapNr ≠ (m.parser.lap.m_lapData i).m_currentLapNum) :
    ((m.parser.lap.m_lapData i).m_currentLapNum ≤ d.Laps.length →
      ∃ d1, F12020UdpClrMapper.lapUpdate (m.parser.lap.m_lapData i) d = some d1) ∧
    ∃ d', m'.Drivers[i]? = some d' ∧
      d'.LapNr = (m.parser.lap.m_lapData i).m_currentLapNum ∧
      d'.TyreAge = ((m.parser.lap.m_lapData i).m_currentLapNum : Int) - d'.m_lapTiresFitted ∧
      ((0 : Int) < (m.parser.lap.m_lapData i).m_currentLapNum →
        ∃ cur, getLap d'.Laps (((m.parser.lap.m_lapData i).m_currentLapNum : Int) - 1)
            = some cur ∧
          cur.Sector1 = 0 ∧ cur.Sector2 = 0 ∧ cur.Lap = 0) ∧
      ((1 : Int) < (m.parser.lap.m_lapData i).m_currentLapNum →
        ∃ last, getLap d'.Laps (((m.parser.lap.m_lapData i).m_currentLapNum : Int) - 2)
            = some last ∧
          last.Lap = (m.parser.lap.m_lapData i).m_lastLapTime ∧
          last.LapsAccumulated = last.Lap +
            (if ((m.parser.lap.m_lapData i).m_currentLapNum : Int) = 2 then 0
             else (lapAt d' (((m.parser.lap.m_lapData i).m_currentLapNum : Int) - 3)
                    ).LapsAccumulated)) := by
  constructor
  · intro hlen
    rw [lapUpdate_rollover hne]
    exact lapRollover_total hlen
  obtain ⟨-, -, hdrv⟩ := m_UpdateDrivers_drivers lapFrame_driverFrame h
  obtain ⟨d0, d1, d', ⟨a, b, c, hd0⟩, hlap, hd', hL, hN, hT⟩ := hdrv i d hd
  have hne0 : d0.LapNr ≠ (m.parser.lap.m_lapData i).m_currentLapNum := by
    rw [hd0]
    exact hne
  rw [lapUpdate_rollover hne0] at hlap
  obtain ⟨s1, s2, s3, s4, s5⟩ := lapRollover_spec hlap
  refine ⟨d', hd', hN.trans s1, ?_, ?_, ?_⟩
  · have h1 : TyreAgeInv d1 := by
      unfold TyreAgeInv
      rw [s1, s2, s3]
    have h2 := hT h1
    unfold TyreAgeInv at h2
    rw [h2, hN, s1]
  · intro h0
    rw [hL]
    exact s4 h0
  · intro h1
    rw [hL, lapAt_congr hL]
    exact s5 h1

/-- C7 at scenario S2: `LapNr` 1 -> 2 with `lastLapTime` 95.432 gives `Laps[0].Lap =
Laps[0].LapsAccumulated = 95.432` and `Laps[1]` all zero. -/
theorem C7_lap_rollover_witness :
    (s2Mapper.Drivers[0]? =
        some { Present := true, IsPlayer := true, LapNr := 1, TyreAge := 1, Laps := List.replicate 5 {} } ∧
      (1 : Int) ≠ (s2Mapper.parser.lap.m_lapData 0).m_currentLapNum) ∧
    (∃ m', F12020UdpClrMapper.m_UpdateDrivers s2Mapper 0 = some m' ∧
      ∃ d', m'.Drivers[0]? = some d' ∧
        d'.LapNr = ((s2Mapper.parser.lap.m_lapData 0).m_currentLapNum : Int) ∧
        d'.TyreAge =
          ((s2Mapper.parser.lap.m_lapData 0).m_currentLapNum : Int) - d'.m_lapTiresFitted) ∧
    ((F12020UdpClrMapper.m_UpdateDrivers s2Mapper 0).bind (fun m => m.Drivers[0]?)).map
        (fun d => (d.LapNr, d.Laps.take 2))
      = some (2, ([{ Lap := 11929 / 125, LapsAccumulated := 11929 / 125 }, {}] :
          List LapData)) := by
  refine ⟨⟨by decide!, by decide!⟩, ?_, by decide!⟩
  obtain ⟨m', hm'⟩ := Option.isSome_iff_exists.1
    (show (F12020UdpClrMapper.m_UpdateDrivers s2Mapper 0).isSome = true by decide!)
  obtain ⟨d', h1, h2, h3, -⟩ := (C7_lap_rollover s2Mapper m' 0 0
    { Present := true, IsPlayer := true, LapNr := 1, TyreAge := 1, Laps := List.replicate 5 {} }
    hm' (by decide!) (by decide!)).2
  exact ⟨m', hm', d', h1, h2, h3⟩

/-! ## Invariants of the update cycle -/

theorem forall_mem_of_get {P : DriverData → Prop} {l l' : List DriverData}
    (hlen : l'.length = l.length)
    (h : ∀ (j : Nat) (d : DriverData), l[j]? = some d → ∃ d', l'[j]? = some d' ∧ P d') :
    ∀ d' ∈ l', P d' := by
  intro d' hd'
  obtain ⟨j, hj, rfl⟩ := List.mem_iff_getElem.1 hd'
  have hj' : j < l.length := by omega
  obtain ⟨e, he, hP⟩ := h j l[j] (List.getElem?_eq_getElem hj')
  rw [List.getElem?_eq_getElem hj] at he
  cases he
  exact hP

/-- A property of single drivers that names, the lap update and the statements after the lap
loop preserve holds for all drivers after `m_UpdateDrivers` if it held before. -/
theorem m_UpdateDrivers_forall {P : DriverData → Prop}
    (hname : ∀ d d0, NameOnly d d0 → P d → P d0)
    (hlap : ∀ raw d0 d1, F12020UdpClrMapper.lapUpdate raw d0 = some d1 → P d0 → P d1)
    (hframe : ∀ d1 d', LapFrame d1 d' → P d1 → P d')
    {m m' : F12020UdpClrMapper} {now : Time}
    (h : F12020UdpClrMapper.m_UpdateDrivers m now = some m')
    (hinv : ∀ d ∈ m.Drivers, P d) : ∀ d' ∈ m'.Drivers, P d' := by
  obtain ⟨hlen, -, hdrv⟩ := m_UpdateDrivers_drivers lapFrame_driverFrame h
  refine forall_mem_of_get hlen ?_
  intro j d hd
  obtain ⟨d0, d1, d', hn, hl, hd', hf⟩ := hdrv j d hd
  have hPd : P d := hinv d (List.getElem?_mem hd)
  exact ⟨d', hd', hframe _ _ hf (hlap _ _ _ hl (hname _ _ hn hPd))⟩

theorem sectorUpdate_shape {raw : NativeLapData} {d d1 : DriverData}
    (h : F12020UdpClrMapper.sectorUpdate raw d = some d1) :
    ∃ l x, getLap d.Laps (d.LapNr - 1) = some l ∧
      d1 = { d with Laps := d.Laps.set (d.LapNr - 1).toNat x } ∧
      x.Lap = l.Lap ∧ x.LapsAccumulated = l.LapsAccumulated ∧ x.Incidents = l.Incidents := by
  unfold F12020UdpClrMapper.sectorUpdate at h
  split at h
  · cases h
  rename_i laps hlaps
  obtain ⟨l, hl, rfl⟩ := modifyLap_some hlaps
  simp only [Option.some.injEq] at h
  refine ⟨l, _, hl, h.symm, ?_, ?_, ?_⟩
  · split_ifs <;> rfl
  · split_ifs <;> rfl
  · split_ifs <;> rfl

theorem lapUpdate_tyreAgeInv (raw : NativeLapData) (d0 d1 : DriverData)
    (h : F12020UdpClrMapper.lapUpdate raw d0 = some d1) (hinv : TyreAgeInv d0) :
    TyreAgeInv d1 := by
  unfold F12020UdpClrMapper.lapUpdate at h
  simp only at h
  split at h
  · obtain ⟨s1, s2, s3, -, -⟩ := lapRollover_spec h
    unfold TyreAgeInv
    rw [s1, s2, s3]
  · split at h
    · obtain ⟨l, x, -, rfl, -⟩ := sectorUpdate_shape h
      exact hinv
    · simp only [Option.some.injEq] at h
      rw [← h]
      exact hinv

/-- C9: if `TyreAge = LapNr - lapTiresFitted` holds for every driver before `m_UpdateDrivers`
and the call returns, it holds for every driver afterwards. -/
theorem C9_tyre_age_invariant (m m' : F12020UdpClrMapper) (now : Time)
    (h : F12020UdpClrMapper.m_UpdateDrivers m now = some m')
    (hinv : ∀ d ∈ m.Drivers, d.TyreAge = d.LapNr - d.m_lapTiresFitted) :
    ∀ d' ∈ m'.Drivers, d'.TyreAge = d'.LapNr - d'.m_lapTiresFitted := by
  refine m_UpdateDrivers_forall (P := TyreAgeInv) ?_ lapUpdate_tyreAgeInv
    (fun _ _ hf => hf.2.2) h hinv
  rintro d d0 ⟨a, b, c, rfl⟩ hd
  exact hd

/-- C9 at scenario S2 (a lap rollover of car 0). -/
theorem C9_tyre_age_invariant_witness :
    (∀ d ∈ s2Mapper.Drivers, d.TyreAge = d.LapNr - d.m_lapTiresFitted) ∧
    ∃ m', F12020UdpClrMapper.m_UpdateDrivers s2Mapper 0 = some m' ∧
      ∀ d' ∈ m'.Drivers, d'.TyreAge = d'.LapNr - d'.m_lapTiresFitted := by
  have hinv : ∀ d ∈ s2Mapper.Drivers, d.TyreAge = d.LapNr - d.m_lapTiresFitted := by decide!
  obtain ⟨m', hm'⟩ := Option.isSome_iff_exists.1
    (show (F12020UdpClrMapper.m_UpdateDrivers s2Mapper 0).isSome = true by decide!)
  exact ⟨hinv, m', hm', C9_tyre_age_invariant s2Mapper m' 0 hm' hinv⟩

theorem accInv_sameTimes {d d' : DriverData} (hs : SameTimes d d')
    (h : AccumulatedInv d) : AccumulatedInv d' := by
  obtain ⟨hN, hL | ⟨k, l, x, hl, hL, hx1, hx2⟩⟩ := hs
  · unfold AccumulatedInv
    rw [hN, hL, lapAt_congr hL]
    exact h
  · obtain ⟨hk0, -⟩ := getLap_some_range hl
    have key : ∀ (j : Int) (e : LapData), getLap d.Laps j = some e →
        ∃ e', getLap d'.Laps j = some e' ∧ e'.Lap = e.Lap ∧
          e'.LapsAccumulated = e.LapsAccumulated := by
      intro j e he
      rw [hL]
      by_cases hkj : k = j
      · subst hkj
        rw [hl] at he
        cases he
        exact ⟨x, getLap_set_same hl, hx1, hx2⟩
      · rw [getLap_set_other hk0 hkj]
        exact ⟨e, he, rfl, rfl⟩
    have keyAt : ∀ j : Int, (lapAt d' j).LapsAccumulated = (lapAt d j).LapsAccumulated := by
      intro j
      cases hj : getLap d.Laps j with
      | some e =>
        obtain ⟨e', he', -, h2⟩ := key j e hj
        rw [lapAt_of_getLap he', lapAt_of_getLap hj, h2]
      | none =>
        have hkj : k ≠ j := by
          intro hkj
          rw [hkj, hj] at hl
          cases hl
        unfold lapAt
        rw [hL, getLap_set_other hk0 hkj, hj]
    intro hn
    rw [hN] at hn ⊢
    obtain ⟨last, hlast, heq⟩ := h hn
    obtain ⟨last', hlast', h1, h2⟩ := key _ last hlast
    refine ⟨last', hlast', ?_⟩
    rw [h1, h2, heq, keyAt]

theorem lapUpdate_accInv (raw : NativeLapData) (d0 d1 : DriverData)
    (h : F12020UdpClrMapper.lapUpdate raw d0 = some d1) (hinv : AccumulatedInv d0) :
    AccumulatedInv d1 := by
  unfold F12020UdpClrMapper.lapUpdate at h
  simp only at h
  split at h
  · obtain ⟨s1, -, -, -, s5⟩ := lapRollover_spec h
    intro hn
    rw [s1] at hn ⊢
    obtain ⟨last, hlast, -, heq⟩ := s5 (by omega)
    exact ⟨last, hlast, heq⟩
  · split at h
    · obtain ⟨l, x, hl, hd1, hx1, hx2, -⟩ := sectorUpdate_shape h
      have hl' : getLap d0.Laps (d0.LapNr - 1) = some l := hl
      have hL : d1.Laps = d0.Laps.set (d0.LapNr - 1).toNat x := by rw [hd1]
      have hN : d1.LapNr = d0.LapNr := by rw [hd1]
      exact accInv_sameTimes ⟨hN, Or.inr ⟨_, l, x, hl', hL, hx1, hx2⟩⟩ hinv
    · simp only [Option.some.injEq] at h
      rw [← h]
      exact hinv

theorem m_UpdateDrivers_accInv {m m' : F12020UdpClrMapper} {now : Time}
    (h : F12020UdpClrMapper.m_UpdateDrivers m now = some m')
    (hinv : ∀ d ∈ m.Drivers, AccumulatedInv d) : ∀ d' ∈ m'.Drivers, AccumulatedInv d' := by
  refine m_UpdateDrivers_forall ?_ lapUpdate_accInv ?_ h hinv
  · rintro d d0 ⟨a, b, c, rfl⟩ hd
    exact hd
  · intro d1 d' hf hd
    exact accInv_sameTimes ⟨hf.2.1, Or.inl hf.1⟩ hd

theorem penaltyEvent_accInv {m m' : F12020UdpClrMapper} {now : Time}
    (h : F12020UdpClrMapper.penaltyEvent m now = some m')
    (hinv : ∀ d ∈ m.Drivers, AccumulatedInv d) : ∀ d' ∈ m'.Drivers, AccumulatedInv d' := by
  unfold F12020UdpClrMapper.penaltyEvent at h
  simp only at h
  split at h
  · cases h
  rename_i d hd
  split at h
  · cases h
  rename_i d1 hd1
  simp only [Option.some.injEq] at h
  rw [← h]
  have hd' : m.Drivers[m.parser.event.m_eventDetails.Penalty.vehicleIdx]? = some d := hd
  have hPd : AccumulatedInv d := hinv d (List.getElem?_mem hd')
  have h1 : AccumulatedInv d1 := by
    unfold F12020UdpClrMapper.fileIncident at hd1
    split at hd1
    · simp only at hd1
      split at hd1
      · cases hd1
      · rename_i laps hlaps
        obtain ⟨l, hl, rfl⟩ := modifyLap_some hlaps
        simp only [Option.some.injEq] at hd1
        rw [← hd1]
        exact accInv_sameTimes (d := d) ⟨rfl, Or.inr ⟨_, l, _, hl, rfl, rfl, rfl⟩⟩ hPd
    · simp only [Option.some.injEq] at hd1
      rw [← hd1]
      exact hPd
  have h2 : AccumulatedInv (F12020UdpClrMapper.queuePenalty m.objects.length
      m.parser.event.m_eventDetails.Penalty.penaltyType d1) := by
    unfold F12020UdpClrMapper.queuePenalty
    split
    · exact accInv_sameTimes (d := d1) ⟨rfl, Or.inl rfl⟩ h1
    · exact h1
  intro e he
  rcases List.mem_or_eq_of_mem_set he with hmem | rfl
  · exact hinv e hmem
  · exact h2

theorem dispatchEvent_drivers {m m' : F12020UdpClrMapper} {now : Time}
    (h : F12020UdpClrMapper.dispatchEvent m now = some m') :
    m'.Drivers = m.Drivers ∨ m'.Drivers = m.Drivers.map F12020UdpClrMapper.Reset ∨
      F12020UdpClrMapper.penaltyEvent m now = some m' := by
  unfold F12020UdpClrMapper.dispatchEvent at h
  generalize F12020UdpClrMapper.codeIs m "SSTA" = c1 at h
  generalize F12020UdpClrMapper.codeIs m "SEND" = c2 at h
  generalize F12020UdpClrMapper.codeIs m "FTLP" = c3 at h
  generalize F12020UdpClrMapper.codeIs m "RTMT" = c4 at h
  generalize F12020UdpClrMapper.codeIs m "DRSE" = c5 at h
  generalize F12020UdpClrMapper.codeIs m "DRSD" = c6 at h
  generalize F12020UdpClrMapper.codeIs m "TMPT" = c7 at h
  generalize F12020UdpClrMapper.codeIs m "CHQF" = c8 at h
  generalize F12020UdpClrMapper.codeIs m "RCWN" = c9 at h
  generalize F12020UdpClrMapper.codeIs m "PENA" = c10 at h
  generalize F12020UdpClrMapper.codeIs m "SPTP" = c11 at h
  have hsome : ∀ a : F12020UdpClrMapper, some a = some m' → a.Drivers = m.Drivers →
      m'.Drivers = m.Drivers := by
    intro a ha hd
    cases ha
    exact hd
  cases c1
  · cases c2
    · cases c3
      · cases c4
        · cases c5
          · cases c6
            · cases c7
              · cases c8
                · cases c9
                  · cases c10
                    · cases c11
                      · exact Or.inl (hsome _ h rfl)
                      · exact Or.inl (hsome _ h rfl)
                    · exact Or.inr (Or.inr h)
                  · exact Or.inl (hsome _ h rfl)
                · exact Or.inl (hsome _ h rfl)
              · exact Or.inl (hsome _ h rfl)
            · exact Or.inl (hsome _ h rfl)
          · exact Or.inl (hsome _ h rfl)
        · exact Or.inl (hsome _ h rfl)
      · exact Or.inl (hsome _ h rfl)
    · exact Or.inl (hsome _ h rfl)
  · refine Or.inr (Or.inl ?_)
    have h' : some (F12020UdpClrMapper.addEvent (F12020UdpClrMapper.m_Clear m)
        { TimeCode := now, Type_ := EventType.SessionStarted, CarIndex := 0 }) = some m' := h
    cases h'
    rfl
theorem dispatchEvent_accInv {m m' : F12020UdpClrMapper} {now : Time}
    (h : F12020UdpClrMapper.dispatchEvent m now = some m')
    (hinv : ∀ d ∈ m.Drivers, AccumulatedInv d) : ∀ d' ∈ m'.Drivers, AccumulatedInv d' := by
  rcases dispatchEvent_drivers h with hd | hd | hp
  · rw [hd]
    exact hinv
  · rw [hd]
    intro d' hd'
    obtain ⟨d, -, rfl⟩ := List.mem_map.1 hd'
    intro hn
    have h0 : (F12020UdpClrMapper.Reset d).LapNr = 0 := rfl
    omega
  · exact penaltyEvent_accInv hp hinv

theorem m_Update_accInv {m m' : F12020UdpClrMapper} {now : Time}
    (h : F12020UdpClrMapper.m_Update m now = some m')
    (hinv : ∀ d ∈ m.Drivers, AccumulatedInv d) : ∀ d' ∈ m'.Drivers, AccumulatedInv d' := by
  unfold F12020UdpClrMapper.m_Update at h
  split at h
  · cases h
  rename_i m1 hm1
  have h1 : ∀ d ∈ m1.Drivers, AccumulatedInv d := by
    unfold F12020UdpClrMapper.m_UpdateEvent at hm1
    split at hm1
    · cases hm1
    rename_i m0 hm0
    simp only [Option.some.injEq] at hm1
    rw [← hm1]
    show ∀ d ∈ m0.Drivers, AccumulatedInv d
    split at hm0
    · exact dispatchEvent_accInv hm0 hinv
    · simp only [Option.some.injEq] at hm0
      rw [← hm0]
      exact hinv
  split at h
  · cases h
  rename_i m2 hm2
  have h2 := m_UpdateDrivers_accInv hm2 h1
  unfold F12020UdpClrMapper.m_UpdateClassification at h
  split at h
  · simp only [Option.some.injEq] at h
    rw [← h]
    exact h2
  split at h
  · simp only [Option.some.injEq] at h
    rw [← h]
    exact h2
  split at h
  · cases h
  · simp only [Option.some.injEq] at h
    rw [← h]
    exact h2

/-! ## Accumulated time invariant -/

/-- C8: in every state reached from a model in which all drivers have `LapNr = 0` by update
cycles `m_Update` (each on an arbitrary parser state, so lap numbers may jump or decrease),
every driver with `LapNr >= 2` has the slot `Laps[LapNr-2]` and in it `LapsAccumulated = Lap +
(LapNr == 2 ? 0 : Laps[LapNr-3].LapsAccumulated)`. -/
theorem C8_accumulated_time_invariant (m0 m : F12020UdpClrMapper)
    (inputs : List (F12020ElementaryParser × Time))
    (hreset : ∀ d ∈ m0.Drivers, d.LapNr = 0)
    (hrun : runCycles m0 inputs = some m) :
    ∀ d ∈ m.Drivers, 2 ≤ d.LapNr →
      ∃ last, getLap d.Laps (d.LapNr - 2) = some last ∧
        last.LapsAccumulated =
          last.Lap + (if d.LapNr = 2 then 0 else (lapAt d (d.LapNr - 3)).LapsAccumulated) := by
  have hgen : ∀ (inputs : List (F12020ElementaryParser × Time)) (a b : F12020UdpClrMapper),
      (∀ d ∈ a.Drivers, AccumulatedInv d) → runCycles a inputs = some b →
      ∀ d ∈ b.Drivers, AccumulatedInv d := by
    intro inputs
    induction inputs with
    | nil =>
      intro a b ha hrun
      simp only [runCycles, Option.some.injEq] at hrun
      rw [← hrun]
      exact ha
    | cons x rest ih =>
      intro a b ha hrun
      obtain ⟨p, now⟩ := x
      unfold runCycles at hrun
      split at hrun
      · cases hrun
      · rename_i a' ha'
        exact ih a' b (m_Update_accInv ha' ha) hrun
  have h0 : ∀ d ∈ m0.Drivers, AccumulatedInv d := by
    intro d hd hn
    rw [hreset d hd] at hn
    exact absurd hn (by decide)
  exact hgen inputs m0 m h0 hrun

/-- C8 on a run of four cycles from the reset model that takes car 0 through the lap numbers
1, 2, 4 (a jump) and 3 (a decrease): the run completes, the invariant holds and car 0 ends
on lap 3 with `Laps[1].LapsAccumulated = 97 + 95.432`. -/
theorem C8_accumulated_time_invariant_witness :
    (∀ d ∈ resetMapper.Drivers, d.LapNr = 0) ∧
    (∃ m, runCycles resetMapper
            [(lapPacket 1 0, 0), (lapPacket 2 (11929 / 125), 1), (lapPacket 4 96, 2),
             (lapPacket 3 97, 3)] = some m ∧
      ∀ d ∈ m.Drivers, 2 ≤ d.LapNr →
        ∃ last, getLap d.Laps (d.LapNr - 2) = some last ∧
          last.LapsAccumulated =
            last.Lap +
              (if d.LapNr = 2 then 0 else (lapAt d (d.LapNr - 3)).LapsAccumulated)) ∧
    ((runCycles resetMapper
        [(lapPacket 1 0, 0), (lapPacket 2 (11929 / 125), 1), (lapPacket 4 96, 2),
         (lapPacket 3 97, 3)]).bind
      (fun m => m.Drivers[0]?)).map (fun d => (d.LapNr, d.Laps.map (fun l => l.LapsAccumulated)))
      = some (3, [11929 / 125, 24054 / 125, 96, 0, 0]) := by
  have hreset : ∀ d ∈ resetMapper.Drivers, d.LapNr = 0 := by decide!
  obtain ⟨m, hm⟩ := Option.isSome_iff_exists.1
    (show (runCycles resetMapper
      [(lapPacket 1 0, 0), (lapPacket 2 (11929 / 125), 1), (lapPacket 4 96, 2),
       (lapPacket 3 97, 3)]).isSome = true
      by decide!)
  exact ⟨hreset, ⟨m, hm, C8_accumulated_time_invariant resetMapper m _ hreset hm⟩, by decide!⟩

/-! ## Single player -/

/-- C10: from the reset model (22 drivers, none flagged), a call of `m_UpdateDrivers` with
player car index 1 followed by a call with player car index 2 leaves both driver 1 and
driver 2 with `IsPlayer = true`: only slot 0 is ever reverted. -/
theorem C10_two_players_flagged :
    resetMapper.Drivers.length = 22 ∧
    playerSlots (some resetMapper) = some [] ∧
    playerSlots (F12020UdpClrMapper.m_UpdateDrivers (withPlayerCarIndex resetMapper 1) 0)
      = some [1] ∧
    playerSlots
      ((F12020UdpClrMapper.m_UpdateDrivers (withPlayerCarIndex resetMapper 1) 0).bind
        (fun m => F12020UdpClrMapper.m_UpdateDrivers (withPlayerCarIndex m 2) 0))
      = some [1, 2] := by
  refine ⟨by decide!, by decide!, by decide!, by decide!⟩

/-- The session type that `m_UpdateDrivers` tests before its driver loop is the one of the
session packet of this cycle. -/
theorem m_UpdateDrivers_session {m m1 m2 m3 : F12020UdpClrMapper} {player leader : Option Nat}
    (hlap : F12020UdpClrMapper.forLoop F12020UdpClrMapper.lapStep
      (F12020UdpClrMapper.updateSession m).Drivers.length (F12020UdpClrMapper.updateSession m)
        = some m1)
    (hpres : F12020UdpClrMapper.forLoop F12020UdpClrMapper.presenceStep m1.CountDrivers.toNat m1
        = some m2)
    (hid : F12020UdpClrMapper.identify m2 = some (m3, player, leader)) :
    m3.SessionInfo.Session = m.parser.session.m_sessionType := by
  obtain ⟨-, -, -, -, -, -, -, ⟨c, hsi⟩, -⟩ := lapLoop_shape _ 0 _ m1 hlap
  have f2 : MapperFrame LapFrame m1 m2 :=
    forLoop_frame lapFrame_driverFrame (fun _ _ _ => presenceStep_frame lapFrame_driverFrame)
      hpres
  have f3 : MapperFrame LapFrame m2 m3 := identify_frame lapFrame_driverFrame hid
  rw [f3.2.2.1, f2.2.2.1, hsi]
  rfl

theorem bothCrossed_some_range {reference opponent : DriverData} {a : Int} {s : Nat} {b : Bool}
    (hs : s ≤ 2) (h : bothCrossed reference opponent a s = some b) : 0 ≤ a := by
  unfold bothCrossed at h
  rw [if_neg (by omega)] at h
  split at h
  · cases h
  · rename_i r hr
    exact (getLap_some_range hr).1

/-- The iteration budget `searchFuel` is never exhausted when the opponent's lap number is
not negative. -/
theorem raceSearch_enough_fuel {reference opponent : DriverData} (hopp : 0 ≤ opponent.LapNr) :
    ∀ (fuel : Nat) (idx : Int) (s : Nat), s ≤ 2 → 3 * (idx + 1).toNat + s < fuel →
      raceSearch reference opponent fuel idx s ≠ SearchOutcome.outOfFuel := by
  intro fuel
  induction fuel with
  | zero => intro idx s _ hf; omega
  | succ n ih =>
    intro idx s hs hf
    unfold raceSearch
    split
    · exact ih (idx - 1) 2 (le_refl _) (by omega)
    · split
      · exact fun h => by cases h
      · exact fun h => by cases h
      · rename_i hb
        have h0 := bothCrossed_some_range hs hb
        split
        · exact fun h => by cases h
        · split
          · exact ih idx (s - 1) (by omega) (by omega)
          · exact ih (idx - 1) 2 (le_refl _) (by omega)

theorem raceSearch_searchFuel {reference opponent : DriverData} (hopp : 0 ≤ opponent.LapNr) :
    raceSearch reference opponent (searchFuel reference) (reference.LapNr - 1) 2
      ≠ SearchOutcome.outOfFuel := by
  refine raceSearch_enough_fuel hopp _ _ _ (le_refl _) ?_
  unfold searchFuel
  omega

/-! ## The shape of one update cycle -/

theorem modifyDriver_shape {m m' : F12020UdpClrMapper} {i : Nat} {f : DriverData → DriverData}
    (h : F12020UdpClrMapper.modifyDriver m i f = some m') :
    ∃ d, m.Drivers[i]? = some d ∧ m' = { m with Drivers := m.Drivers.set i (f d) } := by
  unfold F12020UdpClrMapper.modifyDriver at h
  split at h
  · cases h
  · rename_i d hd
    simp only [Option.some.injEq] at h
    exact ⟨d, hd, h.symm⟩

theorem presenceStep_shape {i : Nat} {m m' : F12020UdpClrMapper}
    (h : F12020UdpClrMapper.presenceStep i m = some m') :
    ∃ d, m.Drivers[i]? = some d ∧
      m' = { m with Drivers := m.Drivers.set i (presenceOf (m.parser.lap.m_lapData i) d) } := by
  unfold F12020UdpClrMapper.presenceStep at h
  obtain ⟨d, hd, hm⟩ := modifyDriver_shape h
  refine ⟨d, hd, ?_⟩
  rw [hm]
  rfl

theorem presenceLoop_shape :
    ∀ (n k : Nat) (m m' : F12020UdpClrMapper),
      F12020UdpClrMapper.forLoopFrom F12020UdpClrMapper.presenceStep n k m = some m' →
      m'.parser = m.parser ∧ m'.Drivers.length = m.Drivers.length ∧
      m'.CountDrivers = m.CountDrivers ∧ m'.SessionInfo = m.SessionInfo ∧
      m'.objects = m.objects ∧
      ∀ j d, m.Drivers[j]? = some d →
        m'.Drivers[j]? =
          some (if k ≤ j ∧ j < k + n then presenceOf (m.parser.lap.m_lapData j) d else d) := by
  intro n
  induction n with
  | zero =>
    intro k m m' h
    simp only [F12020UdpClrMapper.forLoopFrom, Option.some.injEq] at h
    subst h
    refine ⟨rfl, rfl, rfl, rfl, rfl, ?_⟩
    intro j d hd
    rw [if_neg (by omega)]
    exact hd
  | succ n ih =>
    intro k m m' h
    unfold F12020UdpClrMapper.forLoopFrom at h
    split at h
    · cases h
    rename_i m1 hm1
    obtain ⟨dk, hdk, rfl⟩ := presenceStep_shape hm1
    obtain ⟨hp, hlen, hc, hs, ho, hdrv⟩ := ih (k + 1) _ m' h
    simp only at hp hlen hc hs ho hdrv
    refine ⟨hp, by rw [hlen, List.length_set], hc, hs, ho, ?_⟩
    intro j d hd
    by_cases hjk : k = j
    · subst hjk
      rw [hdk] at hd
      cases hd
      rw [hdrv k _ (get_set_same hdk), if_neg (by omega), if_pos ⟨le_refl _, by omega⟩]
    · have hd' : (m.Drivers.set k (presenceOf (m.parser.lap.m_lapData k) dk))[j]? = some d := by
        rw [get_set_other hjk]
        exact hd
      rw [hdrv j d hd']
      by_cases hin : k + 1 ≤ j ∧ j < k + 1 + n
      · rw [if_pos hin, if_pos ⟨by omega, by omega⟩]
      · rw [if_neg hin, if_neg (fun hc => hin ⟨by omega, by omega⟩)]

theorem identify_flag {R : DriverData → DriverData → Prop} (hR : FlagFrame R)
    {m m' : F12020UdpClrMapper} {player leader : Option Nat}
    (h : F12020UdpClrMapper.identify m = some (m', player, leader)) :
    Pointwise R m.Drivers m'.Drivers ∧ m'.parser = m.parser ∧
      m'.CountDrivers = m.CountDrivers ∧ m'.SessionInfo = m.SessionInfo ∧
      m'.objects = m.objects := by
  have hstep : ∀ (a b : F12020UdpClrMapper) (i : Nat) (f : DriverData → DriverData),
      (∀ d, R d (f d)) → F12020UdpClrMapper.modifyDriver a i f = some b →
      Pointwise R a.Drivers b.Drivers ∧ b.parser = a.parser ∧
        b.CountDrivers = a.CountDrivers ∧ b.SessionInfo = a.SessionInfo ∧
        b.objects = a.objects := by
    intro a b i f hf hab
    obtain ⟨d, hd, rfl⟩ := modifyDriver_shape hab
    exact ⟨pointwise_set hR.refl hd (hf d), rfl, rfl, rfl, rfl⟩
  have hrefl : ∀ a : F12020UdpClrMapper,
      Pointwise R a.Drivers a.Drivers ∧ a.parser = a.parser ∧
        a.CountDrivers = a.CountDrivers ∧ a.SessionInfo = a.SessionInfo ∧
        a.objects = a.objects :=
    fun a => ⟨pointwise_refl hR.refl _, rfl, rfl, rfl, rfl⟩
  have htrans : ∀ (a b c : F12020UdpClrMapper),
      (Pointwise R a.Drivers b.Drivers ∧ b.parser = a.parser ∧
        b.CountDrivers = a.CountDrivers ∧ b.SessionInfo = a.SessionInfo ∧
        b.objects = a.objects) →
      (Pointwise R b.Drivers c.Drivers ∧ c.parser = b.parser ∧
        c.CountDrivers = b.CountDrivers ∧ c.SessionInfo = b.SessionInfo ∧
        c.objects = b.objects) →
      Pointwise R a.Drivers c.Drivers ∧ c.parser = a.parser ∧
        c.CountDrivers = a.CountDrivers ∧ c.SessionInfo = a.SessionInfo ∧
        c.objects = a.objects := by
    rintro a b c ⟨p1, q1, r1, s1, t1⟩ ⟨p2, q2, r2, s2, t2⟩
    exact ⟨pointwise_trans hR.trans p1 p2, q2.trans q1, r2.trans r1, s2.trans s1, t2.trans t1⟩
  unfold F12020UdpClrMapper.identify at h
  simp only at h
  split at h
  · cases h
  rename_i m1 hm1
  have f1 := hrefl m
  have f1 : Pointwise R m.Drivers m1.Drivers ∧ m1.parser = m.parser ∧
      m1.CountDrivers = m.CountDrivers ∧ m1.SessionInfo = m.SessionInfo ∧
      m1.objects = m.objects := by
    split at hm1
    · exact hstep _ _ _ _ (fun d => hR.leader d) hm1
    · simp only [Option.some.injEq] at hm1
      rw [← hm1]
      exact hrefl m
  split at h
  · cases h
  rename_i m2 hm2
  have f2 : Pointwise R m1.Drivers m2.Drivers ∧ m2.parser = m1.parser ∧
      m2.CountDrivers = m1.CountDrivers ∧ m2.SessionInfo = m1.SessionInfo ∧
      m2.objects = m1.objects := by
    split at hm2
    · exact hstep _ _ _ _ (fun d => hR.unflag d) hm2
    · simp only [Option.some.injEq] at hm2
      rw [← hm2]
      exact hrefl m1
  split at h
  · split at h
    · cases h
    · rename_i m3 hm3
      simp only [Option.some.injEq, Prod.mk.injEq] at h
      rw [← h.1]
      exact htrans _ _ _ (htrans _ _ _ f1 f2) (hstep _ _ _ _ (fun d => hR.flag d) hm3)
  · simp only [Option.some.injEq, Prod.mk.injEq] at h
    rw [← h.1]
    exact htrans _ _ _ f1 f2

theorem driverStep_absent {player leader : Option Nat} {q : Bool} {now : Time} {i : Nat}
    {m m' : F12020UdpClrMapper} {d : DriverData}
    (h : F12020UdpClrMapper.driverStep player leader q now i m = some m')
    (hd : m.Drivers[i]? = some d) (hp : d.Present = false) : m' = m := by
  unfold F12020UdpClrMapper.driverStep at h
  rw [hd] at h
  simp only [hp, Bool.not_false, if_true, Option.some.injEq] at h
  exact h.symm

theorem driverLoop_shape {player leader : Option Nat} {q : Bool} {now : Time} :
    ∀ (n k : Nat) (m m' : F12020UdpClrMapper),
      F12020UdpClrMapper.forLoopFrom (F12020UdpClrMapper.driverStep player leader q now) n k m
        = some m' →
      m'.parser = m.parser ∧ m'.Drivers.length = m.Drivers.length ∧
      m'.CountDrivers = m.CountDrivers ∧ m'.SessionInfo = m.SessionInfo ∧
      ∀ j d, m.Drivers[j]? = some d →
        ((k ≤ j ∧ j < k + n) →
          (m'.Drivers[j]? = some d ∨
            (d.Present = true ∧ ∃ d1 objects, DeltaOnly d d1 ∧
              m'.Drivers[j]? =
                some (F12020UdpClrMapper.carUpdate m.parser j now objects d1).1))) ∧
        (¬ (k ≤ j ∧ j < k + n) → m'.Drivers[j]? = some d) := by
  intro n
  induction n with
  | zero =>
    intro k m m' h
    simp only [F12020UdpClrMapper.forLoopFrom, Option.some.injEq] at h
    subst h
    refine ⟨rfl, rfl, rfl, rfl, ?_⟩
    intro j d hd
    exact ⟨fun hj => by omega, fun _ => hd⟩
  | succ n ih =>
    intro k m m' h
    unfold F12020UdpClrMapper.forLoopFrom at h
    split at h
    · cases h
    rename_i m1 hm1
    obtain ⟨hp, hlen, hc, hs, hdrv⟩ := ih (k + 1) m1 m' h
    obtain ⟨dk, hdk, hcase⟩ := driverStep_shape hm1
    have hnot : ¬ (k + 1 ≤ k ∧ k < k + 1 + n) := by omega
    have hcase2 : m1 = m ∨ (dk.Present = true ∧ ∃ d1, DeltaOnly dk d1 ∧
        m1 = { m with
               Drivers :=
                 m.Drivers.set k (F12020UdpClrMapper.carUpdate m.parser k now m.objects d1).1,
               objects := (F12020UdpClrMapper.carUpdate m.parser k now m.objects d1).2 }) := by
      cases hpk : dk.Present with
      | false => exact Or.inl (driverStep_absent hm1 hdk hpk)
      | true =>
        rcases hcase with hm | hm
        · exact Or.inl hm
        · exact Or.inr ⟨rfl, hm⟩
    rcases hcase2 with hm | ⟨hpres, d1, hd1, hm⟩
    · subst hm
      refine ⟨hp, hlen, hc, hs, ?_⟩
      intro j d hd
      obtain ⟨hin, hout⟩ := hdrv j d hd
      by_cases hjk : k = j
      · subst hjk
        exact ⟨fun _ => Or.inl (hout hnot), fun hc => absurd ⟨le_refl _, by omega⟩ hc⟩
      · exact ⟨fun hj => hin ⟨by omega, by omega⟩,
          fun hj => hout (fun hc => hj ⟨by omega, by omega⟩)⟩
    · subst hm
      simp only at hp hlen hc hs hdrv
      refine ⟨hp, by rw [hlen, List.length_set], hc, hs, ?_⟩
      intro j d hd
      by_cases hjk : k = j
      · subst hjk
        rw [hdk] at hd
        cases hd
        have := (hdrv k _ (get_set_same hdk)).2 hnot
        exact ⟨fun _ => Or.inr ⟨hpres, d1, m.objects, hd1, this⟩,
          fun hc => absurd ⟨le_refl _, by omega⟩ hc⟩
      · have hd' : (m.Drivers.set k
            (F12020UdpClrMapper.carUpdate m.parser k now m.objects d1).1)[j]? = some d := by
          rw [get_set_other hjk]
          exact hd
        obtain ⟨hin, hout⟩ := hdrv j d hd'
        exact ⟨fun hj => hin ⟨by omega, by omega⟩,
          fun hj => hout (fun hc => hj ⟨by omega, by omega⟩)⟩

/-- Every driver after `m_UpdateDrivers`: the lap update of the old driver (with possibly new
names), then the presence switch if the slot is below the driver count, then changes within a
relation `R` that the player and leader statements respect, then either nothing more or, for
a present driver, new deltas and the per-car update. -/
theorem m_UpdateDrivers_shape {R : DriverData → DriverData → Prop} (hR : FlagFrame R)
    {m m' : F12020UdpClrMapper} {now : Time}
    (h : F12020UdpClrMapper.m_UpdateDrivers m now = some m') :
    m'.Drivers.length = m.Drivers.length ∧ m'.parser = m.parser ∧
    m'.CountDrivers = (F12020UdpClrMapper.updateSession m).CountDrivers ∧
    ∀ j d, m.Drivers[j]? = some d →
      ∃ d0 d1 d3 d', NameOnly d d0 ∧
        F12020UdpClrMapper.lapUpdate (m.parser.lap.m_lapData j) d0 = some d1 ∧
        R (if j < m'.CountDrivers.toNat then presenceOf (m.parser.lap.m_lapData j) d1 else d1)
          d3 ∧
        m'.Drivers[j]? = some d' ∧
        (d' = d3 ∨ (d3.Present = true ∧ ∃ d4 objects, DeltaOnly d3 d4 ∧
          d' = (F12020UdpClrMapper.carUpdate m.parser j now objects d4).1)) := by
  unfold F12020UdpClrMapper.m_UpdateDrivers at h
  simp only at h
  split at h
  · cases h
  rename_i m1 hm1
  obtain ⟨hp1, hlen1, hc1, -, -, -, -, -, hdrv1⟩ := lapLoop_shape _ 0 _ m1 hm1
  have hp1' : m1.parser = m.parser := hp1
  have hlen1' : m1.Drivers.length = m.Drivers.length := hlen1
  split at h
  · cases h
  rename_i m2 hm2
  obtain ⟨hp2, hlen2, hc2, -, -, hdrv2⟩ := presenceLoop_shape _ 0 m1 m2 hm2
  split at h
  · cases h
  rename_i m3 player leader hm3
  obtain ⟨⟨hlen3, hrel3⟩, hp3, hc3, -, -⟩ := identify_flag hR hm3
  have hlen4 : m'.Drivers.length = m3.Drivers.length ∧ m'.parser = m3.parser ∧
      m'.CountDrivers = m3.CountDrivers ∧
      ∀ j d, m3.Drivers[j]? = some d →
        (m'.Drivers[j]? = some d ∨
          (d.Present = true ∧ ∃ d1 objects, DeltaOnly d d1 ∧
            m'.Drivers[j]? =
              some (F12020UdpClrMapper.carUpdate m3.parser j now objects d1).1)) := by
    split at h
    · simp only [Option.some.injEq] at h
      subst h
      exact ⟨rfl, rfl, rfl, fun j d hd => Or.inl hd⟩
    · obtain ⟨hp, hlen, hc, -, hdrv⟩ := driverLoop_shape _ 0 m3 m' h
      refine ⟨hlen, hp, hc, ?_⟩
      intro j d hd
      have hj : j < m3.Drivers.length := by
        by_contra hlt
        rw [List.getElem?_eq_none (by omega)] at hd
        cases hd
      exact (hdrv j d hd).1 ⟨Nat.zero_le _, by omega⟩
  obtain ⟨hlen4, hp4, hc4, hdrv4⟩ := hlen4
  have hcount : m'.CountDrivers = (F12020UdpClrMapper.updateSession m).CountDrivers := by
    rw [hc4, hc3, hc2, hc1]
  refine ⟨by rw [hlen4, hlen3, hlen2, hlen1'], by rw [hp4, hp3, hp2, hp1'], hcount, ?_⟩
  intro j d hd
  have hj : j < m.Drivers.length := by
    by_contra hlt
    rw [List.getElem?_eq_none (by omega)] at hd
    cases hd
  have hd' : (F12020UdpClrMapper.updateSession m).Drivers[j]? = some d := hd
  obtain ⟨d0, d1, hname, hlap, hd1⟩ :=
    (hdrv1 j d hd').1 ⟨Nat.zero_le _, by simpa using hj⟩
  have hd2 := hdrv2 j d1 hd1
  have hj3 : j < m3.Drivers.length := by rw [hlen3, hlen2, hlen1']; exact hj
  have hd3 : m3.Drivers[j]? = some m3.Drivers[j] := List.getElem?_eq_getElem hj3
  have hr := hrel3 j _ _ hd2 hd3
  have hcond : (0 ≤ j ∧ j < 0 + m1.CountDrivers.toNat) ↔ j < m'.CountDrivers.toNat := by
    rw [hc4, hc3, hc2]
    constructor
    · intro hc
      omega
    · intro hc
      omega
  have hr' : R (if j < m'.CountDrivers.toNat
      then presenceOf (m.parser.lap.m_lapData j) d1 else d1) m3.Drivers[j] := by
    have hpar : m1.parser.lap.m_lapData j = m.parser.lap.m_lapData j := by rw [hp1']
    rw [hpar] at hr
    by_cases hc : j < m'.CountDrivers.toNat
    · rw [if_pos hc]
      rw [if_pos (hcond.2 hc)] at hr
      exact hr
    · rw [if_neg hc]
      rw [if_neg (fun hx => hc (hcond.1 hx))] at hr
      exact hr
  have hpar3 : m3.parser = m.parser := by rw [hp3, hp2, hp1']
  rcases hdrv4 j _ hd3 with hsame | ⟨hpres, d4, objects, hdelta, hupd⟩
  · exact ⟨d0, d1, _, _, hname, hlap, hr', hsame, Or.inl rfl⟩
  · rw [hpar3] at hupd
    exact ⟨d0, d1, _, _, hname, hlap, hr', hupd, Or.inr ⟨hpres, d4, objects, hdelta, rfl⟩⟩

/-! ## The per-car update in terms of the pit stop state -/

theorem sameCar_trans {a b c : DriverData} (h1 : SameCar a b) (h2 : SameCar b c) :
    SameCar a c := by
  obtain ⟨⟨a1, a2, a3, a4, a5⟩, a6, a7, a8, a9⟩ := h1
  obtain ⟨⟨b1, b2, b3, b4, b5⟩, b6, b7, b8, b9⟩ := h2
  exact ⟨⟨b1.trans a1, b2.trans a2, b3.trans a3, b4.trans a4, b5.trans a5⟩, b6.trans a6,
    b7.trans a7, b8.trans a8, b9.trans a9⟩

theorem updateTelemetry_sameCar (t : CarTelemetryData) (d : DriverData) :
    SameCar d (F12020UdpClrMapper.updateTelemetry t d) := by
  unfold F12020UdpClrMapper.updateTelemetry
  split <;> exact ⟨⟨rfl, rfl, rfl, rfl, rfl⟩, rfl, rfl, rfl, rfl⟩

theorem updateTyre_sameCar (c : CarStatusData) (d : DriverData) :
    SameCar d (F12020UdpClrMapper.updateTyre c d) := by
  unfold F12020UdpClrMapper.updateTyre
  split <;> exact ⟨⟨rfl, rfl, rfl, rfl, rfl⟩, rfl, rfl, rfl, rfl⟩

theorem updateDamage_sameCar (c : CarStatusData) (d : DriverData) :
    SameCar d (F12020UdpClrMapper.updateDamage c d) := by
  unfold F12020UdpClrMapper.updateDamage
  split <;> exact ⟨⟨rfl, rfl, rfl, rfl, rfl⟩, rfl, rfl, rfl, rfl⟩

theorem updateFastestLap_sameCar (l : NativeLapData) (d : DriverData) :
    SameCar d (F12020UdpClrMapper.updateFastestLap l d) := by
  unfold F12020UdpClrMapper.updateFastestLap
  split <;> exact ⟨⟨rfl, rfl, rfl, rfl, rfl⟩, rfl, rfl, rfl, rfl⟩

theorem addFirstTyre_fields {e : DriverData} {present : Bool} {lapNr : Int} {delta : Time}
    {penalties : List Nat} {status : DriverStatus} {tyres : List Nat} {hasPitted : Bool}
    {fitted age : Int} {compound : Nat}
    (h : HasFields e present lapNr delta penalties status tyres hasPitted fitted age compound) :
    HasFields (F12020UdpClrMapper.addFirstTyre e) present lapNr delta penalties status
      (tyres ++ (if tyres.length = 0 ∧ compound ≠ 0 then [compound] else []))
      hasPitted fitted age compound := by
  obtain ⟨h1, h2, h3, h4, h5, h6, h7, h8, h9, h10⟩ := h
  have hcond : (e.VisualTyres.length = 0 ∧ e.VisualTyre ≠ 0) ↔
      (tyres.length = 0 ∧ compound ≠ 0) := by rw [h6, h10]
  unfold F12020UdpClrMapper.addFirstTyre
  by_cases hc : tyres.length = 0 ∧ compound ≠ 0
  · rw [if_pos (hcond.2 hc), if_pos hc]
    refine ⟨h1, h2, h3, h4, h5, ?_, h7, h8, h9, h10⟩
    show e.VisualTyres ++ [e.VisualTyre] = _
    rw [h6, h10]
  · rw [if_neg (fun hx => hc (hcond.1 hx)), if_neg hc, List.append_nil]
    exact ⟨h1, h2, h3, h4, h5, h6, h7, h8, h9, h10⟩

theorem setStatus_fields (raw : NativeLapData) {e : DriverData} {present : Bool} {lapNr : Int}
    {delta : Time} {penalties : List Nat} {status : DriverStatus} {tyres : List Nat}
    {hasPitted : Bool} {fitted age : Int} {compound : Nat}
    (h : HasFields e present lapNr delta penalties status tyres hasPitted fitted age compound) :
    HasFields (F12020UdpClrMapper.setStatus raw e) present lapNr delta penalties
      (F12020UdpClrMapper.classifyStatus raw hasPitted).1 tyres
      (F12020UdpClrMapper.classifyStatus raw hasPitted).2 fitted age compound := by
  obtain ⟨h1, h2, h3, h4, h5, h6, h7, h8, h9, h10⟩ := h
  unfold F12020UdpClrMapper.setStatus
  rw [h7]
  exact ⟨h1, h2, h3, h4, rfl, h6, rfl, h8, h9, h10⟩

theorem addChangedTyre_fields (old : DriverStatus) {e : DriverData} {present : Bool}
    {lapNr : Int} {delta : Time} {penalties : List Nat} {status : DriverStatus}
    {tyres : List Nat} {hasPitted : Bool} {fitted age : Int} {compound : Nat}
    (h : HasFields e present lapNr delta penalties status tyres hasPitted fitted age compound) :
    HasFields (F12020UdpClrMapper.addChangedTyre old e) present lapNr delta penalties status
      (tyres ++ (if old = DriverStatus.Pitting ∧ status ≠ old then [compound] else []))
      hasPitted fitted age compound := by
  obtain ⟨h1, h2, h3, h4, h5, h6, h7, h8, h9, h10⟩ := h
  have hcond : (old = DriverStatus.Pitting ∧ e.Status ≠ old) ↔
      (old = DriverStatus.Pitting ∧ status ≠ old) := by rw [h5]
  unfold F12020UdpClrMapper.addChangedTyre
  by_cases hc : old = DriverStatus.Pitting ∧ status ≠ old
  · rw [if_pos (hcond.2 hc), if_pos hc]
    refine ⟨h1, h2, h3, h4, h5, ?_, h7, h8, h9, h10⟩
    show e.VisualTyres ++ [e.VisualTyre] = _
    rw [h6, h10]
  · rw [if_neg (fun hx => hc (hcond.1 hx)), if_neg hc, List.append_nil]
    exact ⟨h1, h2, h3, h4, h5, h6, h7, h8, h9, h10⟩

theorem pitTransition_fields (now : Time) (objects : List SessionEvent) (old : DriverStatus)
    {e : DriverData} {present : Bool} {lapNr : Int} {delta : Time} {penalties : List Nat}
    {status : DriverStatus} {tyres : List Nat} {hasPitted : Bool} {fitted age : Int}
    {compound : Nat}
    (h : HasFields e present lapNr delta penalties status tyres hasPitted fitted age compound) :
    HasFields (F12020UdpClrMapper.pitTransition now objects old e).1 present lapNr delta
      penalties status tyres
      (if old = DriverStatus.Pitlane ∧ status = DriverStatus.OnTrack then false else hasPitted)
      (if (old = DriverStatus.Pitlane ∧ status = DriverStatus.OnTrack) ∧ hasPitted = true
       then lapNr else fitted)
      (if (old = DriverStatus.Pitlane ∧ status = DriverStatus.OnTrack) ∧ hasPitted = true
       then 0 else age)
      compound ∧
    (F12020UdpClrMapper.pitTransition now objects old e).2 =
      (if old = DriverStatus.Pitlane ∧ status = DriverStatus.OnTrack then
         (if hasPitted = true
          then F12020UdpClrMapper.serveFirst objects
                 (F12020UdpClrMapper.stopPenaltyPending now) penalties
          else F12020UdpClrMapper.serveFirst objects
                 F12020UdpClrMapper.driveThroughPending penalties)
       else objects) := by
  obtain ⟨h1, h2, h3, h4, h5, h6, h7, h8, h9, h10⟩ := h
  have hcond : (old = DriverStatus.Pitlane ∧ e.Status = DriverStatus.OnTrack) ↔
      (old = DriverStatus.Pitlane ∧ status = DriverStatus.OnTrack) := by rw [h5]
  unfold F12020UdpClrMapper.pitTransition
  by_cases hc : old = DriverStatus.Pitlane ∧ status = DriverStatus.OnTrack
  · rw [if_pos (hcond.2 hc), if_pos hc, if_pos hc]
    cases hasPitted with
    | false =>
      have hn : (!e.m_hasPitted) = true := by rw [h7]; rfl
      rw [if_pos hn, if_neg (fun hx => Bool.false_ne_true hx.2),
        if_neg (fun hx => Bool.false_ne_true hx.2), if_neg Bool.false_ne_true]
      refine ⟨⟨h1, h2, h3, h4, h5, h6, rfl, h8, h9, h10⟩, ?_⟩
      show F12020UdpClrMapper.serveFirst objects _ e.PitPenalties = _
      rw [h4]
    | true =>
      have hn : ¬ (!e.m_hasPitted) = true := by rw [h7]; exact Bool.false_ne_true
      rw [if_neg hn, if_pos ⟨hc, rfl⟩, if_pos ⟨hc, rfl⟩, if_pos rfl]
      refine ⟨⟨h1, h2, h3, h4, h5, h6, rfl, h2, rfl, h10⟩, ?_⟩
      show F12020UdpClrMapper.serveFirst objects _ e.PitPenalties = _
      rw [h4]
  · rw [if_neg (fun hx => hc (hcond.1 hx)), if_neg hc, if_neg hc, if_neg (fun hx => hc hx.1),
      if_neg (fun hx => hc hx.1)]
    exact ⟨⟨h1, h2, h3, h4, h5, h6, h7, h8, h9, h10⟩, rfl⟩

/-- The fields of the result of the per-car update that concern presence, pit stops and
penalties, in terms of the driver before it, the new status and the reported compound. -/
theorem carUpdate_fields (p : F12020ElementaryParser) (i : Nat) (now : Time)
    (objects : List SessionEvent) (c : DriverData) :
    (F12020UdpClrMapper.carUpdate p i now objects c).1.Present = c.Present ∧
    (F12020UdpClrMapper.carUpdate p i now objects c).1.LapNr = c.LapNr ∧
    (F12020UdpClrMapper.carUpdate p i now objects c).1.TimedeltaToPlayer
      = c.TimedeltaToPlayer ∧
    (F12020UdpClrMapper.carUpdate p i now objects c).1.PitPenalties = c.PitPenalties ∧
    (F12020UdpClrMapper.carUpdate p i now objects c).1.Status
      = (F12020UdpClrMapper.classifyStatus (p.lap.m_lapData i) c.m_hasPitted).1 ∧
    (F12020UdpClrMapper.carUpdate p i now objects c).1.VisualTyres
      = (c.VisualTyres ++
          (if c.VisualTyres.length = 0 ∧ (p.status.m_carStatusData i).m_visualTyreCompound ≠ 0
           then [(p.status.m_carStatusData i).m_visualTyreCompound] else [])) ++
          (if c.Status = DriverStatus.Pitting ∧
              (F12020UdpClrMapper.classifyStatus (p.lap.m_lapData i) c.m_hasPitted).1 ≠ c.Status
           then [(p.status.m_carStatusData i).m_visualTyreCompound] else []) ∧
    (F12020UdpClrMapper.carUpdate p i now objects c).1.m_hasPitted
      = (if c.Status = DriverStatus.Pitlane ∧
            (F12020UdpClrMapper.classifyStatus (p.lap.m_lapData i) c.m_hasPitted).1
              = DriverStatus.OnTrack
         then false
         else (F12020UdpClrMapper.classifyStatus (p.lap.m_lapData i) c.m_hasPitted).2) ∧
    (F12020UdpClrMapper.carUpdate p i now objects c).1.m_lapTiresFitted
      = (if (c.Status = DriverStatus.Pitlane ∧
            (F12020UdpClrMapper.classifyStatus (p.lap.m_lapData i) c.m_hasPitted).1
              = DriverStatus.OnTrack) ∧
            (F12020UdpClrMapper.classifyStatus (p.lap.m_lapData i) c.m_hasPitted).2 = true
         then c.LapNr else c.m_lapTiresFitted) ∧
    (F12020UdpClrMapper.carUpdate p i now objects c).1.TyreAge
      = (if (c.Status = DriverStatus.Pitlane ∧
            (F12020UdpClrMapper.classifyStatus (p.lap.m_lapData i) c.m_hasPitted).1
              = DriverStatus.OnTrack) ∧
            (F12020UdpClrMapper.classifyStatus (p.lap.m_lapData i) c.m_hasPitted).2 = true
         then 0 else c.TyreAge) ∧
    (F12020UdpClrMapper.carUpdate p i now objects c).2
      = (if c.Status = DriverStatus.Pitlane ∧
            (F12020UdpClrMapper.classifyStatus (p.lap.m_lapData i) c.m_hasPitted).1
              = DriverStatus.OnTrack
         then
           (if (F12020UdpClrMapper.classifyStatus (p.lap.m_lapData i) c.m_hasPitted).2 = true
            then F12020UdpClrMapper.serveFirst objects
                   (F12020UdpClrMapper.stopPenaltyPending now) c.PitPenalties
            else F12020UdpClrMapper.serveFirst objects
                   F12020UdpClrMapper.driveThroughPending c.PitPenalties)
         else objects) := by
  unfold F12020UdpClrMapper.carUpdate
  simp only
  have h1 := updateTelemetry_sameCar (p.telemetry.m_carTelemetryData i) c
  generalize F12020UdpClrMapper.updateTelemetry (p.telemetry.m_carTelemetryData i) c = e1
    at h1 ⊢
  have h2 := sameCar_trans h1 (updateTyre_sameCar (p.status.m_carStatusData i) e1)
  generalize F12020UdpClrMapper.updateTyre (p.status.m_carStatusData i) e1 = e2 at h2 ⊢
  have h3 := sameCar_trans h2 (updateDamage_sameCar (p.status.m_carStatusData i) e2)
  generalize F12020UdpClrMapper.updateDamage (p.status.m_carStatusData i) e2 = e3 at h3 ⊢
  have h4 := sameCar_trans h3 (updateFastestLap_sameCar (p.lap.m_lapData i) e3)
  generalize F12020UdpClrMapper.updateFastestLap (p.lap.m_lapData i) e3 = e4 at h4 ⊢
  obtain ⟨⟨k1, k2, k3, k4, k5⟩, k6, k7, k8, k9⟩ := h4
  have h5 : HasFields (F12020UdpClrMapper.copyCarStatus (p.lap.m_lapData i)
      (p.status.m_carStatusData i) e4) c.Present c.LapNr c.TimedeltaToPlayer c.PitPenalties
      c.Status c.VisualTyres c.m_hasPitted c.m_lapTiresFitted c.TyreAge
      (p.status.m_carStatusData i).m_visualTyreCompound :=
    ⟨k6, k7, k9, k5, k2, k1, k3, k4, k8, rfl⟩
  generalize F12020UdpClrMapper.copyCarStatus (p.lap.m_lapData i)
    (p.status.m_carStatusData i) e4 = e5 at h5 ⊢
  have h6 := addFirstTyre_fields h5
  generalize F12020UdpClrMapper.addFirstTyre e5 = e6 at h6 ⊢
  have h7 := setStatus_fields (p.lap.m_lapData i) h6
  have hold : e6.Status = c.Status := h6.2.2.2.2.1
  rw [hold]
  generalize F12020UdpClrMapper.setStatus (p.lap.m_lapData i) e6 = e7 at h7 ⊢
  have h8 := addChangedTyre_fields c.Status h7
  generalize F12020UdpClrMapper.addChangedTyre c.Status e7 = e8 at h8 ⊢
  obtain ⟨h9, hobj⟩ := pitTransition_fields now objects c.Status h8
  generalize F12020UdpClrMapper.pitTransition now objects c.Status e8 = res at h9 hobj ⊢
  obtain ⟨g1, g2, g3, g4, g5, g6, g7, g8, g9, -⟩ := h9
  unfold F12020UdpClrMapper.setTeam
  exact ⟨g1, g2, g3, g4, g5, g6, g7, g8, g9, hobj⟩

/-! ## Presence -/

theorem lapUpdate_frame {raw : NativeLapData} {d0 d1 : DriverData}
    (h : F12020UdpClrMapper.lapUpdate raw d0 = some d1) :
    ∃ pos nr age laps, d1 = { d0 with Pos := pos, LapNr := nr, TyreAge := age, Laps := laps } := by
  unfold F12020UdpClrMapper.lapUpdate at h
  simp only at h
  split at h
  · unfold F12020UdpClrMapper.lapRollover at h
    simp only at h
    split at h
    · cases h
    · split at h
      · split at h
        · cases h
        · split at h
          · split at h
            · cases h
            · simp only [Option.some.injEq] at h
              rw [← h]
              exact ⟨_, _, _, _, rfl⟩
          · split at h
            · cases h
            · split at h
              · cases h
              · simp only [Option.some.injEq] at h
                rw [← h]
                exact ⟨_, _, _, _, rfl⟩
      · simp only [Option.some.injEq] at h
        rw [← h]
        exact ⟨_, _, _, _, rfl⟩
  · split at h
    · unfold F12020UdpClrMapper.sectorUpdate at h
      split at h
      · cases h
      · simp only [Option.some.injEq] at h
        rw [← h]
        exact ⟨_, _, _, _, rfl⟩
    · simp only [Option.some.injEq] at h
      rw [← h]
      exact ⟨_, _, _, _, rfl⟩

theorem samePresence_flagFrame : FlagFrame SamePresence where
  refl := fun _ => ⟨rfl, Or.inl rfl⟩
  trans := by
    rintro a b c ⟨h1, h2⟩ ⟨h3, h4⟩
    refine ⟨h3.trans h1, ?_⟩
    rcases h4 with h4 | h4
    · rcases h2 with h2 | h2
      · exact Or.inl (h4.trans h2)
      · exact Or.inr (h4.trans h2)
    · exact Or.inr h4
  leader := fun _ => ⟨rfl, Or.inl rfl⟩
  unflag := fun _ => ⟨rfl, Or.inl rfl⟩
  flag := fun _ => ⟨rfl, Or.inr rfl⟩

theorem presenceOf_present (raw : NativeLapData) (d : DriverData) :
    ((presenceOf raw d).Present = true ↔ (raw.m_resultStatus = 2 ∨ raw.m_resultStatus = 3)) ∧
    ((presenceOf raw d).Present = false → (presenceOf raw d).TimedeltaToPlayer = 0) := by
  unfold presenceOf
  split
  · rename_i h2
    simp [h2]
  · rename_i h3
    simp [h3]
  · rename_i h2 h3
    refine ⟨?_, fun _ => rfl⟩
    constructor
    · intro hc
      cases hc
    · rintro (hc | hc)
      · exact absurd hc h2
      · exact absurd hc h3

/-- C13: after `m_UpdateDrivers` the driver count is the larger of the old count and the number
of active cars; for every slot `i` below it, `Present` is true iff the result status of car
`i` is 2 or 3, and a driver that is not present has `TimedeltaToPlayer = 0`; for every slot
from the driver count on, `Present` is unchanged. -/
theorem C13_presence_rule (m m' : F12020UdpClrMapper) (now : Time) (i : Nat) (d : DriverData)
    (h : F12020UdpClrMapper.m_UpdateDrivers m now = some m')
    (hd : m.Drivers[i]? = some d) :
    m'.CountDrivers = max m.CountDrivers (m.parser.participants.m_numActiveCars : Int) ∧
    ∃ d', m'.Drivers[i]? = some d' ∧
      ((i : Int) < m'.CountDrivers →
        (d'.Present = true ↔
          ((m.parser.lap.m_lapData i).m_resultStatus = 2 ∨
            (m.parser.lap.m_lapData i).m_resultStatus = 3)) ∧
        (d'.Present = false → d'.TimedeltaToPlayer = 0)) ∧
      (m'.CountDrivers ≤ (i : Int) → d'.Present = d.Present) := by
  obtain ⟨-, -, hcount, hdrv⟩ := m_UpdateDrivers_shape samePresence_flagFrame h
  constructor
  · rw [hcount]
    unfold F12020UdpClrMapper.updateSession
    simp only
    split
    · rename_i hgt
      rw [max_eq_right (le_of_lt hgt)]
    · rename_i hgt
      rw [max_eq_left (not_lt.1 hgt)]
  obtain ⟨d0, d1, d3, d', ⟨a, b, c, hd0⟩, hlap, ⟨hp3, ht3⟩, hd', hcase⟩ := hdrv i d hd
  obtain ⟨pos, nr, age, laps, hd1⟩ := lapUpdate_frame hlap
  have hp1 : d1.Present = d.Present := by rw [hd1, hd0]
  have hp' : d'.Present = d3.Present ∧ (d3.Present = false → d' = d3) := by
    rcases hcase with hs | ⟨hpres, d4, objects, ⟨x, y, z, hd4⟩, hupd⟩
    · exact ⟨by rw [hs], fun _ => hs⟩
    · constructor
      · rw [hupd, (carUpdate_fields m.parser i now objects d4).1, hd4]
      · intro hf
        rw [hpres] at hf
        cases hf
  refine ⟨d', hd', ?_, ?_⟩
  · intro hlt
    have hlt' : i < m'.CountDrivers.toNat := Int.lt_toNat.2 hlt
    rw [if_pos hlt'] at hp3 ht3
    obtain ⟨q1, q2⟩ := presenceOf_present (m.parser.lap.m_lapData i) d1
    rw [← hp3] at q1 q2
    constructor
    · rw [hp'.1]
      exact q1
    · intro hf
      rw [hp'.1] at hf
      rw [hp'.2 hf]
      rcases ht3 with ht | ht
      · rw [ht]
        exact q2 hf
      · exact ht
  · intro hge
    have hge' : ¬ i < m'.CountDrivers.toNat := fun hx => by
      have := Int.lt_toNat.1 hx
      omega
    rw [if_neg hge'] at hp3
    rw [hp'.1, hp3, hp1]

/-- C13 on a cycle from the reset model with two active cars, car 1 with result status 7:
the driver count becomes 2 and driver 1, below it, is not present and has delta 0. -/
theorem C13_presence_rule_witness :
    ∃ m', F12020UdpClrMapper.m_UpdateDrivers { resetMapper with parser := resultPacket 7 } 0
        = some m' ∧
      m'.CountDrivers = 2 ∧
      ∃ d', m'.Drivers[1]? = some d' ∧ d'.Present = false ∧ d'.TimedeltaToPlayer = 0 := by
  obtain ⟨m', hm'⟩ := Option.isSome_iff_exists.1
    (show (F12020UdpClrMapper.m_UpdateDrivers
      { resetMapper with parser := resultPacket 7 } 0).isSome = true by decide!)
  obtain ⟨hc, d', hd', h1, -⟩ := C13_presence_rule { resetMapper with parser := resultPacket 7 }
    m' 0 1 { Laps := List.replicate 5 {} } hm' (by decide!)
  have hc2 : m'.CountDrivers = 2 := hc.trans (by decide!)
  obtain ⟨hiff, hzero⟩ := h1 (by rw [hc2]; decide)
  have hnp : d'.Present = false := by
    cases hp : d'.Present with
    | false => rfl
    | true => exact absurd (hiff.1 hp) (by decide!)
  exact ⟨m', hm', hc2, d', hd', hnp, hzero hnp⟩

/-! ## Sector times -/

/-- C15: for a driver that stays on its lap (`LapNr = currentLapNum > 0`), `m_UpdateDrivers`
replaces the slot of the current lap by one in which `Sector1` is `sector1TimeInMS / 1000` iff
it was 0 and `sector > 0` (else it is kept), `Sector2` is `sector2TimeInMS / 1000` iff it was
0 and `sector > 1` (else it is kept), and nothing else differs; the other slots are kept. -/
theorem C15_sector_fill_once (m m' : F12020UdpClrMapper) (now : Time) (i : Nat)
    (d : DriverData)
    (h : F12020UdpClrMapper.m_UpdateDrivers m now = some m')
    (hd : m.Drivers[i]? = some d)
    (hsame : d.LapNr = (m.parser.lap.m_lapData i).m_currentLapNum)
    (hpos : 0 < d.LapNr) :
    ∃ cur d', getLap d.Laps (d.LapNr - 1) = some cur ∧ m'.Drivers[i]? = some d' ∧
      d'.LapNr = d.LapNr ∧
      d'.Laps = d.Laps.set (d.LapNr - 1).toNat
        { cur with
          Sector1 :=
            if cur.Sector1 = 0 ∧ 0 < (m.parser.lap.m_lapData i).m_sector
            then ((m.parser.lap.m_lapData i).m_sector1TimeInMS : Time) / 1000
            else cur.Sector1,
          Sector2 :=
            if cur.Sector2 = 0 ∧ 1 < (m.parser.lap.m_lapData i).m_sector
            then ((m.parser.lap.m_lapData i).m_sector2TimeInMS : Time) / 1000
            else cur.Sector2 } := by
  obtain ⟨-, -, hdrv⟩ := m_UpdateDrivers_drivers lapFrame_driverFrame h
  obtain ⟨d0, d1, d', ⟨a, b, c, hd0⟩, hlap, hd', hL, hN, -⟩ := hdrv i d hd
  have hN0 : d0.LapNr = d.LapNr := by rw [hd0]
  have hL0 : d0.Laps = d.Laps := by rw [hd0]
  unfold F12020UdpClrMapper.lapUpdate at hlap
  simp only at hlap
  rw [if_neg (by rw [hN0]; exact fun hx => hx hsame), if_pos (by rw [hN0]; exact hpos)] at hlap
  unfold F12020UdpClrMapper.sectorUpdate at hlap
  simp only at hlap
  split at hlap
  · cases hlap
  rename_i laps hlaps
  obtain ⟨l, hl, rfl⟩ := modifyLap_some hlaps
  simp only [Option.some.injEq] at hlap
  rw [hN0, hL0] at hl
  refine ⟨l, d', hl, hd', ?_, ?_⟩
  · rw [hN, ← hlap]
    exact hN0
  · rw [hL, ← hlap]
    simp only [hN0, hL0]
    congr 1
    split_ifs <;> rfl

/-- C15 on a driver on lap 1 with `Sector1 = 31` already set and `Sector2 = 0`: a packet with
`sector = 2` and sector times 30500 ms and 28250 ms keeps `Sector1` and sets `Sector2`. -/
theorem C15_sector_fill_once_witness :
    ∃ m', F12020UdpClrMapper.m_UpdateDrivers s8Mapper 0 = some m' ∧
      ∃ d', m'.Drivers[0]? = some d' ∧
        d'.Laps = ({ Sector1 := 31, Sector2 := 113 / 4 } : LapData) :: List.replicate 4 {} := by
  obtain ⟨m', hm'⟩ := Option.isSome_iff_exists.1
    (show (F12020UdpClrMapper.m_UpdateDrivers s8Mapper 0).isSome = true by decide!)
  obtain ⟨cur, d', hcur, hd', -, hlaps⟩ := C15_sector_fill_once s8Mapper m' 0 0
    { Present := true, IsPlayer := true, LapNr := 1, TyreAge := 1,
      Laps := { Sector1 := 31 } :: List.replicate 4 {} }
    hm' (by decide!) (by decide!) (by decide!)
  have hc : cur = { Sector1 := 31 } := by
    have : getLap (({ Sector1 := 31 } : LapData) :: List.replicate 4 {}) (1 - 1)
        = some { Sector1 := 31 } := by decide!
    exact Option.some.inj (hcur.symm.trans this)
  refine ⟨m', hm', d', hd', ?_⟩
  rw [hlaps, hc]
  decide!

/-! ## Current lap -/

theorem forLoopFrom_inv {σ : Type} {P : σ → Prop} {body : Nat → σ → Option σ}
    (hbody : ∀ i s s', P s → body i s = some s' → P s') :
    ∀ (n k : Nat) (s s' : σ), P s →
      F12020UdpClrMapper.forLoopFrom body n k s = some s' → P s' := by
  intro n
  induction n with
  | zero =>
    intro k s s' hs h
    simp only [F12020UdpClrMapper.forLoopFrom, Option.some.injEq] at h
    rw [← h]
    exact hs
  | succ n ih =>
    intro k s s' hs h
    unfold F12020UdpClrMapper.forLoopFrom at h
    split at h
    · cases h
    · rename_i s1 hs1
      exact ih (k + 1) s1 s' (hbody k s s1 hs hs1) h

theorem updateCurrentLap_bounds (n : Nat) (si : SessionInfo) (low : Int) (h0 : 0 ≤ low)
    (h1 : low ≤ si.CurrentLap) (h2 : si.CurrentLap ≤ si.TotalLaps)
    (h3 : si.TotalLaps < 256) :
    (F12020UdpClrMapper.updateCurrentLap n si).TotalLaps = si.TotalLaps ∧
    low ≤ (F12020UdpClrMapper.updateCurrentLap n si).CurrentLap ∧
    (F12020UdpClrMapper.updateCurrentLap n si).CurrentLap ≤ si.TotalLaps := by
  unfold F12020UdpClrMapper.updateCurrentLap
  split
  · rename_i hgt
    have hmod : si.CurrentLap % 2 ^ 32 = si.CurrentLap :=
      Int.emod_eq_of_lt (by omega) (by omega)
    rw [hmod] at hgt
    refine ⟨rfl, ?_, ?_⟩
    · show low ≤ min (n : Int) si.TotalLaps
      exact le_min (by omega) (by omega)
    · show min (n : Int) si.TotalLaps ≤ si.TotalLaps
      exact min_le_right _ _
  · exact ⟨rfl, h1, h2⟩

/-- C14, counterexample: right after a session start (`m_Clear`: `CurrentLap = 1`) and with
`m_totalLaps = 0` in the session packet, a first call on lap 1 keeps `CurrentLap = 1` and a
second call in which car 0 starts lap 2 sets `CurrentLap = min(2, 0) = 0`: the current lap
decreased and is below 1. -/
theorem C14_current_lap_counterexample :
    currentLapOf (some (F12020UdpClrMapper.m_Clear resetMapper)) = some (1, 0) ∧
    (lapPacket 1 0).session.m_totalLaps = 0 ∧ (lapPacket 2 95).session.m_totalLaps = 0 ∧
    currentLapOf
      (F12020UdpClrMapper.m_UpdateDrivers
        { F12020UdpClrMapper.m_Clear resetMapper with parser := lapPacket 1 0 } 0)
      = some (1, 0) ∧
    currentLapOf
      ((F12020UdpClrMapper.m_UpdateDrivers
          { F12020UdpClrMapper.m_Clear resetMapper with parser := lapPacket 1 0 } 0).bind
        (fun m => F12020UdpClrMapper.m_UpdateDrivers { m with parser := lapPacket 2 95 } 1))
      = some (0, 0) := by
  refine ⟨by decide!, by decide!, by decide!, by decide!, by decide!⟩

/-- C14, amended: if `1 ≤ CurrentLap` holds before `m_UpdateDrivers` and the total laps of the
session packet (a byte) are not below `CurrentLap`, then after the call `TotalLaps` is that
value, `CurrentLap` has not decreased and `1 ≤ CurrentLap ≤ TotalLaps`. -/
theorem C14_current_lap_clamped (m m' : F12020UdpClrMapper) (now : Time)
    (h : F12020UdpClrMapper.m_UpdateDrivers m now = some m')
    (h1 : 1 ≤ m.SessionInfo.CurrentLap)
    (h2 : m.SessionInfo.CurrentLap ≤ (m.parser.session.m_totalLaps : Int))
    (h3 : m.parser.session.m_totalLaps < 256) :
    m'.SessionInfo.TotalLaps = (m.parser.session.m_totalLaps : Int) ∧
    m.SessionInfo.CurrentLap ≤ m'.SessionInfo.CurrentLap ∧
    1 ≤ m'.SessionInfo.CurrentLap ∧
    m'.SessionInfo.CurrentLap ≤ m'.SessionInfo.TotalLaps := by
  unfold F12020UdpClrMapper.m_UpdateDrivers at h
  simp only at h
  split at h
  · cases h
  rename_i m1 hm1
  have hinv : m1.SessionInfo.TotalLaps = (m.parser.session.m_totalLaps : Int) ∧
      m.SessionInfo.CurrentLap ≤ m1.SessionInfo.CurrentLap ∧
      m1.SessionInfo.CurrentLap ≤ m1.SessionInfo.TotalLaps := by
    refine forLoopFrom_inv
      (P := fun s : F12020UdpClrMapper =>
        s.SessionInfo.TotalLaps = (m.parser.session.m_totalLaps : Int) ∧
        m.SessionInfo.CurrentLap ≤ s.SessionInfo.CurrentLap ∧
        s.SessionInfo.CurrentLap ≤ s.SessionInfo.TotalLaps)
      ?_ _ 0 _ m1 ?_ hm1
    · rintro i s s' ⟨p1, p2, p3⟩ hs
      obtain ⟨d, d0, d1, -, -, -, rfl⟩ := lapStep_shape hs
      simp only
      obtain ⟨q1, q2, q3⟩ := updateCurrentLap_bounds
        (F12020UdpClrMapper.lapNum (s.parser.lap.m_lapData i) d0) s.SessionInfo
        m.SessionInfo.CurrentLap (by omega) p2 p3 (by rw [p1]; omega)
      exact ⟨q1.trans p1, q2, by rw [q1]; exact q3⟩
    · exact ⟨rfl, le_refl _, h2⟩
  split at h
  · cases h
  rename_i m2 hm2
  obtain ⟨-, -, -, hs2, -, -⟩ := presenceLoop_shape _ 0 m1 m2 hm2
  split at h
  · cases h
  rename_i m3 player leader hm3
  obtain ⟨-, -, -, hs3, -⟩ := identify_flag samePresence_flagFrame hm3
  have hs4 : m'.SessionInfo = m3.SessionInfo := by
    split at h
    · simp only [Option.some.injEq] at h
      rw [← h]
    · exact (driverLoop_shape _ 0 m3 m' h).2.2.2.1
  rw [hs4, hs3, hs2]
  obtain ⟨p1, p2, p3⟩ := hinv
  exact ⟨p1, p2, by omega, p3⟩

/-- C14, amended, on the lap rollover of scenario S2 with `CurrentLap = 1` and 50 total laps:
the current lap becomes 2. -/
theorem C14_current_lap_clamped_witness :
    ∃ m', F12020UdpClrMapper.m_UpdateDrivers s9Mapper 0 = some m' ∧
      m'.SessionInfo.TotalLaps = 50 ∧ 1 ≤ m'.SessionInfo.CurrentLap ∧
      m'.SessionInfo.CurrentLap ≤ m'.SessionInfo.TotalLaps ∧
      currentLapOf (F12020UdpClrMapper.m_UpdateDrivers s9Mapper 0) = some (2, 50) := by
  obtain ⟨m', hm'⟩ := Option.isSome_iff_exists.1
    (show (F12020UdpClrMapper.m_UpdateDrivers s9Mapper 0).isSome = true by decide!)
  obtain ⟨h1, -, h3, h4⟩ := C14_current_lap_clamped s9Mapper m' 0 hm' (by decide!) (by decide!)
    (by decide!)
  exact ⟨m', hm', h1.trans (by decide!), h3, h4, by decide!⟩

/-! ## Tyre stints -/

theorem sameTyres_flagFrame : FlagFrame SameTyres where
  refl := fun _ => ⟨⟨rfl, rfl, rfl, rfl, rfl⟩, rfl, rfl⟩
  trans := by
    rintro a b c ⟨⟨a1, a2, a3, a4, a5⟩, a6, a7⟩ ⟨⟨b1, b2, b3, b4, b5⟩, b6, b7⟩
    exact ⟨⟨b1.trans a1, b2.trans a2, b3.trans a3, b4.trans a4, b5.trans a5⟩, b6.trans a6,
      b7.trans a7⟩
  leader := fun _ => ⟨⟨rfl, rfl, rfl, rfl, rfl⟩, rfl, rfl⟩
  unflag := fun _ => ⟨⟨rfl, rfl, rfl, rfl, rfl⟩, rfl, rfl⟩
  flag := fun _ => ⟨⟨rfl, rfl, rfl, rfl, rfl⟩, rfl, rfl⟩

theorem presenceOf_sameTyres (raw : NativeLapData) (d : DriverData) :
    SameTyres d (presenceOf raw d) := by
  unfold presenceOf
  split <;> exact ⟨⟨rfl, rfl, rfl, rfl, rfl⟩, rfl, rfl⟩

/-- Every driver after `m_UpdateDrivers`, in terms of its pit stop state: the lap loop keeps
the pit stop state (and the tyre age invariant), and afterwards either nothing but flags and
deltas changed, or the per-car update ran once on a present driver with that state. -/
theorem m_UpdateDrivers_car {m m' : F12020UdpClrMapper} {now : Time}
    (h : F12020UdpClrMapper.m_UpdateDrivers m now = some m') :
    ∀ j d, m.Drivers[j]? = some d →
      ∃ d1 d', SamePit d d1 ∧ (TyreAgeInv d → TyreAgeInv d1) ∧ m'.Drivers[j]? = some d' ∧
        (SameTyres d1 d' ∨
          ∃ c objects, SameTyres d1 c ∧ c.Present = true ∧
            d' = (F12020UdpClrMapper.carUpdate m.parser j now objects c).1) := by
  obtain ⟨-, -, -, hdrv⟩ := m_UpdateDrivers_shape sameTyres_flagFrame h
  intro j d hd
  obtain ⟨d0, d1, d3, d', ⟨a, b, c, hd0⟩, hlap, hr, hd', hcase⟩ := hdrv j d hd
  obtain ⟨pos, nr, age, laps, hd1⟩ := lapUpdate_frame hlap
  have hpit : SamePit d d1 := by
    rw [hd1, hd0]
    exact ⟨rfl, rfl, rfl, rfl, rfl⟩
  have hinv : TyreAgeInv d → TyreAgeInv d1 := by
    intro hi
    refine lapUpdate_tyreAgeInv _ d0 d1 hlap ?_
    rw [hd0]
    exact hi
  have h13 : SameTyres d1 d3 := by
    split at hr
    · exact sameTyres_flagFrame.trans _ _ _ (presenceOf_sameTyres _ d1) hr
    · exact hr
  refine ⟨d1, d', hpit, hinv, hd', ?_⟩
  rcases hcase with hs | ⟨hpres, d4, objects, ⟨x, y, z, hd4⟩, hupd⟩
  · left
    rw [hs]
    exact h13
  · right
    refine ⟨d4, objects, ?_, ?_, hupd⟩
    · refine sameTyres_flagFrame.trans _ _ _ h13 ?_
      rw [hd4]
      exact ⟨⟨rfl, rfl, rfl, rfl, rfl⟩, rfl, rfl⟩
    · rw [hd4]
      exact hpres

/-- C16: for every driver and every `m_UpdateDrivers` call, the new `VisualTyres` list is the
old one followed by the entries `added`, and if any entry was added, then the list was empty
and the visual compound is non-zero (first observation), or the driver's status was `Pitting`
before and is not `Pitting` after the call. -/
theorem C16_tyre_stint_list (m m' : F12020UdpClrMapper) (now : Time) (i : Nat) (d : DriverData)
    (h : F12020UdpClrMapper.m_UpdateDrivers m now = some m')
    (hd : m.Drivers[i]? = some d) :
    ∃ d' added, m'.Drivers[i]? = some d' ∧ d'.VisualTyres = d.VisualTyres ++ added ∧
      d.VisualTyres.length ≤ d'.VisualTyres.length ∧
      (added ≠ [] →
        (d.VisualTyres = [] ∧ (m.parser.status.m_carStatusData i).m_visualTyreCompound ≠ 0) ∨
        (d.Status = DriverStatus.Pitting ∧ d'.Status ≠ DriverStatus.Pitting)) := by
  obtain ⟨d1, d', ⟨p1, p2, p3, p4, p5⟩, -, hd', hcase⟩ := m_UpdateDrivers_car h i d hd
  rcases hcase with ⟨⟨q1, q2, -, -, -⟩, -, -⟩ | ⟨c, objects, ⟨⟨q1, q2, q3, -, -⟩, -, -⟩, -, hupd⟩
  · refine ⟨d', [], hd', ?_, ?_, fun hx => absurd rfl hx⟩
    · rw [List.append_nil, q1, p1]
    · rw [q1, p1]
  · obtain ⟨-, -, -, -, hst, hvt, -⟩ := carUpdate_fields m.parser i now objects c
    rw [← hupd] at hst hvt
    have hcv : c.VisualTyres = d.VisualTyres := q1.trans p1
    have hcs : c.Status = d.Status := q2.trans p2
    rw [hcv, hcs, List.append_assoc] at hvt
    refine ⟨d', _, hd', hvt, ?_, ?_⟩
    · rw [hvt, List.length_append]
      omega
    · intro hne
      by_cases hA : d.VisualTyres.length = 0 ∧
          (m.parser.status.m_carStatusData i).m_visualTyreCompound ≠ 0
      · exact Or.inl ⟨List.length_eq_zero.1 hA.1, hA.2⟩
      · rw [if_neg hA, List.nil_append] at hne
        by_cases hB : d.Status = DriverStatus.Pitting ∧
            (F12020UdpClrMapper.classifyStatus (m.parser.lap.m_lapData i) c.m_hasPitted).1
              ≠ d.Status
        · right
          refine ⟨hB.1, ?_⟩
          rw [hst, ← hB.1]
          exact hB.2
        · rw [if_neg hB] at hne
          exact absurd rfl hne

/-- C16 on the cycle in which car 0 of the reset model is first seen on soft tyres: the
stint list goes from empty to `[16]`. -/
theorem C16_tyre_stint_list_witness :
    ∃ m', F12020UdpClrMapper.m_UpdateDrivers { resetMapper with parser := pitPacket 1 0 16 } 0
        = some m' ∧
      (∃ d' added, m'.Drivers[0]? = some d' ∧ d'.VisualTyres = ([] : List Nat) ++ added) ∧
      pitStateOf
          (F12020UdpClrMapper.m_UpdateDrivers { resetMapper with parser := pitPacket 1 0 16 } 0)
          0
        = some (DriverStatus.OnTrack, [16], 1, 0, 1, false) := by
  obtain ⟨m', hm'⟩ := Option.isSome_iff_exists.1
    (show (F12020UdpClrMapper.m_UpdateDrivers
      { resetMapper with parser := pitPacket 1 0 16 } 0).isSome = true by decide!)
  obtain ⟨d', added, h1, h2, -, -⟩ := C16_tyre_stint_list
    { resetMapper with parser := pitPacket 1 0 16 } m' 0 0 { Laps := List.replicate 5 {} }
    hm' (by decide!)
  exact ⟨m', hm', ⟨d', added, h1, h2⟩, by decide!⟩

/-! ## Pit stops -/

theorem classifyStatus_pitting (raw : NativeLapData) (hasPitted : Bool) :
    ((F12020UdpClrMapper.classifyStatus raw hasPitted).1 = DriverStatus.Pitting →
      (F12020UdpClrMapper.classifyStatus raw hasPitted).2 = true) ∧
    ((F12020UdpClrMapper.classifyStatus raw hasPitted).1 ≠ DriverStatus.Pitting →
      (F12020UdpClrMapper.classifyStatus raw hasPitted).2 = hasPitted) := by
  unfold F12020UdpClrMapper.classifyStatus
  repeat' split
  all_goals simp

/-- A cycle that changes the status of a driver ran the per-car update on it. -/
theorem m_UpdateDrivers_status {m m' : F12020UdpClrMapper} {now : Time} {j : Nat}
    {d d' : DriverData}
    (h : F12020UdpClrMapper.m_UpdateDrivers m now = some m')
    (hd : m.Drivers[j]? = some d) (hd' : m'.Drivers[j]? = some d')
    (hne : d'.Status ≠ d.Status) :
    ∃ c objects, SamePit d c ∧ (TyreAgeInv d → TyreAgeInv c) ∧ c.Present = true ∧
      d' = (F12020UdpClrMapper.carUpdate m.parser j now objects c).1 := by
  obtain ⟨d1, e', hpit, hinv, he', hcase⟩ := m_UpdateDrivers_car h j d hd
  rw [hd'] at he'
  cases he'
  obtain ⟨p1, p2, p3, p4, p5⟩ := hpit
  rcases hcase with ⟨⟨q1, q2, q3, q4, q5⟩, -, -⟩ | ⟨c, objects, ⟨⟨q1, q2, q3, q4, q5⟩, q6, q7⟩, hc, hupd⟩
  · exact absurd (q2.trans p2) hne
  · refine ⟨c, objects, ⟨q1.trans p1, q2.trans p2, q3.trans p3, q4.trans p4, q5.trans p5⟩, ?_,
      hc, hupd⟩
    intro hi
    have h1 := hinv hi
    unfold TyreAgeInv at h1 ⊢
    rw [q7, q6, q4]
    exact h1

/-- C17, counterexample: car 0 of the reset model is first seen on track on lap 1 on soft
tyres (compound 16), then in the pit lane on lap 2, then in its pit box with medium tyres
(compound 17), then on track. After the last cycle `VisualTyres = [16, 17]`, but
`lapTiresFitted = 0` is not `LapNr = 2`, `TyreAge` is 2 and `hasPitted` is still true. -/
theorem C17_pit_stop_counterexample :
    pitStateOf (runCycles resetMapper [(pitPacket 1 0 16, 0), (pitPacket 2 1 16, 1)]) 0
      = some (DriverStatus.Pitlane, [16], 2, 0, 2, false) ∧
    pitStateOf (runCycles resetMapper
        [(pitPacket 1 0 16, 0), (pitPacket 2 1 16, 1), (pitPacket 2 2 17, 2)]) 0
      = some (DriverStatus.Pitting, [16], 2, 0, 2, true) ∧
    pitStateOf (runCycles resetMapper
        [(pitPacket 1 0 16, 0), (pitPacket 2 1 16, 1), (pitPacket 2 2 17, 2),
         (pitPacket 2 0 17, 3)]) 0
      = some (DriverStatus.OnTrack, [16, 17], 2, 0, 2, true) := by
  refine ⟨by decide!, by decide!, by decide!⟩

/-- C17, amended: a driver in status `Pitlane` with `VisualTyres = [soft]` whose status is
`Pitting` after one update cycle and `OnTrack` after the next one, with the visual compound
`medium` reported in the latter, has `VisualTyres = [soft, medium]` after it; but
`hasPitted` is still true, `lapTiresFitted` is unchanged, and the tyre age was not reset: if
it was `LapNr - lapTiresFitted` before, it still is. -/
theorem C17_pit_stop_tyre_change (ma ma' mb mb' : F12020UdpClrMapper) (now1 now2 : Time)
    (i : Nat) (d0 d1 d2 : DriverData) (soft medium : Nat)
    (h1 : F12020UdpClrMapper.m_UpdateDrivers ma now1 = some ma')
    (hd0 : ma.Drivers[i]? = some d0) (hd1 : ma'.Drivers[i]? = some d1)
    (h2 : F12020UdpClrMapper.m_UpdateDrivers mb now2 = some mb')
    (hd1b : mb.Drivers[i]? = some d1) (hd2 : mb'.Drivers[i]? = some d2)
    (hs0 : d0.Status = DriverStatus.Pitlane) (hs1 : d1.Status = DriverStatus.Pitting)
    (hs2 : d2.Status = DriverStatus.OnTrack)
    (ht : d0.VisualTyres = [soft])
    (hc2 : (mb.parser.status.m_carStatusData i).m_visualTyreCompound = medium) :
    d2.VisualTyres = [soft, medium] ∧ d2.m_hasPitted = true ∧
    d2.m_lapTiresFitted = d0.m_lapTiresFitted ∧
    (d0.TyreAge = d0.LapNr - d0.m_lapTiresFitted →
      d2.TyreAge = d2.LapNr - d0.m_lapTiresFitted) := by
  -- the cycle into the pit box
  obtain ⟨c, objects, ⟨p1, p2, p3, p4, p5⟩, pinv, -, hupd⟩ :=
    m_UpdateDrivers_status h1 hd0 hd1 (by rw [hs1, hs0]; decide)
  obtain ⟨-, f2, -, -, f5, f6, f7, f8, f9, -⟩ := carUpdate_fields ma.parser i now1 objects c
  rw [← hupd] at f2 f5 f6 f7 f8 f9
  rw [hs1] at f5
  have hcs : c.Status = DriverStatus.Pitlane := p2.trans hs0
  have g6 : d1.VisualTyres = [soft] := by
    rw [f6, p1, ht, hcs]
    simp
  have g7 : d1.m_hasPitted = true := by
    rw [f7, ← f5, if_neg (fun hx => by cases hx.2)]
    exact (classifyStatus_pitting _ _).1 f5.symm
  have g8 : d1.m_lapTiresFitted = d0.m_lapTiresFitted := by
    rw [f8, ← f5, if_neg (fun hx => by cases hx.1.2)]
    exact p4
  have g9 : d1.TyreAge = c.TyreAge := by
    rw [f9, ← f5, if_neg (fun hx => by cases hx.1.2)]
  have ginv : TyreAgeInv d0 → TyreAgeInv d1 := by
    intro hi
    have hc := pinv hi
    unfold TyreAgeInv at hc ⊢
    rw [g9, f2, g8, ← p4]
    exact hc
  -- the cycle out of the pit box
  obtain ⟨c', objects', ⟨q1, q2, q3, q4, q5⟩, qinv, -, hupd'⟩ :=
    m_UpdateDrivers_status h2 hd1b hd2 (by rw [hs2, hs1]; decide)
  obtain ⟨-, e2, -, -, e5, e6, e7, e8, e9, -⟩ := carUpdate_fields mb.parser i now2 objects' c'
  rw [← hupd'] at e2 e5 e6 e7 e8 e9
  rw [hs2] at e5
  have hcs' : c'.Status = DriverStatus.Pitting := q2.trans hs1
  have k8 : d2.m_lapTiresFitted = d0.m_lapTiresFitted := by
    rw [e8, hcs', if_neg (fun hx => by cases hx.1.1)]
    exact (q4.trans g8)
  refine ⟨?_, ?_, k8, ?_⟩
  · rw [e6, q1, g6, hcs', ← e5, hc2]
    simp
  · rw [e7, hcs', if_neg (fun hx => by cases hx.1)]
    rw [(classifyStatus_pitting _ _).2 (by rw [← e5]; decide)]
    exact q3.trans g7
  · intro hi
    have hc := qinv (ginv hi)
    unfold TyreAgeInv at hc
    rw [e9, hcs', if_neg (fun hx => by cases hx.1.1), e2, hc, q4, g8]

/-- C17, amended, on car 0 in the pit lane on lap 2 on soft tyres (compound 16): after the
cycle in the pit box and the cycle back on track with compound 17 the stint list is
`[16, 17]`, `hasPitted` is true, `lapTiresFitted` is still 0 and `TyreAge` is `LapNr - 0`. -/
theorem C17_pit_stop_tyre_change_witness :
    ∃ m1 m2 d2, F12020UdpClrMapper.m_UpdateDrivers s10Mapper 0 = some m1 ∧
      F12020UdpClrMapper.m_UpdateDrivers { m1 with parser := pitPacket 2 0 17 } 1 = some m2 ∧
      m2.Drivers[0]? = some d2 ∧
      d2.VisualTyres = [16, 17] ∧ d2.m_hasPitted = true ∧ d2.m_lapTiresFitted = 0 ∧
      d2.TyreAge = d2.LapNr - 0 := by
  obtain ⟨m1, hm1⟩ := Option.isSome_iff_exists.1
    (show (F12020UdpClrMapper.m_UpdateDrivers s10Mapper 0).isSome = true by decide!)
  have e1 : ((F12020UdpClrMapper.m_UpdateDrivers s10Mapper 0).bind
      (fun m => m.Drivers[0]?)).map (fun d => d.Status) = some DriverStatus.Pitting := by
    decide!
  have e2 : (((F12020UdpClrMapper.m_UpdateDrivers s10Mapper 0).bind
      (fun m => F12020UdpClrMapper.m_UpdateDrivers { m with parser := pitPacket 2 0 17 } 1)).bind
      (fun m => m.Drivers[0]?)).map (fun d => d.Status) = some DriverStatus.OnTrack := by
    decide!
  rw [hm1] at e1 e2
  simp only [Option.some_bind] at e1 e2
  obtain ⟨d1, hd1, hs1⟩ := Option.map_eq_some'.1 e1
  obtain ⟨d2, hd2, hs2⟩ := Option.map_eq_some'.1 e2
  obtain ⟨m2, hm2, hd2'⟩ := Option.bind_eq_some.1 hd2
  obtain ⟨k1, k2, k3, k4⟩ := C17_pit_stop_tyre_change s10Mapper m1
    { m1 with parser := pitPacket 2 0 17 } m2 0 1 0
    { Present := true, IsPlayer := true, LapNr := 2, TyreAge := 2, VisualTyres := [16],
      Status := DriverStatus.Pitlane, Laps := List.replicate 5 {} }
    d1 d2 16 17 hm1 (by decide!) hd1 hm2 hd1 hd2' (by decide!) hs1 hs2 (by decide!) rfl
  exact ⟨m1, m2, d2, hm1, hm2, hd2', k1, k2, k3.trans (by decide!), k4 (by decide!)⟩

/-! ## Served penalties -/

theorem serveFirst_cases (objects : List SessionEvent) (p : SessionEvent → Bool)
    (penalties : List Nat) :
    ((∀ q ∈ penalties, ∀ x, objects[q]? = some x → p x = false) ∧
      F12020UdpClrMapper.serveFirst objects p penalties = objects) ∨
    ∃ pre r post e, penalties = pre ++ r :: post ∧ objects[r]? = some e ∧ p e = true ∧
      (∀ q ∈ pre, ∀ x, objects[q]? = some x → p x = false) ∧
      F12020UdpClrMapper.serveFirst objects p penalties
        = objects.set r { e with PenaltyServed := true } := by
  have hsat : ∀ q x, objects[q]? = some x →
      F12020UdpClrMapper.refSatisfies objects p q = p x := by
    intro q x hx
    unfold F12020UdpClrMapper.refSatisfies
    rw [hx]
  unfold F12020UdpClrMapper.serveFirst
  cases hfind : penalties.find? (F12020UdpClrMapper.refSatisfies objects p) with
  | none =>
    left
    refine ⟨?_, rfl⟩
    intro q hq x hx
    have := List.find?_eq_none.1 hfind q hq
    rw [hsat q x hx] at this
    exact Bool.eq_false_iff.2 this
  | some r =>
    right
    obtain ⟨hr, pre, post, hsplit, hpre⟩ := List.find?_eq_some.1 hfind
    have hobj : ∃ e, objects[r]? = some e := by
      cases ho : objects[r]? with
      | some e => exact ⟨e, rfl⟩
      | none =>
        unfold F12020UdpClrMapper.refSatisfies at hr
        rw [ho] at hr
        cases hr
    obtain ⟨e, he⟩ := hobj
    refine ⟨pre, r, post, e, hsplit, he, ?_, ?_, ?_⟩
    · rw [← hsat r e he]
      exact hr
    · intro q hq x hx
      have := hpre q hq
      rw [hsat q x hx] at this
      simpa using this
    · show F12020UdpClrMapper.markServed objects r = _
      unfold F12020UdpClrMapper.markServed
      rw [he]

theorem driveThroughPending_iff (e : SessionEvent) :
    (F12020UdpClrMapper.driveThroughPending e = true ↔
      (e.PenaltyType = PenaltyTypes.DriveThrough ∧ e.PenaltyServed = false)) ∧
    (F12020UdpClrMapper.driveThroughPending e = false ↔
      ¬ (e.PenaltyType = PenaltyTypes.DriveThrough ∧ e.PenaltyServed = false)) := by
  unfold F12020UdpClrMapper.driveThroughPending
  cases e.PenaltyServed <;> simp

theorem stopPenaltyPending_iff (now : Time) (e : SessionEvent) :
    (F12020UdpClrMapper.stopPenaltyPending now e = true ↔
      (e.PenaltyType ≠ PenaltyTypes.DriveThrough ∧ e.PenaltyServed = false ∧
        (e.InfringementType = InfringementTypes.PitLaneSpeeding → now - e.TimeCode > 60))) ∧
    (F12020UdpClrMapper.stopPenaltyPending now e = false ↔
      ¬ (e.PenaltyType ≠ PenaltyTypes.DriveThrough ∧ e.PenaltyServed = false ∧
        (e.InfringementType = InfringementTypes.PitLaneSpeeding → now - e.TimeCode > 60))) := by
  unfold F12020UdpClrMapper.stopPenaltyPending
  by_cases hi : e.InfringementType = InfringementTypes.PitLaneSpeeding
  · cases e.PenaltyServed <;> simp [hi]
  · cases e.PenaltyServed <;> simp [hi]

/-! ## Drive-through served -/

/-- C18, counterexample: car 0 of the reset model is first seen in the pit lane on lap 1 while
no visual compound is known yet (0); in the next cycle it is on track with compound 16. The
status changes `Pitlane -> OnTrack` with `hasPitted = false`, and `VisualTyres` changes from
`[]` to `[16]` (the first observation of the tyres). -/
theorem C18_drive_through_counterexample :
    pitStateOf (runCycles resetMapper [(pitPacket 1 1 0, 0)]) 0
      = some (DriverStatus.Pitlane, [], 1, 0, 1, false) ∧
    pitStateOf (runCycles resetMapper [(pitPacket 1 1 0, 0), (pitPacket 1 0 16, 1)]) 0
      = some (DriverStatus.OnTrack, [16], 1, 0, 1, false) := by
  refine ⟨by decide!, by decide!⟩

/-- C18, amended: when the per-car update of a cycle takes a driver with `hasPitted = false`
from `Pitlane` to `OnTrack`, then either no entry of `PitPenalties` is an unserved
drive-through and the penalty objects are unchanged, or `PitPenalties = pre ++ r :: post`
where `r` is an unserved drive-through, no entry of `pre` is one, and the only change to the
penalty objects is `PenaltyServed = true` on `r`; `PitPenalties`, `lapTiresFitted` and
`TyreAge` are unchanged, `hasPitted` stays false, and `VisualTyres` is unchanged unless it was
empty and the visual compound is non-zero, in which case that compound is its first entry. -/
theorem C18_drive_through_served (p : F12020ElementaryParser) (i : Nat) (now : Time)
    (objects : List SessionEvent) (c : DriverData)
    (hs : c.Status = DriverStatus.Pitlane)
    (hn : (F12020UdpClrMapper.classifyStatus (p.lap.m_lapData i) c.m_hasPitted).1
      = DriverStatus.OnTrack)
    (hp : c.m_hasPitted = false) :
    (((∀ q ∈ c.PitPenalties, ∀ x, objects[q]? = some x →
          ¬ (x.PenaltyType = PenaltyTypes.DriveThrough ∧ x.PenaltyServed = false)) ∧
        (F12020UdpClrMapper.carUpdate p i now objects c).2 = objects) ∨
      ∃ pre r post e, c.PitPenalties = pre ++ r :: post ∧ objects[r]? = some e ∧
        e.PenaltyType = PenaltyTypes.DriveThrough ∧ e.PenaltyServed = false ∧
        (∀ q ∈ pre, ∀ x, objects[q]? = some x →
          ¬ (x.PenaltyType = PenaltyTypes.DriveThrough ∧ x.PenaltyServed = false)) ∧
        (F12020UdpClrMapper.carUpdate p i now objects c).2
          = objects.set r { e with PenaltyServed := true }) ∧
    (F12020UdpClrMapper.carUpdate p i now objects c).1.PitPenalties = c.PitPenalties ∧
    (F12020UdpClrMapper.carUpdate p i now objects c).1.m_lapTiresFitted
      = c.m_lapTiresFitted ∧
    (F12020UdpClrMapper.carUpdate p i now objects c).1.TyreAge = c.TyreAge ∧
    (F12020UdpClrMapper.carUpdate p i now objects c).1.m_hasPitted = false ∧
    (F12020UdpClrMapper.carUpdate p i now objects c).1.VisualTyres
      = c.VisualTyres ++
          (if c.VisualTyres.length = 0 ∧ (p.status.m_carStatusData i).m_visualTyreCompound ≠ 0
           then [(p.status.m_carStatusData i).m_visualTyreCompound] else []) := by
  obtain ⟨-, -, -, f4, -, f6, f7, f8, f9, f10⟩ := carUpdate_fields p i now objects c
  have h2 : (F12020UdpClrMapper.classifyStatus (p.lap.m_lapData i) c.m_hasPitted).2 = false := by
    rw [(classifyStatus_pitting _ _).2 (by rw [hn]; decide)]
    exact hp
  rw [if_pos ⟨hs, hn⟩] at f7
  rw [if_neg (fun hx => by rw [h2] at hx; cases hx.2)] at f8 f9
  rw [if_pos ⟨hs, hn⟩, if_neg (by rw [h2]; exact Bool.false_ne_true)] at f10
  have hpit : ¬ (DriverStatus.Pitlane = DriverStatus.Pitting ∧
      (F12020UdpClrMapper.classifyStatus (p.lap.m_lapData i) c.m_hasPitted).1
        ≠ DriverStatus.Pitlane) := fun hx => by cases hx.1
  rw [hs, if_neg hpit, List.append_nil] at f6
  refine ⟨?_, f4, f8, f9, f7, f6⟩
  rw [f10]
  rcases serveFirst_cases objects F12020UdpClrMapper.driveThroughPending c.PitPenalties with
    ⟨hnone, heq⟩ | ⟨pre, r, post, e, hsplit, he, hpe, hpre, heq⟩
  · left
    exact ⟨fun q hq x hx => (driveThroughPending_iff x).2.1 (hnone q hq x hx), heq⟩
  · right
    obtain ⟨k1, k2⟩ := (driveThroughPending_iff e).1.1 hpe
    exact ⟨pre, r, post, e, hsplit, he, k1, k2,
      fun q hq x hx => (driveThroughPending_iff x).2.1 (hpre q hq x hx), heq⟩

/-- C18, amended, on scenario S6: the drive-through penalty is served, the stint list, the lap
of the last tyre change and the tyre age are unchanged. -/
theorem C18_drive_through_served_witness :
    (F12020UdpClrMapper.carUpdate (pitPacket 1 0 16) 0 0 s6Objects s6Car).1.VisualTyres
      = [16] ∧
    (F12020UdpClrMapper.carUpdate (pitPacket 1 0 16) 0 0 s6Objects s6Car).1.m_lapTiresFitted
      = 0 ∧
    (F12020UdpClrMapper.carUpdate (pitPacket 1 0 16) 0 0 s6Objects s6Car).1.TyreAge = 1 ∧
    (F12020UdpClrMapper.carUpdate (pitPacket 1 0 16) 0 0 s6Objects s6Car).1.m_hasPitted
      = false ∧
    (F12020UdpClrMapper.carUpdate (pitPacket 1 0 16) 0 0 s6Objects s6Car).2
      = [{ Type_ := EventType.PenaltyIssued, PenaltyType := PenaltyTypes.DriveThrough,
           PenaltyServed := true }] := by
  obtain ⟨-, -, h3, h4, h5, h6⟩ := C18_drive_through_served (pitPacket 1 0 16) 0 0 s6Objects
    s6Car (by decide!) (by decide!) (by decide!)
  exact ⟨h6.trans (by decide!), h3.trans (by decide!), h4.trans (by decide!), h5, by decide!⟩

/-! ## Real pit stop -/

/-- C19: when the per-car update of a cycle takes a driver with `hasPitted = true` from
`Pitlane` to `OnTrack`, afterwards `lapTiresFitted = LapNr`, `TyreAge = 0` and
`hasPitted = false`. A penalty counts as pending if it is not a drive-through, is unserved
and, when its infringement is pit lane speeding, is older than 60 seconds (no age condition
for any other infringement): either no entry of `PitPenalties` is pending and the penalty
objects are unchanged, or `PitPenalties = pre ++ r :: post` where `r` is pending, no entry of
`pre` is pending, and the only change to the penalty objects is `PenaltyServed = true` on
`r`. -/
theorem C19_real_pit_stop (p : F12020ElementaryParser) (i : Nat) (now : Time)
    (objects : List SessionEvent) (c : DriverData)
    (hs : c.Status = DriverStatus.Pitlane)
    (hn : (F12020UdpClrMapper.classifyStatus (p.lap.m_lapData i) c.m_hasPitted).1
      = DriverStatus.OnTrack)
    (hp : c.m_hasPitted = true) :
    (F12020UdpClrMapper.carUpdate p i now objects c).1.m_lapTiresFitted
      = (F12020UdpClrMapper.carUpdate p i now objects c).1.LapNr ∧
    (F12020UdpClrMapper.carUpdate p i now objects c).1.TyreAge = 0 ∧
    (F12020UdpClrMapper.carUpdate p i now objects c).1.m_hasPitted = false ∧
    (((∀ q ∈ c.PitPenalties, ∀ x, objects[q]? = some x →
          ¬ (x.PenaltyType ≠ PenaltyTypes.DriveThrough ∧ x.PenaltyServed = false ∧
            (x.InfringementType = InfringementTypes.PitLaneSpeeding →
              now - x.TimeCode > 60))) ∧
        (F12020UdpClrMapper.carUpdate p i now objects c).2 = objects) ∨
      ∃ pre r post e, c.PitPenalties = pre ++ r :: post ∧ objects[r]? = some e ∧
        e.PenaltyType ≠ PenaltyTypes.DriveThrough ∧ e.PenaltyServed = false ∧
        (e.InfringementType = InfringementTypes.PitLaneSpeeding → now - e.TimeCode > 60) ∧
        (∀ q ∈ pre, ∀ x, objects[q]? = some x →
          ¬ (x.PenaltyType ≠ PenaltyTypes.DriveThrough ∧ x.PenaltyServed = false ∧
            (x.InfringementType = InfringementTypes.PitLaneSpeeding →
              now - x.TimeCode > 60))) ∧
        (F12020UdpClrMapper.carUpdate p i now objects c).2
          = objects.set r { e with PenaltyServed := true }) := by
  obtain ⟨-, f2, -, -, -, -, f7, f8, f9, f10⟩ := carUpdate_fields p i now objects c
  have h2 : (F12020UdpClrMapper.classifyStatus (p.lap.m_lapData i) c.m_hasPitted).2 = true := by
    rw [(classifyStatus_pitting _ _).2 (by rw [hn]; decide)]
    exact hp
  rw [if_pos ⟨hs, hn⟩] at f7
  rw [if_pos ⟨⟨hs, hn⟩, h2⟩] at f8 f9
  rw [if_pos ⟨hs, hn⟩, if_pos h2] at f10
  refine ⟨f8.trans f2.symm, f9, f7, ?_⟩
  rw [f10]
  rcases serveFirst_cases objects (F12020UdpClrMapper.stopPenaltyPending now) c.PitPenalties
    with ⟨hnone, heq⟩ | ⟨pre, r, post, e, hsplit, he, hpe, hpre, heq⟩
  · left
    exact ⟨fun q hq x hx => (stopPenaltyPending_iff now x).2.1 (hnone q hq x hx), heq⟩
  · right
    obtain ⟨k1, k2, k3⟩ := (stopPenaltyPending_iff now e).1.1 hpe
    exact ⟨pre, r, post, e, hsplit, he, k1, k2, k3,
      fun q hq x hx => (stopPenaltyPending_iff now x).2.1 (hpre q hq x hx), heq⟩

/-- C19 on a car that leaves the pit lane after a stop with two stop-go penalties queued, the
first one for pit lane speeding given at time 0: at time 61 the first penalty is served, at
time 30 the second one is. -/
theorem C19_real_pit_stop_witness :
    (F12020UdpClrMapper.carUpdate (pitPacket 1 0 16) 0 61 s7Objects s7Car).1.m_lapTiresFitted
      = 1 ∧
    (F12020UdpClrMapper.carUpdate (pitPacket 1 0 16) 0 61 s7Objects s7Car).1.TyreAge = 0 ∧
    (F12020UdpClrMapper.carUpdate (pitPacket 1 0 16) 0 61 s7Objects s7Car).1.m_hasPitted
      = false ∧
    ((F12020UdpClrMapper.carUpdate (pitPacket 1 0 16) 0 61 s7Objects s7Car).2).map
      (fun e => e.PenaltyServed) = [true, false] ∧
    ((F12020UdpClrMapper.carUpdate (pitPacket 1 0 16) 0 30 s7Objects s7Car).2).map
      (fun e => e.PenaltyServed) = [false, true] := by
  obtain ⟨h1, h2, h3, -⟩ := C19_real_pit_stop (pitPacket 1 0 16) 0 61 s7Objects s7Car
    (by decide!) (by decide!) (by decide!)
  exact ⟨h1.trans (by decide!), h2, h3, by decide!, by decide!⟩

/-! ## One penalty per transition -/

/-- C20, counterexample: car 0 leaves the pit lane after a stop (`hasPitted = true`) at time
30 with two unserved stop-go penalties queued, the first one for pit lane speeding given at
time 0. The second penalty is marked served although the first one, of the same kind and
before it in the list, is still unserved. -/
theorem C20_fifo_counterexample :
    s7Mapper.Drivers[0]?.map (fun d => (d.Status, d.m_hasPitted, d.PitPenalties))
      = some (DriverStatus.Pitlane, true, [0, 1]) ∧
    s7Mapper.objects.map (fun e => (e.PenaltyType, e.InfringementType, e.PenaltyServed))
      = [(PenaltyTypes.StopGo, InfringementTypes.PitLaneSpeeding, false),
         (PenaltyTypes.StopGo, 0, false)] ∧
    pitStateOf (F12020UdpClrMapper.m_UpdateDrivers s7Mapper 30) 0
      = some (DriverStatus.OnTrack, [16], 1, 1, 0, false) ∧
    (F12020UdpClrMapper.m_UpdateDrivers s7Mapper 30).map
        (fun m => m.objects.map (fun e => e.PenaltyServed))
      = some [false, true] := by
  refine ⟨by decide!, by decide!, by decide!, by decide!⟩

/-- C20, amended: when the per-car update of a cycle takes a driver from `Pitlane` to
`OnTrack`, either the penalty objects are unchanged, or `PitPenalties = pre ++ r :: post` and
the only change is `PenaltyServed` from false to true on `r`, which is of the kind of the
branch (drive-through iff `hasPitted` is false); every entry of `pre` of that kind is already
served, or the branch is the pit stop branch and the entry is a pit lane speeding penalty not
older than 60 seconds. -/
theorem C20_one_penalty_per_transition (p : F12020ElementaryParser) (i : Nat) (now : Time)
    (objects : List SessionEvent) (c : DriverData)
    (hs : c.Status = DriverStatus.Pitlane)
    (hn : (F12020UdpClrMapper.classifyStatus (p.lap.m_lapData i) c.m_hasPitted).1
      = DriverStatus.OnTrack) :
    (F12020UdpClrMapper.carUpdate p i now objects c).2 = objects ∨
    ∃ pre r post e, c.PitPenalties = pre ++ r :: post ∧ objects[r]? = some e ∧
      e.PenaltyServed = false ∧
      (F12020UdpClrMapper.carUpdate p i now objects c).2
        = objects.set r { e with PenaltyServed := true } ∧
      (e.PenaltyType = PenaltyTypes.DriveThrough ↔ c.m_hasPitted = false) ∧
      ∀ q ∈ pre, ∀ x, objects[q]? = some x →
        (x.PenaltyType = PenaltyTypes.DriveThrough ↔ c.m_hasPitted = false) →
        x.PenaltyServed = true ∨
          (c.m_hasPitted = true ∧ x.InfringementType = InfringementTypes.PitLaneSpeeding ∧
            now - x.TimeCode ≤ 60) := by
  obtain ⟨-, -, -, -, -, -, -, -, -, f10⟩ := carUpdate_fields p i now objects c
  have h2 : (F12020UdpClrMapper.classifyStatus (p.lap.m_lapData i) c.m_hasPitted).2
      = c.m_hasPitted := (classifyStatus_pitting _ _).2 (by rw [hn]; decide)
  rw [if_pos ⟨hs, hn⟩, h2] at f10
  rw [f10]
  cases hp : c.m_hasPitted with
  | false =>
    rw [if_neg Bool.false_ne_true]
    rcases serveFirst_cases objects F12020UdpClrMapper.driveThroughPending c.PitPenalties with
      ⟨-, heq⟩ | ⟨pre, r, post, e, hsplit, he, hpe, hpre, heq⟩
    · exact Or.inl heq
    · right
      obtain ⟨k1, k2⟩ := (driveThroughPending_iff e).1.1 hpe
      refine ⟨pre, r, post, e, hsplit, he, k2, heq, ⟨fun _ => rfl, fun _ => k1⟩, ?_⟩
      intro q hq x hx hkind
      left
      have hnot := (driveThroughPending_iff x).2.1 (hpre q hq x hx)
      cases hserved : x.PenaltyServed with
      | true => rfl
      | false => exact absurd ⟨hkind.2 rfl, hserved⟩ hnot
  | true =>
    rw [if_pos rfl]
    rcases serveFirst_cases objects (F12020UdpClrMapper.stopPenaltyPending now) c.PitPenalties
      with ⟨-, heq⟩ | ⟨pre, r, post, e, hsplit, he, hpe, hpre, heq⟩
    · exact Or.inl heq
    · right
      obtain ⟨k1, k2, -⟩ := (stopPenaltyPending_iff now e).1.1 hpe
      refine ⟨pre, r, post, e, hsplit, he, k2, heq,
        ⟨fun hx => absurd hx k1, fun hx => by cases hx⟩, ?_⟩
      intro q hq x hx hkind
      have hnot := (stopPenaltyPending_iff now x).2.1 (hpre q hq x hx)
      have hx1 : x.PenaltyType ≠ PenaltyTypes.DriveThrough := fun hdt => by
        cases hkind.1 hdt
      cases hserved : x.PenaltyServed with
      | true => exact Or.inl rfl
      | false =>
        right
        by_cases hpls : x.InfringementType = InfringementTypes.PitLaneSpeeding
        · refine ⟨rfl, hpls, ?_⟩
          by_contra hage
          exact hnot ⟨hx1, hserved, fun _ => not_le.1 hage⟩
        · exact absurd ⟨hx1, hserved, fun hx2 => absurd hx2 hpls⟩ hnot

/-- C20, amended, on the car of the counterexample: at time 30 only the second penalty is
marked, the one before it being a pit lane speeding penalty of age 30. -/
theorem C20_one_penalty_per_transition_witness :
    ((F12020UdpClrMapper.carUpdate (pitPacket 1 0 16) 0 30 s7Objects s7Car).2 = s7Objects ∨
      ∃ pre r post e, s7Car.PitPenalties = pre ++ r :: post ∧ s7Objects[r]? = some e ∧
        e.PenaltyServed = false ∧
        (F12020UdpClrMapper.carUpdate (pitPacket 1 0 16) 0 30 s7Objects s7Car).2
          = s7Objects.set r { e with PenaltyServed := true }) ∧
    ((F12020UdpClrMapper.carUpdate (pitPacket 1 0 16) 0 30 s7Objects s7Car).2).map
      (fun e => e.PenaltyServed) = [false, true] := by
  refine ⟨?_, by decide!⟩
  rcases C20_one_penalty_per_transition (pitPacket 1 0 16) 0 30 s7Objects s7Car
    (by decide!) (by decide!) with h | ⟨pre, r, post, e, h1, h2, h3, h4, -, -⟩
  · exact Or.inl h
  · exact Or.inr ⟨pre, r, post, e, h1, h2, h3, h4⟩

/-! ## Spectator mode and result status -/

/-- C11: from the reset model with two active cars, a call of `m_UpdateDrivers` with player
car index 1 flags driver 1; a following call with player car index 255 (spectator) leaves
driver 1 flagged, since only slot 0 is ever reverted. -/
theorem C11_spectator_stale_flag :
    playerSlots (some { resetMapper with parser := resultPacket 2 }) = some [] ∧
    playerSlots
      (F12020UdpClrMapper.m_UpdateDrivers
        (withPlayerCarIndex { resetMapper with parser := resultPacket 2 } 1) 0)
      = some [1] ∧
    playerSlots
      ((F12020UdpClrMapper.m_UpdateDrivers
          (withPlayerCarIndex { resetMapper with parser := resultPacket 2 } 1) 0).bind
        (fun m => F12020UdpClrMapper.m_UpdateDrivers (withPlayerCarIndex m 255) 1))
      = some [1] := by
  refine ⟨by decide!, by decide!, by decide!⟩

/-- C12: from the reset model, a first cycle with two active cars on lap 1 (car 0 is the
player) leaves driver 1 present with status `OnTrack`; a second cycle in which car 1 has
result status 4, 5, 6 or 7 leaves driver 1 not present and its status `OnTrack`: the presence
loop clears `Present` and the driver loop then skips the car before its status switch. -/
theorem C12_result_status_not_mapped :
    ((runCycles resetMapper [(resultPacket 2, 0)]).map (fun m => m.CountDrivers)) = some 2 ∧
    ((runCycles resetMapper [(resultPacket 2, 0)]).bind (fun m => m.Drivers[0]?)).map
        (fun d => (d.Present, d.IsPlayer, d.LapNr))
      = some (true, true, 1) ∧
    ((runCycles resetMapper [(resultPacket 2, 0)]).bind (fun m => m.Drivers[1]?)).map
        (fun d => (d.Present, d.Status))
      = some (true, DriverStatus.OnTrack) ∧
    ∀ resultStatus ∈ [4, 5, 6, 7],
      ((runCycles resetMapper [(resultPacket 2, 0), (resultPacket resultStatus, 1)]).bind
          (fun m => m.Drivers[1]?)).map (fun d => (d.Present, d.Status))
        = some (false, DriverStatus.OnTrack) := by
  refine ⟨by decide!, by decide!, by decide!, by decide!⟩

/-! ## Event dispatch -/

theorem codeIs_iff (m : F12020UdpClrMapper) (s : String) :
    F12020UdpClrMapper.codeIs m s = true ↔
      m.parser.event.m_eventStringCode.take 4 = F12020UdpClrMapper.eventCode s := by
  unfold F12020UdpClrMapper.codeIs
  exact beq_iff_eq

theorem codeIs_other {m : F12020UdpClrMapper} {s : String}
    (h : F12020UdpClrMapper.codeIs m s = true) (t : String) :
    F12020UdpClrMapper.codeIs m t
      = (F12020UdpClrMapper.eventCode s == F12020UdpClrMapper.eventCode t) := by
  have hs := (codeIs_iff m s).1 h
  unfold F12020UdpClrMapper.codeIs
  rw [hs]

theorem codeIs_head {m : F12020UdpClrMapper} {entry : String × EventType}
    (hmem : entry ∈ eventTable) (h : F12020UdpClrMapper.codeIs m entry.1 = true) :
    m.parser.event.m_eventStringCode.headD 0 ≠ 0 := by
  have hs := (codeIs_iff m entry.1).1 h
  have htab : ∀ e ∈ eventTable, (F12020UdpClrMapper.eventCode e.1).headD 0 ≠ 0 := by decide
  have hhead : ∀ l : List Nat, (l.take 4).headD 0 = l.headD 0 := by
    intro l
    cases l <;> rfl
  rw [← hhead, hs]
  exact htab entry hmem

theorem updateEvent_of_dispatch {m x : F12020UdpClrMapper} {now : Time}
    (hhead : m.parser.event.m_eventStringCode.headD 0 ≠ 0)
    (hx : F12020UdpClrMapper.dispatchEvent m now = some x) :
    F12020UdpClrMapper.m_UpdateEvent m now = some (F12020UdpClrMapper.inhibitEvent x) := by
  unfold F12020UdpClrMapper.m_UpdateEvent
  rw [if_pos hhead, hx]

/-- The model after the branch of the event code `code` of the table (other than `PENA`). -/
theorem dispatchEvent_table {m : F12020UdpClrMapper} {now : Time}
    {entry : String × EventType} (hmem : entry ∈ eventTable)
    (hcode : F12020UdpClrMapper.codeIs m entry.1 = true) :
    (entry.1 = "PENA" ∧
      F12020UdpClrMapper.dispatchEvent m now = F12020UdpClrMapper.penaltyEvent m now) ∨
    (entry.1 ≠ "PENA" ∧ ∃ x e, F12020UdpClrMapper.dispatchEvent m now = some x ∧
      e.Type_ = entry.2 ∧ e.TimeCode = now ∧ x.objects = m.objects ++ [e] ∧
      x.EventList = (if entry.1 = "SSTA" then [] else m.EventList) ++ [m.objects.length] ∧
      x.SessionInfo.SessionFinshed
        = (if entry.1 = "SSTA" then false
           else if entry.1 = "SEND" then true else m.SessionInfo.SessionFinshed)) := by
  have e1 := codeIs_other hcode "SSTA"
  have e2 := codeIs_other hcode "SEND"
  have e3 := codeIs_other hcode "FTLP"
  have e4 := codeIs_other hcode "RTMT"
  have e5 := codeIs_other hcode "DRSE"
  have e6 := codeIs_other hcode "DRSD"
  have e7 := codeIs_other hcode "TMPT"
  have e8 := codeIs_other hcode "CHQF"
  have e9 := codeIs_other hcode "RCWN"
  have e10 := codeIs_other hcode "PENA"
  have e11 := codeIs_other hcode "SPTP"
  clear hcode
  unfold F12020UdpClrMapper.dispatchEvent
  generalize F12020UdpClrMapper.codeIs m "SSTA" = c1 at e1 ⊢
  generalize F12020UdpClrMapper.codeIs m "SEND" = c2 at e2 ⊢
  generalize F12020UdpClrMapper.codeIs m "FTLP" = c3 at e3 ⊢
  generalize F12020UdpClrMapper.codeIs m "RTMT" = c4 at e4 ⊢
  generalize F12020UdpClrMapper.codeIs m "DRSE" = c5 at e5 ⊢
  generalize F12020UdpClrMapper.codeIs m "DRSD" = c6 at e6 ⊢
  generalize F12020UdpClrMapper.codeIs m "TMPT" = c7 at e7 ⊢
  generalize F12020UdpClrMapper.codeIs m "CHQF" = c8 at e8 ⊢
  generalize F12020UdpClrMapper.codeIs m "RCWN" = c9 at e9 ⊢
  generalize F12020UdpClrMapper.codeIs m "PENA" = c10 at e10 ⊢
  generalize F12020UdpClrMapper.codeIs m "SPTP" = c11 at e11 ⊢
  simp only [eventTable, List.mem_cons, List.mem_singleton, List.not_mem_nil, or_false] at hmem
  rcases hmem with rfl | rfl | rfl | rfl | rfl | rfl | rfl | rfl | rfl | rfl | rfl
  all_goals
    (cases c1 <;> first | exact absurd e1 (by decide) | skip)
    (cases c2 <;> first | exact absurd e2 (by decide) | skip)
    (cases c3 <;> first | exact absurd e3 (by decide) | skip)
    (cases c4 <;> first | exact absurd e4 (by decide) | skip)
    (cases c5 <;> first | exact absurd e5 (by decide) | skip)
    (cases c6 <;> first | exact absurd e6 (by decide) | skip)
    (cases c7 <;> first | exact absurd e7 (by decide) | skip)
    (cases c8 <;> first | exact absurd e8 (by decide) | skip)
    (cases c9 <;> first | exact absurd e9 (by decide) | skip)
    (cases c10 <;> first | exact absurd e10 (by decide) | skip)
    (cases c11 <;> first | exact absurd e11 (by decide) | skip)
    first
      | exact Or.inl ⟨rfl, rfl⟩
      | (simp only [Bool.false_eq_true, if_false, if_true]
         exact Or.inr ⟨by decide, _, _, rfl, rfl, rfl, rfl, rfl, rfl⟩)

theorem fileIncident_spec (r lapNum : Nat) (d : DriverData) :
    (lapNum < d.Laps.length →
      ∃ l, d.Laps[lapNum - 1]? = some l ∧
        F12020UdpClrMapper.fileIncident r lapNum d
          = some { d with
                   Laps :=
                     d.Laps.set (lapNum - 1) { l with Incidents := l.Incidents ++ [r] } }) ∧
    (d.Laps.length ≤ lapNum → F12020UdpClrMapper.fileIncident r lapNum d = some d) := by
  unfold F12020UdpClrMapper.fileIncident
  constructor
  · intro hlt
    rw [if_pos (by omega)]
    simp only
    have hidx : (if (lapNum : Int) - 1 < 0 then (0 : Int) else (lapNum : Int) - 1)
        = ((lapNum - 1 : Nat) : Int) := by
      split <;> omega
    rw [hidx]
    have hget : getLap d.Laps ((lapNum - 1 : Nat) : Int) = some d.Laps[lapNum - 1] := by
      unfold getLap
      rw [if_neg (by omega), Int.toNat_ofNat]
      exact List.getElem?_eq_getElem (by omega)
    refine ⟨d.Laps[lapNum - 1], List.getElem?_eq_getElem (by omega), ?_⟩
    unfold modifyLap
    rw [hget]
    simp only [Int.toNat_ofNat]
  · intro hge
    rw [if_neg (by omega)]

/-- The branch for the event code `PENA` when the vehicle index is within the driver array:
one new event object, referenced at the end of the event list; the driver gets the penalty
queued and the incident filed; nothing else changes. -/
theorem penaltyEvent_spec (m : F12020UdpClrMapper) (now : Time)
    (hv : m.parser.event.m_eventDetails.Penalty.vehicleIdx < m.Drivers.length) :
    ∃ d d1 x e, m.Drivers[m.parser.event.m_eventDetails.Penalty.vehicleIdx]? = some d ∧
      F12020UdpClrMapper.fileIncident m.objects.length
        m.parser.event.m_eventDetails.Penalty.lapNum d = some d1 ∧
      F12020UdpClrMapper.penaltyEvent m now = some x ∧
      e.Type_ = EventType.PenaltyIssued ∧ e.TimeCode = now ∧ e.PenaltyServed = false ∧
      e.PenaltyType = m.parser.event.m_eventDetails.Penalty.penaltyType ∧
      e.CarIndex = m.parser.event.m_eventDetails.Penalty.vehicleIdx ∧
      e.LapNum = m.parser.event.m_eventDetails.Penalty.lapNum ∧
      x.objects = m.objects ++ [e] ∧ x.EventList = m.EventList ++ [m.objects.length] ∧
      x.SessionInfo = m.SessionInfo ∧ x.CountDrivers = m.CountDrivers ∧
      x.Classification = m.Classification ∧ x.parser = m.parser ∧
      x.Drivers = m.Drivers.set m.parser.event.m_eventDetails.Penalty.vehicleIdx
        (F12020UdpClrMapper.queuePenalty m.objects.length
          m.parser.event.m_eventDetails.Penalty.penaltyType d1) := by
  have hd : m.Drivers[m.parser.event.m_eventDetails.Penalty.vehicleIdx]?
      = some m.Drivers[m.parser.event.m_eventDetails.Penalty.vehicleIdx] :=
    List.getElem?_eq_getElem hv
  generalize m.Drivers[m.parser.event.m_eventDetails.Penalty.vehicleIdx] = d at hd
  have hfile : ∃ d1, F12020UdpClrMapper.fileIncident m.objects.length
      m.parser.event.m_eventDetails.Penalty.lapNum d = some d1 := by
    by_cases hlt : m.parser.event.m_eventDetails.Penalty.lapNum < d.Laps.length
    · obtain ⟨l, -, hl⟩ := (fileIncident_spec m.objects.length _ d).1 hlt
      exact ⟨_, hl⟩
    · exact ⟨d, (fileIncident_spec m.objects.length _ d).2 (by omega)⟩
  obtain ⟨d1, hd1⟩ := hfile
  have hd' : (F12020UdpClrMapper.addEvent m
      { TimeCode := now, Type_ := EventType.PenaltyIssued,
        PenaltyType := m.parser.event.m_eventDetails.Penalty.penaltyType,
        LapNum := m.parser.event.m_eventDetails.Penalty.lapNum,
        CarIndex := m.parser.event.m_eventDetails.Penalty.vehicleIdx,
        OtherVehicleIdx := m.parser.event.m_eventDetails.Penalty.otherVehicleIdx,
        InfringementType := m.parser.event.m_eventDetails.Penalty.infringementType,
        TimeGained := m.parser.event.m_eventDetails.Penalty.time,
        PlacesGained := m.parser.event.m_eventDetails.Penalty.placesGained,
        PenaltyServed := false }).Drivers[m.parser.event.m_eventDetails.Penalty.vehicleIdx]?
      = some d := hd
  have hres : ∃ x, F12020UdpClrMapper.penaltyEvent m now = some x ∧
      x = { F12020UdpClrMapper.addEvent m
            { TimeCode := now, Type_ := EventType.PenaltyIssued,
              PenaltyType := m.parser.event.m_eventDetails.Penalty.penaltyType,
              LapNum := m.parser.event.m_eventDetails.Penalty.lapNum,
              CarIndex := m.parser.event.m_eventDetails.Penalty.vehicleIdx,
              OtherVehicleIdx := m.parser.event.m_eventDetails.Penalty.otherVehicleIdx,
              InfringementType := m.parser.event.m_eventDetails.Penalty.infringementType,
              TimeGained := m.parser.event.m_eventDetails.Penalty.time,
              PlacesGained := m.parser.event.m_eventDetails.Penalty.placesGained,
              PenaltyServed := false } with
            Drivers := m.Drivers.set m.parser.event.m_eventDetails.Penalty.vehicleIdx
              (F12020UdpClrMapper.queuePenalty m.objects.length
                m.parser.event.m_eventDetails.Penalty.penaltyType d1) } := by
    unfold F12020UdpClrMapper.penaltyEvent
    simp only
    rw [hd']
    simp only
    rw [hd1]
    exact ⟨_, rfl, rfl⟩
  obtain ⟨x, hx, rfl⟩ := hres
  exact ⟨d, d1, _, _, hd, hd1, hx, rfl, rfl, rfl, rfl, rfl, rfl, rfl, rfl, rfl, rfl, rfl,
    rfl, rfl⟩

/-! ## Event code mapping -/

/-- C21: for every code of the table (`SSTA` ... `SPTP`, and for `PENA` with a vehicle index
inside the driver array) `m_UpdateEvent` returns, creates exactly one new event object, of the
type the table gives, and its reference is the last entry of the event list: the list is the
old one plus that entry, except for `SSTA`, whose reset empties the list first; `SEND` also
sets `SessionFinshed`. For a code that is none of the eleven the call only writes the first
code byte: no event is added and the model is unchanged. -/
theorem C21_event_code_mapping (m : F12020UdpClrMapper) (now : Time) :
    (∀ entry ∈ eventTable, F12020UdpClrMapper.codeIs m entry.1 = true →
      (entry.1 = "PENA" →
        m.parser.event.m_eventDetails.Penalty.vehicleIdx < m.Drivers.length) →
      ∃ m' e, F12020UdpClrMapper.m_UpdateEvent m now = some m' ∧ e.Type_ = entry.2 ∧
        m'.objects = m.objects ++ [e] ∧
        m'.EventList = (if entry.1 = "SSTA" then [] else m.EventList) ++ [m.objects.length] ∧
        (entry.1 = "SEND" → m'.SessionInfo.SessionFinshed = true)) ∧
    ((∀ entry ∈ eventTable, F12020UdpClrMapper.codeIs m entry.1 = false) →
      F12020UdpClrMapper.m_UpdateEvent m now = some (F12020UdpClrMapper.inhibitEvent m)) := by
  constructor
  · intro entry hmem hcode hpen
    have hhead := codeIs_head hmem hcode
    rcases @dispatchEvent_table m now entry hmem hcode with
      ⟨hp, hd⟩ | ⟨hnp, x, e, hx, ht, -, ho, hl, hf⟩
    · obtain ⟨d, d1, x, e, -, -, hx, ht, -, -, -, -, -, ho, hl, -⟩ :=
        penaltyEvent_spec m now (hpen hp)
      rw [← hd] at hx
      have htab : ∀ a ∈ eventTable, a.1 = "PENA" → a.2 = EventType.PenaltyIssued := by decide
      refine ⟨_, e, updateEvent_of_dispatch hhead hx, ht.trans (htab entry hmem hp).symm, ho,
        ?_, fun hs => ?_⟩
      · rw [hp, if_neg (by decide)]
        exact hl
      · rw [hp] at hs
        exact absurd hs (by decide)
    · refine ⟨_, e, updateEvent_of_dispatch hhead hx, ht, ho, hl, fun hs => ?_⟩
      show x.SessionInfo.SessionFinshed = true
      rw [hf, if_neg (by rw [hs]; decide), if_pos hs]
  · intro hnone
    have f1 := hnone ("SSTA", EventType.SessionStarted) (by decide)
    have f2 := hnone ("SEND", EventType.SessionEnded) (by decide)
    have f3 := hnone ("FTLP", EventType.FastestLap) (by decide)
    have f4 := hnone ("RTMT", EventType.Retirement) (by decide)
    have f5 := hnone ("DRSE", EventType.DRSenabled) (by decide)
    have f6 := hnone ("DRSD", EventType.DRSdisabled) (by decide)
    have f7 := hnone ("TMPT", EventType.TeamMateInPits) (by decide)
    have f8 := hnone ("CHQF", EventType.ChequeredFlag) (by decide)
    have f9 := hnone ("RCWN", EventType.RaceWinner) (by decide)
    have f10 := hnone ("PENA", EventType.PenaltyIssued) (by decide)
    have f11 := hnone ("SPTP", EventType.SpeedTrapTriggered) (by decide)
    have hd : F12020UdpClrMapper.dispatchEvent m now = some m := by
      unfold F12020UdpClrMapper.dispatchEvent
      simp only at f1 f2 f3 f4 f5 f6 f7 f8 f9 f10 f11
      rw [f1, f2, f3, f4, f5, f6, f7, f8, f9, f10, f11]
      rfl
    unfold F12020UdpClrMapper.m_UpdateEvent
    rw [hd, ite_self]

/-- C21 on a `SEND` event in the reset model: one event of type `SessionEnded` is added and the
session is finished; and on the unknown code `BUTN`: nothing but the code byte changes. -/
theorem C21_event_code_mapping_witness :
    (∃ m' e, F12020UdpClrMapper.m_UpdateEvent
        { resetMapper with parser := eventPacket "SEND" {} } 5 = some m' ∧
      e.Type_ = EventType.SessionEnded ∧ m'.objects = [e] ∧ m'.EventList = [0] ∧
      m'.SessionInfo.SessionFinshed = true) ∧
    F12020UdpClrMapper.m_UpdateEvent { resetMapper with parser := eventPacket "BUTN" {} } 5
      = some (F12020UdpClrMapper.inhibitEvent
          { resetMapper with parser := eventPacket "BUTN" {} }) := by
  constructor
  · obtain ⟨m', e, h1, h2, h3, h4, h5⟩ :=
      (C21_event_code_mapping { resetMapper with parser := eventPacket "SEND" {} } 5).1
        ("SEND", EventType.SessionEnded) (by decide) (by decide) (fun h => absurd h (by decide))
    exact ⟨m', e, h1, h2, h3, h4, h5 rfl⟩
  · exact (C21_event_code_mapping { resetMapper with parser := eventPacket "BUTN" {} } 5).2
      (by decide)

/-! ## Penalty events -/

/-- The effect of `m_UpdateEvent` on a `PENA` event with a vehicle index inside the driver
array. -/
theorem updateEvent_penalty (m : F12020UdpClrMapper) (now : Time)
    (hcode : F12020UdpClrMapper.codeIs m "PENA" = true)
    (hv : m.parser.event.m_eventDetails.Penalty.vehicleIdx < m.Drivers.length) :
    ∃ d d1 m' e, m.Drivers[m.parser.event.m_eventDetails.Penalty.vehicleIdx]? = some d ∧
      F12020UdpClrMapper.fileIncident m.objects.length
        m.parser.event.m_eventDetails.Penalty.lapNum d = some d1 ∧
      F12020UdpClrMapper.m_UpdateEvent m now = some m' ∧
      m'.objects = m.objects ++ [e] ∧ e.PenaltyServed = false ∧
      e.PenaltyType = m.parser.event.m_eventDetails.Penalty.penaltyType ∧
      e.CarIndex = m.parser.event.m_eventDetails.Penalty.vehicleIdx ∧
      m'.Drivers = m.Drivers.set m.parser.event.m_eventDetails.Penalty.vehicleIdx
        (F12020UdpClrMapper.queuePenalty m.objects.length
          m.parser.event.m_eventDetails.Penalty.penaltyType d1) := by
  have hmem : ("PENA", EventType.PenaltyIssued) ∈ eventTable := by decide
  have hhead := codeIs_head hmem hcode
  obtain ⟨d, d1, x, e, hd, hd1, hx, -, -, hs, ht, hc, -, ho, -, -, -, -, -, hdrv⟩ :=
    penaltyEvent_spec m now hv
  rcases @dispatchEvent_table m now _ hmem hcode with ⟨-, hdis⟩ | ⟨hne, -⟩
  · rw [← hdis] at hx
    exact ⟨d, d1, _, e, hd, hd1, updateEvent_of_dispatch hhead hx, ho, hs, ht, hc, hdrv⟩
  · exact absurd rfl hne

/-- C22: for a `PENA` event with a vehicle index inside the driver array, `m_UpdateEvent`
returns; the new event object has `PenaltyServed = false`; its reference is appended to the
`PitPenalties` of the driver at that index iff the penalty type is `DriveThrough`, `StopGo`,
`Disqualified` or `Retired` (else the list is unchanged), and every other driver object is
unchanged. -/
theorem C22_penalty_routing (m : F12020UdpClrMapper) (now : Time)
    (hcode : F12020UdpClrMapper.codeIs m "PENA" = true)
    (hv : m.parser.event.m_eventDetails.Penalty.vehicleIdx < m.Drivers.length) :
    ∃ m' d d' e, F12020UdpClrMapper.m_UpdateEvent m now = some m' ∧
      m.Drivers[m.parser.event.m_eventDetails.Penalty.vehicleIdx]? = some d ∧
      m'.Drivers[m.parser.event.m_eventDetails.Penalty.vehicleIdx]? = some d' ∧
      m'.objects = m.objects ++ [e] ∧ e.PenaltyServed = false ∧
      e.PenaltyType = m.parser.event.m_eventDetails.Penalty.penaltyType ∧
      d'.PitPenalties = d.PitPenalties ++
        (if e.PenaltyType = PenaltyTypes.DriveThrough ∨ e.PenaltyType = PenaltyTypes.StopGo ∨
            e.PenaltyType = PenaltyTypes.Disqualified ∨ e.PenaltyType = PenaltyTypes.Retired
         then [m.objects.length] else []) ∧
      ∀ j, j ≠ m.parser.event.m_eventDetails.Penalty.vehicleIdx →
        m'.Drivers[j]? = m.Drivers[j]? := by
  obtain ⟨d, d1, m', e, hd, hd1, hm', ho, hs, ht, -, hdrv⟩ := updateEvent_penalty m now hcode hv
  refine ⟨m', d, (F12020UdpClrMapper.queuePenalty m.objects.length
    m.parser.event.m_eventDetails.Penalty.penaltyType d1), e, hm', hd, ?_, ho, hs, ht, ?_, ?_⟩
  · rw [hdrv]
    exact get_set_same hd
  · have hp1 : d1.PitPenalties = d.PitPenalties := by
      by_cases hlt : m.parser.event.m_eventDetails.Penalty.lapNum < d.Laps.length
      · obtain ⟨l, -, hl⟩ := (fileIncident_spec m.objects.length _ d).1 hlt
        rw [hl] at hd1
        cases hd1
        rfl
      · rw [(fileIncident_spec m.objects.length _ d).2 (by omega)] at hd1
        cases hd1
        rfl
    rw [ht]
    unfold F12020UdpClrMapper.queuePenalty
    split
    · show d1.PitPenalties ++ [m.objects.length] = _
      rw [hp1]
    · rw [List.append_nil]
      exact hp1
  · intro j hj
    rw [hdrv]
    exact get_set_other (fun h => hj h.symm)

/-- C22 on a drive-through penalty and on a time penalty (type 4) for car 3 of the reset
model. -/
theorem C22_penalty_routing_witness :
    (∃ m' d' e, F12020UdpClrMapper.m_UpdateEvent
        { resetMapper with
          parser := eventPacket "PENA" { penaltyType := 0, vehicleIdx := 3, lapNum := 2 } } 5
          = some m' ∧
      m'.Drivers[3]? = some d' ∧ m'.objects = [e] ∧ e.PenaltyServed = false ∧
      d'.PitPenalties = [0]) ∧
    (((F12020UdpClrMapper.m_UpdateEvent
        { resetMapper with
          parser := eventPacket "PENA" { penaltyType := 4, vehicleIdx := 3, lapNum := 2 } } 5
        ).bind (fun m => m.Drivers[3]?)).map (fun d => d.PitPenalties)) = some [] := by
  refine ⟨?_, by decide!⟩
  obtain ⟨m', d, d', e, h1, h2, h3, h4, h5, h6, h7, -⟩ := C22_penalty_routing
    { resetMapper with
      parser := eventPacket "PENA" { penaltyType := 0, vehicleIdx := 3, lapNum := 2 } } 5
    (by decide) (by decide)
  have hd : d = { Laps := List.replicate 5 {} } :=
    Option.some.inj (h2.symm.trans (by decide!))
  refine ⟨m', d', e, h1, h3, h4, h5, ?_⟩
  have h6' : e.PenaltyType = 0 := h6
  rw [h7, hd, h6']
  decide

/-- C23: for a `PENA` event with a vehicle index inside the driver array, `m_UpdateEvent`
returns; if `lapNum` is smaller than the length of the driver's lap array, the reference of
the new event is appended to the `Incidents` of the slot `Laps[lapNum - 1]` (slot 0 for
`lapNum = 0`, the subtraction being truncated) and no other slot changes; if `lapNum` is not
smaller, no slot changes; every other driver object is unchanged. -/
theorem C23_penalty_incident (m : F12020UdpClrMapper) (now : Time)
    (hcode : F12020UdpClrMapper.codeIs m "PENA" = true)
    (hv : m.parser.event.m_eventDetails.Penalty.vehicleIdx < m.Drivers.length) :
    ∃ m' d d', F12020UdpClrMapper.m_UpdateEvent m now = some m' ∧
      m.Drivers[m.parser.event.m_eventDetails.Penalty.vehicleIdx]? = some d ∧
      m'.Drivers[m.parser.event.m_eventDetails.Penalty.vehicleIdx]? = some d' ∧
      (m.parser.event.m_eventDetails.Penalty.lapNum < d.Laps.length →
        ∃ l, d.Laps[m.parser.event.m_eventDetails.Penalty.lapNum - 1]? = some l ∧
          d'.Laps = d.Laps.set (m.parser.event.m_eventDetails.Penalty.lapNum - 1)
            { l with Incidents := l.Incidents ++ [m.objects.length] }) ∧
      (m.parser.event.m_eventDetails.Penalty.lapNum = 0 → 0 < d.Laps.length →
        ∃ l, d.Laps[0]? = some l ∧
          d'.Laps = d.Laps.set 0 { l with Incidents := l.Incidents ++ [m.objects.length] }) ∧
      (d.Laps.length ≤ m.parser.event.m_eventDetails.Penalty.lapNum → d'.Laps = d.Laps) ∧
      ∀ j, j ≠ m.parser.event.m_eventDetails.Penalty.vehicleIdx →
        m'.Drivers[j]? = m.Drivers[j]? := by
  obtain ⟨d, d1, m', e, hd, hd1, hm', -, -, -, -, hdrv⟩ := updateEvent_penalty m now hcode hv
  have hq : ∀ x : DriverData, (F12020UdpClrMapper.queuePenalty m.objects.length
      m.parser.event.m_eventDetails.Penalty.penaltyType x).Laps = x.Laps := by
    intro x
    unfold F12020UdpClrMapper.queuePenalty
    split <;> rfl
  have hin : m.parser.event.m_eventDetails.Penalty.lapNum < d.Laps.length →
      ∃ l, d.Laps[m.parser.event.m_eventDetails.Penalty.lapNum - 1]? = some l ∧
        (F12020UdpClrMapper.queuePenalty m.objects.length
          m.parser.event.m_eventDetails.Penalty.penaltyType d1).Laps
          = d.Laps.set (m.parser.event.m_eventDetails.Penalty.lapNum - 1)
            { l with Incidents := l.Incidents ++ [m.objects.length] } := by
    intro hlt
    obtain ⟨l, hl, hfile⟩ := (fileIncident_spec m.objects.length _ d).1 hlt
    rw [hfile] at hd1
    cases hd1
    exact ⟨l, hl, hq _⟩
  refine ⟨m', d, (F12020UdpClrMapper.queuePenalty m.objects.length
    m.parser.event.m_eventDetails.Penalty.penaltyType d1), hm', hd, ?_, hin, ?_, ?_, ?_⟩
  · rw [hdrv]
    exact get_set_same hd
  · intro h0 hpos
    have := hin (by rw [h0]; exact hpos)
    rw [h0] at this
    exact this
  · intro hge
    rw [(fileIncident_spec m.objects.length _ d).2 hge] at hd1
    cases hd1
    exact hq _
  · intro j hj
    rw [hdrv]
    exact get_set_other (fun h => hj h.symm)

/-- C23 on penalties for car 3 of the reset model (five lap slots): `lapNum = 2` files the
event under slot 1, `lapNum = 0` under slot 0, `lapNum = 5` under no slot. -/
theorem C23_penalty_incident_witness :
    (∃ m' d', F12020UdpClrMapper.m_UpdateEvent
        { resetMapper with
          parser := eventPacket "PENA" { penaltyType := 0, vehicleIdx := 3, lapNum := 2 } } 5
          = some m' ∧
      m'.Drivers[3]? = some d' ∧
      d'.Laps.map (fun l => l.Incidents) = [[], [0], [], [], []]) ∧
    (((F12020UdpClrMapper.m_UpdateEvent
        { resetMapper with
          parser := eventPacket "PENA" { penaltyType := 0, vehicleIdx := 3, lapNum := 0 } } 5
        ).bind (fun m => m.Drivers[3]?)).map (fun d => d.Laps.map (fun l => l.Incidents)))
      = some [[0], [], [], [], []] ∧
    (((F12020UdpClrMapper.m_UpdateEvent
        { resetMapper with
          parser := eventPacket "PENA" { penaltyType := 0, vehicleIdx := 3, lapNum := 5 } } 5
        ).bind (fun m => m.Drivers[3]?)).map (fun d => d.Laps.map (fun l => l.Incidents)))
      = some [[], [], [], [], []] := by
  refine ⟨?_, by decide!, by decide!⟩
  obtain ⟨m', d, d', h1, h2, h3, h4, -, -, -⟩ := C23_penalty_incident
    { resetMapper with
      parser := eventPacket "PENA" { penaltyType := 0, vehicleIdx := 3, lapNum := 2 } } 5
    (by decide) (by decide)
  have hd : d = { Laps := List.replicate 5 {} } :=
    Option.some.inj (h2.symm.trans (by decide!))
  subst hd
  obtain ⟨l, hl, hlaps⟩ := h4 (by decide)
  have hl' : l = {} := Option.some.inj (hl.symm.trans (by decide!))
  subst hl'
  refine ⟨m', d', h1, h3, ?_⟩
  rw [hlaps]
  decide!

/-! ## One-shot event consumption -/

/-- C24: after a call of `m_UpdateEvent` that returns, the first byte of the event code is 0,
and a further call (at any time, nothing decoded in between) returns the same state: event
list, penalties, incidents and everything else are unchanged. -/
theorem C24_one_shot_event (m m' : F12020UdpClrMapper) (now : Time)
    (h : F12020UdpClrMapper.m_UpdateEvent m now = some m') :
    m'.parser.event.m_eventStringCode.headD 0 = 0 ∧
    ∀ later, F12020UdpClrMapper.m_UpdateEvent m' later = some m' := by
  have hset : ∀ l : List Nat, (l.set 0 0).headD 0 = 0 := by
    intro l
    cases l <;> rfl
  unfold F12020UdpClrMapper.m_UpdateEvent at h
  split at h
  · cases h
  rename_i x hx
  simp only [Option.some.injEq] at h
  subst h
  have hhead : (F12020UdpClrMapper.inhibitEvent x).parser.event.m_eventStringCode.headD 0
      = 0 := hset _
  refine ⟨hhead, fun later => ?_⟩
  unfold F12020UdpClrMapper.m_UpdateEvent
  rw [if_neg (fun hne => hne hhead)]
  simp only [F12020UdpClrMapper.inhibitEvent, List.set_set]

/-- C24 on a `PENA` event for car 3 of the reset model: the event is consumed once. -/
theorem C24_one_shot_event_witness :
    ∃ m', F12020UdpClrMapper.m_UpdateEvent
        { resetMapper with
          parser := eventPacket "PENA" { penaltyType := 0, vehicleIdx := 3, lapNum := 2 } } 5
          = some m' ∧
      m'.EventList = [0] ∧
      m'.parser.event.m_eventStringCode.headD 0 = 0 ∧
      F12020UdpClrMapper.m_UpdateEvent m' 6 = some m' := by
  obtain ⟨m', hm'⟩ := Option.isSome_iff_exists.1
    (show (F12020UdpClrMapper.m_UpdateEvent
      { resetMapper with
        parser := eventPacket "PENA" { penaltyType := 0, vehicleIdx := 3, lapNum := 2 } }
      5).isSome = true by decide!)
  obtain ⟨h1, h2⟩ := C24_one_shot_event _ m' 5 hm'
  have hl : ((F12020UdpClrMapper.m_UpdateEvent
      { resetMapper with
        parser := eventPacket "PENA" { penaltyType := 0, vehicleIdx := 3, lapNum := 2 } }
      5).map (fun m => m.EventList)) = some [0] := by decide!
  rw [hm'] at hl
  exact ⟨m', hm', Option.some.inj hl, h1, h2 6⟩

/-! ## Classification capture -/

theorem classificationEntries_spec (m : F12020UdpClrMapper) :
    ∀ n, n ≤ m.Drivers.length →
      ∃ entries, F12020UdpClrMapper.classificationEntries m n = some entries ∧
        entries.length = n ∧
        ∀ i, i < n → entries[i]? = some (classificationOf m.parser i) := by
  intro n
  induction n with
  | zero =>
    intro _
    exact ⟨[], rfl, rfl, fun i hi => absurd hi (Nat.not_lt_zero i)⟩
  | succ n ih =>
    intro hn
    obtain ⟨entries, he, hlen, hget⟩ := ih (by omega)
    have hd : m.Drivers[n]? = some m.Drivers[n] := List.getElem?_eq_getElem (by omega)
    refine ⟨entries ++ [classificationOf m.parser n], ?_, ?_, ?_⟩
    · unfold F12020UdpClrMapper.classificationEntries
      rw [he]
      simp only
      rw [hd]
      rfl
    · rw [List.length_append, hlen]
      rfl
    · intro i hi
      by_cases hin : i < n
      · rw [List.getElem?_append_left (by omega)]
        exact hget i hin
      · have hi' : i = n := by omega
        subst hi'
        rw [List.getElem?_append_right (by omega), hlen, Nat.sub_self]
        rfl

/-- C26: if the cached classification is unset and the raw classification has `n > 0` cars
(`n` within the driver array), `m_UpdateClassification` returns, the model is unchanged but
for the classification, which has exactly `n` entries, entry `i` referring to `Drivers[i]`
and copying the eight fields of raw entry `i`, and for the raw car count, which is 0; if the
cached classification is set or the raw car count is 0, the call changes nothing; a call
after a call that returned changes nothing. -/
theorem C26_classification_capture (m : F12020UdpClrMapper) :
    (m.Classification = none → 0 < m.parser.classification.m_numCars →
      m.parser.classification.m_numCars ≤ m.Drivers.length →
      ∃ entries, F12020UdpClrMapper.m_UpdateClassification m
          = some { m with
                   Classification := some entries,
                   parser := { m.parser with
                     classification := { m.parser.classification with m_numCars := 0 } } } ∧
        entries.length = m.parser.classification.m_numCars ∧
        ∀ i, i < m.parser.classification.m_numCars →
          entries[i]? = some
            { Driver := i,
              BestLapTime := (m.parser.classification.m_classificationData i).m_bestLapTime,
              TotalRaceTime := (m.parser.classification.m_classificationData i).m_totalRaceTime,
              GridPosition := (m.parser.classification.m_classificationData i).m_gridPosition,
              NumLaps := (m.parser.classification.m_classificationData i).m_numLaps,
              NumPenalties := (m.parser.classification.m_classificationData i).m_numPenalties,
              PenaltiesTime := (m.parser.classification.m_classificationData i).m_penaltiesTime,
              Points := (m.parser.classification.m_classificationData i).m_points,
              Position := (m.parser.classification.m_classificationData i).m_position }) ∧
    ((m.Classification.isSome = true ∨ m.parser.classification.m_numCars = 0) →
      F12020UdpClrMapper.m_UpdateClassification m = some m) ∧
    (∀ m', F12020UdpClrMapper.m_UpdateClassification m = some m' →
      F12020UdpClrMapper.m_UpdateClassification m' = some m') := by
  have hkeep : ∀ x : F12020UdpClrMapper,
      (x.Classification.isSome = true ∨ x.parser.classification.m_numCars = 0) →
      F12020UdpClrMapper.m_UpdateClassification x = some x := by
    intro x hx
    unfold F12020UdpClrMapper.m_UpdateClassification
    by_cases hc : x.Classification.isSome = true
    · rw [if_pos hc]
    · rw [if_neg hc]
      rcases hx with hx | hx
      · exact absurd hx hc
      · rw [if_pos hx]
  refine ⟨?_, hkeep m, ?_⟩
  · intro hnone hpos hle
    obtain ⟨entries, he, hlen, hget⟩ := classificationEntries_spec m _ hle
    refine ⟨entries, ?_, hlen, hget⟩
    unfold F12020UdpClrMapper.m_UpdateClassification
    rw [if_neg (by rw [hnone]; exact Bool.false_ne_true), if_neg (by omega), he]
  · intro m' hm'
    apply hkeep
    unfold F12020UdpClrMapper.m_UpdateClassification at hm'
    split at hm'
    · rename_i hc
      simp only [Option.some.injEq] at hm'
      rw [← hm']
      exact Or.inl hc
    · split at hm'
      · rename_i hz
        simp only [Option.some.injEq] at hm'
        rw [← hm']
        exact Or.inr hz
      · split at hm'
        · cases hm'
        · simp only [Option.some.injEq] at hm'
          rw [← hm']
          exact Or.inl rfl

/-- C26 on the reset model with a classification of three cars: three entries for drivers 0, 1
and 2 are captured, and a second call keeps them although the parser then reports two cars. -/
theorem C26_classification_capture_witness :
    (∃ entries, F12020UdpClrMapper.m_UpdateClassification
        { resetMapper with parser := classificationPacket 3 }
        = some { resetMapper with
                 Classification := some entries,
                 parser := { classificationPacket 3 with
                   classification :=
                     { (classificationPacket 3).classification with m_numCars := 0 } } } ∧
      entries.length = 3 ∧
      entries[2]? = some { Driver := 2, Points := 23, Position := 3 }) ∧
    (((F12020UdpClrMapper.m_UpdateClassification
        { resetMapper with parser := classificationPacket 3 }).bind
      (fun m => F12020UdpClrMapper.m_UpdateClassification
        { m with parser := classificationPacket 2 })).map
      (fun m => m.Classification.map (fun l => l.map (fun c => (c.Driver, c.Position)))))
      = some (some [(0, 1), (1, 2), (2, 3)]) := by
  refine ⟨?_, by decide!⟩
  obtain ⟨entries, h1, h2, h3⟩ :=
    (C26_classification_capture { resetMapper with parser := classificationPacket 3 }).1
      rfl (by decide) (by decide)
  exact ⟨entries, h1, h2, (h3 2 (by decide)).trans (by decide!)⟩

/-! ## What the driver update keeps of the model -/

theorem m_UpdateDrivers_model {m m' : F12020UdpClrMapper} {now : Time}
    (h : F12020UdpClrMapper.m_UpdateDrivers m now = some m') :
    m'.parser = m.parser ∧ m'.EventList = m.EventList ∧
    m'.Classification = m.Classification ∧ m'.m_nameMapings = m.m_nameMapings ∧
    m'.CountDrivers = (F12020UdpClrMapper.updateSession m).CountDrivers ∧
    ∃ c, m'.SessionInfo
      = { (F12020UdpClrMapper.updateSession m).SessionInfo with CurrentLap := c } := by
  unfold F12020UdpClrMapper.m_UpdateDrivers at h
  simp only at h
  split at h
  · cases h
  rename_i m1 hm1
  obtain ⟨hp1, -, hc1, hn1, hcl1, he1, -, hs1, -⟩ := lapLoop_shape _ 0 _ m1 hm1
  split at h
  · cases h
  rename_i m2 hm2
  have f2 : MapperFrame LapFrame m1 m2 :=
    forLoop_frame lapFrame_driverFrame (fun _ _ _ => presenceStep_frame lapFrame_driverFrame) hm2
  split at h
  · cases h
  rename_i m3 player leader hm3
  have f3 : MapperFrame LapFrame m2 m3 := identify_frame lapFrame_driverFrame hm3
  have f4 : MapperFrame LapFrame m3 m' := by
    split at h
    · simp only [Option.some.injEq] at h
      rw [← h]
      exact mapperFrame_refl lapFrame_driverFrame m3
    · exact forLoop_frame lapFrame_driverFrame
        (fun _ _ _ => driverStep_frame lapFrame_driverFrame) h
  obtain ⟨-, gp, gs, gc, gn, gcl, ge⟩ :=
    mapperFrame_trans lapFrame_driverFrame (mapperFrame_trans lapFrame_driverFrame f2 f3) f4
  refine ⟨gp.trans hp1, ge.trans he1, gcl.trans hcl1, gn.trans hn1, gc.trans hc1, ?_⟩
  obtain ⟨c, hc⟩ := hs1
  exact ⟨c, gs.trans hc⟩

theorem sameEvents_refl (o : List SessionEvent) : SameEvents o o :=
  ⟨rfl, fun _ e he => ⟨e.PenaltyServed, he⟩⟩

theorem sameEvents_trans {a b c : List SessionEvent} (h1 : SameEvents a b)
    (h2 : SameEvents b c) : SameEvents a c := by
  refine ⟨h2.1.trans h1.1, ?_⟩
  intro r e he
  obtain ⟨x, hx⟩ := h1.2 r e he
  obtain ⟨y, hy⟩ := h2.2 r _ hx
  exact ⟨y, hy⟩

theorem sameEvents_serveFirst (objects : List SessionEvent) (p : SessionEvent → Bool)
    (penalties : List Nat) :
    SameEvents objects (F12020UdpClrMapper.serveFirst objects p penalties) := by
  rcases serveFirst_cases objects p penalties with ⟨-, heq⟩ | ⟨pre, r, post, e, -, he, -, -, heq⟩
  · rw [heq]
    exact sameEvents_refl _
  · rw [heq]
    refine ⟨List.length_set _ _ _, ?_⟩
    intro k x hx
    by_cases hk : r = k
    · subst hk
      rw [he] at hx
      cases hx
      exact ⟨true, get_set_same he⟩
    · exact ⟨x.PenaltyServed, by rw [get_set_other hk]; exact hx⟩

theorem carUpdate_sameEvents (p : F12020ElementaryParser) (i : Nat) (now : Time)
    (objects : List SessionEvent) (c : DriverData) :
    SameEvents objects (F12020UdpClrMapper.carUpdate p i now objects c).2 := by
  obtain ⟨-, -, -, -, -, -, -, -, -, f10⟩ := carUpdate_fields p i now objects c
  rw [f10]
  split
  · split
    · exact sameEvents_serveFirst _ _ _
    · exact sameEvents_serveFirst _ _ _
  · exact sameEvents_refl _

/-- `m_UpdateDrivers` changes the event objects at most in their `PenaltyServed` flags. -/
theorem m_UpdateDrivers_objects {m m' : F12020UdpClrMapper} {now : Time}
    (h : F12020UdpClrMapper.m_UpdateDrivers m now = some m') :
    SameEvents m.objects m'.objects := by
  unfold F12020UdpClrMapper.m_UpdateDrivers at h
  simp only at h
  split at h
  · cases h
  rename_i m1 hm1
  obtain ⟨-, -, -, -, -, -, ho1, -, -⟩ := lapLoop_shape _ 0 _ m1 hm1
  split at h
  · cases h
  rename_i m2 hm2
  obtain ⟨-, -, -, -, ho2, -⟩ := presenceLoop_shape _ 0 m1 m2 hm2
  split at h
  · cases h
  rename_i m3 player leader hm3
  obtain ⟨-, -, -, -, ho3⟩ := identify_flag samePresence_flagFrame hm3
  have h03 : m3.objects = m.objects := by
    rw [ho3, ho2, ho1]
    rfl
  rw [← h03]
  split at h
  · simp only [Option.some.injEq] at h
    rw [← h]
    exact sameEvents_refl _
  · refine @forLoopFrom_rel F12020UdpClrMapper
      (fun a b : F12020UdpClrMapper => SameEvents a.objects b.objects) _
      (fun s => sameEvents_refl _) (fun a b c h1 h2 => sameEvents_trans h1 h2) ?_ _ 0 m3 m' h
    intro i s s' hs
    obtain ⟨d, -, hcase | ⟨d1, -, hcase⟩⟩ := driverStep_shape hs
    · rw [hcase]
      exact sameEvents_refl _
    · rw [hcase]
      exact carUpdate_sameEvents _ _ _ _ _

/-! ## Session start -/

theorem dispatchEvent_ssta {m : F12020UdpClrMapper} {now : Time}
    (hcode : F12020UdpClrMapper.codeIs m "SSTA" = true) :
    F12020UdpClrMapper.dispatchEvent m now
      = some (F12020UdpClrMapper.addEvent (F12020UdpClrMapper.m_Clear m)
          { TimeCode := now, Type_ := EventType.SessionStarted, CarIndex := 0 }) := by
  unfold F12020UdpClrMapper.dispatchEvent
  rw [hcode]
  rfl

theorem m_UpdateDrivers_firstLap {m m' : F12020UdpClrMapper} {now : Time}
    (h : F12020UdpClrMapper.m_UpdateDrivers m now = some m')
    (h1 : m.SessionInfo.CurrentLap = 1)
    (hlap : ∀ i, i < m.Drivers.length → (m.parser.lap.m_lapData i).m_currentLapNum ≤ 1) :
    m'.SessionInfo.CurrentLap = 1 := by
  unfold F12020UdpClrMapper.m_UpdateDrivers at h
  simp only at h
  split at h
  · cases h
  rename_i m1 hm1
  have hinv : m1.SessionInfo.CurrentLap = 1 ∧ m1.parser = m.parser ∧
      m1.Drivers.length = m.Drivers.length := by
    refine forLoopFrom_inv
      (P := fun s : F12020UdpClrMapper =>
        s.SessionInfo.CurrentLap = 1 ∧ s.parser = m.parser ∧
          s.Drivers.length = m.Drivers.length)
      ?_ _ 0 _ m1 ?_ hm1
    · rintro i s s' ⟨p1, p2, p3⟩ hs
      obtain ⟨d, d0, d1, hd, -, -, rfl⟩ := lapStep_shape hs
      have hi : i < m.Drivers.length := by
        rw [← p3]
        by_contra hlt
        rw [List.getElem?_eq_none (by omega)] at hd
        cases hd
      refine ⟨?_, p2, by simp only [List.length_set]; exact p3⟩
      have hn : F12020UdpClrMapper.lapNum (s.parser.lap.m_lapData i) d0 ≤ 1 := by
        have := hlap i hi
        rw [p2]
        unfold F12020UdpClrMapper.lapNum
        split
        · split <;> omega
        · omega
      show (F12020UdpClrMapper.updateCurrentLap _ s.SessionInfo).CurrentLap = 1
      unfold F12020UdpClrMapper.updateCurrentLap
      rw [p1, if_neg (by omega)]
      exact p1
    · exact ⟨h1, rfl, rfl⟩
  split at h
  · cases h
  rename_i m2 hm2
  obtain ⟨-, -, -, hs2, -, -⟩ := presenceLoop_shape _ 0 m1 m2 hm2
  split at h
  · cases h
  rename_i m3 player leader hm3
  obtain ⟨-, -, -, hs3, -⟩ := identify_flag samePresence_flagFrame hm3
  have hs4 : m'.SessionInfo = m3.SessionInfo := by
    split at h
    · simp only [Option.some.injEq] at h
      rw [← h]
    · exact (driverLoop_shape _ 0 m3 m' h).2.2.2.1
  rw [hs4, hs3, hs2]
  exact hinv.1

/-- C25, counterexample: an `SSTA` event arrives while the packets of a running session are
still cached (20 active cars, every car on lap 3, 10 laps in total). After the update cycle
the event list is `[SessionStarted]` and the session is not finished, but `CountDrivers` is 20
and `CurrentLap` is 3. -/
theorem C25_session_start_counterexample :
    F12020UdpClrMapper.codeIs { resetMapper with parser := restartPacket } "SSTA" = true ∧
    eventTypesOf (F12020UdpClrMapper.m_Update { resetMapper with parser := restartPacket } 0)
      = some [EventType.SessionStarted] ∧
    sessionOf (F12020UdpClrMapper.m_Update { resetMapper with parser := restartPacket } 0)
      = some ({ EventTrack := 17, Session := SessionType.Race, TotalLaps := 10,
                CurrentLap := 3, SessionFinshed := false }, 20, false) := by
  refine ⟨by decide, by decide!, by decide!⟩

/-- C25, amended: in a cycle that processes an `SSTA` event, `m_UpdateEvent` leaves the event
list `[SessionStarted]`, `CountDrivers = 0`, no classification, `SessionFinshed = false` and
`CurrentLap = 1`; after the whole cycle `m_Update` the event list is still
`[SessionStarted]`, the classification is unset and `SessionFinshed = false`, while
`CountDrivers` is the number of active cars of the cached participants packet, and
`CurrentLap` is 1 if no cached lap data reports a lap number above 1. -/
theorem C25_session_start_reset (m m' : F12020UdpClrMapper) (now : Time)
    (hcode : F12020UdpClrMapper.codeIs m "SSTA" = true)
    (h : F12020UdpClrMapper.m_Update m now = some m') :
    (∃ x e, F12020UdpClrMapper.m_UpdateEvent m now = some x ∧
      x.EventList = [m.objects.length] ∧ x.objects = m.objects ++ [e] ∧
      e.Type_ = EventType.SessionStarted ∧ x.CountDrivers = 0 ∧ x.Classification = none ∧
      x.SessionInfo.SessionFinshed = false ∧ x.SessionInfo.CurrentLap = 1) ∧
    m'.EventList = [m.objects.length] ∧
    (∃ e, m'.objects[m.objects.length]? = some e ∧ e.Type_ = EventType.SessionStarted) ∧
    m'.Classification = none ∧ m'.SessionInfo.SessionFinshed = false ∧
    m'.CountDrivers = (m.parser.participants.m_numActiveCars : Int) ∧
    ((∀ i, i < m.Drivers.length → (m.parser.lap.m_lapData i).m_currentLapNum ≤ 1) →
      m'.SessionInfo.CurrentLap = 1) := by
  have hmem : ("SSTA", EventType.SessionStarted) ∈ eventTable := by decide
  have hev := updateEvent_of_dispatch (codeIs_head hmem hcode) (@dispatchEvent_ssta m now hcode)
  unfold F12020UdpClrMapper.m_Update at h
  rw [hev] at h
  simp only at h
  generalize hx : F12020UdpClrMapper.inhibitEvent (F12020UdpClrMapper.addEvent
    (F12020UdpClrMapper.m_Clear m)
    { TimeCode := now, Type_ := EventType.SessionStarted, CarIndex := 0 }) = x at h hev
  have x1 : x.EventList = [m.objects.length] := by rw [← hx]; rfl
  have x2 : x.objects = m.objects ++
      [{ TimeCode := now, Type_ := EventType.SessionStarted, CarIndex := 0 }] := by
    rw [← hx]; rfl
  have x3 : x.CountDrivers = 0 := by rw [← hx]; rfl
  have x4 : x.Classification = none := by rw [← hx]; rfl
  have x5 : x.SessionInfo.SessionFinshed = false := by rw [← hx]; rfl
  have x6 : x.SessionInfo.CurrentLap = 1 := by rw [← hx]; rfl
  have x7 : x.parser.classification.m_numCars = 0 := by rw [← hx]; rfl
  have x8 : x.parser.participants = m.parser.participants := by rw [← hx]; rfl
  have x9 : x.parser.lap = m.parser.lap := by rw [← hx]; rfl
  have x10 : x.Drivers.length = m.Drivers.length := by
    rw [← hx]
    show (m.Drivers.map F12020UdpClrMapper.Reset).length = _
    rw [List.length_map]
  refine ⟨⟨x, _, hev, x1, x2, rfl, x3, x4, x5, x6⟩, ?_⟩
  split at h
  · cases h
  rename_i y hy
  obtain ⟨yp, ye, ycl, -, yc, c, ys⟩ := m_UpdateDrivers_model hy
  have hclass : F12020UdpClrMapper.m_UpdateClassification y = some y := by
    unfold F12020UdpClrMapper.m_UpdateClassification
    rw [ycl, x4, yp, x7]
    rfl
  rw [hclass] at h
  simp only [Option.some.injEq] at h
  subst h
  refine ⟨ye.trans x1, ?_, ycl.trans x4, ?_, ?_, ?_⟩
  · obtain ⟨-, hobj⟩ := m_UpdateDrivers_objects hy
    have hget : x.objects[m.objects.length]?
        = some { TimeCode := now, Type_ := EventType.SessionStarted, CarIndex := 0 } := by
      rw [x2, List.getElem?_append_right (le_refl _), Nat.sub_self]
      rfl
    obtain ⟨b, hb⟩ := hobj _ _ hget
    exact ⟨_, hb, rfl⟩
  · rw [ys]
    exact x5
  · rw [yc]
    unfold F12020UdpClrMapper.updateSession
    simp only
    rw [x3, x8]
    split
    · rfl
    · omega
  · intro hlap
    refine m_UpdateDrivers_firstLap hy x6 ?_
    intro i hi
    rw [x9]
    exact hlap i (by rw [← x10]; exact hi)

/-- C25, amended, on scenario S1: `SSTA`, then the session packet (track 17 is Austria, 10
laps, race): event list `[SessionStarted]`, current lap 1, not finished, no car seen yet. -/
theorem C25_session_start_reset_witness :
    (∃ m', F12020UdpClrMapper.m_Update { resetMapper with parser := eventPacket "SSTA" {} } 0
        = some m' ∧
      m'.EventList = [0] ∧ m'.Classification = none ∧
      m'.SessionInfo.SessionFinshed = false ∧ m'.CountDrivers = 0 ∧
      m'.SessionInfo.CurrentLap = 1) ∧
    eventTypesOf (runCycles resetMapper
        [(eventPacket "SSTA" {}, 0), (sessionPacket 17 SessionType.Race 10, 1)])
      = some [EventType.SessionStarted] ∧
    sessionOf (runCycles resetMapper
        [(eventPacket "SSTA" {}, 0), (sessionPacket 17 SessionType.Race 10, 1)])
      = some ({ EventTrack := 17, Session := SessionType.Race, TotalLaps := 10,
                CurrentLap := 1, SessionFinshed := false }, 0, false) := by
  refine ⟨?_, by decide!, by decide!⟩
  obtain ⟨m', hm'⟩ := Option.isSome_iff_exists.1
    (show (F12020UdpClrMapper.m_Update
      { resetMapper with parser := eventPacket "SSTA" {} } 0).isSome = true by decide!)
  obtain ⟨-, h2, -, h4, h5, h6, h7⟩ := C25_session_start_reset
    { resetMapper with parser := eventPacket "SSTA" {} } m' 0 (by decide) hm'
  exact ⟨m', hm', h2, h4, h5, h6, h7 (fun i _ => Nat.zero_le 1)⟩

/-! ## Classification and session end -/

theorem dispatchEvent_classification {m x : F12020UdpClrMapper} {now : Time}
    (h : F12020UdpClrMapper.dispatchEvent m now = some x) :
    (x.Classification = m.Classification ∧
      x.parser.classification = m.parser.classification) ∨
    (x.Classification = none ∧ x.parser.classification.m_numCars = 0) := by
  have hpen : ∀ y, F12020UdpClrMapper.penaltyEvent m now = some y →
      y.Classification = m.Classification ∧
        y.parser.classification = m.parser.classification := by
    intro y hy
    unfold F12020UdpClrMapper.penaltyEvent at hy
    simp only at hy
    split at hy
    · cases hy
    split at hy
    · cases hy
    simp only [Option.some.injEq] at hy
    rw [← hy]
    exact ⟨rfl, rfl⟩
  unfold F12020UdpClrMapper.dispatchEvent at h
  generalize F12020UdpClrMapper.codeIs m "SSTA" = c1 at h
  generalize F12020UdpClrMapper.codeIs m "SEND" = c2 at h
  generalize F12020UdpClrMapper.codeIs m "FTLP" = c3 at h
  generalize F12020UdpClrMapper.codeIs m "RTMT" = c4 at h
  generalize F12020UdpClrMapper.codeIs m "DRSE" = c5 at h
  generalize F12020UdpClrMapper.codeIs m "DRSD" = c6 at h
  generalize F12020UdpClrMapper.codeIs m "TMPT" = c7 at h
  generalize F12020UdpClrMapper.codeIs m "CHQF" = c8 at h
  generalize F12020UdpClrMapper.codeIs m "RCWN" = c9 at h
  generalize F12020UdpClrMapper.codeIs m "PENA" = c10 at h
  generalize F12020UdpClrMapper.codeIs m "SPTP" = c11 at h
  have hsome : ∀ a : F12020UdpClrMapper, some a = some x →
      (a.Classification = m.Classification ∧
        a.parser.classification = m.parser.classification) →
      (x.Classification = m.Classification ∧
        x.parser.classification = m.parser.classification) := by
    intro a ha hd
    cases ha
    exact hd
  cases c1
  · left
    cases c2
    · cases c3
      · cases c4
        · cases c5
          · cases c6
            · cases c7
              · cases c8
                · cases c9
                  · cases c10
                    · cases c11
                      · exact hsome _ h ⟨rfl, rfl⟩
                      · exact hsome _ h ⟨rfl, rfl⟩
                    · exact hpen x h
                  · exact hsome _ h ⟨rfl, rfl⟩
                · exact hsome _ h ⟨rfl, rfl⟩
              · exact hsome _ h ⟨rfl, rfl⟩
            · exact hsome _ h ⟨rfl, rfl⟩
          · exact hsome _ h ⟨rfl, rfl⟩
        · exact hsome _ h ⟨rfl, rfl⟩
      · exact hsome _ h ⟨rfl, rfl⟩
    · exact hsome _ h ⟨rfl, rfl⟩
  · right
    have h' : some (F12020UdpClrMapper.addEvent (F12020UdpClrMapper.m_Clear m)
        { TimeCode := now, Type_ := EventType.SessionStarted, CarIndex := 0 }) = some x := h
    cases h'
    exact ⟨rfl, rfl⟩

/-- A cycle that sets the classification found a raw classification with cars in the parser
state it started with. -/
theorem m_Update_classification {m m' : F12020UdpClrMapper} {now : Time}
    (h : F12020UdpClrMapper.m_Update m now = some m')
    (hnone : m.Classification = none) (hset : m'.Classification.isSome = true) :
    0 < m.parser.classification.m_numCars := by
  unfold F12020UdpClrMapper.m_Update at h
  split at h
  · cases h
  rename_i x hx
  split at h
  · cases h
  rename_i y hy
  have hxc : x.Classification = none ∧
      (x.parser.classification.m_numCars = m.parser.classification.m_numCars ∨
        x.parser.classification.m_numCars = 0) := by
    unfold F12020UdpClrMapper.m_UpdateEvent at hx
    split at hx
    · cases hx
    rename_i x0 hx0
    simp only [Option.some.injEq] at hx
    rw [← hx]
    show x0.Classification = none ∧
      (x0.parser.classification.m_numCars = m.parser.classification.m_numCars ∨
        x0.parser.classification.m_numCars = 0)
    split at hx0
    · rcases dispatchEvent_classification hx0 with ⟨k1, k2⟩ | ⟨k1, k2⟩
      · exact ⟨k1.trans hnone, Or.inl (by rw [k2])⟩
      · exact ⟨k1, Or.inr k2⟩
    · simp only [Option.some.injEq] at hx0
      rw [← hx0]
      exact ⟨hnone, Or.inl rfl⟩
  obtain ⟨yp, -, ycl, -, -, -⟩ := m_UpdateDrivers_model hy
  by_contra hzero
  have hz : y.parser.classification.m_numCars = 0 := by
    rw [yp]
    rcases hxc.2 with k | k
    · rw [k]
      omega
    · exact k
  unfold F12020UdpClrMapper.m_UpdateClassification at h
  rw [ycl, hxc.1] at h
  rw [if_neg (by exact Bool.false_ne_true), if_pos hz] at h
  simp only [Option.some.injEq] at h
  rw [← h, ycl, hxc.1] at hset
  cases hset

/-- C27, counterexample: one update cycle on the reset model with a final classification of
two cars in the parser state and no event: the classification is set and `SessionFinshed` is
false. -/
theorem C27_classification_counterexample :
    sessionOf (some resetMapper) = some ({}, 0, false) ∧
    (classificationPacket 2).event.m_eventStringCode = [0, 0, 0, 0] ∧
    sessionOf (runCycles resetMapper [(classificationPacket 2, 0)])
      = some ({ SessionFinshed := false }, 0, true) := by
  refine ⟨by decide!, by decide, by decide!⟩

/-- C27, amended: in every state reached from a model without classification by update
cycles, if the classification is set then the parser state of one of the cycles carried a
raw classification with at least one car (the capture tests nothing else; `SessionFinshed`
is not consulted). -/
theorem C27_classification_source :
    ∀ (run : List (F12020ElementaryParser × Time)) (m m' : F12020UdpClrMapper),
      m.Classification = none → runCycles m run = some m' →
      m'.Classification.isSome = true →
      ∃ c ∈ run, 0 < c.1.classification.m_numCars := by
  intro run
  induction run with
  | nil =>
    intro m m' hnone hrun hset
    simp only [runCycles, Option.some.injEq] at hrun
    rw [← hrun, hnone] at hset
    cases hset
  | cons c rest ih =>
    intro m m' hnone hrun hset
    obtain ⟨p, now⟩ := c
    unfold runCycles at hrun
    split at hrun
    · cases hrun
    rename_i m1 hm1
    cases hc : m1.Classification with
    | none =>
      obtain ⟨c, hc1, hc2⟩ := ih m1 m' hc hrun hset
      exact ⟨c, List.mem_cons_of_mem _ hc1, hc2⟩
    | some entries =>
      have hpos := m_Update_classification hm1 hnone (by rw [hc]; rfl)
      exact ⟨(p, now), List.mem_cons_self _ _, hpos⟩

/-- C27, amended, on the run of the counterexample. -/
theorem C27_classification_source_witness :
    ∃ m', runCycles resetMapper [(classificationPacket 2, 0)] = some m' ∧
      m'.Classification.isSome = true ∧
      ∃ c ∈ [(classificationPacket 2, (0 : Time))], 0 < c.1.classification.m_numCars := by
  obtain ⟨m', hm'⟩ := Option.isSome_iff_exists.1
    (show (runCycles resetMapper [(classificationPacket 2, 0)]).isSome = true by decide!)
  have hset : m'.Classification.isSome = true := by
    have : ((runCycles resetMapper [(classificationPacket 2, 0)]).map
        (fun m => m.Classification.isSome)) = some true := by decide!
    rw [hm'] at this
    exact Option.some.inj this
  exact ⟨m', hm', hset,
    C27_classification_source [(classificationPacket 2, 0)] resetMapper m' rfl hm' hset⟩

section DriverNames
open F12020UdpClrMapper

/-! ## Driver names: the two passes over the mapping table -/

/-- The first entry satisfying a test is what `List.find?` returns. -/
theorem find?_first {α : Type} (p : α → Bool) (l pre post : List α) (a : α)
    (hl : l = pre ++ a :: post) (ha : p a = true) (hpre : ∀ q ∈ pre, ¬ p q = true) :
    l.find? p = some a := by
  rw [List.find?_eq_some]
  exact ⟨ha, pre, post, hl, fun q hq => by simpa using hpre q hq⟩

/-- If some entry satisfies a test, `List.find?` returns the first one. -/
theorem find?_exists {α : Type} (p : α → Bool) (l : List α) (h : ∃ q ∈ l, p q = true) :
    ∃ pre a post, l = pre ++ a :: post ∧ p a = true ∧ (∀ q ∈ pre, ¬ p q = true) ∧
      l.find? p = some a := by
  cases hf : l.find? p with
  | none =>
    obtain ⟨q, hq, hpq⟩ := h
    rw [List.find?_eq_none] at hf
    exact absurd hpq (hf q hq)
  | some a =>
    obtain ⟨ha, pre, post, hl, hpre⟩ := List.find?_eq_some.1 hf
    exact ⟨pre, a, post, hl, ha, fun q hq => by simpa using hpre q hq, rfl⟩

/-- The test of the first loop of `m_UpdateDriverName` is `TeamMatch`. -/
theorem teamTest_iff (team : F1Team) (number : Nat) (mp : DriverNameMapping) :
    (decide (mp.Team = some team) && decide (mp.DriverNumber = number)) = true ↔
      TeamMatch team number mp := by
  simp [TeamMatch]

/-- The test of the second loop of `m_UpdateDriverName` is `NumberOnly`. -/
theorem numberTest_iff (number : Nat) (mp : DriverNameMapping) :
    (mp.Team.isNone && decide (mp.DriverNumber = number)) = true ↔ NumberOnly number mp := by
  cases h : mp.Team <;> simp [NumberOnly, h]

/-- First pass: an entry found by the team test names the driver. -/
theorem updateDriverName_team (maps : List DriverNameMapping) (part : ParticipantData)
    (d0 : DriverData) (mp : DriverNameMapping) (hnum : part.m_raceNumber ≠ 0)
    (h : maps.find? (fun mp => decide (mp.Team = some d0.Team) &&
        decide (mp.DriverNumber = part.m_raceNumber)) = some mp) :
    updateDriverName (some maps) part d0 =
      { SetNameFromTelemetry d0 part.m_name with MappedName := mp.Name, Name := mp.Name } := by
  have h' : maps.find? (fun mp =>
      decide (mp.Team = some (SetNameFromTelemetry d0 part.m_name).Team) &&
        decide (mp.DriverNumber = part.m_raceNumber)) = some mp := h
  simp only [updateDriverName, if_neg hnum, h']

/-- Second pass: reached when the team test finds nothing. -/
theorem updateDriverName_number (maps : List DriverNameMapping) (part : ParticipantData)
    (d0 : DriverData) (mp : DriverNameMapping) (hnum : part.m_raceNumber ≠ 0)
    (h1 : maps.find? (fun mp => decide (mp.Team = some d0.Team) &&
        decide (mp.DriverNumber = part.m_raceNumber)) = none)
    (h2 : maps.find? (fun mp => mp.Team.isNone &&
        decide (mp.DriverNumber = part.m_raceNumber)) = some mp) :
    updateDriverName (some maps) part d0 =
      { SetNameFromTelemetry d0 part.m_name with MappedName := mp.Name, Name := mp.Name } := by
  have h' : maps.find? (fun mp =>
      decide (mp.Team = some (SetNameFromTelemetry d0 part.m_name).Team) &&
        decide (mp.DriverNumber = part.m_raceNumber)) = none := h1
  simp only [updateDriverName, if_neg hnum, h', h2]

/-- No entry of the table passes either test: the mapped name is cleared and the name comes
from the telemetry data. -/
theorem updateDriverName_unmapped (maps : List DriverNameMapping) (part : ParticipantData)
    (d0 : DriverData) (hnum : part.m_raceNumber ≠ 0)
    (h1 : maps.find? (fun mp => decide (mp.Team = some d0.Team) &&
        decide (mp.DriverNumber = part.m_raceNumber)) = none)
    (h2 : maps.find? (fun mp => mp.Team.isNone &&
        decide (mp.DriverNumber = part.m_raceNumber)) = none) :
    updateDriverName (some maps) part d0 =
      nameWithoutMapping part
        { SetNameFromTelemetry d0 part.m_name with MappedName := "" } := by
  have h' : maps.find? (fun mp =>
      decide (mp.Team = some (SetNameFromTelemetry d0 part.m_name).Team) &&
        decide (mp.DriverNumber = part.m_raceNumber)) = none := h1
  simp only [updateDriverName, if_neg hnum, h', h2]

/-- The name given without a mapping. -/
theorem nameWithoutMapping_name (part : ParticipantData) (d : DriverData) :
    (part.m_driverId < 100 →
      (nameWithoutMapping part d).Name = (nameWithoutMapping part d).TelemetryName) ∧
    (100 ≤ part.m_driverId →
      (nameWithoutMapping part d).Name =
        teamName part.m_teamId ++ " (" ++ toString part.m_raceNumber ++ ")") := by
  constructor
  · intro h
    simp only [nameWithoutMapping, if_pos h]
  · intro h
    simp only [nameWithoutMapping, if_neg (Nat.not_lt.2 h)]

/-- With a race number and an existing driver object `m_UpdateDriverName` returns and replaces
that driver object only. -/
theorem m_UpdateDriverName_eq (m : F12020UdpClrMapper) (i : Nat) (d : DriverData)
    (hd : m.Drivers[i]? = some d)
    (hnum : (m.parser.participants.m_participants i).m_raceNumber ≠ 0) :
    m_UpdateDriverName m i = some { m with
      Drivers := m.Drivers.set i
        (updateDriverName m.m_nameMapings (m.parser.participants.m_participants i) d) } := by
  simp only [m_UpdateDriverName, if_neg hnum, hd]

/-- The team names of `m_UpdateDriverName`. -/
theorem teamName_table :
    (List.range 10).map teamName =
      ["Mercedes", "Ferrari", "Red Bull", "Williams", "Racing Point", "Renault", "Alpha Tauri",
        "Haas", "McLaren", "Alfa Romeo"] ∧
    ∀ t, 10 ≤ t → teamName t = "Car" := by
  refine ⟨by decide, fun t ht => ?_⟩
  unfold teamName
  split <;> first | rfl | omega

/-- What one call of `m_UpdateDriverName(i)` does on an existing driver object `d`, where the
team of the first pass is the field `Team` that `d` has at the time of the call (not
`m_teamId` of the packet). With race number 0 the model is returned unchanged. Otherwise the
call returns, replaces only driver `i`, and the new name is the name of an entry of the mapping
table with `d.Team` and the race number, if there is one; else the name of an entry without
team and with the race number, if there is one; else (no table, or no entry passes either test)
the telemetry name when `m_driverId < 100` and the team name of `m_teamId`, a blank and the
race number in brackets when `m_driverId >= 100`. -/
theorem m_UpdateDriverName_priority (m : F12020UdpClrMapper) (i : Nat) (d : DriverData)
    (hd : m.Drivers[i]? = some d) :
    ((m.parser.participants.m_participants i).m_raceNumber = 0 →
      m_UpdateDriverName m i = some m) ∧
    ((m.parser.participants.m_participants i).m_raceNumber ≠ 0 →
      ∃ d', m_UpdateDriverName m i = some { m with Drivers := m.Drivers.set i d' } ∧
        (∀ maps, m.m_nameMapings = some maps →
          (∃ mp ∈ maps,
            TeamMatch d.Team (m.parser.participants.m_participants i).m_raceNumber mp) →
          ∃ mp ∈ maps,
            TeamMatch d.Team (m.parser.participants.m_participants i).m_raceNumber mp ∧
            d'.Name = mp.Name) ∧
        (∀ maps, m.m_nameMapings = some maps →
          (∀ mp ∈ maps,
            ¬ TeamMatch d.Team (m.parser.participants.m_participants i).m_raceNumber mp) →
          (∃ mp ∈ maps, NumberOnly (m.parser.participants.m_participants i).m_raceNumber mp) →
          ∃ mp ∈ maps, NumberOnly (m.parser.participants.m_participants i).m_raceNumber mp ∧
            d'.Name = mp.Name) ∧
        ((∀ maps, m.m_nameMapings = some maps → ∀ mp ∈ maps,
            ¬ TeamMatch d.Team (m.parser.participants.m_participants i).m_raceNumber mp ∧
            ¬ NumberOnly (m.parser.participants.m_participants i).m_raceNumber mp) →
          ((m.parser.participants.m_participants i).m_driverId < 100 →
            d'.Name = d'.TelemetryName) ∧
          (100 ≤ (m.parser.participants.m_participants i).m_driverId →
            d'.Name = teamName (m.parser.participants.m_participants i).m_teamId ++ " (" ++
              toString (m.parser.participants.m_participants i).m_raceNumber ++ ")"))) ∧
    (List.range 10).map teamName =
      ["Mercedes", "Ferrari", "Red Bull", "Williams", "Racing Point", "Renault", "Alpha Tauri",
        "Haas", "McLaren", "Alfa Romeo"] ∧
    (∀ t, 10 ≤ t → teamName t = "Car") := by
  refine ⟨fun h0 => ?_, fun hnum => ?_, teamName_table.1, teamName_table.2⟩
  · simp only [m_UpdateDriverName, if_pos h0]
  refine ⟨_, m_UpdateDriverName_eq m i d hd hnum, ?_, ?_, ?_⟩
  · intro maps hmaps hex
    obtain ⟨q, hq, hqm⟩ := hex
    obtain ⟨pre, a, post, hl, ha, -, hf⟩ := find?_exists
      (fun mp => decide (mp.Team = some d.Team) &&
        decide (mp.DriverNumber = (m.parser.participants.m_participants i).m_raceNumber))
      maps ⟨q, hq, (teamTest_iff _ _ _).2 hqm⟩
    refine ⟨a, by rw [hl]; simp, (teamTest_iff _ _ _).1 ha, ?_⟩
    rw [hmaps, updateDriverName_team maps _ d a hnum hf]
  · intro maps hmaps hno hex
    obtain ⟨q, hq, hqm⟩ := hex
    have h1 : maps.find? (fun mp => decide (mp.Team = some d.Team) &&
        decide (mp.DriverNumber = (m.parser.participants.m_participants i).m_raceNumber))
        = none := by
      rw [List.find?_eq_none]
      exact fun x hx hp => hno x hx ((teamTest_iff _ _ _).1 hp)
    obtain ⟨pre, a, post, hl, ha, -, hf⟩ := find?_exists
      (fun mp => mp.Team.isNone &&
        decide (mp.DriverNumber = (m.parser.participants.m_participants i).m_raceNumber))
      maps ⟨q, hq, (numberTest_iff _ _).2 hqm⟩
    refine ⟨a, by rw [hl]; simp, (numberTest_iff _ _).1 ha, ?_⟩
    rw [hmaps, updateDriverName_number maps _ d a hnum h1 hf]
  · intro hno
    cases hmaps : m.m_nameMapings with
    | none =>
      have hu : updateDriverName none (m.parser.participants.m_participants i) d =
          nameWithoutMapping (m.parser.participants.m_participants i)
            (SetNameFromTelemetry d (m.parser.participants.m_participants i).m_name) := by
        simp only [updateDriverName, if_neg hnum]
      rw [hu]
      exact nameWithoutMapping_name _ _
    | some maps =>
      have h1 : maps.find? (fun mp => decide (mp.Team = some d.Team) &&
          decide (mp.DriverNumber = (m.parser.participants.m_participants i).m_raceNumber))
          = none := by
        rw [List.find?_eq_none]
        exact fun x hx hp => (hno maps hmaps x hx).1 ((teamTest_iff _ _ _).1 hp)
      have h2 : maps.find? (fun mp => mp.Team.isNone &&
          decide (mp.DriverNumber = (m.parser.participants.m_participants i).m_raceNumber))
          = none := by
        rw [List.find?_eq_none]
        exact fun x hx hp => (hno maps hmaps x hx).2 ((numberTest_iff _ _).1 hp)
      rw [updateDriverName_unmapped maps _ d hnum h1 h2]
      exact nameWithoutMapping_name _ _

/-- The two loops of `m_UpdateDriverName(i)` relative to the field `Team` that the driver
object `d` has at the time of the call: if any entry has `d.Team` and the race number, the name
is that of the first such entry, whatever stands before it in the table; the first entry
without team and with the race number gives the name when no entry has `d.Team` and the race
number. -/
theorem m_UpdateDriverName_two_pass (m : F12020UdpClrMapper) (i : Nat) (d : DriverData)
    (maps : List DriverNameMapping) (hd : m.Drivers[i]? = some d)
    (hnum : (m.parser.participants.m_participants i).m_raceNumber ≠ 0)
    (hmaps : m.m_nameMapings = some maps) :
    ∃ d', m_UpdateDriverName m i = some { m with Drivers := m.Drivers.set i d' } ∧
      ((∃ q ∈ maps, TeamMatch d.Team (m.parser.participants.m_participants i).m_raceNumber q) →
        ∃ pre mp post, maps = pre ++ mp :: post ∧
          TeamMatch d.Team (m.parser.participants.m_participants i).m_raceNumber mp ∧
          (∀ q ∈ pre,
            ¬ TeamMatch d.Team (m.parser.participants.m_participants i).m_raceNumber q) ∧
          d'.Name = mp.Name ∧ d'.MappedName = mp.Name) ∧
      (∀ pre mp post, maps = pre ++ mp :: post →
        TeamMatch d.Team (m.parser.participants.m_participants i).m_raceNumber mp →
        (∀ q ∈ pre,
          ¬ TeamMatch d.Team (m.parser.participants.m_participants i).m_raceNumber q) →
        d'.Name = mp.Name ∧ d'.MappedName = mp.Name) ∧
      (∀ pre mp post, maps = pre ++ mp :: post →
        (∀ q ∈ maps,
          ¬ TeamMatch d.Team (m.parser.participants.m_participants i).m_raceNumber q) →
        NumberOnly (m.parser.participants.m_participants i).m_raceNumber mp →
        (∀ q ∈ pre, ¬ NumberOnly (m.parser.participants.m_participants i).m_raceNumber q) →
        d'.Name = mp.Name ∧ d'.MappedName = mp.Name) := by
  refine ⟨_, m_UpdateDriverName_eq m i d hd hnum, ?_, ?_, ?_⟩
  · intro hex
    obtain ⟨q, hq, hqm⟩ := hex
    obtain ⟨pre, a, post, hl, ha, hpre, hf⟩ := find?_exists
      (fun mp => decide (mp.Team = some d.Team) &&
        decide (mp.DriverNumber = (m.parser.participants.m_participants i).m_raceNumber))
      maps ⟨q, hq, (teamTest_iff _ _ _).2 hqm⟩
    refine ⟨pre, a, post, hl, (teamTest_iff _ _ _).1 ha,
      fun x hx hm => hpre x hx ((teamTest_iff _ _ _).2 hm), ?_⟩
    rw [hmaps, updateDriverName_team maps _ d a hnum hf]
    exact ⟨rfl, rfl⟩
  · intro pre mp post hl hmp hpre
    have hf := find?_first
      (fun mp => decide (mp.Team = some d.Team) &&
        decide (mp.DriverNumber = (m.parser.participants.m_participants i).m_raceNumber))
      maps pre post mp hl ((teamTest_iff _ _ _).2 hmp)
      (fun x hx hp => hpre x hx ((teamTest_iff _ _ _).1 hp))
    rw [hmaps, updateDriverName_team maps _ d mp hnum hf]
    exact ⟨rfl, rfl⟩
  · intro pre mp post hl hno hmp hpre
    have h1 : maps.find? (fun mp => decide (mp.Team = some d.Team) &&
        decide (mp.DriverNumber = (m.parser.participants.m_participants i).m_raceNumber))
        = none := by
      rw [List.find?_eq_none]
      exact fun x hx hp => hno x hx ((teamTest_iff _ _ _).1 hp)
    have hf := find?_first
      (fun mp => mp.Team.isNone &&
        decide (mp.DriverNumber = (m.parser.participants.m_participants i).m_raceNumber))
      maps pre post mp hl ((numberTest_iff _ _).2 hmp)
      (fun x hx hp => hpre x hx ((numberTest_iff _ _).1 hp))
    rw [hmaps, updateDriverName_number maps _ d mp hnum h1 hf]
    exact ⟨rfl, rfl⟩

end DriverNames

section DatagramInput
open F12020UdpClrMapper

/-! ## Oversize datagrams -/

/-- The conversion to `int` of the difference after a packet that took all `n` bytes. -/
theorem toInt32_whole (n : Nat) (hn : n < 2 ^ 31) :
    toInt32 ((n : Int) - (((n : Int).toNat % 2 ^ 32 : Nat) : Int)) = 0 := by
  have h1 : ((n : Int).toNat % 2 ^ 32 : Nat) = n := by
    rw [Int.toNat_ofNat]
    exact Nat.mod_eq_of_lt (by omega)
  rw [h1, sub_self]
  decide

/-- With the decoder `wholeDatagram` the loop of `Proceed` ends after one update. -/
theorem proceedLoop_whole (clock : Nat → Time) (buf : List Nat) (n : Nat)
    (m m1 : F12020UdpClrMapper) (hn0 : n ≠ 0) (hn : n < 2 ^ 31)
    (hu : m_Update m (clock 0) = some m1) :
    proceedLoop wholeDatagram clock buf 1 0 0 (n : Int) m = some m1 := by
  have hne : ¬ ((n : Int) = 0) := by exact_mod_cast hn0
  have hu' : m_Update { m with parser := m.parser } (clock 0) = some m1 := hu
  simp only [proceedLoop, wholeDatagram, if_neg hne, hu', toInt32_whole n hn, if_true]

/-- With the decoder `wholeDatagram` the loop of `Work` ends after one update. -/
theorem workLoop_whole (update : F12020Parser → Time → Option F12020Parser)
    (clock : Nat → Time) (buf : List Nat) (n : Nat)
    (s s1 : F12020Parser) (hn0 : n ≠ 0) (hn : n < 2 ^ 31)
    (hu : update s (clock 0) = some s1) :
    F12020Parser.workLoop wholeDatagram update clock buf 1 0 0 (n : Int) s = some s1 := by
  have hne : ¬ ((n : Int) = 0) := by exact_mod_cast hn0
  have hu' : update { s with parser := s.parser } (clock 0) = some s1 := hu
  simp only [F12020Parser.workLoop, wholeDatagram, if_neg hne, hu', toInt32_whole n hn,
    if_true]

/-- C30 (oversize datagram rejection). For every decoder, clock, packet bound and state: an
input longer than 512 KiB makes `F12020UdpClrMapper::Proceed` return false with the model as
before the call (decoder state included, so nothing was decoded and no update ran); a received
datagram longer than 64 KiB does the same in `F12020Parser::Work`; an input of at most the
limit, the limit included, passes the test and the call is the packet loop on that input,
returning true when the loop ends. -/
theorem C30_oversize_rejected (decode : PacketDecoder) (clock : Nat → Time) (fuel : Nat)
    (m : F12020UdpClrMapper) (s : F12020Parser)
    (update : F12020Parser → Time → Option F12020Parser) (input : List Nat) :
    (512 * 1024 < input.length → Proceed decode clock fuel m input = some (false, m)) ∧
    (64 * 1024 < input.length →
      F12020Parser.Work decode update clock fuel s (some input) = some (false, s)) ∧
    (input.length ≤ 512 * 1024 →
      Proceed decode clock fuel m input =
        (proceedLoop decode clock input fuel 0 0 input.length m).map (fun m' => (true, m'))) ∧
    (input.length ≤ 64 * 1024 →
      F12020Parser.Work decode update clock fuel s (some input) =
        (F12020Parser.workLoop decode update clock input fuel 0 0 input.length s).map
          (fun s' => (true, s'))) := by
  refine ⟨fun h => ?_, fun h => ?_, fun h => ?_, fun h => ?_⟩
  · have h' : (input.length : Int) > 512 * 1024 := by exact_mod_cast h
    simp only [Proceed, if_pos h']
  · have h' : (input.length : Int) > 64 * 1024 := by exact_mod_cast h
    simp only [F12020Parser.Work, if_pos h']
  · have h' : ¬ (input.length : Int) > 512 * 1024 := by
      have : (input.length : Int) ≤ 512 * 1024 := by exact_mod_cast h
      omega
    simp only [Proceed, if_neg h']
  · have h' : ¬ (input.length : Int) > 64 * 1024 := by
      have : (input.length : Int) ≤ 64 * 1024 := by exact_mod_cast h
      omega
    simp only [F12020Parser.Work, if_neg h']

/-- C30 on concrete inputs: 512 KiB + 1 bytes are rejected by `Proceed` and 64 KiB + 1 bytes
by `Work`; exactly 512 KiB are accepted by `Proceed`, which returns true when the decoder
takes the datagram as one packet; three bytes decoded one by one give three updates and
true. -/
theorem C30_oversize_rejected_witness :
    Proceed wholeDatagram (fun k => k) 1 resetMapper (List.replicate (512 * 1024 + 1) 0)
      = some (false, resetMapper) ∧
    F12020Parser.Work wholeDatagram (fun s _ => some s) (fun k => k) 1 {}
        (some (List.replicate (64 * 1024 + 1) 0)) = some (false, {}) ∧
    (Proceed wholeDatagram (fun k => k) 1 resetMapper (List.replicate (512 * 1024) 0)).map
      Prod.fst = some true ∧
    (F12020Parser.Work wholeDatagram (fun s _ => some s) (fun k => k) 1 {}
        (some (List.replicate (64 * 1024) 0))).map Prod.fst = some true ∧
    (Proceed byteDecoder (fun k => k) 3 resetMapper [66, 0, 66]).map Prod.fst = some true := by
  refine ⟨?_, ?_, ?_, ?_, by decide!⟩
  · exact (C30_oversize_rejected wholeDatagram (fun k => k) 1 resetMapper {}
      (fun s _ => some s) (List.replicate (512 * 1024 + 1) 0)).1
      (by rw [List.length_replicate]; decide)
  · exact (C30_oversize_rejected wholeDatagram (fun k => k) 1 resetMapper {}
      (fun s _ => some s) (List.replicate (64 * 1024 + 1) 0)).2.1
      (by rw [List.length_replicate]; decide)
  · rw [(C30_oversize_rejected wholeDatagram (fun k => k) 1 resetMapper {}
      (fun s _ => some s) (List.replicate (512 * 1024) 0)).2.2.1
      (by rw [List.length_replicate])]
    obtain ⟨m1, hm1⟩ := Option.isSome_iff_exists.1
      (show (m_Update resetMapper ((0 : Nat) : Time)).isSome = true by decide!)
    rw [List.length_replicate,
      proceedLoop_whole (fun k => k) _ (512 * 1024) resetMapper m1 (by decide) (by decide) hm1]
    rfl
  · rw [(C30_oversize_rejected wholeDatagram (fun k => k) 1 resetMapper {}
      (fun s _ => some s) (List.replicate (64 * 1024) 0)).2.2.2
      (by rw [List.length_replicate])]
    rw [List.length_replicate,
      workLoop_whole (fun s _ => some s) (fun k => k) _ (64 * 1024) {} {} (by decide)
        (by decide) rfl]
    rfl

end DatagramInput

/-! ## Damage ranges -/

/-- The value `tyreStatus` of `m_UpdateTyre` is the sum of the four bytes over 300, capped
at 1. -/
theorem tyreStatus_eq (tyres : Nat → Nat) :
    F12020UdpClrMapper.tyreStatus tyres
      = min 1 (((tyres 0 + tyres 1 + tyres 2 + tyres 3 : Nat) : Time) / 300) := by
  unfold F12020UdpClrMapper.tyreStatus
  generalize ((tyres 0 + tyres 1 + tyres 2 + tyres 3 : Nat) : Time) = s
  simp only
  by_cases h : s / 400 ≥ 3 / 4
  · rw [if_pos h, min_eq_left]
    rw [ge_iff_le, le_div_iff₀ (by norm_num)] at h
    rw [le_div_iff₀ (by norm_num)]
    linarith
  · rw [if_neg h, min_eq_right]
    · ring
    · rw [ge_iff_le, le_div_iff₀ (by norm_num), not_le] at h
      rw [div_le_iff₀ (by norm_num)]
      linarith

/-- The value `damage` of `m_UpdateDamage` is the sum of the three bytes over 150, capped
at 1. -/
theorem wingDamage_eq (c : CarStatusData) :
    F12020UdpClrMapper.wingDamage c
      = min 1 (((c.m_frontLeftWingDamage + c.m_frontRightWingDamage + c.m_rearWingDamage : Nat)
          : Time) / 150) := by
  unfold F12020UdpClrMapper.wingDamage
  rw [show ((c.m_frontLeftWingDamage : Time) + c.m_frontRightWingDamage + c.m_rearWingDamage)
      = ((c.m_frontLeftWingDamage + c.m_frontRightWingDamage + c.m_rearWingDamage : Nat) : Time)
      by push_cast; rfl]
  generalize ((c.m_frontLeftWingDamage + c.m_frontRightWingDamage + c.m_rearWingDamage : Nat)
    : Time) = s
  simp only
  by_cases h : s / 300 ≥ 1 / 2
  · rw [if_pos h, min_eq_left]
    rw [ge_iff_le, le_div_iff₀ (by norm_num)] at h
    rw [le_div_iff₀ (by norm_num)]
    linarith
  · rw [if_neg h, min_eq_right]
    · ring
    · rw [ge_iff_le, le_div_iff₀ (by norm_num), not_le] at h
      rw [div_le_iff₀ (by norm_num)]
      linarith

/-- A capped quotient of a byte sum lies in [0, 1] and grows with the sum. -/
theorem capped_range (s t k : Nat) (hk : 0 < k) (hst : s ≤ t) :
    0 ≤ min 1 ((s : Time) / k) ∧ min 1 ((s : Time) / k) ≤ 1 ∧
      min 1 ((s : Time) / k) ≤ min 1 ((t : Time) / k) := by
  have hk' : (0 : Time) < k := by exact_mod_cast hk
  have hs : (0 : Time) ≤ (s : Time) / k := div_nonneg (by exact_mod_cast Nat.zero_le s) hk'.le
  refine ⟨le_min zero_le_one hs, min_le_left _ _, min_le_min le_rfl ?_⟩
  exact div_le_div_of_nonneg_right (by exact_mod_cast hst) hk'.le

/-- C32 (damage ranges). For a present driver and every car status record, `m_UpdateTyre`
sets `TyreDamage` to the sum of the four tyre damage values over 300 capped at 1, and
`m_UpdateDamage` sets `CarDamage` to the sum of the three wing damage values over 150 capped
at 1 (exact rational arithmetic); both lie in [0, 1], and neither decreases when the inputs
grow. -/
theorem C32_damage_ranges (c : CarStatusData) (d : DriverData) (hp : d.Present = true) :
    (F12020UdpClrMapper.updateTyre c d).TyreDamage
      = min 1 (((c.m_tyresDamage 0 + c.m_tyresDamage 1 + c.m_tyresDamage 2 + c.m_tyresDamage 3
          : Nat) : Time) / 300) ∧
    (F12020UdpClrMapper.updateDamage c d).CarDamage
      = min 1 (((c.m_frontLeftWingDamage + c.m_frontRightWingDamage + c.m_rearWingDamage : Nat)
          : Time) / 150) ∧
    0 ≤ (F12020UdpClrMapper.updateTyre c d).TyreDamage ∧
    (F12020UdpClrMapper.updateTyre c d).TyreDamage ≤ 1 ∧
    0 ≤ (F12020UdpClrMapper.updateDamage c d).CarDamage ∧
    (F12020UdpClrMapper.updateDamage c d).CarDamage ≤ 1 ∧
    (∀ c' : CarStatusData, (∀ k, k < 4 → c.m_tyresDamage k ≤ c'.m_tyresDamage k) →
      (F12020UdpClrMapper.updateTyre c d).TyreDamage
        ≤ (F12020UdpClrMapper.updateTyre c' d).TyreDamage) ∧
    (∀ c' : CarStatusData, c.m_frontLeftWingDamage ≤ c'.m_frontLeftWingDamage →
      c.m_frontRightWingDamage ≤ c'.m_frontRightWingDamage →
      c.m_rearWingDamage ≤ c'.m_rearWingDamage →
      (F12020UdpClrMapper.updateDamage c d).CarDamage
        ≤ (F12020UdpClrMapper.updateDamage c' d).CarDamage) := by
  have ht : ∀ x : CarStatusData, (F12020UdpClrMapper.updateTyre x d).TyreDamage
      = min 1 (((x.m_tyresDamage 0 + x.m_tyresDamage 1 + x.m_tyresDamage 2 + x.m_tyresDamage 3
          : Nat) : Time) / 300) := by
    intro x
    unfold F12020UdpClrMapper.updateTyre
    rw [hp]
    exact tyreStatus_eq _
  have hw : ∀ x : CarStatusData, (F12020UdpClrMapper.updateDamage x d).CarDamage
      = min 1 (((x.m_frontLeftWingDamage + x.m_frontRightWingDamage + x.m_rearWingDamage : Nat)
          : Time) / 150) := by
    intro x
    unfold F12020UdpClrMapper.updateDamage
    rw [hp]
    exact wingDamage_eq _
  have r1 := capped_range (c.m_tyresDamage 0 + c.m_tyresDamage 1 + c.m_tyresDamage 2 +
    c.m_tyresDamage 3) _ 300 (by decide) le_rfl
  have r2 := capped_range (c.m_frontLeftWingDamage + c.m_frontRightWingDamage +
    c.m_rearWingDamage) _ 150 (by decide) le_rfl
  refine ⟨ht c, hw c, ?_, ?_, ?_, ?_, fun c' h => ?_, fun c' h1 h2 h3 => ?_⟩
  · rw [ht c]; exact_mod_cast r1.1
  · rw [ht c]; exact_mod_cast r1.2.1
  · rw [hw c]; exact_mod_cast r2.1
  · rw [hw c]; exact_mod_cast r2.2.1
  · rw [ht c, ht c']
    have h0 := h 0 (by decide)
    have h1 := h 1 (by decide)
    have h2 := h 2 (by decide)
    have h3 := h 3 (by decide)
    exact_mod_cast (capped_range _ (c'.m_tyresDamage 0 + c'.m_tyresDamage 1 +
      c'.m_tyresDamage 2 + c'.m_tyresDamage 3) 300 (by decide) (by omega)).2.2
  · rw [hw c, hw c']
    exact_mod_cast (capped_range _ (c'.m_frontLeftWingDamage + c'.m_frontRightWingDamage +
      c'.m_rearWingDamage) 150 (by decide) (by omega)).2.2

/-- C32 on a present driver: tyre damage bytes 30, 40, 50, 30 give 1/2, wing damage bytes
100, 100, 50 give 1. -/
theorem C32_damage_ranges_witness :
    (F12020UdpClrMapper.updateTyre
        { m_tyresDamage := fun k => if k = 0 then 30 else if k = 1 then 40
            else if k = 2 then 50 else 30 } { Present := true }).TyreDamage = 1 / 2 ∧
    (F12020UdpClrMapper.updateDamage
        { m_frontLeftWingDamage := 100, m_frontRightWingDamage := 100, m_rearWingDamage := 50 }
        { Present := true }).CarDamage = 1 := by
  obtain ⟨h1, -⟩ := C32_damage_ranges
    { m_tyresDamage := fun k => if k = 0 then 30 else if k = 1 then 40
        else if k = 2 then 50 else 30 } { Present := true } rfl
  obtain ⟨-, h2, -⟩ := C32_damage_ranges
    { m_frontLeftWingDamage := 100, m_frontRightWingDamage := 100, m_rearWingDamage := 50 }
    { Present := true } rfl
  refine ⟨h1.trans (by decide!), h2.trans (by decide!)⟩

/-! ## Status classification -/

/-- The nested `switch` of the driver loop as a precedence list. -/
theorem classifyStatus_spec (raw : NativeLapData) (hasPitted : Bool) :
    (F12020UdpClrMapper.classifyStatus raw hasPitted).1
      = (if raw.m_resultStatus = 4 then DriverStatus.DSQ
         else if raw.m_resultStatus = 5 ∨ raw.m_resultStatus = 6 ∨ raw.m_resultStatus = 7
           then DriverStatus.DNF
         else if raw.m_pitStatus = 1 then DriverStatus.Pitlane
         else if raw.m_pitStatus = 2 then DriverStatus.Pitting
         else if raw.m_driverStatus = 1 ∨ raw.m_driverStatus = 2 ∨ raw.m_driverStatus = 3 ∨
             raw.m_driverStatus = 4 then DriverStatus.OnTrack
         else DriverStatus.Garage) ∧
    (F12020UdpClrMapper.classifyStatus raw hasPitted).2
      = (if (raw.m_resultStatus ≠ 4 ∧ raw.m_resultStatus ≠ 5 ∧ raw.m_resultStatus ≠ 6 ∧
              raw.m_resultStatus ≠ 7) ∧ raw.m_pitStatus = 2
         then true else hasPitted) := by
  unfold F12020UdpClrMapper.classifyStatus
  split
  · rename_i h; simp [h]
  · rename_i h; simp [h]
  · rename_i h; simp [h]
  · rename_i h; simp [h]
  · rename_i h4 h5 h6 h7
    have g4 : raw.m_resultStatus ≠ 4 := h4
    have g5 : raw.m_resultStatus ≠ 5 := h5
    have g6 : raw.m_resultStatus ≠ 6 := h6
    have g7 : raw.m_resultStatus ≠ 7 := h7
    split
    · rename_i h; simp [h, g4, g5, g6, g7]
    · rename_i h; simp [h, g4, g5, g6, g7]
    · rename_i hp1 hp2
      have p1 : raw.m_pitStatus ≠ 1 := hp1
      have p2 : raw.m_pitStatus ≠ 2 := hp2
      split
      · rename_i h; simp [h, g4, g5, g6, g7, p1, p2]
      · rename_i h; simp [h, g4, g5, g6, g7, p1, p2]
      · rename_i h; simp [h, g4, g5, g6, g7, p1, p2]
      · rename_i h; simp [h, g4, g5, g6, g7, p1, p2]
      · rename_i h; simp [h, g4, g5, g6, g7, p1, p2]
      · rename_i h0 h1 h2 h3 h4'
        have d1 : raw.m_driverStatus ≠ 1 := h1
        have d2 : raw.m_driverStatus ≠ 2 := h2
        have d3 : raw.m_driverStatus ≠ 3 := h3
        have d4 : raw.m_driverStatus ≠ 4 := h4'
        simp [g4, g5, g6, g7, p1, p2, d1, d2, d3, d4]

/-- For a present car one iteration of the driver loop is the two delta updates followed by
the per-car update. -/
theorem driverStep_present {player leader : Option Nat} {q : Bool} {now : Time} {i : Nat}
    {m m' : F12020UdpClrMapper} {car : DriverData}
    (h : F12020UdpClrMapper.driverStep player leader q now i m = some m')
    (hcar : m.Drivers[i]? = some car) (hp : car.Present = true) :
    ∃ d1, DeltaOnly car d1 ∧
      m' = { m with
             Drivers :=
               m.Drivers.set i (F12020UdpClrMapper.carUpdate m.parser i now m.objects d1).1,
             objects := (F12020UdpClrMapper.carUpdate m.parser i now m.objects d1).2 } := by
  unfold F12020UdpClrMapper.driverStep at h
  rw [hcar] at h
  simp only [hp, Bool.not_true, Bool.false_eq_true, if_false] at h
  split at h
  · cases h
  rename_i m1 hm1
  have h1 : ∃ d1, DeltaOnly car d1 ∧ m1 = { m with Drivers := m.Drivers.set i d1 } := by
    unfold F12020UdpClrMapper.deltaToPlayer at hm1
    split at hm1
    · split at hm1
      · cases hm1
      · rename_i car' hcar'
        rw [hcar] at hcar'
        cases hcar'
        split at hm1
        · obtain ⟨d, d1, hd, hdd, hm⟩ := updateTimeDelta_shape hm1
          rw [hcar] at hd
          cases hd
          exact ⟨d1, hdd, hm⟩
        · simp only [Option.some.injEq] at hm1
          refine ⟨car, deltaOnly_refl _, ?_⟩
          rw [set_eq_self_of_get hcar, ← hm1]
    · unfold F12020UdpClrMapper.modifyDriver at hm1
      rw [hcar] at hm1
      simp only [Option.some.injEq] at hm1
      exact ⟨_, ⟨0, 0, car.TimedeltaToLeader, rfl⟩, hm1.symm⟩
  obtain ⟨d1, hd1, rfl⟩ := h1
  split at h
  · cases h
  rename_i m2 hm2
  have hset : (m.Drivers.set i d1)[i]? = some d1 := get_set_same hcar
  have h2 : ∃ d2, DeltaOnly car d2 ∧ m2 = { m with Drivers := m.Drivers.set i d2 } := by
    unfold F12020UdpClrMapper.deltaToLeader at hm2
    split at hm2
    · split at hm2
      · obtain ⟨d, d2, hd, hdd, hm⟩ := updateTimeDelta_shape hm2
        simp only [hset, Option.some.injEq] at hd
        subst hd
        refine ⟨d2, ?_, ?_⟩
        · obtain ⟨a, b, c, rfl⟩ := hd1
          obtain ⟨a', b', c', rfl⟩ := hdd
          exact ⟨a', b', c', rfl⟩
        · rw [hm]
          simp only [List.set_set]
      · simp only [Option.some.injEq] at hm2
        exact ⟨d1, hd1, hm2.symm⟩
    · simp only [Option.some.injEq] at hm2
      exact ⟨d1, hd1, hm2.symm⟩
  obtain ⟨d2, hd2, rfl⟩ := h2
  have hset2 : (m.Drivers.set i d2)[i]? = some d2 := get_set_same hcar
  simp only [hset2, Option.some.injEq] at h
  refine ⟨d2, hd2, ?_⟩
  rw [← h]
  simp only [List.set_set]

/-- C35 (status classification precedence). For every car that an iteration of the driver
loop of `m_UpdateDrivers` processes (the iteration returns and the car is present), the new
`Status` is `DSQ` for result status 4; `DNF` for 5, 6 or 7; otherwise `Pitlane` for pit
status 1 and `Pitting` for pit status 2; otherwise `OnTrack` for driver status 1 to 4 and
`Garage` for 0 and every other value. `m_hasPitted` is true after the iteration in the
`Pitting` case, and in every other case it is true only if it was true before. -/
theorem C35_status_precedence {player leader : Option Nat} {q : Bool} {now : Time} {i : Nat}
    {m m' : F12020UdpClrMapper} {car : DriverData}
    (h : F12020UdpClrMapper.driverStep player leader q now i m = some m')
    (hcar : m.Drivers[i]? = some car) (hp : car.Present = true) :
    ∃ car', m'.Drivers[i]? = some car' ∧
      car'.Status
        = (if (m.parser.lap.m_lapData i).m_resultStatus = 4 then DriverStatus.DSQ
           else if (m.parser.lap.m_lapData i).m_resultStatus = 5 ∨
               (m.parser.lap.m_lapData i).m_resultStatus = 6 ∨
               (m.parser.lap.m_lapData i).m_resultStatus = 7 then DriverStatus.DNF
           else if (m.parser.lap.m_lapData i).m_pitStatus = 1 then DriverStatus.Pitlane
           else if (m.parser.lap.m_lapData i).m_pitStatus = 2 then DriverStatus.Pitting
           else if (m.parser.lap.m_lapData i).m_driverStatus = 1 ∨
               (m.parser.lap.m_lapData i).m_driverStatus = 2 ∨
               (m.parser.lap.m_lapData i).m_driverStatus = 3 ∨
               (m.parser.lap.m_lapData i).m_driverStatus = 4 then DriverStatus.OnTrack
           else DriverStatus.Garage) ∧
      (((m.parser.lap.m_lapData i).m_resultStatus ≠ 4 ∧
          (m.parser.lap.m_lapData i).m_resultStatus ≠ 5 ∧
          (m.parser.lap.m_lapData i).m_resultStatus ≠ 6 ∧
          (m.parser.lap.m_lapData i).m_resultStatus ≠ 7) ∧
          (m.parser.lap.m_lapData i).m_pitStatus = 2 →
        car'.Status = DriverStatus.Pitting ∧ car'.m_hasPitted = true) ∧
      (¬ (((m.parser.lap.m_lapData i).m_resultStatus ≠ 4 ∧
          (m.parser.lap.m_lapData i).m_resultStatus ≠ 5 ∧
          (m.parser.lap.m_lapData i).m_resultStatus ≠ 6 ∧
          (m.parser.lap.m_lapData i).m_resultStatus ≠ 7) ∧
          (m.parser.lap.m_lapData i).m_pitStatus = 2) →
        car'.Status ≠ DriverStatus.Pitting ∧
        (car'.m_hasPitted = true → car.m_hasPitted = true)) := by
  obtain ⟨d1, ⟨a, b, c, rfl⟩, rfl⟩ := driverStep_present h hcar hp
  obtain ⟨-, -, -, -, hst, -, hpit, -⟩ := carUpdate_fields m.parser i now m.objects
    { car with TimedeltaToPlayer := a, LastTimedeltaToPlayer := b, TimedeltaToLeader := c }
  obtain ⟨hs1, hs2⟩ := classifyStatus_spec (m.parser.lap.m_lapData i) car.m_hasPitted
  have hst' := hst.trans hs1
  refine ⟨_, get_set_same hcar, hst', fun hc => ?_, fun hc => ?_⟩
  · have hpitting : (F12020UdpClrMapper.carUpdate m.parser i now m.objects
        { car with TimedeltaToPlayer := a, LastTimedeltaToPlayer := b,
                   TimedeltaToLeader := c }).1.Status = DriverStatus.Pitting := by
      rw [hst']
      simp [hc.1.1, hc.1.2.1, hc.1.2.2.1, hc.1.2.2.2, hc.2]
    refine ⟨hpitting, ?_⟩
    rw [hpit]
    have hcls : (F12020UdpClrMapper.classifyStatus (m.parser.lap.m_lapData i)
        car.m_hasPitted).1 = DriverStatus.Pitting := hst.symm.trans hpitting
    have hcls' : (F12020UdpClrMapper.classifyStatus (m.parser.lap.m_lapData i)
        ({ car with TimedeltaToPlayer := a, LastTimedeltaToPlayer := b,
                    TimedeltaToLeader := c } : DriverData).m_hasPitted).1
          = DriverStatus.Pitting := hcls
    rw [if_neg (fun hx => by rw [hcls'] at hx; exact absurd hx.2 (by decide))]
    exact (classifyStatus_pitting _ _).1 hcls
  · have hnot : (F12020UdpClrMapper.classifyStatus (m.parser.lap.m_lapData i)
        car.m_hasPitted).1 ≠ DriverStatus.Pitting := by
      intro hx
      have h2 := (classifyStatus_pitting _ _).1 hx
      rw [hs2] at h2
      by_cases hcc : ((m.parser.lap.m_lapData i).m_resultStatus ≠ 4 ∧
          (m.parser.lap.m_lapData i).m_resultStatus ≠ 5 ∧
          (m.parser.lap.m_lapData i).m_resultStatus ≠ 6 ∧
          (m.parser.lap.m_lapData i).m_resultStatus ≠ 7) ∧
          (m.parser.lap.m_lapData i).m_pitStatus = 2
      · exact hc hcc
      · rw [hs1] at hx
        have hne : (m.parser.lap.m_lapData i).m_pitStatus = 2 →
            ¬ ((m.parser.lap.m_lapData i).m_resultStatus ≠ 4 ∧
              (m.parser.lap.m_lapData i).m_resultStatus ≠ 5 ∧
              (m.parser.lap.m_lapData i).m_resultStatus ≠ 6 ∧
              (m.parser.lap.m_lapData i).m_resultStatus ≠ 7) := fun hp2 hr => hcc ⟨hr, hp2⟩
        split_ifs at hx with c1 c2 c3 c4 c5
        exact hne c4 ⟨c1, fun h5 => c2 (Or.inl h5), fun h6 => c2 (Or.inr (Or.inl h6)),
          fun h7 => c2 (Or.inr (Or.inr h7))⟩
    refine ⟨fun hx => hnot (hst.symm.trans hx), fun htrue => ?_⟩
    rw [hpit] at htrue
    split at htrue
    · cases htrue
    · have := (classifyStatus_pitting (m.parser.lap.m_lapData i) car.m_hasPitted).2 hnot
      exact this.symm.trans htrue

/-- C35 on the model `s10Mapper`: car 0 is present and the packet reports result status 2
and pit status 2, so the iteration for car 0 sets `Pitting` and `m_hasPitted`. -/
theorem C35_status_precedence_witness :
    ∃ m' car', F12020UdpClrMapper.driverStep (some 0) none false 0 0 s10Mapper = some m' ∧
      m'.Drivers[0]? = some car' ∧ car'.Status = DriverStatus.Pitting ∧
      car'.m_hasPitted = true := by
  obtain ⟨m', hm'⟩ := Option.isSome_iff_exists.1
    (show (F12020UdpClrMapper.driverStep (some 0) none false 0 0 s10Mapper).isSome = true
      by decide!)
  obtain ⟨car', h1, -, h3, -⟩ := C35_status_precedence hm'
    (show s10Mapper.Drivers[0]? = some
      { Present := true, IsPlayer := true, LapNr := 2, TyreAge := 2, VisualTyres := [16],
        Status := DriverStatus.Pitlane, Laps := List.replicate 5 {} } from rfl) rfl
  obtain ⟨h4, h5⟩ := h3 (by decide)
  exact ⟨m', car', hm', h1, h4, h5⟩

/-! ## Race delta termination -/

/-- The search loop is the iteration of `searchStep`. -/
theorem raceSearch_step (reference opponent : DriverData) (fuel : Nat) (a : Int) (s : Nat) :
    raceSearch reference opponent (fuel + 1) a s =
      match searchStep reference opponent a s with
      | SearchStep.next a' s' => raceSearch reference opponent fuel a' s'
      | SearchStep.found => SearchOutcome.found a s
      | SearchStep.stop => SearchOutcome.notFound
      | SearchStep.outOfRange => SearchOutcome.outOfRange := by
  rw [raceSearch]
  unfold searchStep
  by_cases h1 : opponent.LapNr - 1 < a
  · simp only [if_pos h1]
  · simp only [if_neg h1]
    cases hb : bothCrossed reference opponent a s with
    | none => rfl
    | some b =>
      cases b with
      | true => rfl
      | false =>
        simp only
        by_cases h2 : a = 0 ∧ s = 0
        · simp only [if_pos h2]
        · simp only [if_neg h2]
          by_cases h3 : s ≠ 0
          · simp only [if_pos h3]
          · simp only [if_neg h3]

/-- An iteration that continues moves to a pair that is smaller in the lexicographic
order. -/
theorem searchStep_decrease {reference opponent : DriverData} {a a' : Int} {s s' : Nat}
    (hs : s ≤ 2) (h : searchStep reference opponent a s = SearchStep.next a' s') :
    (a' < a ∨ (a' = a ∧ s' < s)) ∧ s' ≤ 2 := by
  unfold searchStep at h
  split at h
  · cases h
    exact ⟨Or.inl (by omega), le_refl _⟩
  · split at h
    · cases h
    · cases h
    · split at h
      · cases h
      · split at h
        · cases h
          exact ⟨Or.inr ⟨rfl, by omega⟩, by omega⟩
        · cases h
          exact ⟨Or.inl (by omega), le_refl _⟩

/-- With an opponent on lap 1 or later an iteration that continues from a lap index that is
not negative moves to a lap index that is not negative. -/
theorem searchStep_nonneg {reference opponent : DriverData} {a a' : Int} {s s' : Nat}
    (hopp : 1 ≤ opponent.LapNr) (ha : 0 ≤ a)
    (h : searchStep reference opponent a s = SearchStep.next a' s') : 0 ≤ a' := by
  unfold searchStep at h
  split at h
  · cases h
    omega
  · split at h
    · cases h
    · cases h
    · split at h
      · cases h
      · rename_i hne
        split at h
        · cases h
          exact ha
        · rename_i hs0
          cases h
          have hs : s = 0 := by omega
          have : a ≠ 0 := fun h0 => hne ⟨h0, hs⟩
          omega

/-- With an opponent on lap 1 or later the loop does not continue from `(0, 0)`. -/
theorem searchStep_bottom {reference opponent : DriverData} (hopp : 1 ≤ opponent.LapNr)
    (a' : Int) (s' : Nat) : searchStep reference opponent 0 0 ≠ SearchStep.next a' s' := by
  intro h
  unfold searchStep at h
  rw [if_neg (by omega)] at h
  split at h
  · cases h
  · cases h
  · rw [if_pos ⟨rfl, rfl⟩] at h
    cases h

/-- A search that ended within its budget ends in the same way with a larger budget. -/
theorem raceSearch_fuel_mono {reference opponent : DriverData} :
    ∀ (fuel : Nat) (a : Int) (s : Nat),
      raceSearch reference opponent fuel a s ≠ SearchOutcome.outOfFuel →
      ∀ more, raceSearch reference opponent (fuel + more) a s
        = raceSearch reference opponent fuel a s := by
  intro fuel
  induction fuel with
  | zero =>
    intro a s h
    exact absurd (by rw [raceSearch]) h
  | succ n ih =>
    intro a s h more
    rw [show n + 1 + more = (n + more) + 1 by omega, raceSearch_step, raceSearch_step]
    rw [raceSearch_step] at h
    cases hst : searchStep reference opponent a s with
    | next a' s' =>
      rw [hst] at h
      exact ih a' s' h more
    | found => rfl
    | stop => rfl
    | outOfRange => rfl

/-- C37 (race delta termination). For a reference and an opponent with `LapNr >= 1` the
search loop of `m_UpdateTimeDeltaRace` ends: within the budget of `3 * (LapNr + 1) + 1`
iterations it finds a boundary, breaks or throws, and a larger budget gives the same
outcome. The loop is the iteration of `searchStep`; an iteration that continues moves to a
lexicographically smaller pair `(lapIdx, lapSector)` with a sector of at most 2 and a lap
index that is not negative, and no iteration continues from `(0, 0)`. -/
theorem C37_race_delta_termination (reference opponent : DriverData)
    (href : 1 ≤ reference.LapNr) (hopp : 1 ≤ opponent.LapNr) :
    raceSearch reference opponent (searchFuel reference) (reference.LapNr - 1) 2
      ≠ SearchOutcome.outOfFuel ∧
    (∀ more, raceSearch reference opponent (searchFuel reference + more)
        (reference.LapNr - 1) 2
      = raceSearch reference opponent (searchFuel reference) (reference.LapNr - 1) 2) ∧
    (∀ (fuel : Nat) (a : Int) (s : Nat),
      raceSearch reference opponent (fuel + 1) a s =
        match searchStep reference opponent a s with
        | SearchStep.next a' s' => raceSearch reference opponent fuel a' s'
        | SearchStep.found => SearchOutcome.found a s
        | SearchStep.stop => SearchOutcome.notFound
        | SearchStep.outOfRange => SearchOutcome.outOfRange) ∧
    (∀ (a a' : Int) (s s' : Nat), s ≤ 2 →
      searchStep reference opponent a s = SearchStep.next a' s' →
      (a' < a ∨ (a' = a ∧ s' < s)) ∧ s' ≤ 2) ∧
    (∀ (a a' : Int) (s s' : Nat), 0 ≤ a →
      searchStep reference opponent a s = SearchStep.next a' s' → 0 ≤ a') ∧
    (∀ (a' : Int) (s' : Nat), searchStep reference opponent 0 0 ≠ SearchStep.next a' s') ∧
    0 ≤ reference.LapNr - 1 := by
  have hfuel := @raceSearch_searchFuel reference opponent (by omega)
  exact ⟨hfuel, raceSearch_fuel_mono _ _ _ hfuel, raceSearch_step reference opponent,
    fun a a' s s' hs h => searchStep_decrease hs h,
    fun a a' s s' ha h => searchStep_nonneg hopp ha h,
    searchStep_bottom hopp, by omega⟩

/-- C37 on scenario S4 (both cars on lap 4): the search ends within its budget, with the
boundary (2, 2). -/
theorem C37_race_delta_termination_witness :
    raceSearch s4Reference s4Opponent (searchFuel s4Reference) (s4Reference.LapNr - 1) 2
      ≠ SearchOutcome.outOfFuel ∧
    raceSearch s4Reference s4Opponent (searchFuel s4Reference + 100)
        (s4Reference.LapNr - 1) 2 = SearchOutcome.found 2 2 := by
  obtain ⟨h1, h2, -⟩ := C37_race_delta_termination s4Reference s4Opponent (by decide)
    (by decide)
  exact ⟨h1, (h2 100).trans (by decide!)⟩

/-! ## Race delta index safety -/

/-- An iteration finds a boundary only at a lap index the opponent has reached. -/
theorem searchStep_found {reference opponent : DriverData} {a : Int} {s : Nat}
    (h : searchStep reference opponent a s = SearchStep.found) : a ≤ opponent.LapNr - 1 := by
  unfold searchStep at h
  split at h
  · cases h
  · omega

/-- With both cars on lap 1 or later, the search loop started at a lap index between 0 and
`reference.LapNr - 1` uses only lap indices between 0 and the smaller lap number minus one,
and a boundary it finds has such a lap index. -/
theorem searchReads_range {reference opponent : DriverData} (hopp : 1 ≤ opponent.LapNr) :
    ∀ (fuel : Nat) (a : Int) (s : Nat), 0 ≤ a → a ≤ reference.LapNr - 1 → s ≤ 2 →
      (∀ k ∈ searchReads reference opponent fuel a s,
        0 ≤ k ∧ k ≤ min reference.LapNr opponent.LapNr - 1) ∧
      (∀ a0 s0, raceSearch reference opponent fuel a s = SearchOutcome.found a0 s0 →
        0 ≤ a0 ∧ a0 ≤ min reference.LapNr opponent.LapNr - 1) := by
  intro fuel
  induction fuel with
  | zero =>
    intro a s _ _ _
    refine ⟨fun k hk => ?_, fun a0 s0 h => ?_⟩
    · simp [searchReads] at hk
    · rw [raceSearch] at h
      cases h
  | succ n ih =>
    intro a s ha hr hs
    have hstep : ∀ k ∈ stepReads opponent a s,
        0 ≤ k ∧ k ≤ min reference.LapNr opponent.LapNr - 1 := by
      intro k hk
      unfold stepReads at hk
      split at hk
      · simp at hk
      · split at hk
        · simp at hk
        · simp only [List.mem_singleton] at hk
          subst hk
          exact ⟨ha, by omega⟩
    constructor
    · intro k hk
      rw [searchReads, List.mem_append] at hk
      rcases hk with hk | hk
      · exact hstep k hk
      · cases hst : searchStep reference opponent a s with
        | next a' s' =>
          rw [hst] at hk
          obtain ⟨hdec, hs'⟩ := searchStep_decrease hs hst
          have ha' := searchStep_nonneg hopp ha hst
          exact (ih a' s' ha' (by omega) hs').1 k hk
        | found => rw [hst] at hk; simp at hk
        | stop => rw [hst] at hk; simp at hk
        | outOfRange => rw [hst] at hk; simp at hk
    · intro a0 s0 h
      rw [raceSearch_step] at h
      cases hst : searchStep reference opponent a s with
      | next a' s' =>
        rw [hst] at h
        obtain ⟨hdec, hs'⟩ := searchStep_decrease hs hst
        have ha' := searchStep_nonneg hopp ha hst
        exact (ih a' s' ha' (by omega) hs').2 a0 s0 h
      | found =>
        rw [hst] at h
        simp only [SearchOutcome.found.injEq] at h
        have := searchStep_found hst
        obtain ⟨rfl, rfl⟩ := h
        exact ⟨ha, by omega⟩
      | stop => rw [hst] at h; cases h
      | outOfRange => rw [hst] at h; cases h

/-- With both cars on lap 1 or later every lap index used by `m_UpdateTimeDeltaRace` lies
between 0 and the smaller of the two lap numbers minus one. -/
theorem raceReads_range (reference opponent : DriverData) (href : 1 ≤ reference.LapNr)
    (hopp : 1 ≤ opponent.LapNr) :
    ∀ k ∈ raceReads reference opponent,
      0 ≤ k ∧ k ≤ min reference.LapNr opponent.LapNr - 1 := by
  obtain ⟨h1, h2⟩ := @searchReads_range reference opponent hopp (searchFuel reference)
    (reference.LapNr - 1) 2 (by omega) (le_refl _) (le_refl _)
  intro k hk
  unfold raceReads at hk
  rw [List.mem_append] at hk
  rcases hk with hk | hk
  · exact h1 k hk
  · split at hk
    · rename_i a0 s0 hf
      obtain ⟨h0, hle⟩ := h2 a0 s0 hf
      unfold boundaryReads at hk
      rw [List.mem_append] at hk
      rcases hk with hk | hk
      · split at hk
        · simp only [List.mem_singleton] at hk
          subst hk
          exact ⟨by omega, by omega⟩
        · simp at hk
      · split at hk
        · simp at hk
        · simp only [List.mem_singleton] at hk
          subst hk
          exact ⟨h0, hle⟩
    · simp at hk

/-- C38: a lap index of -1 is used when the opponent or the reference has lap number 0. With
the reference on lap 1 and a present opponent with lap number 0, and with a reference with
lap number 0 and an opponent on lap 1, the only lap index `m_UpdateTimeDeltaRace` uses is -1
and the call throws. A cycle of `m_UpdateDrivers` on the reset model whose lap data has the
player on lap 1 and a second active car with lap number 0 throws, whether that car is in
position 3 (it is the opponent of the player) or in position 1 (it is the leader); with the
second car on lap 1 both cycles return. -/
theorem C38_negative_lap_index :
    raceReads { Present := true, LapNr := 1, Laps := List.replicate 5 {} }
      { Present := true, LapNr := 0, Laps := List.replicate 5 {} } = [-1] ∧
    raceReads { Present := true, LapNr := 0, Laps := List.replicate 5 {} }
      { Present := true, LapNr := 1, Laps := List.replicate 5 {} } = [-1] ∧
    (F12020UdpClrMapper.raceDelta { Present := true, LapNr := 1, Laps := List.replicate 5 {} }
      { Present := true, LapNr := 0, Laps := List.replicate 5 {} } 0 true).isSome = false ∧
    (F12020UdpClrMapper.raceDelta { Present := true, LapNr := 0, Laps := List.replicate 5 {} }
      { Present := true, LapNr := 1, Laps := List.replicate 5 {} } 0 false).isSome = false ∧
    (F12020UdpClrMapper.m_UpdateDrivers
      { resetMapper with parser := lapZeroPacket 0 3 } 0).isSome = false ∧
    (F12020UdpClrMapper.m_UpdateDrivers
      { resetMapper with parser := lapZeroPacket 0 1 } 0).isSome = false ∧
    (F12020UdpClrMapper.m_UpdateDrivers
      { resetMapper with parser := lapZeroPacket 1 3 } 0).isSome = true ∧
    (F12020UdpClrMapper.m_UpdateDrivers
      { resetMapper with parser := lapZeroPacket 1 1 } 0).isSome = true := by
  refine ⟨by decide!, by decide!, by decide!, by decide!, by decide!, by decide!, by decide!,
    by decide!⟩

/-! ## Agreement of the two variants -/

/-- The search loop does not read the penalty seconds of the reference. -/
theorem raceSearch_penalty (reference opponent : DriverData) (x : Int) :
    ∀ (fuel : Nat) (a : Int) (s : Nat),
      raceSearch { reference with PenaltySeconds := x } opponent fuel a s
        = raceSearch reference opponent fuel a s := by
  intro fuel
  induction fuel with
  | zero =>
    intro a s
    rw [raceSearch, raceSearch]
  | succ n ih =>
    intro a s
    rw [raceSearch_step, raceSearch_step]
    have hst : searchStep { reference with PenaltySeconds := x } opponent a s
        = searchStep reference opponent a s := rfl
    rw [hst]
    cases searchStep reference opponent a s with
    | next a' s' => exact ih a' s'
    | found => rfl
    | stop => rfl
    | outOfRange => rfl

/-- The delta to player of `F12020UdpClrMapper::m_UpdateTimeDeltaRace` is the one that
`F12020Parser::m_UpdateTimeDelta` computes for a player without penalty seconds. -/
theorem raceDelta_variants (reference opponent : DriverData) (penalties : Nat) :
    F12020UdpClrMapper.raceDelta reference opponent penalties true
      = F12020Parser.raceDelta { reference with PenaltySeconds := 0 } opponent penalties := by
  have key : ∀ r0 : DriverData, searchFuel r0 = searchFuel reference →
      r0.LapNr = reference.LapNr →
      (∀ fuel a s, raceSearch r0 opponent fuel a s = raceSearch reference opponent fuel a s) →
      (∀ a s, boundaryTime r0 a s = boundaryTime reference a s) → r0.PenaltySeconds = 0 →
      F12020UdpClrMapper.raceDelta reference opponent penalties true
        = F12020Parser.raceDelta r0 opponent penalties := by
    intro r0 h1 h2 h3 h4 h5
    unfold F12020UdpClrMapper.raceDelta F12020Parser.raceDelta
    rw [h1, h2, h3]
    cases raceSearch reference opponent (searchFuel reference) (reference.LapNr - 1) 2 with
    | found a s =>
      simp only [h4]
      cases boundaryTime reference a s with
      | none => rfl
      | some tp =>
        cases boundaryTime opponent a s with
        | none => rfl
        | some topp =>
          simp only [if_true, h5, Int.cast_zero, add_zero]
    | notFound => rfl
    | outOfRange => rfl
    | outOfFuel => rfl
  exact key _ rfl rfl (raceSearch_penalty reference opponent 0) (fun _ _ => rfl) rfl

/-- C36: the two variants do not write the same delta to player. In scenario S4 (player with
5 penalty seconds, present opponent that is not the player) `F12020Parser::m_UpdateTimeDelta`
writes `TimedeltaToPlayer = 2.5` and `F12020UdpClrMapper::m_UpdateTimeDeltaRace` with
`toPlayer = true` writes `-2.5`; both keep `LastTimedeltaToPlayer = 0`, the old delta. In
general the mapper variant writes what the older variant writes for a player without penalty
seconds. -/
theorem C36_variant_disagreement :
    ((F12020Parser.m_UpdateTimeDelta s4Parser 0 1).bind (fun s => s.Drivers[1]?)).map
        (fun d => (d.TimedeltaToPlayer, d.LastTimedeltaToPlayer)) = some ((5 / 2 : Time), (0 : Time)) ∧
    ((F12020UdpClrMapper.m_UpdateTimeDeltaRace s4Mapper 0 1 true).bind
        (fun m => m.Drivers[1]?)).map
        (fun d => (d.TimedeltaToPlayer, d.LastTimedeltaToPlayer)) = some ((-5 / 2 : Time), (0 : Time)) ∧
    s4Mapper.Drivers = s4Parser.Drivers ∧
    ∀ (reference opponent : DriverData) (penalties : Nat),
      F12020UdpClrMapper.raceDelta reference opponent penalties true
        = F12020Parser.raceDelta { reference with PenaltySeconds := 0 } opponent penalties := by
  refine ⟨by decide!, by decide!, rfl, raceDelta_variants⟩

/-! ## What the statements before the driver loop keep -/

theorem sameCarState_refl (d : DriverData) : SameCarState d d :=
  ⟨rfl, rfl, rfl, rfl, rfl, rfl, rfl, rfl, rfl, rfl⟩

theorem sameCarState_trans {a b c : DriverData} (h1 : SameCarState a b)
    (h2 : SameCarState b c) : SameCarState a c := by
  obtain ⟨p1, p2, p3, p4, p5, p6, p7, p8, p9, p10⟩ := h1
  obtain ⟨q1, q2, q3, q4, q5, q6, q7, q8, q9, q10⟩ := h2
  exact ⟨q1.trans p1, q2.trans p2, q3.trans p3, q4.trans p4, q5.trans p5, q6.trans p6,
    q7.trans p7, q8.trans p8, q9.trans p9, q10.trans p10⟩

/-- The lap data part of the lap loop keeps the car state and the delta to the leader, and
leaves the lap number of the packet. -/
theorem lapUpdate_sameCarState {raw : NativeLapData} {d0 d1 : DriverData}
    (h : F12020UdpClrMapper.lapUpdate raw d0 = some d1) :
    SameCarState d0 d1 ∧ d1.TimedeltaToLeader = d0.TimedeltaToLeader := by
  obtain ⟨pos, nr, age, laps, rfl⟩ := lapUpdate_frame h
  exact ⟨sameCarState_refl _, rfl⟩

/-- The presence step keeps the car state, the delta to the leader, the lap number and the
position. -/
theorem presenceOf_sameCarState (raw : NativeLapData) (d : DriverData) :
    SameCarState d (presenceOf raw d) ∧
      (presenceOf raw d).TimedeltaToLeader = d.TimedeltaToLeader ∧
      (presenceOf raw d).LapNr = d.LapNr ∧ (presenceOf raw d).Pos = d.Pos := by
  unfold presenceOf
  split <;> exact ⟨sameCarState_refl _, rfl, rfl, rfl⟩

/-- The flag statements keep the car state, the lap number and the position. -/
theorem sameCarState_flagFrame :
    FlagFrame (fun d d' => SameCarState d d' ∧ d'.LapNr = d.LapNr ∧ d'.Pos = d.Pos) where
  refl := fun d => ⟨sameCarState_refl d, rfl, rfl⟩
  trans := by
    rintro a b c ⟨h1, h2, h3⟩ ⟨h4, h5, h6⟩
    exact ⟨sameCarState_trans h1 h4, h5.trans h2, h6.trans h3⟩
  leader := fun d => ⟨sameCarState_refl _, rfl, rfl⟩
  unflag := fun d => ⟨sameCarState_refl _, rfl, rfl⟩
  flag := fun d => ⟨sameCarState_refl _, rfl, rfl⟩

/-- The handles `player` and `leader` that `identify` returns. -/
theorem identify_handles {m m' : F12020UdpClrMapper} {player leader : Option Nat}
    (h : F12020UdpClrMapper.identify m = some (m', player, leader)) :
    player = (if m.parser.lap.m_header.m_playerCarIndex < m.Drivers.length
              then some m.parser.lap.m_header.m_playerCarIndex else none) ∧
    leader = F12020UdpClrMapper.findLeaderFrom m.Drivers 0 := by
  unfold F12020UdpClrMapper.identify at h
  simp only at h
  split at h
  · cases h
  split at h
  · cases h
  split at h
  · split at h
    · cases h
    · simp only [Option.some.injEq, Prod.mk.injEq] at h
      exact ⟨h.2.1.symm, h.2.2.symm⟩
  · simp only [Option.some.injEq, Prod.mk.injEq] at h
    exact ⟨h.2.1.symm, h.2.2.symm⟩

/-- The leader search reads the positions only. -/
theorem findLeaderFrom_pos :
    ∀ (l l' : List DriverData), Pointwise (fun d d' => d'.Pos = d.Pos) l l' →
      ∀ k, F12020UdpClrMapper.findLeaderFrom l k = F12020UdpClrMapper.findLeaderFrom l' k := by
  intro l
  induction l with
  | nil =>
    intro l' h k
    have : l' = [] := List.length_eq_zero.1 h.1
    rw [this]
  | cons a rest ih =>
    intro l' h k
    cases l' with
    | nil => exact absurd h.1 (by simp)
    | cons b rest' =>
      have hab : b.Pos = a.Pos := h.2 0 a b (by simp) (by simp)
      have hrest : Pointwise (fun d d' => d'.Pos = d.Pos) rest rest' := by
        refine ⟨by simpa using h.1, ?_⟩
        intro j d d' hd hd'
        exact h.2 (j + 1) d d' (by simpa using hd) (by simpa using hd')
      unfold F12020UdpClrMapper.findLeaderFrom
      rw [hab, ih rest' hrest (k + 1)]

/-- The statements between the presence loop and the driver loop change the delta to the
leader of the leader only. -/
theorem identify_leaderDelta {m m' : F12020UdpClrMapper} {player leader : Option Nat}
    (h : F12020UdpClrMapper.identify m = some (m', player, leader)) :
    ∀ j d d', m.Drivers[j]? = some d → m'.Drivers[j]? = some d' →
      F12020UdpClrMapper.findLeaderFrom m.Drivers 0 ≠ some j →
      d'.TimedeltaToLeader = d.TimedeltaToLeader := by
  have hkeep : ∀ (a b : F12020UdpClrMapper) (i : Nat) (f : DriverData → DriverData),
      F12020UdpClrMapper.modifyDriver a i f = some b →
      (∀ d, (f d).TimedeltaToLeader = d.TimedeltaToLeader) →
      Pointwise (fun d d' => d'.TimedeltaToLeader = d.TimedeltaToLeader) a.Drivers
        b.Drivers := by
    intro a b i f hab hf
    obtain ⟨d, hd, rfl⟩ := modifyDriver_shape hab
    exact @pointwise_set (fun d d' => d'.TimedeltaToLeader = d.TimedeltaToLeader)
      (fun _ => rfl) _ _ _ _ hd (hf d)
  unfold F12020UdpClrMapper.identify at h
  simp only at h
  split at h
  · cases h
  rename_i m1 hm1
  have h1 : m1.Drivers.length = m.Drivers.length ∧
      ∀ j d d1, m.Drivers[j]? = some d → m1.Drivers[j]? = some d1 →
        F12020UdpClrMapper.findLeaderFrom m.Drivers 0 ≠ some j →
        d1.TimedeltaToLeader = d.TimedeltaToLeader := by
    split at hm1
    · rename_i ld hld
      obtain ⟨dl, hdl, rfl⟩ := modifyDriver_shape hm1
      refine ⟨List.length_set _ _ _, ?_⟩
      intro j d d1 hd hd1 hne
      have hj : ld ≠ j := fun hx => hne (by rw [hld, hx])
      simp only at hd1
      rw [get_set_other hj, hd] at hd1
      cases hd1
      rfl
    · simp only [Option.some.injEq] at hm1
      subst hm1
      refine ⟨rfl, ?_⟩
      intro j d d1 hd hd1 _
      rw [hd] at hd1
      cases hd1
      rfl
  split at h
  · cases h
  rename_i m2 hm2
  have h2 : Pointwise (fun d d' => d'.TimedeltaToLeader = d.TimedeltaToLeader) m1.Drivers
      m2.Drivers := by
    split at hm2
    · exact hkeep _ _ _ _ hm2 (fun _ => rfl)
    · simp only [Option.some.injEq] at hm2
      subst hm2
      exact @pointwise_refl (fun d d' => d'.TimedeltaToLeader = d.TimedeltaToLeader)
        (fun _ => rfl) _
  have h3 : Pointwise (fun d d' => d'.TimedeltaToLeader = d.TimedeltaToLeader) m2.Drivers
      m'.Drivers := by
    split at h
    · split at h
      · cases h
      · rename_i m3 hm3
        simp only [Option.some.injEq, Prod.mk.injEq] at h
        rw [← h.1]
        exact hkeep _ _ _ _ hm3 (fun _ => rfl)
    · simp only [Option.some.injEq, Prod.mk.injEq] at h
      rw [← h.1]
      exact @pointwise_refl (fun d d' => d'.TimedeltaToLeader = d.TimedeltaToLeader)
        (fun _ => rfl) _
  have h23 := @pointwise_trans (fun d d' => d'.TimedeltaToLeader = d.TimedeltaToLeader)
    (fun a b c h1 h2 => h2.trans h1) _ _ _ h2 h3
  intro j d d' hd hd' hne
  have hj : j < m1.Drivers.length := by
    rw [h1.1]
    by_contra hlt
    rw [List.getElem?_eq_none (by omega)] at hd
    cases hd
  obtain ⟨d1, hd1⟩ : ∃ d1, m1.Drivers[j]? = some d1 :=
    ⟨m1.Drivers[j], List.getElem?_eq_getElem hj⟩
  exact (h23.2 j d1 d' hd1 hd').trans (h1.2 j d d1 hd hd1 hne)

/-! ## The statements of the older variant before the driver loop -/

theorem parserFrame_refl {R : DriverData → DriverData → Prop} (hR : ∀ d, R d d)
    (s : F12020Parser) : ParserFrame R s s :=
  ⟨pointwise_refl hR _, rfl, rfl, rfl⟩

theorem parserFrame_trans {R : DriverData → DriverData → Prop}
    (hR : ∀ a b c, R a b → R b c → R a c) {a b c : F12020Parser}
    (h1 : ParserFrame R a b) (h2 : ParserFrame R b c) : ParserFrame R a c := by
  obtain ⟨p1, q1, r1, s1⟩ := h1
  obtain ⟨p2, q2, r2, s2⟩ := h2
  exact ⟨pointwise_trans hR p1 p2, q2.trans q1, r2.trans r1, s2.trans s1⟩

theorem parserFrame_weaken {R Q : DriverData → DriverData → Prop}
    (hRQ : ∀ d d', R d d' → Q d d') {a b : F12020Parser} (h : ParserFrame R a b) :
    ParserFrame Q a b :=
  ⟨⟨h.1.1, fun j d d' hd hd' => hRQ d d' (h.1.2 j d d' hd hd')⟩, h.2.1, h.2.2.1, h.2.2.2⟩

theorem parserModify_frame {R : DriverData → DriverData → Prop} (hR : ∀ d, R d d)
    {s s' : F12020Parser} {i : Nat} {f : DriverData → DriverData}
    (h : F12020Parser.modifyDriver s i f = some s') (hf : ∀ d, R d (f d)) :
    ParserFrame R s s' := by
  unfold F12020Parser.modifyDriver at h
  split at h
  · cases h
  · rename_i d hd
    simp only [Option.some.injEq] at h
    subst h
    exact ⟨pointwise_set hR hd (hf d), rfl, rfl, rfl⟩

theorem updateName_nameOnly (part : ParticipantData) (d : DriverData) :
    NameOnly d (F12020Parser.updateName part d) := by
  unfold F12020Parser.updateName F12020Parser.SetName
  split
  · split
    · split
      · exact ⟨_, d.TelemetryName, d.MappedName, rfl⟩
      · exact ⟨_, d.TelemetryName, d.MappedName, rfl⟩
    · exact ⟨d.Name, d.TelemetryName, d.MappedName, rfl⟩
  · exact ⟨d.Name, d.TelemetryName, d.MappedName, rfl⟩

theorem nameOnly_sameCarState {d d0 : DriverData} (h : NameOnly d d0) :
    SameCarState d d0 ∧ d0.TimedeltaToLeader = d.TimedeltaToLeader := by
  obtain ⟨a, b, c, rfl⟩ := h
  exact ⟨sameCarState_refl _, rfl⟩

/-- One iteration of the lap loop of the older variant keeps the car state and the delta to
the leader of every driver. -/
theorem parserLapStep_frame {i : Nat} {s s' : F12020Parser}
    (h : F12020Parser.lapStep i s = some s') :
    ParserFrame (fun d d' => SameCarState d d' ∧ d'.TimedeltaToLeader = d.TimedeltaToLeader)
      s s' := by
  unfold F12020Parser.lapStep at h
  split at h
  · cases h
  rename_i d hd
  simp only at h
  split at h
  · cases h
  rename_i d1 hd1
  simp only [Option.some.injEq] at h
  subst h
  obtain ⟨n1, n2⟩ := nameOnly_sameCarState
    (updateName_nameOnly (s.parser.participants.m_participants i) d)
  obtain ⟨l1, l2⟩ := lapUpdate_sameCarState hd1
  exact ⟨pointwise_set (fun _ => ⟨sameCarState_refl _, rfl⟩) hd
    ⟨sameCarState_trans n1 l1, l2.trans n2⟩, rfl, rfl, rfl⟩

/-- One iteration of the presence loop of the older variant keeps the car state, the delta
to the leader and the lap number of every driver. -/
theorem parserPresenceStep_frame {i : Nat} {s s' : F12020Parser}
    (h : F12020Parser.presenceStep i s = some s') :
    ParserFrame (fun d d' => SameCarState d d' ∧ d'.TimedeltaToLeader = d.TimedeltaToLeader ∧
      d'.LapNr = d.LapNr) s s' := by
  unfold F12020Parser.presenceStep at h
  refine parserModify_frame (fun _ => ⟨sameCarState_refl _, rfl, rfl⟩) h ?_
  intro d
  split <;> exact ⟨sameCarState_refl _, rfl, rfl⟩

theorem parserLoop_frame {R : DriverData → DriverData → Prop} (hrefl : ∀ d, R d d)
    (htrans : ∀ a b c, R a b → R b c → R a c) {body : Nat → F12020Parser → Option F12020Parser}
    (hbody : ∀ i s s', body i s = some s' → ParserFrame R s s') :
    ∀ (n k : Nat) (s s' : F12020Parser),
      F12020UdpClrMapper.forLoopFrom body n k s = some s' → ParserFrame R s s' :=
  @forLoopFrom_rel F12020Parser (ParserFrame R) body (parserFrame_refl hrefl)
    (fun _ _ _ h1 h2 => parserFrame_trans htrans h1 h2) hbody

/-! ## Player not started -/

/-- The mapper: when the player has lap number 0 after the lap loop, `m_UpdateDrivers`
returns the state that `identify` leaves. -/
theorem mapper_early_return {m m1 m' : F12020UdpClrMapper} {now : Time} {p : DriverData}
    (hidx : m.parser.lap.m_header.m_playerCarIndex < m.Drivers.length)
    (hlap : F12020UdpClrMapper.forLoop F12020UdpClrMapper.lapStep
      (F12020UdpClrMapper.updateSession m).Drivers.length (F12020UdpClrMapper.updateSession m)
        = some m1)
    (hp : m1.Drivers[m.parser.lap.m_header.m_playerCarIndex]? = some p) (hnr : p.LapNr = 0)
    (h : F12020UdpClrMapper.m_UpdateDrivers m now = some m') :
    (∃ m2 leader,
      F12020UdpClrMapper.forLoop F12020UdpClrMapper.presenceStep m1.CountDrivers.toNat m1
        = some m2 ∧
      F12020UdpClrMapper.identify m2
        = some (m', some m.parser.lap.m_header.m_playerCarIndex, leader)) ∧
    m'.objects = m.objects ∧
    ∀ j d d', m.Drivers[j]? = some d → m'.Drivers[j]? = some d' →
      SameCarState d d' ∧
      (F12020UdpClrMapper.findLeaderFrom m'.Drivers 0 ≠ some j →
        d'.TimedeltaToLeader = d.TimedeltaToLeader) := by
  unfold F12020UdpClrMapper.m_UpdateDrivers at h
  simp only at h
  rw [hlap] at h
  simp only at h
  split at h
  · cases h
  rename_i m2 hm2
  split at h
  · cases h
  rename_i m3 player leader hm3
  unfold F12020UdpClrMapper.forLoop at hlap hm2
  obtain ⟨a1, a2, -, -, -, -, a7, -, a9⟩ := lapLoop_shape _ 0 _ m1 hlap
  obtain ⟨b1, b2, -, -, b5, b6⟩ := presenceLoop_shape _ 0 m1 m2 hm2
  obtain ⟨c1, -, -, -, c5⟩ := identify_flag sameCarState_flagFrame hm3
  obtain ⟨hpl, hld⟩ := identify_handles hm3
  have hlen1 : m1.Drivers.length = m.Drivers.length := a2
  have hpar1 : m1.parser = m.parser := a1
  rw [b1, hpar1, b2, hlen1, if_pos hidx] at hpl
  subst hpl
  -- the player at the check
  have hp2 := b6 _ p hp
  have hj3 : m.parser.lap.m_header.m_playerCarIndex < m3.Drivers.length := by
    rw [c1.1, b2, hlen1]
    exact hidx
  have hp3 : m3.Drivers[m.parser.lap.m_header.m_playerCarIndex]? =
      some m3.Drivers[m.parser.lap.m_header.m_playerCarIndex] := List.getElem?_eq_getElem hj3
  have hnr3 : (m3.Drivers[m.parser.lap.m_header.m_playerCarIndex]).LapNr = 0 := by
    have := (c1.2 _ _ _ hp2 hp3).2.1
    rw [this]
    split
    · rw [(presenceOf_sameCarState _ p).2.2.1]
      exact hnr
    · exact hnr
  have hstart : F12020UdpClrMapper.playerNotStarted m3
      (some m.parser.lap.m_header.m_playerCarIndex) = true := by
    unfold F12020UdpClrMapper.playerNotStarted
    simp only [hp3, hnr3, decide_True]
  rw [hstart] at h
  simp only [if_true, Option.some.injEq] at h
  subst h
  refine ⟨⟨m2, leader, hm2, hm3⟩, ?_, ?_⟩
  · rw [c5, b5]
    exact a7
  · intro j d d' hd hd'
    have hd0 : (F12020UdpClrMapper.updateSession m).Drivers[j]? = some d := hd
    have hj : j < m.Drivers.length := by
      by_contra hlt
      rw [List.getElem?_eq_none (by omega)] at hd
      cases hd
    obtain ⟨d0, d1, hname, hupd, hd1⟩ := (a9 j d hd0).1 ⟨Nat.zero_le _, by
      rw [Nat.zero_add]
      exact hj⟩
    have hd2 := b6 j d1 hd1
    obtain ⟨n1, n2⟩ := nameOnly_sameCarState hname
    have hupd' : F12020UdpClrMapper.lapUpdate (m.parser.lap.m_lapData j) d0 = some d1 := hupd
    obtain ⟨l1, l2⟩ := lapUpdate_sameCarState hupd'
    have hpres : SameCarState d1
        (if 0 ≤ j ∧ j < 0 + m1.CountDrivers.toNat
          then presenceOf (m1.parser.lap.m_lapData j) d1 else d1) ∧
        (if 0 ≤ j ∧ j < 0 + m1.CountDrivers.toNat
          then presenceOf (m1.parser.lap.m_lapData j) d1 else d1).TimedeltaToLeader
          = d1.TimedeltaToLeader := by
      split
      · exact ⟨(presenceOf_sameCarState _ d1).1, (presenceOf_sameCarState _ d1).2.1⟩
      · exact ⟨sameCarState_refl _, rfl⟩
    have hflag := c1.2 j _ d' hd2 hd'
    refine ⟨sameCarState_trans (sameCarState_trans (sameCarState_trans n1 l1) hpres.1)
      hflag.1, fun hne => ?_⟩
    have hpos : F12020UdpClrMapper.findLeaderFrom m2.Drivers 0
        = F12020UdpClrMapper.findLeaderFrom m3.Drivers 0 :=
      findLeaderFrom_pos _ _ ⟨c1.1, fun j d d' hd hd' => (c1.2 j d d' hd hd').2.2⟩ 0
    have := identify_leaderDelta hm3 j _ d' hd2 hd' (by rw [hpos]; exact hne)
    rw [this, hpres.2, l2, n2]

/-- The older variant: when the player has lap number 0 after the lap loop,
`m_UpdateDrivers` returns without a change of the car state of any driver. -/
theorem parser_early_return {s s1 s' : F12020Parser} {now : Time} {p : DriverData}
    (hidx : s.parser.lap.m_header.m_playerCarIndex < s.Drivers.length)
    (hlap : F12020UdpClrMapper.forLoop F12020Parser.lapStep
      (F12020Parser.updateSession s).Drivers.length (F12020Parser.updateSession s) = some s1)
    (hp : s1.Drivers[s.parser.lap.m_header.m_playerCarIndex]? = some p) (hnr : p.LapNr = 0)
    (h : F12020Parser.m_UpdateDrivers s now = some s') :
    s'.objects = s.objects ∧
    ∀ (j : Nat) (d d' : DriverData), s.Drivers[j]? = some d → s'.Drivers[j]? = some d' →
      SameCarState d d' ∧ d'.TimedeltaToLeader = d.TimedeltaToLeader := by
  have hrefl2 : ∀ d : DriverData, SameCarState d d ∧ d.TimedeltaToLeader = d.TimedeltaToLeader ∧
      d.LapNr = d.LapNr := fun d => ⟨sameCarState_refl d, rfl, rfl⟩
  have htrans2 : ∀ a b c : DriverData,
      (SameCarState a b ∧ b.TimedeltaToLeader = a.TimedeltaToLeader ∧ b.LapNr = a.LapNr) →
      (SameCarState b c ∧ c.TimedeltaToLeader = b.TimedeltaToLeader ∧ c.LapNr = b.LapNr) →
      (SameCarState a c ∧ c.TimedeltaToLeader = a.TimedeltaToLeader ∧ c.LapNr = a.LapNr) :=
    fun a b c h1 h2 => ⟨sameCarState_trans h1.1 h2.1, h2.2.1.trans h1.2.1,
      h2.2.2.trans h1.2.2⟩
  unfold F12020Parser.m_UpdateDrivers at h
  simp only at h
  rw [hlap] at h
  simp only at h
  unfold F12020UdpClrMapper.forLoop at hlap
  have f1 := @parserLoop_frame
    (fun d d' => SameCarState d d' ∧ d'.TimedeltaToLeader = d.TimedeltaToLeader)
    (fun d => ⟨sameCarState_refl d, rfl⟩)
    (fun a b c h1 h2 => ⟨sameCarState_trans h1.1 h2.1, h2.2.trans h1.2⟩) _
    (fun i s s' hs => parserLapStep_frame hs) _ 0 _ s1 hlap
  split at h
  · cases h
  rename_i s2 hs2
  unfold F12020UdpClrMapper.forLoop at hs2
  have f2 : ParserFrame (fun d d' => SameCarState d d' ∧
      d'.TimedeltaToLeader = d.TimedeltaToLeader ∧ d'.LapNr = d.LapNr) s1 s2 :=
    parserLoop_frame hrefl2 htrans2 (fun i s s' hs => parserPresenceStep_frame hs)
      _ 0 s1 s2 hs2
  have hpar2 : s2.parser = s.parser := f2.2.1.trans f1.2.1
  have hlen2 : s2.Drivers.length = s.Drivers.length := f2.1.1.trans f1.1.1
  rw [hpar2, hlen2, if_neg (by omega)] at h
  split at h
  · cases h
  split at h
  · cases h
  rename_i s3 hs3
  have f3 : ParserFrame (fun d d' => SameCarState d d' ∧
      d'.TimedeltaToLeader = d.TimedeltaToLeader ∧ d'.LapNr = d.LapNr) s2 s3 := by
    split at hs3
    · exact parserModify_frame hrefl2 hs3 (fun d => ⟨sameCarState_refl _, rfl, rfl⟩)
    · simp only [Option.some.injEq] at hs3
      subst hs3
      exact parserFrame_refl hrefl2 _
  split at h
  · cases h
  rename_i s4 hs4
  have f4 : ParserFrame (fun d d' => SameCarState d d' ∧
      d'.TimedeltaToLeader = d.TimedeltaToLeader ∧ d'.LapNr = d.LapNr) s3 s4 :=
    parserModify_frame hrefl2 hs4 (fun d => ⟨sameCarState_refl _, rfl, rfl⟩)
  have f24 := parserFrame_trans htrans2 (parserFrame_trans htrans2 f2 f3) f4
  split at h
  · cases h
  rename_i player hplayer
  have hj2 : s.parser.lap.m_header.m_playerCarIndex < s1.Drivers.length := by
    rw [f1.1.1]
    exact hidx
  have hnr4 : player.LapNr = 0 := (f24.1.2 _ p player hp hplayer).2.2.trans hnr
  rw [if_pos hnr4] at h
  simp only [Option.some.injEq] at h
  subst h
  have f14 := parserFrame_trans
    (fun a b c (h1 : SameCarState a b ∧ b.TimedeltaToLeader = a.TimedeltaToLeader)
      (h2 : SameCarState b c ∧ c.TimedeltaToLeader = b.TimedeltaToLeader) =>
      (⟨sameCarState_trans h1.1 h2.1, h2.2.trans h1.2⟩ :
        SameCarState a c ∧ c.TimedeltaToLeader = a.TimedeltaToLeader))
    f1 (parserFrame_weaken (fun d d' hx => ⟨hx.1, hx.2.1⟩) f24)
  exact ⟨f14.2.2.1, fun j d d' hd hd' => f14.1.2 j d d' hd hd'⟩

/-- C39 (player not started). In both variants: if the player index is inside the driver
array and the player has lap number 0 after the lap loop, a call of `m_UpdateDrivers` that
returns has returned before the driver loop (in the mapper the result is the state that
`identify` leaves), whatever the packets hold: the object store, hence every served flag, is
unchanged, and every driver keeps `Status`, `m_hasPitted`, `VisualTyres`, `Tyre`,
`PenaltySeconds`, `Team`, `FastestLap`, the wear and temperature details and the damage
values; `TimedeltaToLeader` is kept by every driver in the older variant, and in the mapper
by every driver that is not the leader (the first car in position 1). -/
theorem C39_player_not_started (now : Time) :
    (∀ (m m1 m' : F12020UdpClrMapper) (p : DriverData),
      m.parser.lap.m_header.m_playerCarIndex < m.Drivers.length →
      F12020UdpClrMapper.forLoop F12020UdpClrMapper.lapStep
        (F12020UdpClrMapper.updateSession m).Drivers.length
        (F12020UdpClrMapper.updateSession m) = some m1 →
      m1.Drivers[m.parser.lap.m_header.m_playerCarIndex]? = some p → p.LapNr = 0 →
      F12020UdpClrMapper.m_UpdateDrivers m now = some m' →
      (∃ m2 leader,
        F12020UdpClrMapper.forLoop F12020UdpClrMapper.presenceStep m1.CountDrivers.toNat m1
          = some m2 ∧
        F12020UdpClrMapper.identify m2
          = some (m', some m.parser.lap.m_header.m_playerCarIndex, leader)) ∧
      m'.objects = m.objects ∧
      ∀ j d d', m.Drivers[j]? = some d → m'.Drivers[j]? = some d' →
        SameCarState d d' ∧
        (F12020UdpClrMapper.findLeaderFrom m'.Drivers 0 ≠ some j →
          d'.TimedeltaToLeader = d.TimedeltaToLeader)) ∧
    (∀ (s s1 s' : F12020Parser) (p : DriverData),
      s.parser.lap.m_header.m_playerCarIndex < s.Drivers.length →
      F12020UdpClrMapper.forLoop F12020Parser.lapStep
        (F12020Parser.updateSession s).Drivers.length (F12020Parser.updateSession s)
          = some s1 →
      s1.Drivers[s.parser.lap.m_header.m_playerCarIndex]? = some p → p.LapNr = 0 →
      F12020Parser.m_UpdateDrivers s now = some s' →
      s'.objects = s.objects ∧
      ∀ (j : Nat) (d d' : DriverData), s.Drivers[j]? = some d → s'.Drivers[j]? = some d' →
        SameCarState d d' ∧ d'.TimedeltaToLeader = d.TimedeltaToLeader) :=
  ⟨fun _ _ _ _ h1 h2 h3 h4 h5 => mapper_early_return h1 h2 h3 h4 h5,
    fun _ _ _ _ h1 h2 h3 h4 h5 => parser_early_return h1 h2 h3 h4 h5⟩

/-- C39 on the reset states of both variants with a packet that reports the player (car 0)
with lap number 0, active, in its pit box and on compound 17: the call returns, and status,
stint list and the other car state fields of every driver are those of the reset state. -/
theorem C39_player_not_started_witness :
    (∃ m', F12020UdpClrMapper.m_UpdateDrivers { resetMapper with parser := pitPacket 0 2 17 } 5
        = some m' ∧
      m'.objects = [] ∧
      ∀ (j : Nat) (d d' : DriverData), resetMapper.Drivers[j]? = some d →
        m'.Drivers[j]? = some d' → SameCarState d d') ∧
    (∃ s', F12020Parser.m_UpdateDrivers { resetParser with parser := pitPacket 0 2 17 } 5
        = some s' ∧
      s'.objects = [] ∧
      ∀ (j : Nat) (d d' : DriverData), resetParser.Drivers[j]? = some d →
        s'.Drivers[j]? = some d' → SameCarState d d') := by
  constructor
  · obtain ⟨m', hm'⟩ := Option.isSome_iff_exists.1
      (show (F12020UdpClrMapper.m_UpdateDrivers
        { resetMapper with parser := pitPacket 0 2 17 } 5).isSome = true by decide!)
    obtain ⟨m1, hm1⟩ := Option.isSome_iff_exists.1
      (show (F12020UdpClrMapper.forLoop F12020UdpClrMapper.lapStep
        (F12020UdpClrMapper.updateSession
          { resetMapper with parser := pitPacket 0 2 17 }).Drivers.length
        (F12020UdpClrMapper.updateSession
          { resetMapper with parser := pitPacket 0 2 17 })).isSome = true by decide!)
    have hq : ((F12020UdpClrMapper.forLoop F12020UdpClrMapper.lapStep
        (F12020UdpClrMapper.updateSession
          { resetMapper with parser := pitPacket 0 2 17 }).Drivers.length
        (F12020UdpClrMapper.updateSession
          { resetMapper with parser := pitPacket 0 2 17 })).bind
        (fun m => m.Drivers[0]?)).map (fun d => d.LapNr) = some 0 := by decide!
    rw [hm1] at hq
    obtain ⟨p, hp, hnr⟩ := Option.map_eq_some'.1 hq
    obtain ⟨-, h2, h3⟩ := (C39_player_not_started 5).1
      { resetMapper with parser := pitPacket 0 2 17 } m1 m' p (by decide) hm1 hp hnr hm'
    exact ⟨m', hm', h2, fun j d d' hd hd' => (h3 j d d' hd hd').1⟩
  · obtain ⟨s', hs'⟩ := Option.isSome_iff_exists.1
      (show (F12020Parser.m_UpdateDrivers
        { resetParser with parser := pitPacket 0 2 17 } 5).isSome = true by decide!)
    obtain ⟨s1, hs1⟩ := Option.isSome_iff_exists.1
      (show (F12020UdpClrMapper.forLoop F12020Parser.lapStep
        (F12020Parser.updateSession
          { resetParser with parser := pitPacket 0 2 17 }).Drivers.length
        (F12020Parser.updateSession
          { resetParser with parser := pitPacket 0 2 17 })).isSome = true by decide!)
    have hq : ((F12020UdpClrMapper.forLoop F12020Parser.lapStep
        (F12020Parser.updateSession
          { resetParser with parser := pitPacket 0 2 17 }).Drivers.length
        (F12020Parser.updateSession
          { resetParser with parser := pitPacket 0 2 17 })).bind
        (fun s => s.Drivers[0]?)).map (fun d => d.LapNr) = some 0 := by decide!
    rw [hs1] at hq
    obtain ⟨p, hp, hnr⟩ := Option.map_eq_some'.1 hq
    obtain ⟨h2, h3⟩ := (C39_player_not_started 5).2
      { resetParser with parser := pitPacket 0 2 17 } s1 s' p (by decide) hs1 hp hnr hs'
    exact ⟨s', hs', h2, fun j d d' hd hd' => (h3 j d d' hd hd').1⟩

/-! ## Player index range -/

/-- The older variant: when the player car index equals the length of the driver array, the
test for visitor modes lets it pass and the array access throws, whatever the rest of the
state is. -/
theorem parser_player_index_throws (s : F12020Parser) (now : Time)
    (h : s.parser.lap.m_header.m_playerCarIndex = s.Drivers.length) :
    (F12020Parser.m_UpdateDrivers s now).isSome = false := by
  unfold F12020Parser.m_UpdateDrivers
  simp only
  cases hlap : F12020UdpClrMapper.forLoop F12020Parser.lapStep
      (F12020Parser.updateSession s).Drivers.length (F12020Parser.updateSession s) with
  | none => rfl
  | some s1 =>
    simp only
    cases hpres : F12020UdpClrMapper.forLoop F12020Parser.presenceStep
        s1.CountDrivers.toNat s1 with
    | none => rfl
    | some s2 =>
      simp only
      unfold F12020UdpClrMapper.forLoop at hlap hpres
      have f1 := @parserLoop_frame
        (fun d d' => SameCarState d d' ∧ d'.TimedeltaToLeader = d.TimedeltaToLeader)
        (fun d => ⟨sameCarState_refl d, rfl⟩)
        (fun a b c h1 h2 => ⟨sameCarState_trans h1.1 h2.1, h2.2.trans h1.2⟩) _
        (fun i s s' hs => parserLapStep_frame hs) _ 0 _ s1 hlap
      have f2 : ParserFrame (fun d d' => SameCarState d d' ∧
          d'.TimedeltaToLeader = d.TimedeltaToLeader ∧ d'.LapNr = d.LapNr) s1 s2 :=
        parserLoop_frame (fun d => ⟨sameCarState_refl d, rfl, rfl⟩)
          (fun a b c h1 h2 => ⟨sameCarState_trans h1.1 h2.1, h2.2.1.trans h1.2.1,
            h2.2.2.trans h1.2.2⟩)
          (fun i s s' hs => parserPresenceStep_frame hs) _ 0 s1 s2 hpres
      have hpar2 : s2.parser = s.parser := f2.2.1.trans f1.2.1
      have hlen2 : s2.Drivers.length = s.Drivers.length := f2.1.1.trans f1.1.1
      have hnone : s2.Drivers[s.Drivers.length]? = none :=
        List.getElem?_eq_none (by omega)
      rw [hpar2, hlen2, h, if_neg (by omega), hnone]
      rfl

/-- C33: `F12020Parser::m_UpdateDrivers` throws on player car index 22. On the reset state
of the older variant with 22 drivers the call flags car 21 for index 21, returns without a
flag for index 23 and 255, and throws for index 22: its test is
`m_playerCarIndex > Drivers->Length`, and `Drivers[22]` is out of range. This holds for every
state whose player car index equals the length of the driver array. The mapper, whose test
is `m_playerCarIndex < Drivers->Length`, returns for index 22 and 255 without a flag. -/
theorem C33_player_index_throws :
    parserPlayerSlots (F12020Parser.m_UpdateDrivers
      { resetParser with parser := playerIndexPacket 21 } 0) = some [21] ∧
    (F12020Parser.m_UpdateDrivers
      { resetParser with parser := playerIndexPacket 22 } 0).isSome = false ∧
    parserPlayerSlots (F12020Parser.m_UpdateDrivers
      { resetParser with parser := playerIndexPacket 23 } 0) = some [] ∧
    parserPlayerSlots (F12020Parser.m_UpdateDrivers
      { resetParser with parser := playerIndexPacket 255 } 0) = some [] ∧
    playerSlots (F12020UdpClrMapper.m_UpdateDrivers
      { resetMapper with parser := playerIndexPacket 21 } 0) = some [21] ∧
    playerSlots (F12020UdpClrMapper.m_UpdateDrivers
      { resetMapper with parser := playerIndexPacket 22 } 0) = some [] ∧
    playerSlots (F12020UdpClrMapper.m_UpdateDrivers
      { resetMapper with parser := playerIndexPacket 255 } 0) = some [] ∧
    (∀ (s : F12020Parser) (now : Time),
      s.parser.lap.m_header.m_playerCarIndex = s.Drivers.length →
      (F12020Parser.m_UpdateDrivers s now).isSome = false) := by
  refine ⟨by decide!, by decide!, by decide!, by decide!, by decide!, by decide!, by decide!,
    parser_player_index_throws⟩

/-! ## Events that throw -/

/-- Every branch of the dispatch other than `PENA` returns. -/
theorem dispatchEvent_returns {m : F12020UdpClrMapper} {now : Time}
    (hpena : F12020UdpClrMapper.codeIs m "PENA" = false) :
    (F12020UdpClrMapper.dispatchEvent m now).isSome = true := by
  unfold F12020UdpClrMapper.dispatchEvent
  rw [hpena]
  generalize F12020UdpClrMapper.codeIs m "SSTA" = c1
  generalize F12020UdpClrMapper.codeIs m "SEND" = c2
  generalize F12020UdpClrMapper.codeIs m "FTLP" = c3
  generalize F12020UdpClrMapper.codeIs m "RTMT" = c4
  generalize F12020UdpClrMapper.codeIs m "DRSE" = c5
  generalize F12020UdpClrMapper.codeIs m "DRSD" = c6
  generalize F12020UdpClrMapper.codeIs m "TMPT" = c7
  generalize F12020UdpClrMapper.codeIs m "CHQF" = c8
  generalize F12020UdpClrMapper.codeIs m "RCWN" = c9
  generalize F12020UdpClrMapper.codeIs m "SPTP" = c11
  cases c1 <;> cases c2 <;> cases c3 <;> cases c4 <;> cases c5 <;> cases c6 <;> cases c7 <;>
    cases c8 <;> cases c9 <;> cases c11 <;> rfl

/-- The branch `PENA` throws when the vehicle index is outside the driver array. -/
theorem penaltyEvent_throws {m : F12020UdpClrMapper} {now : Time}
    (hv : m.Drivers.length ≤ m.parser.event.m_eventDetails.Penalty.vehicleIdx) :
    F12020UdpClrMapper.penaltyEvent m now = none := by
  unfold F12020UdpClrMapper.penaltyEvent
  simp only
  have hnone : (F12020UdpClrMapper.addEvent m
      { TimeCode := now, Type_ := EventType.PenaltyIssued,
        PenaltyType := m.parser.event.m_eventDetails.Penalty.penaltyType,
        LapNum := m.parser.event.m_eventDetails.Penalty.lapNum,
        CarIndex := m.parser.event.m_eventDetails.Penalty.vehicleIdx,
        OtherVehicleIdx := m.parser.event.m_eventDetails.Penalty.otherVehicleIdx,
        InfringementType := m.parser.event.m_eventDetails.Penalty.infringementType,
        TimeGained := m.parser.event.m_eventDetails.Penalty.time,
        PlacesGained := m.parser.event.m_eventDetails.Penalty.placesGained,
        PenaltyServed := false }).Drivers[m.parser.event.m_eventDetails.Penalty.vehicleIdx]?
      = none := List.getElem?_eq_none hv
  rw [hnone]

/-- `m_UpdateEvent` throws exactly on a `PENA` event whose vehicle index is outside the
driver array; the lap array of a driver is never accessed out of range. -/
theorem updateEvent_throws_iff (m : F12020UdpClrMapper) (now : Time) :
    (F12020UdpClrMapper.m_UpdateEvent m now).isSome = false ↔
      (F12020UdpClrMapper.codeIs m "PENA" = true ∧
        m.Drivers.length ≤ m.parser.event.m_eventDetails.Penalty.vehicleIdx) := by
  have hmem : ("PENA", EventType.PenaltyIssued) ∈ eventTable := by decide
  constructor
  · intro h
    cases hc : F12020UdpClrMapper.codeIs m "PENA" with
    | false =>
      exfalso
      unfold F12020UdpClrMapper.m_UpdateEvent at h
      split at h
      · rename_i hx
        split at hx
        · have := @dispatchEvent_returns m now hc
          rw [hx] at this
          cases this
        · cases hx
      · cases h
    | true =>
      refine ⟨rfl, ?_⟩
      by_contra hlt
      obtain ⟨d, d1, m', e, -, -, hm', -⟩ := updateEvent_penalty m now hc (by omega)
      rw [hm'] at h
      cases h
  · rintro ⟨hc, hv⟩
    have hhead := codeIs_head hmem hc
    have hd : F12020UdpClrMapper.dispatchEvent m now = F12020UdpClrMapper.penaltyEvent m now := by
      rcases @dispatchEvent_table m now _ hmem hc with ⟨-, hd⟩ | ⟨hne, -⟩
      · exact hd
      · exact absurd rfl hne
    unfold F12020UdpClrMapper.m_UpdateEvent
    rw [if_pos hhead, hd, penaltyEvent_throws hv]
    rfl

/-- C34: `m_UpdateEvent` throws on a penalty event for a vehicle index outside the driver
array. On the reset model with 22 drivers a `PENA` event with vehicle index 22 or 255 throws
at `Drivers[e->CarIndex]`; with vehicle index 21 the
call returns for lap number 255 and for lap number 0 and the first code byte is 0. In general
the call throws exactly for a `PENA` event with a vehicle index outside the driver array. -/
theorem C34_penalty_index_throws :
    (F12020UdpClrMapper.m_UpdateEvent
      { resetMapper with parser := eventPacket "PENA" { vehicleIdx := 22 } } 0).isSome
        = false ∧
    (F12020UdpClrMapper.m_UpdateEvent
      { resetMapper with parser := eventPacket "PENA" { vehicleIdx := 255 } } 0).isSome
        = false ∧
    (F12020UdpClrMapper.m_UpdateEvent
      { resetMapper with parser := eventPacket "PENA" { vehicleIdx := 21, lapNum := 255 } }
      0).map (fun m => m.parser.event.m_eventStringCode.headD 0) = some 0 ∧
    (F12020UdpClrMapper.m_UpdateEvent
      { resetMapper with parser := eventPacket "PENA" { vehicleIdx := 21, lapNum := 0 } }
      0).map (fun m => m.parser.event.m_eventStringCode.headD 0) = some 0 ∧
    (∀ (m : F12020UdpClrMapper) (now : Time),
      (F12020UdpClrMapper.m_UpdateEvent m now).isSome = false ↔
        (F12020UdpClrMapper.codeIs m "PENA" = true ∧
          m.Drivers.length ≤ m.parser.event.m_eventDetails.Penalty.vehicleIdx)) := by
  refine ⟨by decide!, by decide!, by decide!, by decide!, updateEvent_throws_iff⟩

/-! ## Processing a datagram twice -/

/-- After `m_UpdateEvent` the first byte of the event code is 0. -/
theorem updateEvent_sentinel {m m1 : F12020UdpClrMapper} {now : Time}
    (h : F12020UdpClrMapper.m_UpdateEvent m now = some m1) :
    m1.parser.event.m_eventStringCode.headD 0 = 0 := by
  have hset : ∀ l : List Nat, (l.set 0 0).headD 0 = 0 := by
    intro l
    cases l <;> rfl
  unfold F12020UdpClrMapper.m_UpdateEvent at h
  split at h
  · cases h
  simp only [Option.some.injEq] at h
  subst h
  exact hset _

/-- With a first code byte of 0 `m_UpdateEvent` only writes that byte again. -/
theorem updateEvent_idle {m : F12020UdpClrMapper}
    (h0 : m.parser.event.m_eventStringCode.headD 0 = 0) (now : Time) :
    F12020UdpClrMapper.m_UpdateEvent m now = some (F12020UdpClrMapper.inhibitEvent m) := by
  unfold F12020UdpClrMapper.m_UpdateEvent
  rw [if_neg (fun hne => hne h0)]

/-- `m_UpdateClassification` keeps the event list, the event objects and the event struct of
the decoder. -/
theorem updateClassification_events {m m' : F12020UdpClrMapper}
    (h : F12020UdpClrMapper.m_UpdateClassification m = some m') :
    m'.EventList = m.EventList ∧ m'.objects = m.objects ∧ m'.parser.event = m.parser.event := by
  unfold F12020UdpClrMapper.m_UpdateClassification at h
  split at h
  · simp only [Option.some.injEq] at h
    subst h
    exact ⟨rfl, rfl, rfl⟩
  · split at h
    · simp only [Option.some.injEq] at h
      subst h
      exact ⟨rfl, rfl, rfl⟩
    · split at h
      · cases h
      · simp only [Option.some.injEq] at h
        subst h
        exact ⟨rfl, rfl, rfl⟩

/-- After an update cycle the first byte of the event code is 0. -/
theorem update_sentinel {m m1 : F12020UdpClrMapper} {now : Time}
    (h : F12020UdpClrMapper.m_Update m now = some m1) :
    m1.parser.event.m_eventStringCode.headD 0 = 0 := by
  unfold F12020UdpClrMapper.m_Update at h
  split at h
  · cases h
  rename_i x hx
  split at h
  · cases h
  rename_i y hy
  rw [(updateClassification_events h).2.2, (m_UpdateDrivers_model hy).1]
  exact updateEvent_sentinel hx

/-- An update cycle on a state whose first event code byte is 0 keeps the event list and the
event objects up to their served flags. -/
theorem update_idle {m m2 : F12020UdpClrMapper} {now : Time}
    (h0 : m.parser.event.m_eventStringCode.headD 0 = 0)
    (h : F12020UdpClrMapper.m_Update m now = some m2) :
    m2.EventList = m.EventList ∧ SameEvents m.objects m2.objects := by
  unfold F12020UdpClrMapper.m_Update at h
  rw [updateEvent_idle h0] at h
  simp only at h
  split at h
  · cases h
  rename_i y hy
  obtain ⟨c1, c2, -⟩ := updateClassification_events h
  have hm := m_UpdateDrivers_model hy
  have ho := m_UpdateDrivers_objects hy
  refine ⟨c1.trans hm.2.1, ?_⟩
  rw [c2]
  exact ho

/-- C31, counterexample: with a decoder that parses the event code of the datagram into the
event struct, processing the datagram of a `SEND` event once leaves one event in the event
list, and processing the same datagram again appends a second one. -/
theorem C31_datagram_counterexample :
    (F12020UdpClrMapper.Proceed eventDecoder (fun k => k) 1 resetMapper
        (F12020UdpClrMapper.eventCode "SEND")).map (fun r => (r.1, r.2.EventList))
      = some (true, [0]) ∧
    ((F12020UdpClrMapper.Proceed eventDecoder (fun k => k) 1 resetMapper
        (F12020UdpClrMapper.eventCode "SEND")).bind
      (fun r => F12020UdpClrMapper.Proceed eventDecoder (fun k => k) 1 r.2
        (F12020UdpClrMapper.eventCode "SEND"))).map (fun r => (r.1, r.2.EventList))
      = some (true, [0, 1]) ∧
    eventTypesOf ((F12020UdpClrMapper.Proceed eventDecoder (fun k => k) 1 resetMapper
        (F12020UdpClrMapper.eventCode "SEND")).bind
      (fun r => (F12020UdpClrMapper.Proceed eventDecoder (fun k => k) 1 r.2
        (F12020UdpClrMapper.eventCode "SEND")).map (fun r => r.2)))
      = some [EventType.SessionEnded, EventType.SessionEnded] := by
  refine ⟨by decide!, by decide!, by decide!⟩

/-- C31, amended: after an update cycle that returned, the first byte of the event code is
0, and a further cycle on a decoder state whose event struct is as the first cycle left it
(the packet decoded in between is no event) keeps the event list and creates no event
object: the event objects are the same up to their served flags. -/
theorem C31_event_appended_once (m m1 m2 : F12020UdpClrMapper) (now later : Time)
    (p : F12020ElementaryParser)
    (h1 : F12020UdpClrMapper.m_Update m now = some m1)
    (hp : p.event = m1.parser.event)
    (h2 : F12020UdpClrMapper.m_Update { m1 with parser := p } later = some m2) :
    m1.parser.event.m_eventStringCode.headD 0 = 0 ∧
    m2.EventList = m1.EventList ∧ SameEvents m1.objects m2.objects := by
  have hs := update_sentinel h1
  have h0 : ({ m1 with parser := p } : F12020UdpClrMapper).parser.event.m_eventStringCode.headD 0
      = 0 := by
    show p.event.m_eventStringCode.headD 0 = 0
    rw [hp]
    exact hs
  have h3 := update_idle h0 h2
  exact ⟨hs, h3.1, h3.2⟩

/-- C31 on a `SEND` event followed by a lap data packet: the cycle of the event appends it,
the cycle of the lap data packet does not append it again. -/
theorem C31_event_appended_once_witness :
    ∃ m1 m2, F12020UdpClrMapper.m_Update { resetMapper with parser := eventPacket "SEND" {} } 0
        = some m1 ∧
      F12020UdpClrMapper.m_Update
        { m1 with
          parser := { lapPacket 1 0 with event := { m_eventStringCode := [0, 69, 78, 68] } } }
        1 = some m2 ∧
      m1.EventList = [0] ∧ m2.EventList = [0] := by
  obtain ⟨m1, hm1⟩ := Option.isSome_iff_exists.1
    (show (F12020UdpClrMapper.m_Update
      { resetMapper with parser := eventPacket "SEND" {} } 0).isSome = true by decide!)
  have he : (F12020UdpClrMapper.m_Update
      { resetMapper with parser := eventPacket "SEND" {} } 0).map
      (fun m => (m.parser.event, m.EventList))
        = some ({ m_eventStringCode := [0, 69, 78, 68] }, [0]) := by decide!
  have hb : ((F12020UdpClrMapper.m_Update
      { resetMapper with parser := eventPacket "SEND" {} } 0).bind
      (fun m1 => F12020UdpClrMapper.m_Update
        { m1 with
          parser := { lapPacket 1 0 with event := { m_eventStringCode := [0, 69, 78, 68] } } }
        1)).isSome = true := by decide!
  rw [hm1] at he hb
  simp only [Option.map_some', Option.some.injEq, Prod.mk.injEq] at he
  obtain ⟨m2, hm2⟩ := Option.isSome_iff_exists.1 hb
  obtain ⟨-, h3, -⟩ := C31_event_appended_once _ m1 m2 0 1
    { lapPacket 1 0 with event := { m_eventStringCode := [0, 69, 78, 68] } } hm1 he.1.symm hm2
  exact ⟨m1, m2, hm1, hm2, he.2, h3.trans he.2⟩

section DeltaVariant
open F12020UdpClrMapper

/-! ## Delta variant selection in the cycle -/

/-- The flag `qualyfiyingDelta` as a decision on the session type. -/
theorem qualyfiyingDelta_decide (session : SessionType) :
    qualyfiyingDelta session = decide (session ∈ qualifyingSessions) := by
  cases h : qualyfiyingDelta session with
  | true => exact (decide_eq_true ((qualyfiyingDelta_iff session).1 h)).symm
  | false =>
    refine (decide_eq_false ?_).symm
    intro hmem
    rw [(qualyfiyingDelta_iff session).2 hmem] at h
    cases h

/-- The delta routine that the ternary `qualyfiyingDelta ? .. : ..` selects. -/
theorem updateTimeDelta_decide (session : SessionType) (s : F12020UdpClrMapper)
    (reference i : Nat) (toPlayer : Bool) :
    updateTimeDelta (decide (session ∈ qualifyingSessions)) s reference i toPlayer =
      if session ∈ qualifyingSessions then m_UpdateTimeDeltaQualy s reference i toPlayer
      else m_UpdateTimeDeltaRace s reference i toPlayer := by
  unfold updateTimeDelta
  by_cases h : session ∈ qualifyingSessions
  · rw [if_pos h, decide_eq_true h, if_pos rfl]
  · rw [if_neg h, decide_eq_false h]
    rfl

/-- C5: every call of `m_UpdateDrivers` that reaches its driver loop runs the loop with the
flag `qualyfiyingDelta` decided by the session type of the session packet of this cycle: true
exactly for P1, P2, P3, ShortPractice, Q1, Q2, Q3 and ShortQ. In an iteration for a present
car both deltas are computed by the same routine: `m_UpdateTimeDeltaQualy` for these session
types and `m_UpdateTimeDeltaRace` for every other session type value, the delta to the player
for a car that is not the player and the delta to the leader for a car that is not the
leader. -/
theorem C5_delta_variant_selection (m : F12020UdpClrMapper) (now : Time) :
    m_UpdateDrivers m now =
      (forLoop lapStep (updateSession m).Drivers.length (updateSession m)).bind (fun m1 =>
        (forLoop presenceStep m1.CountDrivers.toNat m1).bind (fun m2 =>
          (identify m2).bind (fun r =>
            if playerNotStarted r.1 r.2.1 then some r.1
            else forLoop
              (driverStep r.2.1 r.2.2
                (decide (m.parser.session.m_sessionType ∈ qualifyingSessions)) now)
              r.1.Drivers.length r.1))) ∧
    ∀ (player leader : Option Nat) (i : Nat) (s : F12020UdpClrMapper) (car : DriverData),
      s.Drivers[i]? = some car → car.Present = true →
      driverStep player leader
          (decide (m.parser.session.m_sessionType ∈ qualifyingSessions)) now i s =
        ((match player with
          | some pl =>
            if car.IsPlayer then some s
            else if m.parser.session.m_sessionType ∈ qualifyingSessions
              then m_UpdateTimeDeltaQualy s pl i true
              else m_UpdateTimeDeltaRace s pl i true
          | none => modifyDriver s i (fun car =>
              { car with LastTimedeltaToPlayer := 0, TimedeltaToPlayer := 0 })).bind
          (fun s1 =>
            (match leader with
             | some ld =>
               if i = ld then some s1
               else if m.parser.session.m_sessionType ∈ qualifyingSessions
                 then m_UpdateTimeDeltaQualy s1 ld i false
                 else m_UpdateTimeDeltaRace s1 ld i false
             | none => some s1).bind
              (fun s2 =>
                (s2.Drivers[i]?).bind (fun car2 =>
                  some { s2 with
                    Drivers := s2.Drivers.set i (carUpdate s2.parser i now s2.objects car2).1,
                    objects := (carUpdate s2.parser i now s2.objects car2).2 })))) := by
  constructor
  · unfold m_UpdateDrivers
    simp only []
    cases hlap : forLoop lapStep (updateSession m).Drivers.length (updateSession m) with
    | none => rfl
    | some m1 =>
      simp only [Option.some_bind]
      cases hpres : forLoop presenceStep m1.CountDrivers.toNat m1 with
      | none => rfl
      | some m2 =>
        simp only [Option.some_bind]
        cases hid : identify m2 with
        | none => rfl
        | some r =>
          obtain ⟨m3, player, leader⟩ := r
          simp only [Option.some_bind]
          rw [m_UpdateDrivers_session hlap hpres hid, qualyfiyingDelta_decide]
  · intro player leader i s car hcar hpresent
    have hp : (!car.Present) = false := by simp [hpresent]
    unfold driverStep
    simp only [hcar, hp, Bool.false_eq_true, if_false]
    have h1 : deltaToPlayer player
        (decide (m.parser.session.m_sessionType ∈ qualifyingSessions)) i s =
        (match player with
          | some pl =>
            if car.IsPlayer then some s
            else if m.parser.session.m_sessionType ∈ qualifyingSessions
              then m_UpdateTimeDeltaQualy s pl i true
              else m_UpdateTimeDeltaRace s pl i true
          | none => modifyDriver s i (fun car =>
              { car with LastTimedeltaToPlayer := 0, TimedeltaToPlayer := 0 })) := by
      unfold deltaToPlayer
      cases player with
      | none => rfl
      | some pl =>
        simp only [hcar]
        cases hpl : car.IsPlayer with
        | true => simp
        | false => simp [updateTimeDelta_decide]
    have h2 : ∀ s1, deltaToLeader leader
        (decide (m.parser.session.m_sessionType ∈ qualifyingSessions)) i s1 =
        (match leader with
         | some ld =>
           if i = ld then some s1
           else if m.parser.session.m_sessionType ∈ qualifyingSessions
             then m_UpdateTimeDeltaQualy s1 ld i false
             else m_UpdateTimeDeltaRace s1 ld i false
         | none => some s1) := by
      intro s1
      unfold deltaToLeader
      cases leader with
      | none => rfl
      | some ld =>
        by_cases hld : i = ld
        · simp [hld]
        · simp [hld, updateTimeDelta_decide]
    rw [h1]
    cases hA : (match player with
          | some pl =>
            if car.IsPlayer then some s
            else if m.parser.session.m_sessionType ∈ qualifyingSessions
              then m_UpdateTimeDeltaQualy s pl i true
              else m_UpdateTimeDeltaRace s pl i true
          | none => modifyDriver s i (fun car =>
              { car with LastTimedeltaToPlayer := 0, TimedeltaToPlayer := 0 })) with
    | none => rfl
    | some s1 =>
      simp only [Option.some_bind]
      rw [h2 s1]
      cases hB : (match leader with
         | some ld =>
           if i = ld then some s1
           else if m.parser.session.m_sessionType ∈ qualifyingSessions
             then m_UpdateTimeDeltaQualy s1 ld i false
             else m_UpdateTimeDeltaRace s1 ld i false
         | none => some s1) with
      | none => rfl
      | some s2 =>
        simp only [Option.some_bind]
        cases hC : s2.Drivers[i]? with
        | none => rfl
        | some car2 => rfl

/-- C5 at scenario S4 in the middle of a session. With the session type Q1 in the session
packet the iteration for car 1 writes the two deltas that `m_UpdateTimeDeltaQualy` writes, the
difference of the fastest laps 101 - 100 = 1, and so does the whole cycle; with the session
type Race it writes the two deltas that `m_UpdateTimeDeltaRace` writes, computed from the
accumulated lap times. -/
theorem C5_delta_variant_selection_witness :
    (SessionType.Q1 ∈ qualifyingSessions ∧
      deltasOf (driverStep (some 0) (some 0)
          (decide ((s5Mapper SessionType.Q1).parser.session.m_sessionType ∈ qualifyingSessions))
          0 1 (s5Mapper SessionType.Q1)) 1 =
        deltasOf ((m_UpdateTimeDeltaQualy (s5Mapper SessionType.Q1) 0 1 true).bind
          (fun s1 => m_UpdateTimeDeltaQualy s1 0 1 false)) 1 ∧
      deltasOf (m_UpdateDrivers (s5Mapper SessionType.Q1) 0) 1 = some (1, 1)) ∧
    (SessionType.Race ∉ qualifyingSessions ∧
      deltasOf (driverStep (some 0) (some 0)
          (decide ((s5Mapper SessionType.Race).parser.session.m_sessionType ∈
            qualifyingSessions))
          0 1 (s5Mapper SessionType.Race)) 1 =
        deltasOf ((m_UpdateTimeDeltaRace (s5Mapper SessionType.Race) 0 1 true).bind
          (fun s1 => m_UpdateTimeDeltaRace s1 0 1 false)) 1 ∧
      deltasOf (m_UpdateDrivers (s5Mapper SessionType.Race) 0) 1 =
        some ((-5 / 2 : Time), (5 / 2 : Time))) := by
  refine ⟨⟨by decide, ?_, ?_⟩, ⟨by decide, ?_, ?_⟩⟩
  · rw [(C5_delta_variant_selection (s5Mapper SessionType.Q1) 0).2 (some 0) (some 0) 1
      (s5Mapper SessionType.Q1) { s4Opponent with FastestLap := { Lap := 101 } }
      (by decide!) (by decide!)]
    decide!
  · rw [(C5_delta_variant_selection (s5Mapper SessionType.Q1) 0).1]
    decide!
  · rw [(C5_delta_variant_selection (s5Mapper SessionType.Race) 0).2 (some 0) (some 0) 1
      (s5Mapper SessionType.Race) { s4Opponent with FastestLap := { Lap := 101 } }
      (by decide!) (by decide!)]
    decide!
  · rw [(C5_delta_variant_selection (s5Mapper SessionType.Race) 0).1]
    decide!

end DeltaVariant

section StaleTeam
open F12020UdpClrMapper

/-! ## Driver names in the first cycle of a session -/

/-- C28: rule (1) is not applied where `m_UpdateDrivers` names a driver. The name step of the
lap loop runs before the driver loop assigns `Team` from `m_teamId`, and the first pass
compares the entries with that field. First cycle of a session, car 0 a Ferrari (team 1) with
race number 5 and the table with the entry (team 1, number 5, "Seb"): the driver gets the
telemetry name with driver id 9 and "Ferrari (5)" with driver id 100, not "Seb"; the same
holds for a car of team 2 and an entry of team 2. After the cycle `Team` is 1, the next cycle
does not name the driver again, and the refresh of `SetDriverNameMappings` with the same table
gives "Seb". An entry of team 0, the `Team` of a reset driver object, names the Ferrari. -/
theorem C28_stale_team_priority :
    ((namePacket 9 1).participants.m_participants 0).m_teamId = 1 ∧
    ((namePacket 9 1).participants.m_participants 0).m_raceNumber = 5 ∧
    sebMapping = { Team := some 1, DriverNumber := 5, Name := "Seb" } ∧
    nameOf (firstNameCycle [sebMapping] 9 1) 0 = some "VETTEL" ∧
    nameOf (firstNameCycle [sebMapping] 100 1) 0 = some "Ferrari (5)" ∧
    nameOf (firstNameCycle [{ Team := some 2, DriverNumber := 5, Name := "Max" }] 9 2) 0
      = some "VETTEL" ∧
    teamOf (firstNameCycle [sebMapping] 9 1) 0 = some 1 ∧
    nameOf ((firstNameCycle [sebMapping] 9 1).bind (fun m => m_UpdateDrivers m 1)) 0
      = some "VETTEL" ∧
    nameOf ((firstNameCycle [sebMapping] 9 1).bind
        (fun m => SetDriverNameMappings m (some [sebMapping]))) 0
      = some "Seb" ∧
    nameOf (firstNameCycle [{ Team := some 0, DriverNumber := 5, Name := "Valtteri" }] 9 1) 0
      = some "Valtteri" := by
  refine ⟨rfl, rfl, rfl, by decide!, by decide!, by decide!, by decide!, by decide!,
    by decide!, by decide!⟩

/-- C29: in the first cycle of a session the entry without team is used although an entry
with the team of the car and the race number is in the table. Car 0 is a Ferrari (team 1) with
race number 5; with the entries (no team, 5, "Number 5") and (team 1, 5, "Seb"), in either
order, `m_UpdateDrivers` names the driver "Number 5", because the first pass compares with the
`Team` of the driver object, which the driver loop assigns only after the name step. The
refresh of `SetDriverNameMappings` after this cycle names the driver "Seb". With a `Team`
field that is up to date the first pass comes first: on `s11Mappings`, where the entry without
team stands first, the Mercedes with number 44 is "Lewis" and the Williams "Number 44". -/
theorem C29_stale_team_two_pass :
    ((namePacket 9 1).participants.m_participants 0).m_teamId = 1 ∧
    ((namePacket 9 1).participants.m_participants 0).m_raceNumber = 5 ∧
    TeamMatch 1 5 sebMapping ∧ NumberOnly 5 fiveMapping ∧
    nameOf (firstNameCycle [fiveMapping, sebMapping] 9 1) 0 = some "Number 5" ∧
    nameOf (firstNameCycle [sebMapping, fiveMapping] 9 1) 0 = some "Number 5" ∧
    teamOf (firstNameCycle [fiveMapping, sebMapping] 9 1) 0 = some 1 ∧
    nameOf ((firstNameCycle [fiveMapping, sebMapping] 9 1).bind
        (fun m => SetDriverNameMappings m (some [fiveMapping, sebMapping]))) 0
      = some "Seb" ∧
    nameOf (m_UpdateDriverName (s11Mapper 0) 0) 0 = some "Lewis" ∧
    nameOf (m_UpdateDriverName (s11Mapper 3) 0) 0 = some "Number 44" := by
  refine ⟨rfl, rfl, by decide, by decide, by decide!, by decide!, by decide!, by decide!,
    by decide!, by decide!⟩

end StaleTeam

end F12020
